import Mathlib

/-!
# tinyUSB++ : endpoint transfer engine and MSC bulk-only transport

A shallow embedding of the endpoint transfer engine
(`src/src/usb_endpoint.cpp` with the RP2350 driver part
`src/drivers/rp2350-YAHAL/usb_endpoint_rp2350.cpp`) and of the mass storage
class state machine (`src/class/msc/usb_msc_bot_device.cpp`).

Conventions
* machine integers are `Nat`; where the C++ arithmetic can wrap the width is
  written out (`% 65536`, `% 4294967296`);
* a failing `assert` makes the function return `none`;
* memory is byte addressed (`Nat → Nat`), pointers are addresses;
* fields that exist only to observe behaviour (the list of armed packets,
  the list of callback invocations) are marked as trace fields.
-/

namespace usb_endpoint

/-- One arming of the hardware buffer, as written by `trigger_transfer`:
the data PID put into `PID_0` and the length put into `LENGTH_0`. -/
structure packet where
  pid : Nat
  len : Nat
deriving DecidableEq, Repr

/-- State of one endpoint: the members of `usb_endpoint` used by the transfer
engine, the buffer control bits of the RP2350 driver, the memory the engine
copies from and to, and two trace fields. -/
structure state where
  /-- Field `descriptor.bEndpointAddress`. -/
  bEndpointAddress : Nat
  /-- Field `descriptor.wMaxPacketSize`. -/
  wMaxPacketSize : Nat
  _active : Bool
  _data_ptr : Nat
  _data_len : Nat
  _current_ptr : Nat
  _bytes_left : Nat
  _current_len : Nat
  _next_pid : Nat
  /-- Address of the hardware (DPRAM) buffer of the endpoint. -/
  _hw_buffer : Nat
  /-- Whether the `data_handler` slot holds a callable. -/
  data_handler : Bool
  /-- Buffer control register `_buff_ctrl`. -/
  PID_0 : Nat
  FULL_0 : Nat
  LENGTH_0 : Nat
  AVAILABLE_0 : Nat
  STALL : Nat
  /-- The bit `_mask` of the register `EP_ABORT`. -/
  EP_ABORT : Bool
  /-- The bit `_mask` of the register `EP_STALL_ARM`. -/
  EP_STALL_ARM : Bool
  /-- Byte addressed memory (user buffers and DPRAM). -/
  mem : Nat → Nat
  /-- Trace: every arming of the hardware, oldest first. -/
  armed : List packet
  /-- Trace: every invocation `data_handler(ptr, len)`, oldest first. -/
  handled : List (Nat × Nat)
  /-- Field `descriptor.bmAttributes`. -/
  bmAttributes : Nat := 0
  /-- Field `descriptor.bInterval`. -/
  bInterval : Nat := 0
  /-- Whether the `setup_handler` slot holds a callable. -/
  setup_handler : Bool := false
  /-- Member `_hw_buffer_size` of the driver class `usb_endpoint_rp2350`. -/
  _hw_buffer_size : Nat := 64

/-- Modelled from the spec: `usb_endpoint.h` is not part of the sources; the
direction of an endpoint derives from its address,
"direction-in = (addr & 0x80) != 0". -/
def is_IN (s : state) : Bool := s.bEndpointAddress &&& 0x80 != 0

/-- Subtraction on `uint16_t` (`a -= b`). -/
def sub16 (a b : Nat) : Nat := (65536 + a - b % 65536) % 65536

/-- The function `tupp_memcpy(to, from, n)` on the byte addressed memory
(`dst` stands for `to`, `src` for `from`), for regions `[to, to + n)` and
`[from, from + n)` that do not overlap: with `TUPP_USE_BYTEWISE_MEMCPY = 0`,
the value of `usb_config.h`, the function is `memcpy`, which is defined for
such regions only, and there the byte loop of the other variant
(`tupp_memcpy_loop`) gives the same memory. What is stated about the bytes a
transfer copies between a user buffer and the hardware buffer assumes that the
two do not overlap. -/
def tupp_memcpy (m : Nat → Nat) (dst src n : Nat) : Nat → Nat :=
  fun a => if dst ≤ a ∧ a < dst + n then m (src + (a - dst)) else m a

/-- The variant of `tupp_memcpy` for `TUPP_USE_BYTEWISE_MEMCPY != 0`, the loop
`while (n--) *to++ = *from++;`. -/
def tupp_memcpy_loop : (Nat → Nat) → Nat → Nat → Nat → Nat → Nat
  | m, _, _, 0 => m
  | m, dst, src, n + 1 =>
    tupp_memcpy_loop (fun a => if a = dst then m src else m a) (dst + 1) (src + 1) n

/-- Driver function `usb_endpoint_rp2350::trigger_transfer(len)`. -/
def trigger_transfer (s : state) (len : Nat) : Option state :=
  if s.AVAILABLE_0 ≠ 0 then none   -- assert(_buff_ctrl->AVAILABLE_0 == 0)
  else some { s with
    PID_0 := s._next_pid
    FULL_0 := if is_IN s then 1 else 0
    LENGTH_0 := len
    _next_pid := s._next_pid ^^^ 1
    AVAILABLE_0 := 1
    armed := s.armed ++ [⟨s._next_pid, len⟩] }

/-- Driver function `usb_endpoint_rp2350::send_NAK(b)`. -/
def send_NAK (s : state) (b : Bool) : state :=
  { s with EP_ABORT := b }

/-- Driver function `usb_endpoint_rp2350::send_stall(b)`. -/
def send_stall (s : state) (b : Bool) : state :=
  if b then
    { s with
      EP_STALL_ARM := if s.bEndpointAddress &&& 0xf = 0 then true else s.EP_STALL_ARM
      STALL := 1
      _next_pid := 0 }
  else
    { s with _next_pid := 0, STALL := 0, AVAILABLE_0 := 0 }

/-- Driver function `usb_endpoint_rp2350::is_stalled()`. -/
def is_stalled (s : state) : Bool := s.STALL != 0

/-- Function `usb_endpoint::reset()`. -/
def reset (s : state) : state :=
  { send_NAK (send_stall s false) false with _active := false, _next_pid := 1 }

/-- Function `usb_endpoint::start_transfer(buffer, len)`. -/
def start_transfer (s : state) (buffer len : Nat) : Option state :=
  if s._active then none   -- assert(!_active)
  else
    let _current_len := if len > s.wMaxPacketSize then s.wMaxPacketSize else len
    let s1 : state := { s with
      _active := true
      _data_ptr := buffer
      _data_len := len
      _current_ptr := buffer
      _bytes_left := len
      _current_len := _current_len }
    let s2 : state :=
      if is_IN s1 ∧ _current_len ≠ 0 then
        { s1 with
          mem := tupp_memcpy s1.mem s1._hw_buffer s1._current_ptr _current_len
          _bytes_left := sub16 s1._bytes_left _current_len
          _current_ptr := s1._current_ptr + _current_len }
      else s1
    trigger_transfer s2 _current_len

/-- Function `usb_endpoint::handle_buffer_in(uint16_t)`. -/
def handle_buffer_in (s : state) (_len : Nat) : Option state :=
  if !s._active then none   -- assert(_active)
  else if s._bytes_left = 0 then
    some { s with
      _active := false
      handled := if s.data_handler then s.handled ++ [(s._data_ptr, s._data_len)]
                 else s.handled }
  else
    let _current_len :=
      if s._bytes_left > s.wMaxPacketSize then s.wMaxPacketSize else s._bytes_left
    trigger_transfer
      { s with
        _current_len := _current_len
        mem := tupp_memcpy s.mem s._hw_buffer s._current_ptr _current_len
        _bytes_left := sub16 s._bytes_left _current_len
        _current_ptr := s._current_ptr + _current_len }
      _current_len

/-- Function `usb_endpoint::handle_buffer_out(len)`. -/
def handle_buffer_out (s : state) (len : Nat) : Option state :=
  if !s._active then none   -- assert(_active)
  else
    let s1 : state := { s with
      mem := tupp_memcpy s.mem s._current_ptr s._hw_buffer len
      _bytes_left := sub16 s._bytes_left len
      _current_ptr := s._current_ptr + len }
    if s1._bytes_left = 0 ∨ len < s1._current_len then
      some { s1 with
        _active := false
        handled :=
          if s1.data_handler then
            s1.handled ++ [(s1._data_ptr, sub16 s1._data_len s1._bytes_left)]
          else s1.handled }
    else
      let _current_len :=
        if s1._bytes_left > s1.wMaxPacketSize then s1.wMaxPacketSize else s1._bytes_left
      trigger_transfer { s1 with _current_len := _current_len } _current_len

/-- Driver function `usb_endpoint_rp2350::_process_buffer()`; the call
`usb_dcd::inst().check_address()` acts on the device controller only. -/
def _process_buffer (s : state) : Option state :=
  if is_IN s then handle_buffer_in s s.LENGTH_0
  else handle_buffer_out s s.LENGTH_0

/-- What the USB controller does when it is done with the armed buffer, before
it raises the interrupt: it releases the buffer (`AVAILABLE_0 = 0`); on an OUT
endpoint it has stored the received bytes in the hardware buffer and their
number in `LENGTH_0`. -/
def buffer_done (s : state) (rx : List Nat) : state :=
  if is_IN s then { s with AVAILABLE_0 := 0 }
  else
    { s with
      AVAILABLE_0 := 0
      FULL_0 := 1
      LENGTH_0 := rx.length
      mem := fun a =>
        if s._hw_buffer ≤ a ∧ a < s._hw_buffer + rx.length then rx.getD (a - s._hw_buffer) 0
        else s.mem a }

/-- A buffer-completion event: the controller finishes the armed buffer and the
interrupt handler calls `_process_buffer`. -/
def buffer_completion (s : state) (rx : List Nat) : Option state :=
  _process_buffer (buffer_done s rx)

/-- Drive an endpoint to the end of its transfer: as long as it is active, the
next buffer-completion event (without received data) is delivered. `none` if
the events allowed by `fuel` do not end the transfer. -/
def drive_in : Nat → state → Option state
  | 0, s => if s._active then none else some s
  | fuel + 1, s =>
    if s._active then (buffer_completion s []).bind (drive_in fuel) else some s

/-- Number of times the hardware is armed by a transfer started with
`start_transfer(buf, len)` and driven to its end. -/
def packets_armed (s : state) (buf len fuel : Nat) : Option Nat :=
  ((start_transfer s buf len).bind (drive_in fuel)).map
    (fun t => t.armed.length - s.armed.length)

/-- The states reached from `s0` by `start_transfer` followed by
buffer-completion events; on an OUT endpoint a packet is not longer than the
length the buffer was armed for. -/
inductive reachable (s0 : state) : state → Prop
  | start (buf len : Nat) (s : state) :
      s0._active = false → len < 65536 → start_transfer s0 buf len = some s → reachable s0 s
  | step (s : state) (rx : List Nat) (t : state) :
      reachable s0 s → (is_IN s = false → rx.length ≤ s._current_len) →
      buffer_completion s rx = some t → reachable s0 t

/-- The relation between the members of an endpoint during a transfer: the
cursor lies `data_len - bytes_left` bytes behind the start of the user buffer,
the armed length does not exceed the packet size, and an OUT endpoint is never
armed for more than what is left. -/
def transfer_invariant (s : state) : Prop :=
  s._data_ptr ≤ s._current_ptr ∧
  s._bytes_left + (s._current_ptr - s._data_ptr) = s._data_len ∧
  s._current_len ≤ s.wMaxPacketSize ∧ s._data_len < 65536 ∧
  (is_IN s = false → s._current_len ≤ s._bytes_left)

/-- An idle endpoint with the given address and packet size; memory holds the
low byte of each address. -/
def idle (addr size : Nat) : state :=
  { bEndpointAddress := addr
    wMaxPacketSize := size
    _active := false
    _data_ptr := 0
    _data_len := 0
    _current_ptr := 0
    _bytes_left := 0
    _current_len := 0
    _next_pid := 0
    _hw_buffer := 0x50100180
    data_handler := true
    PID_0 := 0
    FULL_0 := 0
    LENGTH_0 := 0
    AVAILABLE_0 := 0
    STALL := 0
    EP_ABORT := false
    EP_STALL_ARM := false
    mem := fun a => a % 256
    armed := []
    handled := [] }

/-- Modelled from the spec: `usb_endpoint.h` is not part of the sources;
"Control endpoint 0 supports `send_zlp_data1()`: a zero-length packet with
PID=DATA1": the PID is set to 1 and a transfer of length 0 is started (without
a buffer). -/
def send_zlp_data1 (s : state) : Option state :=
  start_transfer { s with _next_pid := 1 } 0 0

/-- The call `start_transfer(&x, len)` for an object `x` that lies at the
address `addr` with the bytes `bytes`: the memory the engine reads holds the
object at its address. -/
def start_transfer_object (s : state) (addr : Nat) (bytes : List Nat) (len : Nat) :
    Option state :=
  start_transfer
    { s with
      mem := fun a =>
        if addr ≤ a ∧ a < addr + bytes.length then bytes.getD (a - addr) 0 else s.mem a }
    addr len

/-- Modelled from the spec: the layout of `TUPP::endpoint_descriptor_t`
(`usb_structs.h` is not part of the sources) is the one of the endpoint
descriptor "per USB 2.0 §9.6"; `bLength` and `bDescriptorType` are set by the
constructor of `usb_endpoint` to the size of the descriptor and
`DESC_ENDPOINT`. -/
def descriptor_bytes (s : state) : List Nat :=
  [7, 5, s.bEndpointAddress % 256, s.bmAttributes % 256, s.wMaxPacketSize % 256,
   s.wMaxPacketSize / 256 % 256, s.bInterval % 256]

/-- The `n` bytes of the memory `m` from the address `a` on. -/
def bytes_at (m : Nat → Nat) (a n : Nat) : List Nat :=
  (List.range n).map (fun j => m (a + j))

/-- The packet the controller sends for the armed buffer of an IN endpoint:
the first `LENGTH_0` bytes of the hardware buffer. -/
def armed_chunk (s : state) : List Nat := bytes_at s.mem s._hw_buffer s.LENGTH_0

/-- Drive an IN endpoint to the end of its transfer as `drive_in` does, and
collect for each buffer-completion event the packet the controller has sent,
oldest first. -/
def drive_in_chunks : Nat → state → Option (state × List (List Nat))
  | 0, s => if s._active then none else some (s, [])
  | fuel + 1, s =>
    if s._active then
      (buffer_completion s []).bind (fun t =>
        (drive_in_chunks fuel t).map (fun r => (r.1, armed_chunk s :: r.2)))
    else some (s, [])

/-- Deliver the packets the host sends to an OUT endpoint, one
buffer-completion event each, as long as the endpoint is active. The result is
the state reached and the packets received until then, in arrival order. -/
def drive_out : List (List Nat) → state → Option (state × List (List Nat))
  | [], s => some (s, [])
  | rx :: rest, s =>
    if s._active then
      (buffer_completion s rx).bind (fun t =>
        (drive_out rest t).map (fun r => (r.1, rx :: r.2)))
    else some (s, [])

/-- Each packet delivered by `drive_out` is not longer than the length
`_current_len` the buffer was armed for. -/
def packets_fit : List (List Nat) → state → Bool
  | [], _ => true
  | rx :: rest, s =>
    !s._active ||
      (decide (rx.length ≤ s._current_len) &&
        match buffer_completion s rx with
        | some t => packets_fit rest t
        | none => true)

end usb_endpoint

namespace TUPP

/-- Modelled from the spec: `usb_structs.h` is not part of the sources; the
direction bit of the request type of a SETUP packet. -/
inductive direction_t where
  | DIR_OUT
  | DIR_IN
deriving DecidableEq, Repr

/-- Modelled from the spec: `usb_structs.h` is not part of the sources; the
type field of a SETUP packet, "STANDARD", "CLASS or VENDOR". -/
inductive type_t where
  | TYPE_STANDARD
  | TYPE_CLASS
  | TYPE_VENDOR
  | TYPE_RESERVED
deriving DecidableEq, Repr

/-- Modelled from the spec: `usb_structs.h` is not part of the sources; the
recipient field of a SETUP packet, "device-, interface-, or endpoint-level";
the remaining values of the field are `REC_OTHER` and `REC_RESERVED`. -/
inductive recipient_t where
  | REC_DEVICE
  | REC_INTERFACE
  | REC_ENDPOINT
  | REC_OTHER
  | REC_RESERVED
deriving DecidableEq, Repr

/-- Modelled from the spec: `usb_structs.h` is not part of the sources; the
SETUP packet with the members the handlers read: the three bit fields of the
request type, `bRequest` (8 bit), `wValue`, `wIndex` and `wLength` (16 bit). -/
structure setup_packet_t where
  recipient : recipient_t
  type : type_t
  direction : direction_t
  bRequest : Nat
  wValue : Nat
  wIndex : Nat
  wLength : Nat
deriving DecidableEq, Repr

/-- Modelled from the spec: member of `TUPP::bRequest_t` (`usb_structs.h` is
not part of the sources); the standard request codes are those of the
"USB Chapter-9 request set". -/
def REQ_GET_STATUS : Nat := 0

/-- Modelled from the spec: member of `TUPP::bRequest_t`, see `REQ_GET_STATUS`. -/
def REQ_CLEAR_FEATURE : Nat := 1

/-- Modelled from the spec: member of `TUPP::bRequest_t`, see `REQ_GET_STATUS`. -/
def REQ_SET_FEATURE : Nat := 3

/-- Modelled from the spec: member of `TUPP::bRequest_t`, see `REQ_GET_STATUS`. -/
def REQ_SET_ADDRESS : Nat := 5

/-- Modelled from the spec: member of `TUPP::bRequest_t`, see `REQ_GET_STATUS`. -/
def REQ_GET_DESCRIPTOR : Nat := 6

/-- Modelled from the spec: member of `TUPP::bRequest_t`, see `REQ_GET_STATUS`. -/
def REQ_SET_DESCRIPTOR : Nat := 7

/-- Modelled from the spec: member of `TUPP::bRequest_t`, see `REQ_GET_STATUS`. -/
def REQ_GET_CONFIGURATION : Nat := 8

/-- Modelled from the spec: member of `TUPP::bRequest_t`, see `REQ_GET_STATUS`. -/
def REQ_SET_CONFIGURATION : Nat := 9

/-- Modelled from the spec: member of `TUPP::bRequest_t`, see `REQ_GET_STATUS`. -/
def REQ_GET_INTERFACE : Nat := 10

/-- Modelled from the spec: member of `TUPP::bRequest_t`, see `REQ_GET_STATUS`. -/
def REQ_SET_INTERFACE : Nat := 11

/-- Modelled from the spec: member of `TUPP::bRequest_t`, see `REQ_GET_STATUS`. -/
def REQ_SYNCH_FRAME : Nat := 12

/-- Modelled from the spec: member of `TUPP::bRequest_t`; "`BOT_RESET` (0xFF)". -/
def REQ_MSC_BOT_RESET : Nat := 0xFF

/-- Modelled from the spec: member of `TUPP::bRequest_t`; "`GET_MAX_LUN` (0xFE)". -/
def REQ_MSC_GET_MAX_LUN : Nat := 0xFE

/-- Modelled from the spec: member of `TUPP::bDescriptorType_t` (`usb_structs.h`
is not part of the sources); the descriptor type codes are those of the
descriptors "per USB 2.0 §9.6". -/
def DESC_DEVICE : Nat := 1

/-- Modelled from the spec: member of `TUPP::bDescriptorType_t`, see `DESC_DEVICE`. -/
def DESC_CONFIGURATION : Nat := 2

/-- Modelled from the spec: member of `TUPP::bDescriptorType_t`, see `DESC_DEVICE`. -/
def DESC_STRING : Nat := 3

/-- Modelled from the spec: member of `TUPP::bDescriptorType_t`, see `DESC_DEVICE`. -/
def DESC_INTERFACE : Nat := 4

/-- Modelled from the spec: member of `TUPP::bDescriptorType_t`, see `DESC_DEVICE`. -/
def DESC_ENDPOINT : Nat := 5

/-- Modelled from the spec: member of `TUPP::bDescriptorType_t`, see `DESC_DEVICE`. -/
def DESC_DEVICE_QUALIFIER : Nat := 6

/-- Modelled from the spec: member of `TUPP::bDescriptorType_t`, see `DESC_DEVICE`. -/
def DESC_OTG : Nat := 9

/-- Modelled from the spec: member of `TUPP::bDescriptorType_t`, see `DESC_DEVICE`. -/
def DESC_DEBUG : Nat := 10

/-- Modelled from the spec: member of `TUPP::bDescriptorType_t`, see `DESC_DEVICE`. -/
def DESC_INTERFACE_ASSOCIATION : Nat := 11

/-- Modelled from the spec: member of `TUPP::bDescriptorType_t`, see `DESC_DEVICE`. -/
def DESC_BOS : Nat := 15

/-- Modelled from the spec: `sizeof(TUPP::device_descriptor_t)`, "bLength = 18". -/
def sizeof_device_descriptor_t : Nat := 18

/-- Modelled from the spec: `sizeof(TUPP::configuration_descriptor_t)`, "the
size of the configuration descriptor header (9)". -/
def sizeof_configuration_descriptor_t : Nat := 9

/-- Modelled from the spec: `sizeof(TUPP::interface_descriptor_t)`, the
interface descriptor "per USB 2.0 §9.6". -/
def sizeof_interface_descriptor_t : Nat := 9

/-- Modelled from the spec: `sizeof(TUPP::endpoint_descriptor_t)`, the endpoint
descriptor "per USB 2.0 §9.6". -/
def sizeof_endpoint_descriptor_t : Nat := 7

/-- Modelled from the spec: `sizeof(TUPP::interface_association_descriptor_t)`,
the interface association descriptor "per USB 2.0 §9.6". -/
def sizeof_interface_association_descriptor_t : Nat := 8

/-- Modelled from the spec: `sizeof(TUPP::bos_descriptor_t)`, the BOS
descriptor "per USB 2.0 §9.6". -/
def sizeof_bos_descriptor_t : Nat := 5

/-- Constant `TUPP_MAX_DESC_SIZE` (`usb_config.h`). -/
def TUPP_MAX_DESC_SIZE : Nat := 256

/-- Constant `TUPP_MAX_CONF_PER_DEVICE` (`usb_config.h`). -/
def TUPP_MAX_CONF_PER_DEVICE : Nat := 5

/-- Constant `TUPP_MAX_INTERF_PER_CONF` (`usb_config.h`). -/
def TUPP_MAX_INTERF_PER_CONF : Nat := 5

/-- Constant `TUPP_MAX_EP_PER_INTERFACE` (`usb_config.h`). -/
def TUPP_MAX_EP_PER_INTERFACE : Nat := 5

/-- Constant `TUPP_MAX_BOS_CAPABILITIES` (`usb_config.h`). -/
def TUPP_MAX_BOS_CAPABILITIES : Nat := 2

/-- The two bytes of a `uint16_t` in the memory of the little-endian target. -/
def le16_bytes (x : Nat) : List Nat := [x % 256, x / 256 % 256]

/-- Modelled from the spec: `usb_structs.h` is not part of the sources; the
interface association descriptor "per USB 2.0 §9.6". -/
structure interface_association_descriptor_t where
  bLength : Nat := 8
  bDescriptorType : Nat := 11
  bFirstInterface : Nat := 0
  bInterfaceCount : Nat := 0
  bFunctionClass : Nat := 0
  bFunctionSubClass : Nat := 0
  bFunctionProtocol : Nat := 0
  iFunction : Nat := 0
deriving DecidableEq, Repr

/-- The bytes of an interface association descriptor in memory. -/
def interface_association_descriptor_t.bytes (a : interface_association_descriptor_t) :
    List Nat :=
  [a.bLength % 256, a.bDescriptorType % 256, a.bFirstInterface % 256,
   a.bInterfaceCount % 256, a.bFunctionClass % 256, a.bFunctionSubClass % 256,
   a.bFunctionProtocol % 256, a.iFunction % 256]

end TUPP

namespace usb_msc_bot_device

/-- Enumeration `usb_msc_bot_device::state_t`. -/
inductive state_t where
  | RECEIVE_CBW
  | DATA_READ
  | DATA_WRITE
  | SEND_CSW
deriving DecidableEq, Repr

/-- Modelled from the spec: `usb_msc_structs.h` is not part of the sources; the
status of a CSW is PASSED, FAILED or PHASE_ERROR. -/
inductive csw_status_t where
  | CMD_PASSED
  | CMD_FAILED
  | PHASE_ERROR
deriving DecidableEq, Repr

/-- Enumeration `SCSI::sense_key_t` (`scsi_structs.h`). -/
inductive sense_key_t where
  | NO_SENSE
  | RECOVERED_ERROR
  | NOT_READY
  | MEDIUM_ERROR
  | HARDWARE_ERROR
  | ILLEGAL_REQUEST
  | UNIT_ATTENTION
  | DATA_PROTECT
  | BLANK_CHECK
  | VENDOR_SPECIFIC
  | COPY_ABORTED
  | ABORTED_COMMAND
  | RESERVED
  | VOLUME_OVERFLOW
  | MISCOMPARE
  | COMPLETED
deriving DecidableEq, Repr

/-- Modelled from the spec: `usb_msc_structs.h` is not part of the sources; the
command status wrapper is the 13-byte packet of signature, tag, residue and
status. -/
structure csw_t where
  dCSWSignature : Nat
  dCSWTag : Nat
  dCSWDataResidue : Nat
  bCSWStatus : csw_status_t
deriving DecidableEq, Repr

/-- Structure `SCSI::request_sense_fixed_response_t`: the members the class
writes (all other members keep their initial value 0). -/
structure request_sense_fixed_response_t where
  response_code : Nat
  valid : Nat
  sense_key : sense_key_t
  add_sense_len : Nat
  add_sense_code : Nat
  add_sense_qualifier : Nat
deriving DecidableEq, Repr

/-- Structure `SCSI::inquiry_response_t`: the members the class writes. -/
structure inquiry_response_t where
  peripheral_device : Nat
  peripheral_qualifier : Nat
  removable_media : Nat
  version : Nat
  response_data_format : Nat
  additional_length : Nat
  vendor_id : List Nat
  product_id : List Nat
  product_rev : List Nat
deriving DecidableEq, Repr

/-- Structure `SCSI::read_capacity_10_response_t`. -/
structure read_capacity_10_response_t where
  logical_block_address : Nat
  block_length : Nat
deriving DecidableEq, Repr

/-- Structure `SCSI::read_format_capacity_10_response_t`: the members the class
writes. -/
structure read_format_capacity_10_response_t where
  list_length : Nat
  block_num : Nat
  descriptor_type : Nat
  block_size_u16 : Nat
deriving DecidableEq, Repr

/-- Structure `SCSI::mode_sense_6_response_t`. -/
structure mode_sense_6_response_t where
  mode_data_length : Nat
  medium_type : Nat
  write_protect : Bool
  block_descriptor_length : Nat
deriving DecidableEq, Repr

/-- The object a bulk IN transfer is started on, with its content at the time
`start_transfer` is called. -/
inductive payload where
  | csw (c : csw_t)
  | buffer_in
  | sense_fixed_response (r : request_sense_fixed_response_t)
  | inquiry_response (r : inquiry_response_t)
  | mode_sense_6_response (r : mode_sense_6_response_t)
  | read_capacity_10_response (r : read_capacity_10_response_t)
  | read_format_capacity_10_response (r : read_format_capacity_10_response_t)
deriving DecidableEq, Repr

/-- Trace entries: the invocations of the user callbacks and the transfers
started on the bulk IN endpoint. -/
inductive event where
  | capacity
  | read (block : Nat)
  | write (block : Nat)
  | is_writeable
  | start_stop (power_condition start loej : Nat)
  | remove (prevent : Nat)
  | in_transfer (p : payload) (len : Nat)
deriving DecidableEq, Repr

/-- A bulk endpoint as the class driver uses it: `is_active()`,
`start_transfer`, `send_stall` and `send_NAK`. -/
structure endpoint where
  _active : Bool
  STALL : Bool
  EP_ABORT : Bool
deriving DecidableEq, Repr

/-- The user callbacks. `capacity_handler`, `read_handler` and `write_handler`
are called without a test and are taken as installed; the other three are
called only if installed. The block callbacks are represented by the result
code they return for a block address. -/
structure handlers where
  /-- The values `capacity_handler` stores in `block_size` and `block_count`. -/
  capacity_handler : Nat × Nat
  read_handler : Nat → Nat
  write_handler : Nat → Nat
  is_writeable_handler : Option Bool
  start_stop_handler : Bool
  remove_handler : Bool

/-- The members of `usb_msc_bot_device` and the trace of its calls. The content
of `_buffer_in` is produced by `read_handler` and is not tracked. -/
structure state where
  _ep_in : endpoint
  _ep_out : endpoint
  _max_lun : Nat
  _state : state_t
  _csw : csw_t
  _device_ready : Bool
  _buffer_out_len : Nat
  _buffer_out : List Nat
  _inquiry_response : inquiry_response_t
  _sense_fixed_response : request_sense_fixed_response_t
  _read_capacity_10_response : read_capacity_10_response_t
  _read_format_capacity_10_response : read_format_capacity_10_response_t
  _mode_sense_6_response : mode_sense_6_response_t
  _blocks_to_transfer : Nat
  _blocks_transferred : Nat
  _block_addr : Nat
  /-- Trace: callback invocations and bulk IN transfers, oldest first. -/
  log : List event
deriving DecidableEq, Repr

/-- Constant `TUPP_MSC_BLOCK_SIZE` (`usb_config.h`). -/
def TUPP_MSC_BLOCK_SIZE : Nat := 512

/-- Modelled from the spec: `usb_msc_structs.h` is not part of the sources;
"CBW = 0x43425355". -/
def cbw_signature : Nat := 0x43425355

/-- Modelled from the spec: `usb_msc_structs.h` is not part of the sources;
"CSW = 0x53425355". -/
def csw_signature : Nat := 0x53425355

/-- Modelled from the spec: `sizeof(MSC::cbw_t)`, "31-byte". -/
def sizeof_cbw_t : Nat := 31

/-- Modelled from the spec: `sizeof(MSC::csw_t)`, "13-byte". -/
def sizeof_csw_t : Nat := 13

/-- Size of `SCSI::request_sense_fixed_response_t` (static_assert). -/
def sizeof_request_sense_fixed_response_t : Nat := 18

/-- Size of the packed `SCSI::inquiry_response_t`: 8 single bytes, then
8 + 16 + 4 bytes of identification. -/
def sizeof_inquiry_response_t : Nat := 36

/-- Size of `SCSI::mode_sense_6_response_t` (static_assert). -/
def sizeof_mode_sense_6_response_t : Nat := 4

/-- Size of the packed `SCSI::read_capacity_10_response_t`. -/
def sizeof_read_capacity_10_response_t : Nat := 8

/-- Size of the packed `SCSI::read_format_capacity_10_response_t`. -/
def sizeof_read_format_capacity_10_response_t : Nat := 12

/-- Subtraction on `uint32_t`. -/
def sub32 (a b : Nat) : Nat := (4294967296 + a - b % 4294967296) % 4294967296

/-- Increment of a `uint32_t` (`x++`). -/
def inc32 (a : Nat) : Nat := (a + 1) % 4294967296

/-- Increment of a `uint16_t` (`x++`). -/
def inc16 (a : Nat) : Nat := (a + 1) % 65536

/-- Byte `i` of a buffer of `uint8_t`. -/
def u8 (b : List Nat) (i : Nat) : Nat := b.getD i 0 % 256

/-- A 16 bit little-endian load at offset `i`. -/
def le16 (b : List Nat) (i : Nat) : Nat := u8 b i + 256 * u8 b (i + 1)

/-- A 32 bit little-endian load at offset `i`. -/
def le32 (b : List Nat) (i : Nat) : Nat :=
  u8 b i + 256 * u8 b (i + 1) + 65536 * u8 b (i + 2) + 16777216 * u8 b (i + 3)

/-- The byte swap `__ntohs` / `__htons` of a little-endian machine. -/
def __ntohs (x : Nat) : Nat := x % 256 * 256 + x / 256 % 256

/-- The byte swap `__ntohl` / `__htonl` of a little-endian machine. -/
def __ntohl (x : Nat) : Nat :=
  x % 256 * 16777216 + x / 256 % 256 * 65536 + x / 65536 % 256 * 256 + x / 16777216 % 256

/-- Modelled from the spec: the layout of `MSC::cbw_t` (`usb_msc_structs.h` is
not part of the sources) is the one of the Bulk-Only Transport CBW: signature,
tag, data transfer length (little-endian 32 bit words), flags, LUN, command
block length, and 16 bytes of command block. -/
def dCBWSignature (b : List Nat) : Nat := le32 b 0

/-- Modelled from the spec: member of `MSC::cbw_t`, see `dCBWSignature`. -/
def dCBWTag (b : List Nat) : Nat := le32 b 4

/-- Modelled from the spec: member of `MSC::cbw_t`, see `dCBWSignature`. -/
def dCBWDataTransferLength (b : List Nat) : Nat := le32 b 8

/-- Modelled from the spec: member of `MSC::cbw_t`, see `dCBWSignature`. -/
def bCBWCBLength (b : List Nat) : Nat := u8 b 14

/-- Modelled from the spec: member of `MSC::cbw_t`, see `dCBWSignature`. -/
def CBWCB (b : List Nat) (i : Nat) : Nat := u8 b (15 + i)

/-- Members `logical_block_address` of `SCSI::read_10_t` and
`SCSI::write_10_t`, read through the cast of `cbw->CBWCB`. -/
def logical_block_address (b : List Nat) : Nat := le32 b (15 + 2)

/-- Members `transfer_length` of `SCSI::read_10_t` and `SCSI::write_10_t`. -/
def transfer_length (b : List Nat) : Nat := le16 b (15 + 7)

/-- Function `usb_endpoint::is_active`. -/
def endpoint.is_active (e : endpoint) : Bool := e._active

/-- What `usb_endpoint::start_transfer` does to the flag the class sees. -/
def endpoint.start_transfer (e : endpoint) : Option endpoint :=
  if e._active then none   -- assert(!_active)
  else some { e with _active := true }

/-- Function `send_stall` of the endpoint, as far as the class sees it. -/
def endpoint.send_stall (e : endpoint) (b : Bool) : endpoint := { e with STALL := b }

/-- Function `send_NAK` of the endpoint. -/
def endpoint.send_NAK (e : endpoint) (b : Bool) : endpoint := { e with EP_ABORT := b }

/-- The loop `while (_ep_in->is_active());`: it is left once the interrupt
driven transfer engine has finished the transfer in flight and cleared
`_active`. -/
def endpoint.wait_idle (e : endpoint) : endpoint := { e with _active := false }

/-- Function `usb_msc_bot_device::scsi_success`. -/
def scsi_success (s : state) : state :=
  { s with
    _sense_fixed_response := { s._sense_fixed_response with
      sense_key := sense_key_t.NO_SENSE, add_sense_code := 0, add_sense_qualifier := 0 }
    _csw := { s._csw with dCSWDataResidue := 0, bCSWStatus := csw_status_t.CMD_PASSED } }

/-- Function `usb_msc_bot_device::scsi_fail`. -/
def scsi_fail (s : state) (key : sense_key_t) (code qualifier : Nat) : state :=
  { s with
    _sense_fixed_response := { s._sense_fixed_response with
      sense_key := key, add_sense_code := code, add_sense_qualifier := qualifier }
    _csw := { s._csw with dCSWDataResidue := 0, bCSWStatus := csw_status_t.CMD_FAILED } }

/-- Assignment `_csw.bCSWStatus = MSC::csw_status_t::CMD_FAILED`. -/
def set_failed (s : state) : state :=
  { s with _csw := { s._csw with bCSWStatus := csw_status_t.CMD_FAILED } }

/-- Assignment `_csw.dCSWDataResidue = cbw->dCBWDataTransferLength - sizeof(...)`
in 32 bit unsigned arithmetic. -/
def set_residue (s : state) (size : Nat) : state :=
  { s with _csw := { s._csw with
      dCSWDataResidue := sub32 (dCBWDataTransferLength s._buffer_out) size } }

/-- Assignment of the three sense members. -/
def set_sense (s : state) (key : sense_key_t) (code qualifier : Nat) : state :=
  { s with _sense_fixed_response := { s._sense_fixed_response with
      sense_key := key, add_sense_code := code, add_sense_qualifier := qualifier } }

/-- The response objects the local pointer `response_data` can point to. -/
inductive buffer where
  | sense_fixed_response
  | inquiry_response
  | mode_sense_6_response
  | read_capacity_10_response
  | read_format_capacity_10_response
deriving DecidableEq, Repr

/-- The content of the object `response_data` points to. -/
def deref (s : state) : buffer → payload
  | buffer.sense_fixed_response => payload.sense_fixed_response s._sense_fixed_response
  | buffer.inquiry_response => payload.inquiry_response s._inquiry_response
  | buffer.mode_sense_6_response => payload.mode_sense_6_response s._mode_sense_6_response
  | buffer.read_capacity_10_response =>
      payload.read_capacity_10_response s._read_capacity_10_response
  | buffer.read_format_capacity_10_response =>
      payload.read_format_capacity_10_response s._read_format_capacity_10_response

/-- The test `if (is_writeable_handler) write_protect = !is_writeable_handler();`
with its trace entry. -/
def query_write_protect (h : handlers) (s : state) : Bool × state :=
  match h.is_writeable_handler with
  | some w => (!w, { s with log := s.log ++ [event.is_writeable] })
  | none => (false, s)

/-- The result of the `switch (cmd)` of `process_scsi_command`: the state and
the locals `response_data` and `response_len`; `none` for the locals stands
for `response_len == 0` (then `response_data` is not set). -/
abbrev switch_result := Option (state × Option (buffer × Nat))

/-- Case `TEST_UNIT_READY` of the switch. -/
def case_TEST_UNIT_READY (s : state) : switch_result :=
  if bCBWCBLength s._buffer_out ≠ 6 then none   -- assert
  else if s._device_ready then some (set_sense s sense_key_t.NO_SENSE 0 0, none)
  else some (set_sense s sense_key_t.NOT_READY 4 0, none)

/-- Case `REQUEST_SENSE` of the switch. -/
def case_REQUEST_SENSE (s : state) : switch_result :=
  if bCBWCBLength s._buffer_out ≠ 6 then none   -- assert
  else some (s, some (buffer.sense_fixed_response, sizeof_request_sense_fixed_response_t))

/-- Case `INQUIRY` of the switch (its assert is commented out). -/
def case_INQUIRY (s : state) : switch_result :=
  some (set_residue s sizeof_inquiry_response_t,
        some (buffer.inquiry_response, sizeof_inquiry_response_t))

/-- Case `MODE_SENSE_6` of the switch. -/
def case_MODE_SENSE_6 (h : handlers) (s : state) : switch_result :=
  if bCBWCBLength s._buffer_out ≠ 6 then none   -- assert
  else
    let s1 := set_residue s sizeof_mode_sense_6_response_t
    let s2 := (query_write_protect h s1).2
    let s3 : state := { s2 with
      _mode_sense_6_response := { s2._mode_sense_6_response with
        write_protect := (query_write_protect h s1).1 } }
    let s4 := if !s3._device_ready then set_failed s3 else s3
    some (s4, some (buffer.mode_sense_6_response, sizeof_mode_sense_6_response_t))

/-- Case `START_STOP_UNIT` of the switch; `power_condition`, `start` and `loej`
are bit fields of byte 4 of the command block. -/
def case_START_STOP_UNIT (h : handlers) (s : state) : switch_result :=
  if bCBWCBLength s._buffer_out ≠ 6 then none   -- assert
  else
    let s1 := if !s._device_ready then set_failed s else s
    let b := CBWCB s._buffer_out 4
    let s2 : state :=
      if h.start_stop_handler then
        { s1 with log := s1.log ++ [event.start_stop (b / 16 % 16) (b % 2) (b / 2 % 2)] }
      else s1
    let s3 := if !s2._device_ready then set_failed s2 else s2
    some (s3, none)

/-- Case `PREVENT_ALLOW_MEDIUM_REMOVAL` of the switch; `prevent` is bit 0 of
byte 4 of the command block. -/
def case_PREVENT_ALLOW_MEDIUM_REMOVAL (h : handlers) (s : state) : switch_result :=
  if bCBWCBLength s._buffer_out ≠ 6 then none   -- assert
  else
    let s1 := if !s._device_ready then set_failed s else s
    let s2 : state :=
      if h.remove_handler then
        { s1 with log := s1.log ++ [event.remove (CBWCB s._buffer_out 4 % 2)] }
      else s1
    let s3 := if !s2._device_ready then set_failed s2 else s2
    some (s3, none)

/-- Case `READ_CAPACITY_10` of the switch. -/
def case_READ_CAPACITY_10 (h : handlers) (s : state) : switch_result :=
  if bCBWCBLength s._buffer_out ≠ 10 then none   -- assert
  else if dCBWDataTransferLength s._buffer_out ≠ sizeof_read_capacity_10_response_t then
    none   -- assert
  else
    let s1 := set_residue s sizeof_read_capacity_10_response_t
    let s2 := if !s1._device_ready then set_failed s1 else s1
    let block_size := h.capacity_handler.1 % 65536
    let block_count := h.capacity_handler.2 % 4294967296
    let s3 : state := { s2 with log := s2.log ++ [event.capacity] }
    if block_size ≠ TUPP_MSC_BLOCK_SIZE then none   -- assert
    else
      let s4 : state := { s3 with
        _read_capacity_10_response :=
          { logical_block_address := __ntohl (sub32 block_count 1)
            block_length := __ntohl block_size } }
      let s5 := if !s4._device_ready then set_failed s4 else s4
      some (s5, some (buffer.read_capacity_10_response, sizeof_read_capacity_10_response_t))

/-- Case `READ_FORMAT_CAPACITIES` of the switch. -/
def case_READ_FORMAT_CAPACITIES (h : handlers) (s : state) : switch_result :=
  if bCBWCBLength s._buffer_out ≠ 10 then none   -- assert
  else
    let s1 := set_residue s sizeof_read_format_capacity_10_response_t
    let s2 := if !s1._device_ready then set_failed s1 else s1
    let block_size := h.capacity_handler.1 % 65536
    let block_count := h.capacity_handler.2 % 4294967296
    let s3 : state := { s2 with log := s2.log ++ [event.capacity] }
    if block_size ≠ TUPP_MSC_BLOCK_SIZE then none   -- assert
    else
      let s4 : state := { s3 with
        _read_format_capacity_10_response :=
          { list_length := 8
            descriptor_type := 2
            block_size_u16 := block_size
            block_num := block_count } }
      let s5 := if !s4._device_ready then set_failed s4 else s4
      some (s5, some (buffer.read_format_capacity_10_response,
                      sizeof_read_format_capacity_10_response_t))

/-- Case `READ_10` of the switch. -/
def case_READ_10 (s : state) : switch_result :=
  if bCBWCBLength s._buffer_out ≠ 10 then none   -- assert
  else
    let s1 :=
      if !s._device_ready then set_sense (set_failed s) sense_key_t.NOT_READY 4 0 else s
    let s2 : state := { s1 with
      _blocks_to_transfer := __ntohs (transfer_length s._buffer_out)
      _blocks_transferred := 0
      _block_addr := __ntohl (logical_block_address s._buffer_out)
      _state := state_t.DATA_READ }
    let s3 : state :=
      if !s2._device_ready then { set_failed s2 with _state := state_t.SEND_CSW } else s2
    some (s3, none)

/-- Case `WRITE_10` of the switch. -/
def case_WRITE_10 (h : handlers) (s : state) : switch_result :=
  let s0 : state := { s with _buffer_out_len := 0 }
  if bCBWCBLength s._buffer_out ≠ 10 then none   -- assert
  else
    let s1 := (query_write_protect h s0).2
    if (query_write_protect h s0).1 then
      let s2 := set_sense (set_failed s1) sense_key_t.DATA_PROTECT 0x27 0x00
      some ({ s2 with _buffer_out_len := 0, _ep_out := s2._ep_out.send_NAK false }, none)
    else
      let s2 : state :=
        if !s1._device_ready then
          let t := set_sense (set_failed s1) sense_key_t.NOT_READY 4 0
          { t with _buffer_out_len := 0, _ep_out := t._ep_out.send_NAK false }
        else s1
      let s3 : state := { s2 with
        _blocks_to_transfer := __ntohs (transfer_length s._buffer_out)
        _blocks_transferred := 0
        _block_addr := __ntohl (logical_block_address s._buffer_out)
        _state := state_t.DATA_WRITE
        _buffer_out_len := 0
        _ep_out := s2._ep_out.send_NAK false }
      let s4 : state :=
        if !s3._device_ready then { set_failed s3 with _state := state_t.SEND_CSW } else s3
      some (s4, none)

/-- The `switch (cmd)` of `process_scsi_command`, with `cmd = cbw->CBWCB[0]`;
the opcodes are those of `SCSI::scsi_cmd_t`. An opcode without a case is only
logged. -/
def scsi_switch (h : handlers) (s : state) : switch_result :=
  let cmd := CBWCB s._buffer_out 0
  if cmd = 0x00 then case_TEST_UNIT_READY s
  else if cmd = 0x03 then case_REQUEST_SENSE s
  else if cmd = 0x12 then case_INQUIRY s
  else if cmd = 0x1A then case_MODE_SENSE_6 h s
  else if cmd = 0x1B then case_START_STOP_UNIT h s
  else if cmd = 0x1E then case_PREVENT_ALLOW_MEDIUM_REMOVAL h s
  else if cmd = 0x25 then case_READ_CAPACITY_10 h s
  else if cmd = 0x23 then case_READ_FORMAT_CAPACITIES h s
  else if cmd = 0x28 then case_READ_10 s
  else if cmd = 0x2A then case_WRITE_10 h s
  else some (s, none)

/-- The part "Analyze response situation" of `process_scsi_command`, with
`response_len_expected = cbw->dCBWDataTransferLength`. -/
def analyze_response (s : state) (response : Option (buffer × Nat)) : Option state :=
  let response_len_expected := dCBWDataTransferLength s._buffer_out
  if s._state = state_t.SEND_CSW then
    if response_len_expected ≠ 0 then
      match response with
      | some (response_data, response_len) =>
        let response_len :=
          if response_len > response_len_expected then response_len_expected else response_len
        match (s._ep_in.wait_idle).start_transfer with
        | some e =>
          some { s with
            _ep_in := e
            log := s.log ++ [event.in_transfer (deref s response_data) response_len] }
        | none => none
      | none => some (set_failed s)
    else
      match response with
      | some _ => some (set_failed s)
      | none => some s
  else some s

/-- Function `usb_msc_bot_device::process_scsi_command`. -/
def process_scsi_command (h : handlers) (s : state) : Option state :=
  match scsi_switch h s with
  | some (s1, response) => analyze_response s1 response
  | none => none

/-- The four assignments to `_csw` and the assignment `_state = SEND_CSW` that
precede the call of `process_scsi_command` in `handle_request`. -/
def seed_csw (s : state) : state :=
  { s with
    _csw :=
      { dCSWSignature := csw_signature
        dCSWTag := dCBWTag s._buffer_out
        dCSWDataResidue := 0
        bCSWStatus := csw_status_t.CMD_PASSED }
    _state := state_t.SEND_CSW }

/-- Function `usb_msc_bot_device::handle_request`. -/
def handle_request (h : handlers) (s : state) : Option state :=
  match s._state with
  | state_t.RECEIVE_CBW =>
    if s._buffer_out_len = 0 then some s
    else if s._buffer_out_len ≠ sizeof_cbw_t ∨ dCBWSignature s._buffer_out ≠ cbw_signature then
      some { s with
        _ep_in := s._ep_in.send_stall true
        _ep_out := (s._ep_out.send_stall true).send_NAK false
        _buffer_out_len := 0 }
    else
      match process_scsi_command h (seed_csw s) with
      | some s1 => some { s1 with _buffer_out_len := 0, _ep_out := s1._ep_out.send_NAK false }
      | none => none
  | state_t.SEND_CSW =>
    if s._ep_in.is_active then some s
    else
      match s._ep_in.start_transfer with
      | some e =>
        some { s with
          _ep_in := e
          log := s.log ++ [event.in_transfer (payload.csw s._csw) sizeof_csw_t]
          _state := state_t.RECEIVE_CBW }
      | none => none
  | state_t.DATA_READ =>
    if s._ep_in.is_active then some s
    else
      let res := h.read_handler s._block_addr
      match s._ep_in.start_transfer with
      | some e =>
        let s1 : state := { s with
          log := s.log ++ [event.read s._block_addr,
                           event.in_transfer payload.buffer_in TUPP_MSC_BLOCK_SIZE]
          _block_addr := inc32 s._block_addr
          _ep_in := e
          _blocks_transferred := inc16 s._blocks_transferred }
        let s2 : state :=
          if s1._blocks_transferred = s1._blocks_to_transfer then
            { s1 with _state := state_t.SEND_CSW }
          else s1
        some (if res ≠ 0 then scsi_fail s2 sense_key_t.NOT_READY 0x3a 0 else s2)
      | none => none
  | state_t.DATA_WRITE =>
    if s._buffer_out_len = 0 then some s
    else if s._buffer_out_len ≠ TUPP_MSC_BLOCK_SIZE then none   -- assert
    else
      let res := h.write_handler s._block_addr
      let s1 : state := { s with
        log := s.log ++ [event.write s._block_addr]
        _block_addr := inc32 s._block_addr
        _blocks_transferred := inc16 s._blocks_transferred }
      let s2 : state :=
        if s1._blocks_transferred = s1._blocks_to_transfer then
          { s1 with _state := state_t.SEND_CSW }
        else s1
      let s3 := if res ≠ 0 then scsi_fail s2 sense_key_t.NOT_READY 0x3a 0 else s2
      some { s3 with _buffer_out_len := 0, _ep_out := s3._ep_out.send_NAK false }

/-- The handler `_ep_out->data_handler` installed by the constructor. -/
def data_handler (s : state) (len : Nat) : Option state :=
  match (s._ep_out.send_NAK true).start_transfer with
  | some e => some { s with _ep_out := e, _buffer_out_len := len }
  | none => none

/-- End of a transfer on the bulk OUT endpoint: the transfer engine has copied
the received bytes to the front of `_buffer_out`, cleared `_active` and calls
the data handler with their number. -/
def out_complete (s : state) (rx : List Nat) : Option state :=
  data_handler
    { s with
      _buffer_out := rx ++ s._buffer_out.drop rx.length
      _ep_out := { s._ep_out with _active := false } }
    rx.length

/-- End of a transfer on the bulk IN endpoint: the transfer engine clears
`_active`; no data handler is installed on this endpoint. -/
def in_complete (s : state) : state :=
  { s with _ep_in := { s._ep_in with _active := false } }

/-- The state the constructor leaves. -/
def constructed : state :=
  { _ep_in := { _active := false, STALL := false, EP_ABORT := false }
    _ep_out := { _active := true, STALL := false, EP_ABORT := false }
    _max_lun := 0
    _state := state_t.RECEIVE_CBW
    _csw := { dCSWSignature := 0, dCSWTag := 0, dCSWDataResidue := 0,
              bCSWStatus := csw_status_t.CMD_PASSED }
    _device_ready := true
    _buffer_out_len := 0
    _buffer_out := List.replicate 512 0
    _inquiry_response :=
      { peripheral_device := 0, peripheral_qualifier := 0, removable_media := 1,
        version := 0, response_data_format := 2, additional_length := 36 - 5,
        vendor_id := List.replicate 8 0, product_id := List.replicate 16 0,
        product_rev := List.replicate 4 0 }
    _sense_fixed_response :=
      { response_code := 0x70, valid := 1, sense_key := sense_key_t.NO_SENSE,
        add_sense_len := 18 - 8, add_sense_code := 0, add_sense_qualifier := 0 }
    _read_capacity_10_response := { logical_block_address := 0, block_length := 0 }
    _read_format_capacity_10_response :=
      { list_length := 0, block_num := 0, descriptor_type := 0, block_size_u16 := 0 }
    _mode_sense_6_response :=
      { mode_data_length := 4 - 1, medium_type := 0, write_protect := false,
        block_descriptor_length := 0 }
    _blocks_to_transfer := 0
    _blocks_transferred := 0
    _block_addr := 0
    log := [] }

/-- A 16 bit big-endian value at offset `i` of a byte buffer. -/
def be16 (b : List Nat) (i : Nat) : Nat := 256 * u8 b i + u8 b (i + 1)

/-- A 32 bit big-endian value at offset `i` of a byte buffer. -/
def be32 (b : List Nat) (i : Nat) : Nat :=
  16777216 * u8 b i + 65536 * u8 b (i + 1) + 256 * u8 b (i + 2) + u8 b (i + 3)

/-- One poll of `handle_request` at which the bulk IN endpoint is idle: the
transfer started before, if any, has been completed in the meantime. -/
def poll (h : handlers) (s : state) : Option state :=
  handle_request h (in_complete s)

/-- A number of polls, each with the bulk IN endpoint idle. -/
def polls (h : handlers) : Nat → state → Option state
  | 0, s => some s
  | n + 1, s => (poll h s).bind (polls h n)

/-- For each received OUT transfer of the list: the transfer ends
(`out_complete`), then `handle_request` is polled. -/
def receive_and_poll (h : handlers) : List (List Nat) → state → Option state
  | [], s => some s
  | rx :: rest, s =>
    ((out_complete s rx).bind (handle_request h)).bind (receive_and_poll h rest)

/-- The assertions `process_scsi_command` makes on a command block wrapper:
the command block length of the recognised commands other than INQUIRY, the
data transfer length of READ_CAPACITY(10), and the block size reported by the
capacity callback. -/
def asserts_hold (h : handlers) (b : List Nat) : Prop :=
  (CBWCB b 0 ∈ [0x00, 0x03, 0x1A, 0x1B, 0x1E] → bCBWCBLength b = 6) ∧
  (CBWCB b 0 ∈ [0x23, 0x25, 0x28, 0x2A] → bCBWCBLength b = 10) ∧
  (CBWCB b 0 = 0x25 →
    dCBWDataTransferLength b = sizeof_read_capacity_10_response_t) ∧
  (CBWCB b 0 ∈ [0x23, 0x25] → h.capacity_handler.1 % 65536 = TUPP_MSC_BLOCK_SIZE)

instance (h : handlers) (b : List Nat) : Decidable (asserts_hold h b) := by
  unfold asserts_hold
  exact inferInstance

/-- What every command leaves of the state it receives from `handle_request`:
tag and signature of the latched CSW and the received bytes are kept, and from
`SEND_CSW` the state stays or becomes `DATA_READ` or `DATA_WRITE`. -/
def dispatch_frame (s t : state) : Prop :=
  t._csw.dCSWTag = s._csw.dCSWTag ∧ t._csw.dCSWSignature = s._csw.dCSWSignature ∧
  t._buffer_out = s._buffer_out ∧
  (s._state = state_t.SEND_CSW →
    t._state = state_t.SEND_CSW ∨ t._state = state_t.DATA_READ ∨
    t._state = state_t.DATA_WRITE)

/-- The four little-endian bytes of a 32 bit value. -/
def le_bytes (x : Nat) : List Nat :=
  [x % 256, x / 256 % 256, x / 65536 % 256, x / 16777216 % 256]

/-- A command block wrapper with the given tag, data transfer length, command
block length and command block (padded with zeros to 16 bytes). -/
def make_cbw (tag len cblen : Nat) (cb : List Nat) : List Nat :=
  le_bytes cbw_signature ++ le_bytes tag ++ le_bytes len ++ [0, 0, cblen] ++
    (cb ++ List.replicate (16 - cb.length) 0)

/-- The constructed device after the bytes `rx` have been received. -/
def received (rx : List Nat) : state :=
  { constructed with
    _buffer_out := rx ++ constructed._buffer_out.drop rx.length
    _buffer_out_len := rx.length }

/-- Callbacks of a device of `count` blocks of 512 bytes whose block callbacks
always succeed and whose `is_writeable` callback returns `w`. -/
def sample_handlers (count : Nat) (w : Option Bool) : handlers :=
  { capacity_handler := (512, count)
    read_handler := fun _ => 0
    write_handler := fun _ => 0
    is_writeable_handler := w
    start_stop_handler := false
    remove_handler := false }

/-- The four big-endian bytes of a 32 bit value. -/
def be_bytes (x : Nat) : List Nat :=
  [x / 16777216 % 256, x / 65536 % 256, x / 256 % 256, x % 256]

/-- The bytes of the packed `SCSI::read_capacity_10_response_t` in the memory
of the little-endian target: two `uint32_t`. -/
def read_capacity_10_response_t.bytes (r : read_capacity_10_response_t) : List Nat :=
  le_bytes r.logical_block_address ++ le_bytes r.block_length

/-- The bytes of the packed `SCSI::read_format_capacity_10_response_t` in the
memory of the little-endian target: `reserved[3]`, `list_length`, `block_num`
(`uint32_t`), `descriptor_type`, `reserved2` and `block_size_u16`
(`uint16_t`). -/
def read_format_capacity_10_response_t.bytes (r : read_format_capacity_10_response_t) :
    List Nat :=
  [0, 0, 0, r.list_length % 256] ++ le_bytes r.block_num ++
    [r.descriptor_type % 256, 0, r.block_size_u16 % 256, r.block_size_u16 / 256 % 256]

/-- The objects the setup handler of the MSC interface reaches through the
members it captures: the members of the class driver, the endpoint objects
behind `_ep_in` and `_ep_out`, the endpoint object behind
`controller._ep0_in`, and the address of the member `_max_lun`. -/
structure setup_context where
  dev : state
  ep_in : usb_endpoint.state
  ep_out : usb_endpoint.state
  ep0_in : usb_endpoint.state
  addr_max_lun : Nat

/-- The handler `_interface.setup_handler` installed by the constructor. -/
def setup_handler (pkt : TUPP.setup_packet_t) (c : setup_context) : Option setup_context :=
  if pkt.bRequest = TUPP.REQ_MSC_BOT_RESET then
    if pkt.wValue ≠ 0 then none   -- assert
    else if pkt.wLength ≠ 0 then none   -- assert
    else some { c with dev := { c.dev with _state := state_t.RECEIVE_CBW } }
  else if pkt.bRequest = TUPP.REQ_MSC_GET_MAX_LUN then
    if pkt.wValue ≠ 0 then none   -- assert
    else if pkt.wLength ≠ 1 then none   -- assert
    else
      match usb_endpoint.start_transfer_object c.ep0_in c.addr_max_lun [c.dev._max_lun] 1 with
      | some e => some { c with ep0_in := e }
      | none => none
  else some c

/-- The constructed device that is not ready (`set_device_ready(false)`),
after the bytes `rx` have been received. -/
def received_not_ready (rx : List Nat) : state :=
  { received rx with _device_ready := false }

/-- A device in the state `st` after a failed command: the bulk IN endpoint is
stalled (`send_stall(true)`), the bulk OUT endpoint is not and has `_next_pid`
1, the latched CSW has the status FAILED and the latched sense is
DATA_PROTECT / 0x27 / 0. -/
def stalled_context (st : state_t) : setup_context :=
  { dev := { constructed with
      _state := st
      _ep_in := constructed._ep_in.send_stall true
      _csw := ⟨csw_signature, 7, 0, csw_status_t.CMD_FAILED⟩
      _sense_fixed_response := { constructed._sense_fixed_response with
        sense_key := sense_key_t.DATA_PROTECT, add_sense_code := 0x27 } }
    ep_in := usb_endpoint.send_stall (usb_endpoint.idle 0x81 64) true
    ep_out := { usb_endpoint.idle 0x01 64 with _next_pid := 1 }
    ep0_in := usb_endpoint.idle 0x80 64
    addr_max_lun := 0x20000100 }

/-- The error a failing block callback latches (`scsi_fail(NOT_READY, 0x3a, 0)`):
the CSW has the status FAILED and the residue 0, the sense is NOT_READY with
the additional sense code 0x3A and the qualifier 0. -/
def error_latched (s : state) : Prop :=
  s._csw.bCSWStatus = csw_status_t.CMD_FAILED ∧ s._csw.dCSWDataResidue = 0 ∧
  s._sense_fixed_response.sense_key = sense_key_t.NOT_READY ∧
  s._sense_fixed_response.add_sense_code = 0x3a ∧
  s._sense_fixed_response.add_sense_qualifier = 0

/-- An event of a run of the class driver: a poll of `handle_request`, the end
of a transfer on the bulk OUT endpoint with the received bytes, or the end of
a transfer on the bulk IN endpoint. -/
inductive step where
  | request
  | out_done (rx : List Nat)
  | in_done
deriving DecidableEq, Repr

/-- What one event does to the class driver. -/
def do_step (h : handlers) (s : state) : step → Option state
  | step.request => handle_request h s
  | step.out_done rx => out_complete s rx
  | step.in_done => some (in_complete s)

/-- A run: the events of the list, one after the other. -/
def run (h : handlers) : List step → state → Option state
  | [], s => some s
  | e :: rest, s => (do_step h s e).bind (run h rest)

/-- The assertions of `handle_request` and `process_scsi_command` other than
the precondition of `start_transfer`: in `RECEIVE_CBW` a valid CBW fails an
assertion on the command block; in `DATA_WRITE` the received length is neither
0 nor `TUPP_MSC_BLOCK_SIZE`. -/
def other_assert_fails (h : handlers) (s : state) : Prop :=
  (s._state = state_t.RECEIVE_CBW ∧ s._buffer_out_len = sizeof_cbw_t ∧
    dCBWSignature s._buffer_out = cbw_signature ∧ ¬ asserts_hold h s._buffer_out) ∨
  (s._state = state_t.DATA_WRITE ∧ s._buffer_out_len ≠ 0 ∧
    s._buffer_out_len ≠ TUPP_MSC_BLOCK_SIZE)

instance (h : handlers) (s : state) : Decidable (other_assert_fails h s) := by
  unfold other_assert_fails
  exact inferInstance

/-- The class driver together with the transfer engine of its bulk OUT
endpoint: the members of the class, the endpoint object behind `_ep_out`, and
the address of the member `_buffer_out`. -/
structure bulk_out_context where
  dev : state
  ep_out : usb_endpoint.state
  addr_buffer_out : Nat

/-- A packet received on the bulk OUT endpoint: the buffer-completion event of
the transfer engine. If the packet ends the transfer, the engine invokes the
data handler with the buffer and the received length (the trace `handled`
grows), and the handler of the class runs: it sets NAK and `_buffer_out_len`
and starts the next transfer of `TUPP_MSC_BLOCK_SIZE` bytes into
`_buffer_out`. If the transfer goes on, the class is not called. -/
def packet_received (c : bulk_out_context) (rx : List Nat) : Option bulk_out_context :=
  match usb_endpoint.buffer_completion c.ep_out rx with
  | none => none
  | some e =>
    if e.handled = c.ep_out.handled then some { c with ep_out := e }
    else
      match e.handled.getLast? with
      | none => none
      | some (ptr, len) =>
        match out_complete c.dev (usb_endpoint.bytes_at e.mem ptr len),
              usb_endpoint.start_transfer (usb_endpoint.send_NAK e true) c.addr_buffer_out
                TUPP_MSC_BLOCK_SIZE with
        | some d, some e2 => some { c with dev := d, ep_out := e2 }
        | _, _ => none

/-- The state the constructor leaves, with a bulk OUT endpoint of packet size
64 on which `start_transfer(_buffer_out, TUPP_MSC_BLOCK_SIZE)` was called. -/
def constructed_context : Option bulk_out_context :=
  (usb_endpoint.start_transfer (usb_endpoint.idle 0x01 64) 0x20000400 TUPP_MSC_BLOCK_SIZE).map
    (fun e => { dev := constructed, ep_out := e, addr_buffer_out := 0x20000400 })

end usb_msc_bot_device

namespace usb_dcd

/-- The members of the driver `usb_dcd` the control requests use, the registers
of the USB controller they reach, and two trace fields. -/
structure state where
  _new_addr : Nat
  _should_set_address : Bool
  /-- Register field `USB.ADDR_ENDP.ADDRESS`, holding the last value written. -/
  ADDRESS : Nat
  /-- Bit `ENABLE` of the endpoint control register of each endpoint, by
  endpoint address. -/
  ENABLE : Nat → Bool
  /-- Trace: every value written to `USB.ADDR_ENDP.ADDRESS`, oldest first. -/
  address_writes : List Nat
  /-- Trace: every call `enable_endpoint(b)`, with the address of the endpoint
  it is called on, oldest first. -/
  enable_calls : List (Nat × Bool)
  /-- The lookup table `_endpoints[16][2]` with the endpoint objects it points
  to. The two entries of index 0 are the objects behind `_ep0_in` and
  `_ep0_out` of the controller and are kept there. -/
  _endpoints : Nat → Nat → Option usb_endpoint.state := fun _ _ => none
  /-- The static member `usb_endpoint_rp2350::_next_free_buffer`, initialised
  with `(uint8_t *)&USB_DPRAM + 0x180`. -/
  _next_free_buffer : Nat := 0x50100180

/-- Function `usb_dcd::set_address(addr)`. -/
def set_address (d : state) (addr : Nat) : state :=
  { d with _new_addr := addr, _should_set_address := true }

/-- Function `usb_dcd::check_address()`. -/
def check_address (d : state) : state :=
  if d._should_set_address then
    { d with
      ADDRESS := d._new_addr
      address_writes := d.address_writes ++ [d._new_addr]
      _should_set_address := false }
  else d

/-- Function `usb_dcd::reset_address()`. -/
def reset_address (d : state) : state :=
  { d with
    _new_addr := 0
    _should_set_address := false
    ADDRESS := 0
    address_writes := d.address_writes ++ [0] }

/-- Driver function `usb_endpoint_rp2350::enable_endpoint(b)` of the endpoint
with the address `addr`; `_endp_ctrl` is null on the endpoints with index 0. -/
def enable_endpoint (d : state) (addr : Nat) (b : Bool) : state :=
  { d with
    ENABLE := if addr &&& 0x0f ≠ 0 then fun a => if a = addr then b else d.ENABLE a
              else d.ENABLE
    enable_calls := d.enable_calls ++ [(addr, b)] }

/-- What `usb_endpoint_rp2350::_process_buffer` of the endpoint with the address
`addr` does to the driver: `check_address()` if the endpoint is an IN endpoint. -/
def _process_buffer (d : state) (addr : Nat) : state :=
  if addr &&& 0x80 ≠ 0 then check_address d else d

/-- The effect on the driver of a sequence of buffer-completion events, given
by the addresses of the endpoints whose buffers complete. -/
def process_buffers (d : state) (addrs : List Nat) : state :=
  addrs.foldl _process_buffer d

/-- The driver after construction: address 0, nothing pending, no endpoint
enabled. -/
def constructed : state :=
  { _new_addr := 0
    _should_set_address := false
    ADDRESS := 0
    ENABLE := fun _ => false
    address_writes := []
    enable_calls := [] }

end usb_dcd

namespace usb_interface

/-- The members of `usb_interface` the control requests use. The endpoints are
referred to by their addresses. -/
structure state where
  /-- Address of the member `_descriptor.bAlternateSetting`. -/
  addr_bAlternateSetting : Nat
  /-- Field `_descriptor.bAlternateSetting`. -/
  bAlternateSetting : Nat
  /-- The array `_endpoints` of `TUPP_MAX_EP_PER_INTERFACE` pointers. -/
  _endpoints : List (Option Nat)
  /-- Field `_descriptor.bLength`, set by the constructor. -/
  bLength : Nat := 9
  /-- Field `_descriptor.bDescriptorType`, set by the constructor. -/
  bDescriptorType : Nat := 4
  bInterfaceNumber : Nat := 0
  bNumEndpoints : Nat := 0
  bInterfaceClass : Nat := 0
  bInterfaceSubClass : Nat := 0
  bInterfaceProtocol : Nat := 0
  iInterface : Nat := 0
  /-- The pointer `_assoc_ptr`, with the descriptor of the interface association
  it points to. -/
  _assoc_ptr : Option TUPP.interface_association_descriptor_t := none
  /-- The chain of functional descriptors that starts at `_fd_ptr`, each with
  the `descriptor_length` bytes `descriptor` points to. -/
  _fd_ptr : List (List Nat) := []
  /-- Whether the `setup_handler` slot holds a callable. -/
  setup_handler : Bool := false
deriving DecidableEq, Repr

/-- Function `usb_interface::set_bAlternateSetting(n)`. -/
def set_bAlternateSetting (i : state) (n : Nat) : state :=
  { i with bAlternateSetting := n }

/-- Function `usb_interface::activate_endpoints(b)`. -/
def activate_endpoints (i : state) (b : Bool) (d : usb_dcd.state) : usb_dcd.state :=
  i._endpoints.foldl
    (fun d ep =>
      match ep with
      | some addr => usb_dcd.enable_endpoint d addr b
      | none => d)
    d

/-- Modelled from the spec: the layout of `TUPP::interface_descriptor_t`
(`usb_structs.h` is not part of the sources) is the one of the interface
descriptor "per USB 2.0 §9.6". -/
def descriptor_bytes (i : state) : List Nat :=
  [i.bLength % 256, i.bDescriptorType % 256, i.bInterfaceNumber % 256,
   i.bAlternateSetting % 256, i.bNumEndpoints % 256, i.bInterfaceClass % 256,
   i.bInterfaceSubClass % 256, i.bInterfaceProtocol % 256, i.iInterface % 256]

/-- Function `usb_interface::add_endpoint(ep)`, with `ep` given by the address
of the endpoint. The call `_parent.set_total_length()` acts on the
configuration only. -/
def add_endpoint (i : state) (ep : Nat) : Option state :=
  let k := i._endpoints.findIdx (fun e => e.isNone)
  if k = TUPP.TUPP_MAX_EP_PER_INTERFACE then none   -- assert
  else some { i with _endpoints := i._endpoints.set k (some ep), bNumEndpoints := k + 1 }

/-- Function `usb_interface::add_func_descriptor(desc)`, with `desc` given by
the bytes of the functional descriptor: it is linked in behind the last one.
The call `_parent.set_total_length()` acts on the configuration only. -/
def add_func_descriptor (i : state) (desc : List Nat) : state :=
  { i with _fd_ptr := i._fd_ptr ++ [desc] }

/-- One `memcpy` to `tmp_ptr` of `prepare_descriptor`, the advance of `tmp_ptr`
and the `assert((tmp_ptr-buffer) <= size)` that follows it; `written` are the
bytes between `buffer` and `tmp_ptr`. -/
def copy_checked (size : Nat) (written x : List Nat) : Option (List Nat) :=
  if (written ++ x).length ≤ size then some (written ++ x) else none

/-- The loop of `prepare_descriptor` over the chain of functional
descriptors. -/
def copy_func_descriptors (size : Nat) : List (List Nat) → List Nat → Option (List Nat)
  | [], written => some written
  | fd :: rest, written =>
    match copy_checked size written fd with
    | some w => copy_func_descriptors size rest w
    | none => none

/-- The loop of `prepare_descriptor` over the array `_endpoints`; `deref` gives
the endpoint object an endpoint pointer points to. -/
def copy_endpoints (deref : Nat → Option usb_endpoint.state) (size : Nat) :
    List (Option Nat) → List Nat → Option (List Nat)
  | [], written => some written
  | none :: rest, written => copy_endpoints deref size rest written
  | some ep :: rest, written =>
    match deref ep with
    | some e =>
      match copy_checked size written (usb_endpoint.descriptor_bytes e) with
      | some w => copy_endpoints deref size rest w
      | none => none
    | none => none

/-- Function `usb_interface::prepare_descriptor(buffer, size)`: the bytes it
writes to `buffer`, whose number it returns; `none` if one of its assertions
fails. -/
def prepare_descriptor (i : state) (deref : Nat → Option usb_endpoint.state) (size : Nat) :
    Option (List Nat) :=
  let assoc : Option (List Nat) :=
    match i._assoc_ptr with
    | some a => copy_checked size [] a.bytes
    | none => some []
  match assoc with
  | some w0 =>
    match copy_checked size w0 (descriptor_bytes i) with
    | some w1 =>
      match copy_func_descriptors size i._fd_ptr w1 with
      | some w2 => copy_endpoints deref size i._endpoints w2
      | none => none
    | none => none
  | none => none

/-- The loop of `get_total_desc_length` over the chain of functional
descriptors; `len` is a `uint16_t`. -/
def add_func_lengths : List (List Nat) → Nat → Nat
  | [], len => len
  | fd :: rest, len => add_func_lengths rest ((len + fd.length) % 65536)

/-- The loop of `get_total_desc_length` over the array `_endpoints`; `deref`
gives the endpoint object an endpoint pointer points to, whose
`descriptor.bLength` the constructor of `usb_endpoint` has set to
`sizeof(endpoint_descriptor_t)`. -/
def add_endpoint_lengths (deref : Nat → Option usb_endpoint.state) :
    List (Option Nat) → Nat → Option Nat
  | [], len => some len
  | none :: rest, len => add_endpoint_lengths deref rest len
  | some ep :: rest, len =>
    match deref ep with
    | some _ =>
      add_endpoint_lengths deref rest ((len + TUPP.sizeof_endpoint_descriptor_t) % 65536)
    | none => none

/-- Function `usb_interface::get_total_desc_length()`. -/
def get_total_desc_length (i : state) (deref : Nat → Option usb_endpoint.state) :
    Option Nat :=
  add_endpoint_lengths deref i._endpoints (add_func_lengths i._fd_ptr (i.bLength % 256))

end usb_interface

namespace usb_endpoint_rp2350

/-- Address of the dual-port RAM `USB_DPRAM` of the RP2350 (`RP2350.h` is not
part of the sources); it has 4096 bytes. -/
def USB_DPRAM : Nat := 0x50100000

/-- The two statements "Align packet size to multiples of 64 byte" of the
constructor, on the `uint16_t` parameter `packet_size`. -/
def align_packet_size (packet_size : Nat) : Nat :=
  (if packet_size &&& 0x3f ≠ 0 then (packet_size + 64) % 65536 else packet_size) &&& 0xffc0

/-- The result of the constructor: the driver (lookup table and next free
buffer), the new endpoint object and the parent interface. -/
structure construction where
  driver : usb_dcd.state
  endpoint : usb_endpoint.state
  interface : Option usb_interface.state

/-- Constructor `usb_endpoint::usb_endpoint(addr, transfer_type, packet_size,
interval, interface)` of the base class, as far as the parent interface goes:
the endpoint is added to it, if there is one. `none` stands for the failing
assertion of `add_endpoint`. -/
def base_constructor (addr : Nat) (interface : Option usb_interface.state) :
    Option (Option usb_interface.state) :=
  match interface with
  | some i =>
    match usb_interface.add_endpoint i addr with
    | some j => some (some j)
    | none => none
  | none => some none

/-- The body of the constructor `usb_endpoint_rp2350::usb_endpoint_rp2350`;
`parent` is the parent interface the base class has left. `none` stands for a
failing assertion. The members the two constructors do not set are those of an
idle endpoint without handlers (`usb_endpoint.h` is not part of the
sources). -/
def body (d : usb_dcd.state) (addr transfer_type packet_size interval : Nat)
    (parent : Option usb_interface.state) : Option construction :=
  let size := align_packet_size packet_size
  let offset := ((addr &&& 0x0f) <<< 1) % 256
  let e : usb_endpoint.state :=
    { usb_endpoint.idle addr size with
      bmAttributes := transfer_type
      bInterval := interval
      data_handler := false
      _next_pid := 0
      _hw_buffer := if offset ≠ 0 then d._next_free_buffer else USB_DPRAM + 0x100
      _hw_buffer_size := size }
  if offset ≠ 0 then
    if d._next_free_buffer + size ≤ USB_DPRAM + 0x1000 then
      some
        { driver := { d with
            _next_free_buffer := d._next_free_buffer + size
            _endpoints := fun i dir =>
              if i = addr &&& 0x0f ∧ dir = addr >>> 7 then some e else d._endpoints i dir }
          endpoint := e
          interface := parent }
    else none   -- assert(_next_free_buffer <= (uint8_t *)&USB_DPRAM + 0x1000)
  else if size = 64 then
    some
      { driver := { d with
          _endpoints := fun i dir =>
            if i = addr &&& 0x0f ∧ dir = addr >>> 7 then some e else d._endpoints i dir }
        endpoint := e
        interface := parent }
  else none   -- assert(_hw_buffer_size == 64)

/-- Constructor `usb_endpoint_rp2350::usb_endpoint_rp2350(addr, transfer_type,
packet_size, interval, interface)`: the constructor of the base class, then the
body. The parameters `addr` and `interval` are `uint8_t`, `packet_size` is a
`uint16_t`. -/
def new (d : usb_dcd.state) (addr transfer_type packet_size interval : Nat)
    (interface : Option usb_interface.state) : Option construction :=
  match base_constructor (addr % 256) interface with
  | some parent =>
    body d (addr % 256) transfer_type (packet_size % 65536) (interval % 256) parent
  | none => none

/-- One construction of a sequence: the arguments of the constructor. -/
structure request where
  addr : Nat
  transfer_type : Nat
  packet_size : Nat
  interval : Nat
  interface : Option usb_interface.state

/-- A sequence of endpoint constructions: the driver it leaves and the
endpoints constructed, first to last; `none` once an assertion has failed. -/
def construct_all : List request → usb_dcd.state → Option (usb_dcd.state × List usb_endpoint.state)
  | [], d => some (d, [])
  | r :: rest, d =>
    match new d r.addr r.transfer_type r.packet_size r.interval r.interface with
    | some c =>
      match construct_all rest c.driver with
      | some (d1, es) => some (d1, c.endpoint :: es)
      | none => none
    | none => none

/-- The slice of the dual-port RAM an endpoint uses as its hardware buffer:
the addresses from `_hw_buffer` up to, but not including,
`_hw_buffer + _hw_buffer_size`. Two slices are disjoint if one of them is empty
or ends before the other one starts. -/
def disjoint_slices (e1 e2 : usb_endpoint.state) : Prop :=
  e1._hw_buffer_size = 0 ∨ e2._hw_buffer_size = 0 ∨
  e1._hw_buffer + e1._hw_buffer_size ≤ e2._hw_buffer ∨
  e2._hw_buffer + e2._hw_buffer_size ≤ e1._hw_buffer

instance (e1 e2 : usb_endpoint.state) : Decidable (disjoint_slices e1 e2) := by
  unfold disjoint_slices
  exact inferInstance

end usb_endpoint_rp2350

namespace usb_dcd

/-- Function `usb_dcd::addr_to_ep(addr)` of the driver; the parameter is a
`uint8_t`. -/
def addr_to_ep (d : state) (addr : Nat) : Option usb_endpoint.state :=
  d._endpoints ((addr % 256) &&& 0x0f) ((addr % 256) >>> 7)

/-- Function `usb_dcd::create_endpoint(direction, type, packet_size, interval,
interface)`: the loop over the 16 indexes returns with the first index whose
entry of the lookup table is null; `none` stands for the failing assertion
`assert(!"Could not find a free endpoint!")` and for a failing assertion of the
constructor. -/
def create_endpoint (d : state) (direction : TUPP.direction_t)
    (type packet_size interval : Nat) (interface : Option usb_interface.state) :
    Option usb_endpoint_rp2350.construction :=
  let dir := if direction = TUPP.direction_t.DIR_IN then 1 else 0
  match (List.range 16).find? (fun i => (d._endpoints i dir).isNone) with
  | some i => usb_endpoint_rp2350.new d (i ||| (dir <<< 7)) type packet_size interval interface
  | none => none

end usb_dcd

namespace usb_configuration

/-- The members of `usb_configuration` the control requests use. -/
structure state where
  /-- Field `_descriptor.bConfigurationValue`. -/
  bConfigurationValue : Nat
  /-- The array `_interfaces` of `TUPP_MAX_INTERF_PER_CONF` pointers. -/
  _interfaces : List (Option usb_interface.state)
  bLength : Nat := 9
  bDescriptorType : Nat := 2
  wTotalLength : Nat := 9
  bNumInterfaces : Nat := 0
  iConfiguration : Nat := 0
  /-- Bit field `_descriptor.bmAttributes.remote_wakeup`. -/
  remote_wakeup : Bool := false
  /-- Bit field `_descriptor.bmAttributes.self_powered`. -/
  self_powered : Bool := false
  /-- Bit field `_descriptor.bmAttributes.bus_powered`. -/
  bus_powered : Bool := true
  bMaxPower : Nat := 0
deriving DecidableEq, Repr

/-- Modelled from the spec: `usb_configuration.cpp` is not part of the sources;
"(De-)Activate all endpoints in this configuration": the endpoints of every
interface of the configuration, in the order of the interfaces. -/
def activate_endpoints (c : state) (b : Bool) (d : usb_dcd.state) : usb_dcd.state :=
  c._interfaces.foldl
    (fun d i =>
      match i with
      | some i => usb_interface.activate_endpoints i b d
      | none => d)
    d

/-- The addresses of the endpoints of a configuration, in the order in which
`activate_endpoints` visits them. -/
def endpoints (c : state) : List Nat :=
  (c._interfaces.filterMap id).flatMap (fun i => i._endpoints.filterMap id)

/-- Modelled from the spec: the layout of `TUPP::configuration_descriptor_t`
and of its bit field `bmAttributes` (`usb_structs.h` is not part of the
sources) is the one of the configuration descriptor "per USB 2.0 §9.6":
remote wakeup is bit 5, self powered bit 6 and bus powered bit 7 of
`bmAttributes`. -/
def descriptor_bytes (c : state) : List Nat :=
  [c.bLength % 256, c.bDescriptorType % 256, c.wTotalLength % 256,
   c.wTotalLength / 256 % 256, c.bNumInterfaces % 256, c.bConfigurationValue % 256,
   c.iConfiguration % 256,
   (if c.remote_wakeup then 32 else 0) + (if c.self_powered then 64 else 0) +
     (if c.bus_powered then 128 else 0),
   c.bMaxPower % 256]

/-- Modelled from the spec: `usb_configuration.cpp` is not part of the sources;
"DEVICE + feature 1 (device_remote_wakeup) → update attribute". -/
def set_remote_wakeup (c : state) (b : Bool) : state :=
  { c with remote_wakeup := b }

end usb_configuration

namespace usb_bos

/-- The members of `usb_bos`. A device capability is given by the bytes
`get_desc_ptr()` points to, whose number is `get_bLength()`. -/
structure state where
  bLength : Nat := 5
  bDescriptorType : Nat := 15
  wTotalLength : Nat := 5
  bNumDeviceCaps : Nat := 0
  /-- The array `_capabilities` of `TUPP_MAX_BOS_CAPABILITIES` pointers. -/
  _capabilities : List (Option (List Nat)) := [none, none]
deriving DecidableEq, Repr

/-- Modelled from the spec: the layout of `TUPP::bos_descriptor_t`
(`usb_structs.h` is not part of the sources) is the one of the BOS descriptor
"per USB 2.0 §9.6". -/
def descriptor_bytes (b : state) : List Nat :=
  [b.bLength % 256, b.bDescriptorType % 256, b.wTotalLength % 256,
   b.wTotalLength / 256 % 256, b.bNumDeviceCaps % 256]

/-- The loop of `usb_bos::prepare_descriptor` over the first `n` capabilities,
starting at index `i`. `none` stands for a failing assertion, a null pointer
dereferenced or an index beyond the array. -/
def copy_capabilities (b : state) (size : Nat) : Nat → Nat → List Nat → Option (List Nat)
  | 0, _, written => some written
  | n + 1, i, written =>
    match b._capabilities[i]? with
    | some (some cap) =>
      match usb_interface.copy_checked size written cap with
      | some w => copy_capabilities b size n (i + 1) w
      | none => none
    | _ => none

/-- Function `usb_bos::prepare_descriptor(buffer, size)`: the bytes it writes
to `buffer`, whose number it returns. -/
def prepare_descriptor (b : state) (size : Nat) : Option (List Nat) :=
  match usb_interface.copy_checked size [] (descriptor_bytes b) with
  | some w => copy_capabilities b size (b.bNumDeviceCaps % 256) 0 w
  | none => none

/-- The loop of `usb_bos::set_total_length` over the first `n` capabilities,
starting at index `i`; `len` is a `uint16_t`. `none` stands for a null pointer
dereferenced or an index beyond the array. -/
def total_length (b : state) : Nat → Nat → Nat → Option Nat
  | 0, _, len => some len
  | n + 1, i, len =>
    match b._capabilities[i]? with
    | some (some cap) => total_length b n (i + 1) ((len + cap.length) % 65536)
    | _ => none

/-- Function `usb_bos::set_total_length()`. -/
def set_total_length (b : state) : Option state :=
  match total_length b (b.bNumDeviceCaps % 256) 0 TUPP.sizeof_bos_descriptor_t with
  | some len => some { b with wTotalLength := len }
  | none => none

/-- Function `usb_bos::add_capability(cap)`, with `cap` given by the bytes of
the capability descriptor. -/
def add_capability (b : state) (cap : List Nat) : Option state :=
  let i := b._capabilities.findIdx (fun c => c.isNone)
  if i = TUPP.TUPP_MAX_BOS_CAPABILITIES then none   -- assert
  else
    set_total_length { b with
      _capabilities := b._capabilities.set i (some cap)
      bNumDeviceCaps := i + 1 }

/-- Constructor `usb_bos::usb_bos(device)`: the zeroed descriptor gets its
length and type, and `set_total_length()` is called. The call
`device.add_bos(this)` acts on the device only. -/
def constructed : Option state :=
  set_total_length
    { bLength := TUPP.sizeof_bos_descriptor_t
      bDescriptorType := TUPP.DESC_BOS
      wTotalLength := 0
      bNumDeviceCaps := 0
      _capabilities := List.replicate TUPP.TUPP_MAX_BOS_CAPABILITIES none }

/-- The calls `add_capability(c)` for the capabilities `c` of a list, first to
last; `none` once an assertion has failed. -/
def add_capabilities : List (List Nat) → state → Option state
  | [], b => some b
  | c :: rest, b =>
    match add_capability b c with
    | some b1 => add_capabilities rest b1
    | none => none

end usb_bos

namespace usb_device

/-- The members of `usb_device` the control requests use. -/
structure state where
  /-- The array `_configurations` of `TUPP_MAX_CONF_PER_DEVICE` pointers. -/
  _configurations : List (Option usb_configuration.state)
  /-- Address of the member `_descriptor`. -/
  addr_descriptor : Nat := 0x20000100
  /-- Field `_descriptor.bLength`, set by the constructor. -/
  bLength : Nat := 18
  /-- Field `_descriptor.bDescriptorType`, set by the constructor. -/
  bDescriptorType : Nat := 1
  bcdUSB : Nat := 0
  bDeviceClass : Nat := 0
  bDeviceSubClass : Nat := 0
  bDeviceProtocol : Nat := 0
  bMaxPacketSize0 : Nat := 0
  idVendor : Nat := 0
  idProduct : Nat := 0
  bcdDevice : Nat := 0
  iManufacturer : Nat := 0
  iProduct : Nat := 0
  iSerialNumber : Nat := 0
  bNumConfigurations : Nat := 0
  /-- The pointer `_bos` with the object it points to. -/
  _bos : Option usb_bos.state := none
  /-- Whether the `setup_handler` slot holds a callable. -/
  setup_handler : Bool := false
deriving DecidableEq, Repr

/-- Modelled from the spec: the layout of `TUPP::device_descriptor_t`
(`usb_structs.h` is not part of the sources) is the one of the device
descriptor "per USB 2.0 §9.6", "[0x12, 0x01, <bcdUSB lo>, <bcdUSB hi>, 0x00,
0x00, 0x00, 64]". -/
def descriptor_bytes (d : state) : List Nat :=
  [d.bLength % 256, d.bDescriptorType % 256, d.bcdUSB % 256, d.bcdUSB / 256 % 256,
   d.bDeviceClass % 256, d.bDeviceSubClass % 256, d.bDeviceProtocol % 256,
   d.bMaxPacketSize0 % 256, d.idVendor % 256, d.idVendor / 256 % 256,
   d.idProduct % 256, d.idProduct / 256 % 256, d.bcdDevice % 256, d.bcdDevice / 256 % 256,
   d.iManufacturer % 256, d.iProduct % 256, d.iSerialNumber % 256,
   d.bNumConfigurations % 256]

/-- Constructor `usb_device::usb_device()`: no configuration, no BOS, the
descriptor zeroed except for its length and type. -/
def constructed : state :=
  { _configurations := List.replicate TUPP.TUPP_MAX_CONF_PER_DEVICE none }

/-- Function `usb_device::add_configuration(config)`. -/
def add_configuration (d : state) (config : usb_configuration.state) : Option state :=
  let i := d._configurations.findIdx (fun c => c.isNone)
  if i = TUPP.TUPP_MAX_CONF_PER_DEVICE then none   -- assert
  else
    some { d with
      _configurations := d._configurations.set i (some config)
      bNumConfigurations := i + 1 }

/-- Function `usb_device::find_configuration(i)`: the first configuration with
the value `i`; `none` stands for the failing `assert(!"Configuration not
found")`. -/
def find_configuration (d : state) (i : Nat) : Option usb_configuration.state :=
  (d._configurations.filterMap id).find? (fun c => c.bConfigurationValue = i)

end usb_device

namespace usb_device

/-- The expression `configurations[k]->interfaces[i]`. `none` stands for
undefined behaviour: an index beyond one of the two arrays, or the null pointer
`configurations[k]` dereferenced; otherwise the result is the pointer found,
which may be null. -/
def interface_at (d : state) (k i : Nat) : Option (Option usb_interface.state) :=
  match d._configurations[k]? with
  | some (some conf) => conf._interfaces[i]?
  | _ => none

/-- The device after an assignment to the object `*configurations[k]->interfaces[i]`. -/
def set_interface_at (d : state) (k i : Nat) (x : usb_interface.state) : state :=
  match d._configurations[k]? with
  | some (some conf) =>
    { d with _configurations :=
        d._configurations.set k (some { conf with _interfaces := conf._interfaces.set i (some x) }) }
  | _ => d

/-- The array of configurations after a member function `f` that changes the
object was called through the pointer `find_configuration(i)` returns. -/
def update_configuration (f : usb_configuration.state → usb_configuration.state) (i : Nat) :
    List (Option usb_configuration.state) → List (Option usb_configuration.state)
  | [] => []
  | none :: rest => none :: update_configuration f i rest
  | some c :: rest =>
    if c.bConfigurationValue = i then some (f c) :: rest
    else some c :: update_configuration f i rest

/-- The alternate setting of interface `i` of the configuration whose
`bConfigurationValue` is `value`, if the device has such a configuration and
the configuration such an interface. -/
def alternate_setting (d : state) (value i : Nat) : Option Nat :=
  match find_configuration d value with
  | some conf =>
    match conf._interfaces[i]? with
    | some (some x) => some x.bAlternateSetting
    | _ => none
  | none => none

/-- The calls `add_configuration(c)` for the configurations `c` of a list,
first to last; `none` once an assertion has failed. -/
def add_configurations (d : state) : List usb_configuration.state → Option state
  | [] => some d
  | c :: rest =>
    match add_configuration d c with
    | some d1 => add_configurations d1 rest
    | none => none

end usb_device

namespace usb_device_controller

open TUPP

/-- The objects that have a `setup_handler` slot: the device, interface
`index` of the configuration with the value `value`, and the endpoint at
`_endpoints[index][direction]` of the driver. -/
inductive handler_id where
  | device
  | interface (value index : Nat)
  | endpoint (index direction : Nat)
deriving DecidableEq, Repr

/-- The members of `usb_device_controller` the control requests use. -/
structure state where
  _driver : usb_dcd.state
  _device : usb_device.state
  _ep0_in : usb_endpoint.state
  _ep0_out : usb_endpoint.state
  _active_configuration : Nat
  /-- Address of the member `_active_configuration`. -/
  addr_active_configuration : Nat
  /-- The scratch buffer `_buf` of `TUPP_MAX_DESC_SIZE` bytes. -/
  _buf : List Nat := List.replicate 256 0
  /-- Address of the member `_buf`. -/
  addr_buf : Nat := 0x20001000
  /-- Address of the local variable `data` of `handle_get_status`. -/
  addr_data : Nat := 0x20002000
  /-- Trace: the objects whose setup handler was invoked, oldest first. -/
  forwarded : List handler_id := []

/-- The user code the controller calls: the callables in the `setup_handler`
slots of the device, the interfaces and the endpoints, and the string table
(`usb_strings.cpp` is not part of the sources) given by the bytes
`prepare_string_desc_utf16(index, _buf)` writes to the buffer, whose number is
its result. -/
structure request_handlers where
  device_setup_handler : setup_packet_t → state → Option state
  /-- The handler of interface `index` of the configuration with the value
  `value`. -/
  interface_setup_handler : Nat → Nat → setup_packet_t → state → Option state
  /-- The handler of the endpoint at `_endpoints[index][direction]`. -/
  endpoint_setup_handler : Nat → Nat → setup_packet_t → state → Option state
  prepare_string_desc_utf16 : Nat → List Nat

/-- Function `usb_dcd::addr_to_ep(addr)` with the object the pointer points
to; the parameter is a `uint8_t`. The entries of index 0 are `_ep0_out` and
`_ep0_in`, created by the constructor of the controller. -/
def addr_to_ep (c : state) (addr : Nat) : Option usb_endpoint.state :=
  if (addr % 256) &&& 0x0f = 0 then
    if (addr % 256) >>> 7 = 0 then some c._ep0_out else some c._ep0_in
  else c._driver._endpoints ((addr % 256) &&& 0x0f) ((addr % 256) >>> 7)

/-- The controller after the endpoint object `addr_to_ep(addr)` points to has
become `e`. -/
def set_ep (c : state) (addr : Nat) (e : usb_endpoint.state) : state :=
  if (addr % 256) &&& 0x0f = 0 then
    if (addr % 256) >>> 7 = 0 then { c with _ep0_out := e } else { c with _ep0_in := e }
  else
    { c with _driver := { c._driver with
        _endpoints := fun i d =>
          if i = (addr % 256) &&& 0x0f ∧ d = (addr % 256) >>> 7 then some e
          else c._driver._endpoints i d } }

/-- A call of the callable in the `setup_handler` slot of the object `id`. -/
def invoke (o : request_handlers) (id : handler_id) (pkt : setup_packet_t) (c : state) :
    Option state :=
  match id with
  | handler_id.device =>
    o.device_setup_handler pkt { c with forwarded := c.forwarded ++ [id] }
  | handler_id.interface value index =>
    o.interface_setup_handler value index pkt { c with forwarded := c.forwarded ++ [id] }
  | handler_id.endpoint index direction =>
    o.endpoint_setup_handler index direction pkt { c with forwarded := c.forwarded ++ [id] }

/-- The two calls `_ep0_in->send_stall(true); _ep0_out->send_stall(true);`. -/
def stall_ep0 (c : state) : state :=
  { c with
    _ep0_in := usb_endpoint.send_stall c._ep0_in true
    _ep0_out := usb_endpoint.send_stall c._ep0_out true }

/-- The status stage `_ep0_in->send_zlp_data1();`. -/
def send_status (c : state) : Option state :=
  match usb_endpoint.send_zlp_data1 c._ep0_in with
  | some e => some { c with _ep0_in := e }
  | none => none

/-- Function `usb_device_controller::handle_set_address`. -/
def handle_set_address (pkt : setup_packet_t) (c : state) : Option state :=
  if pkt.direction ≠ direction_t.DIR_OUT then none   -- assert
  else if pkt.recipient ≠ recipient_t.REC_DEVICE then none   -- assert
  else if pkt.wIndex ≠ 0 then none   -- assert
  else if pkt.wLength ≠ 0 then none   -- assert
  else send_status { c with _driver := usb_dcd.set_address c._driver (pkt.wValue &&& 0xff) }

/-- Function `usb_device_controller::handle_set_descriptor`. -/
def handle_set_descriptor (pkt : setup_packet_t) (c : state) : Option state :=
  if pkt.direction ≠ direction_t.DIR_OUT then none   -- assert
  else if pkt.recipient ≠ recipient_t.REC_DEVICE then none   -- assert
  else some (stall_ep0 c)

/-- Function `usb_device_controller::handle_get_configuration`. -/
def handle_get_configuration (pkt : setup_packet_t) (c : state) : Option state :=
  if pkt.direction ≠ direction_t.DIR_IN then none   -- assert
  else if pkt.recipient ≠ recipient_t.REC_DEVICE then none   -- assert
  else
    match usb_endpoint.start_transfer_object c._ep0_in c.addr_active_configuration
        [c._active_configuration] 1 with
    | some e => some { c with _ep0_in := e }
    | none => none

/-- The block "De-activate current configuration" of `handle_set_configuration`.
`find_configuration` either returns a configuration or fails its assertion. -/
def deactivate_current (c : state) : Option state :=
  if c._active_configuration ≠ 0 then
    match usb_device.find_configuration c._device c._active_configuration with
    | some conf =>
      some { c with
        _driver := usb_configuration.activate_endpoints conf false c._driver
        _active_configuration := 0 }
    | none => none
  else some c

/-- The block `if (index) ...` of `handle_set_configuration`. -/
def activate_new (index : Nat) (c : state) : Option state :=
  if index ≠ 0 then
    match usb_device.find_configuration c._device index with
    | some conf =>
      some { c with
        _driver := usb_configuration.activate_endpoints conf true c._driver
        _active_configuration := index }
    | none => none
  else some c

/-- Function `usb_device_controller::handle_set_configuration`. -/
def handle_set_configuration (pkt : setup_packet_t) (c : state) : Option state :=
  if pkt.direction ≠ direction_t.DIR_OUT then none   -- assert
  else if pkt.recipient ≠ recipient_t.REC_DEVICE then none   -- assert
  else
    let index := pkt.wValue &&& 0xff
    let changed : Option state :=
      if c._active_configuration ≠ index then
        (deactivate_current c).bind (activate_new index)
      else some c
    changed.bind send_status

/-- Function `usb_device_controller::handle_get_interface`. -/
def handle_get_interface (pkt : setup_packet_t) (c : state) : Option state :=
  if pkt.direction ≠ direction_t.DIR_IN then none   -- assert
  else if pkt.recipient ≠ recipient_t.REC_INTERFACE then none   -- assert
  else
    let index := pkt.wIndex &&& 0xff
    if c._active_configuration ≠ 0 then
      match usb_device.interface_at c._device c._active_configuration index with
      | some (some interface) =>
        match usb_endpoint.start_transfer_object c._ep0_in interface.addr_bAlternateSetting
            [interface.bAlternateSetting] 1 with
        | some e => some { c with _ep0_in := e }
        | none => none
      | some none => some (stall_ep0 c)
      | none => none
    else some (stall_ep0 c)

/-- Function `usb_device_controller::handle_set_interface`. -/
def handle_set_interface (pkt : setup_packet_t) (c : state) : Option state :=
  if pkt.direction ≠ direction_t.DIR_OUT then none   -- assert
  else if pkt.recipient ≠ recipient_t.REC_INTERFACE then none   -- assert
  else
    let index := pkt.wIndex &&& 0xff
    let updated : Option state :=
      if c._active_configuration ≠ 0 then
        match usb_device.interface_at c._device c._active_configuration index with
        | some (some interface) =>
          some { c with
            _device := usb_device.set_interface_at c._device c._active_configuration index
              (usb_interface.set_bAlternateSetting interface (pkt.wValue &&& 0xff)) }
        | some none => some c
        | none => none
      else some c
    updated.bind send_status

/-- The call `_ep0_in->start_transfer(_buf, len)` after the bytes `written`
were written to the start of `_buf`; `none` if they do not fit into the
buffer. -/
def transfer_buf (c : state) (written : List Nat) (len : Nat) : Option state :=
  if written.length > c._buf.length then none
  else
    match usb_endpoint.start_transfer_object c._ep0_in c.addr_buf
        (written ++ c._buf.drop written.length) len with
    | some e => some { c with _buf := written ++ c._buf.drop written.length, _ep0_in := e }
    | none => none

/-- The loop of `handle_get_descriptor` over `conf->interfaces`; `written` are
the bytes between `_buf` and `tmp_ptr`. The second argument of
`prepare_descriptor` is a `uint16_t`. -/
def copy_interfaces (deref : Nat → Option usb_endpoint.state) :
    List (Option usb_interface.state) → List Nat → Option (List Nat)
  | [], written => some written
  | none :: rest, written => copy_interfaces deref rest written
  | some i :: rest, written =>
    match usb_interface.prepare_descriptor i deref
        ((TUPP_MAX_DESC_SIZE + 65536 - written.length) % 65536) with
    | some x => copy_interfaces deref rest (written ++ x)
    | none => none

/-- Function `usb_device_controller::handle_get_descriptor`. -/
def handle_get_descriptor (o : request_handlers) (pkt : setup_packet_t) (c : state) :
    Option state :=
  if pkt.direction ≠ direction_t.DIR_IN then none   -- assert
  else if pkt.recipient ≠ recipient_t.REC_DEVICE then none   -- assert
  else
    let desc_index := pkt.wValue &&& 0xff
    let desc_type := pkt.wValue >>> 8
    if desc_type = DESC_DEVICE then
      let len := if pkt.wLength < c._device.bLength then pkt.wLength else c._device.bLength
      match usb_endpoint.start_transfer_object c._ep0_in c._device.addr_descriptor
          (usb_device.descriptor_bytes c._device) len with
      | some e => some { c with _ep0_in := e }
      | none => none
    else if desc_type = DESC_CONFIGURATION then
      match c._device._configurations[desc_index]? with
      | some (some conf) =>
        if pkt.wLength < sizeof_configuration_descriptor_t then none   -- assert
        else
          let written : Option (List Nat) :=
            if pkt.wLength ≥ conf.wTotalLength then
              copy_interfaces (addr_to_ep c) conf._interfaces
                (usb_configuration.descriptor_bytes conf)
            else some (usb_configuration.descriptor_bytes conf)
          match written with
          | some w =>
            if w.length % 65536 > pkt.wLength then none   -- assert(len <= pkt->wLength)
            else transfer_buf c w (w.length % 65536)
          | none => none
      | some none => some (stall_ep0 c)
      | none => none   -- index beyond the array
    else if desc_type = DESC_STRING then
      let written := o.prepare_string_desc_utf16 desc_index
      let len := written.length % 256
      transfer_buf c written (if len > pkt.wLength then pkt.wLength else len)
    else if desc_type = DESC_OTG then some (stall_ep0 c)
    else if desc_type = DESC_DEBUG then some (stall_ep0 c)
    else if desc_type = DESC_BOS then
      match c._device._bos with
      | some bos =>
        match usb_bos.prepare_descriptor bos TUPP_MAX_DESC_SIZE with
        | some w =>
          transfer_buf c w
            (if pkt.wLength < w.length % 65536 then pkt.wLength else w.length % 65536)
        | none => none
      | none => some (stall_ep0 c)
    else if desc_type = DESC_DEVICE_QUALIFIER then some (stall_ep0 c)
    else some (stall_ep0 c)

/-- Function `usb_device_controller::handle_synch_frame`. -/
def handle_synch_frame (o : request_handlers) (pkt : setup_packet_t) (c : state) :
    Option state :=
  if pkt.direction ≠ direction_t.DIR_IN then none   -- assert
  else if pkt.recipient ≠ recipient_t.REC_ENDPOINT then none   -- assert
  else
    let addr := pkt.wIndex &&& 0xff
    match addr_to_ep c addr with
    | some ep =>
      if ep.setup_handler then
        invoke o (handler_id.endpoint ((addr % 256) &&& 0x0f) ((addr % 256) >>> 7)) pkt c
      else some c
    | none => some c

/-- The value of the local variable `data` of `handle_get_status` at the call
of `start_transfer`; `none` stands for the failing assertion of
`find_configuration`. -/
def get_status_data (pkt : setup_packet_t) (c : state) : Option Nat :=
  match pkt.recipient with
  | recipient_t.REC_DEVICE =>
    match usb_device.find_configuration c._device c._active_configuration with
    | some config =>
      some ((0 ||| (if config.self_powered then 1 else 0)) |||
        (if config.remote_wakeup then 2 else 0))
    | none => none
  | recipient_t.REC_INTERFACE => some 0
  | recipient_t.REC_ENDPOINT =>
    match addr_to_ep c pkt.wIndex with
    | some ep => some (if usb_endpoint.is_stalled ep then 1 else 0)
    | none => some 0
  | _ => some 0

/-- Function `usb_device_controller::handle_get_status`. -/
def handle_get_status (pkt : setup_packet_t) (c : state) : Option state :=
  if pkt.direction ≠ direction_t.DIR_IN then none   -- assert
  else if pkt.wValue ≠ 0 then none   -- assert
  else if pkt.wLength ≠ 2 then none   -- assert
  else
    match get_status_data pkt c with
    | some data =>
      match usb_endpoint.start_transfer_object c._ep0_in c.addr_data (le16_bytes data) 2 with
      | some e => some { c with _ep0_in := e }
      | none => none
    | none => none

/-- The `switch` of `handle_clear_feature` (`b = false`) and of
`handle_set_feature` (`b = true`), which differ in the argument of
`set_remote_wakeup` and `send_stall` only. -/
def change_feature (b : Bool) (pkt : setup_packet_t) (c : state) : Option state :=
  match pkt.recipient with
  | recipient_t.REC_DEVICE =>
    if pkt.wValue = 1 then
      match usb_device.find_configuration c._device c._active_configuration with
      | some _ =>
        some { c with
          _device := { c._device with
            _configurations :=
              usb_device.update_configuration
                (fun config => usb_configuration.set_remote_wakeup config b)
                c._active_configuration c._device._configurations } }
      | none => none
    else some c
  | recipient_t.REC_ENDPOINT =>
    if pkt.wValue = 0 then
      match addr_to_ep c pkt.wIndex with
      | some ep => some (set_ep c pkt.wIndex (usb_endpoint.send_stall ep b))
      | none => some c
    else some c
  | _ => some c

/-- Function `usb_device_controller::handle_clear_feature`. -/
def handle_clear_feature (pkt : setup_packet_t) (c : state) : Option state :=
  if pkt.direction ≠ direction_t.DIR_OUT then none   -- assert
  else (change_feature false pkt c).bind send_status

/-- Function `usb_device_controller::handle_set_feature`. -/
def handle_set_feature (pkt : setup_packet_t) (c : state) : Option state :=
  if pkt.direction ≠ direction_t.DIR_OUT then none   -- assert
  else (change_feature true pkt c).bind send_status

/-- The `else` branch of the setup handler: a request that is not of type
`TYPE_STANDARD` is forwarded to the setup handler of its recipient. -/
def forward (o : request_handlers) (pkt : setup_packet_t) (c : state) : Option state :=
  match pkt.recipient with
  | recipient_t.REC_DEVICE =>
    if c._device.setup_handler then invoke o handler_id.device pkt c else some c
  | recipient_t.REC_INTERFACE =>
    match usb_device.find_configuration c._device c._active_configuration with
    | some config =>
      match config._interfaces[pkt.wIndex]? with
      | some (some interface) =>
        if interface.setup_handler then
          invoke o (handler_id.interface config.bConfigurationValue pkt.wIndex) pkt c
        else some c
      | some none => some c
      | none => none   -- index beyond the array
    | none => none   -- assert of find_configuration
  | recipient_t.REC_ENDPOINT =>
    match addr_to_ep c pkt.wIndex with
    | some ep =>
      if ep.setup_handler then
        invoke o (handler_id.endpoint ((pkt.wIndex % 256) &&& 0x0f) ((pkt.wIndex % 256) >>> 7))
          pkt c
      else some c
    | none => some c
  | _ => some c

/-- The part of the setup handler that follows the reset of EP0: the switch
over the standard requests and the forwarding of the other requests. -/
def dispatch (o : request_handlers) (pkt : setup_packet_t) (c : state) : Option state :=
  if pkt.type = type_t.TYPE_STANDARD then
    if pkt.bRequest = REQ_SET_ADDRESS then handle_set_address pkt c
    else if pkt.bRequest = REQ_GET_DESCRIPTOR then handle_get_descriptor o pkt c
    else if pkt.bRequest = REQ_SET_DESCRIPTOR then handle_set_descriptor pkt c
    else if pkt.bRequest = REQ_GET_CONFIGURATION then handle_get_configuration pkt c
    else if pkt.bRequest = REQ_SET_CONFIGURATION then handle_set_configuration pkt c
    else if pkt.bRequest = REQ_GET_INTERFACE then handle_get_interface pkt c
    else if pkt.bRequest = REQ_SET_INTERFACE then handle_set_interface pkt c
    else if pkt.bRequest = REQ_SYNCH_FRAME then handle_synch_frame o pkt c
    else if pkt.bRequest = REQ_GET_STATUS then handle_get_status pkt c
    else if pkt.bRequest = REQ_CLEAR_FEATURE then handle_clear_feature pkt c
    else if pkt.bRequest = REQ_SET_FEATURE then handle_set_feature pkt c
    else some c   -- default: a warning is logged
  else forward o pkt c

/-- The handler `_driver.bus_reset_handler` installed by the constructor.
`find_configuration` either returns a configuration or fails its assertion. -/
def bus_reset_handler (c : state) : Option state :=
  let c1 : state := { c with _driver := usb_dcd.reset_address c._driver }
  let c2 : Option state :=
    if c1._active_configuration ≠ 0 then
      match usb_device.find_configuration c1._device c1._active_configuration with
      | some conf =>
        some { c1 with _driver := usb_configuration.activate_endpoints conf false c1._driver }
      | none => none
    else some c1
  c2.map (fun c3 => { c3 with _active_configuration := 0 })

/-- The two calls `_ep0_in->reset(); _ep0_out->reset();` that open the setup
handler. -/
def reset_ep0 (c : state) : state :=
  { c with
    _ep0_in := usb_endpoint.reset c._ep0_in
    _ep0_out := usb_endpoint.reset c._ep0_out }

/-- The handler `_driver.setup_handler` installed by the constructor. -/
def setup_handler (o : request_handlers) (pkt : setup_packet_t) (c : state) : Option state :=
  dispatch o pkt (reset_ep0 c)

/-- An interface without alternate setting selected, with the given
endpoints. -/
def sample_interface (addr : Nat) (eps : List Nat) : usb_interface.state :=
  { addr_bAlternateSetting := addr
    bAlternateSetting := 0
    _endpoints := eps.map some ++ List.replicate (5 - eps.length) none }

/-- A configuration with the given value and interfaces. -/
def sample_configuration (value : Nat) (ifs : List usb_interface.state) :
    usb_configuration.state :=
  { bConfigurationValue := value
    _interfaces := ifs.map some ++ List.replicate (5 - ifs.length) none }

/-- A device with one configuration, of value 1, added first (slot 0): one
interface with the endpoints 0x81 and 0x01. -/
def single_configuration_device : usb_device.state :=
  { _configurations :=
      [some (sample_configuration 1 [sample_interface 0x20000300 [0x81, 0x01]]),
       none, none, none, none] }

/-- A device with two configurations: value 1 in slot 0 (one interface with
the endpoints 0x81 and 0x01) and value 2 in slot 1 (an interface with the
endpoints 0x82 and 0x02 and an interface with the endpoint 0x83). -/
def two_configuration_device : usb_device.state :=
  { _configurations :=
      [some (sample_configuration 1 [sample_interface 0x20000300 [0x81, 0x01]]),
       some (sample_configuration 2
         [sample_interface 0x20000400 [0x82, 0x02], sample_interface 0x20000500 [0x83]]),
       none, none, none] }

/-- A controller for the device `d` with the active configuration `active`,
idle EP0 endpoints and the driver as constructed. -/
def sample_controller (d : usb_device.state) (active : Nat) : state :=
  { _driver := usb_dcd.constructed
    _device := d
    _ep0_in := usb_endpoint.idle 0x80 64
    _ep0_out := usb_endpoint.idle 0x00 64
    _active_configuration := active
    addr_active_configuration := 0x20000200 }

/-- User code that leaves the controller as it is: setup handlers that return
at once, and an empty string table. -/
def idle_handlers : request_handlers :=
  { device_setup_handler := fun _ c => some c
    interface_setup_handler := fun _ _ _ c => some c
    endpoint_setup_handler := fun _ _ _ c => some c
    prepare_string_desc_utf16 := fun _ => [] }

/-- A controller of the device with one configuration whose configuration 1 is
active: the device has the address `addr` and the endpoints 0x81 and 0x01 of
the configuration are enabled. -/
def configured_controller (addr : Nat) : state :=
  { sample_controller single_configuration_device 1 with
    _driver :=
      { usb_dcd.constructed with
        ADDRESS := addr
        ENABLE := fun a => a = 0x81 ∨ a = 0x01 } }

/-- The device with one configuration and a device descriptor for USB 2.1 with
a packet size of 64 bytes on EP0. -/
def described_device : usb_device.state :=
  { single_configuration_device with
    bcdUSB := 0x0210
    bMaxPacketSize0 := 64
    idVendor := 0x2E8A
    idProduct := 0x000A
    bcdDevice := 0x0100
    iManufacturer := 1
    iProduct := 2
    iSerialNumber := 3
    bNumConfigurations := 1 }

/-- The controller with configuration 1 active whose driver holds the endpoint
objects of the endpoints 0x01 and 0x81; the endpoint 0x81 is stalled. -/
def endpoint_controller : state :=
  { configured_controller 1 with
    _driver :=
      { (configured_controller 1)._driver with
        _endpoints := fun i d =>
          if i = 1 ∧ d = 0 then some (usb_endpoint.idle 0x01 64)
          else if i = 1 ∧ d = 1 then some { usb_endpoint.idle 0x81 64 with STALL := 1 }
          else none } }

/-- A controller of a device with a class driver: the device, interface 0 of
the active configuration 1 and the endpoint 0x81 hold a setup handler, the
endpoint 0x01 holds none. -/
def class_controller : state :=
  { _driver :=
      { usb_dcd.constructed with
        _endpoints := fun i d =>
          if i = 1 ∧ d = 0 then some (usb_endpoint.idle 0x01 64)
          else if i = 1 ∧ d = 1 then some { usb_endpoint.idle 0x81 64 with setup_handler := true }
          else none }
    _device :=
      { _configurations :=
          [some (sample_configuration 1
            [{ sample_interface 0x20000300 [0x81, 0x01] with setup_handler := true }]),
           none, none, none, none]
        setup_handler := true }
    _ep0_in := usb_endpoint.idle 0x80 64
    _ep0_out := usb_endpoint.idle 0x00 64
    _active_configuration := 1
    addr_active_configuration := 0x20000200 }

/-- The serialization of one interface in the words of the specification: "if
first in an association, the association descriptor, then the interface
descriptor, then each functional descriptor (in chain order), then each
endpoint descriptor (in insertion order)". -/
def spec_interface_serialization (deref : Nat → Option usb_endpoint.state)
    (i : usb_interface.state) : List Nat :=
  (match i._assoc_ptr with
    | some a => a.bytes
    | none => []) ++
  usb_interface.descriptor_bytes i ++
  i._fd_ptr.flatMap id ++
  ((i._endpoints.filterMap id).filterMap deref).flatMap usb_endpoint.descriptor_bytes

/-- The serialization of a configuration in the words of the specification:
"emit the configuration header, then for each interface (in insertion order)
emit" the serialization of the interface. -/
def spec_configuration_serialization (deref : Nat → Option usb_endpoint.state)
    (conf : usb_configuration.state) : List Nat :=
  usb_configuration.descriptor_bytes conf ++
  (conf._interfaces.filterMap id).flatMap (spec_interface_serialization deref)

/-- A configuration of two interfaces, the first one the first interface of an
association with two functional descriptors and the interrupt endpoint 0x82,
the second one with the bulk endpoints 0x81 and 0x01; its `wTotalLength` is the
length of its serialization, 65 bytes. -/
def cdc_configuration : usb_configuration.state :=
  { bConfigurationValue := 1
    _interfaces :=
      [some { addr_bAlternateSetting := 0x20000300
              bAlternateSetting := 0
              _endpoints := [some 0x82, none, none, none, none]
              bInterfaceNumber := 0
              bNumEndpoints := 1
              bInterfaceClass := 2
              bInterfaceSubClass := 2
              _assoc_ptr := some { bFirstInterface := 0, bInterfaceCount := 2,
                                   bFunctionClass := 2, bFunctionSubClass := 2 }
              _fd_ptr := [[5, 0x24, 0, 0x10, 0x01], [4, 0x24, 2, 2]] },
       some { addr_bAlternateSetting := 0x20000400
              bAlternateSetting := 0
              _endpoints := [some 0x81, some 0x01, none, none, none]
              bInterfaceNumber := 1
              bNumEndpoints := 2
              bInterfaceClass := 10 },
       none, none, none]
    wTotalLength := 65
    bNumInterfaces := 2
    bMaxPower := 50 }

/-- A controller of a device with the configuration `cdc_configuration` in slot
0, not configured; the driver holds the three endpoint objects. -/
def cdc_controller : state :=
  { _driver :=
      { usb_dcd.constructed with
        _endpoints := fun i d =>
          if i = 1 ∧ d = 0 then some { usb_endpoint.idle 0x01 64 with bmAttributes := 2 }
          else if i = 1 ∧ d = 1 then some { usb_endpoint.idle 0x81 64 with bmAttributes := 2 }
          else if i = 2 ∧ d = 1 then
            some { usb_endpoint.idle 0x82 8 with bmAttributes := 3, bInterval := 10 }
          else none }
    _device :=
      { _configurations := [some cdc_configuration, none, none, none, none]
        bNumConfigurations := 1 }
    _ep0_in := usb_endpoint.idle 0x80 64
    _ep0_out := usb_endpoint.idle 0x00 64
    _active_configuration := 0
    addr_active_configuration := 0x20000200 }

end usb_device_controller

/-! ## Endpoint transfer engine -/

namespace usb_endpoint

theorem sub16_of_le {a b : Nat} (hb : b ≤ a) (ha : a < 65536) : sub16 a b = a - b := by
  unfold sub16
  omega

theorem tupp_memcpy_inside (m : Nat → Nat) (dst src n i : Nat) (hi : i < n) :
    tupp_memcpy m dst src n (dst + i) = m (src + i) := by
  unfold tupp_memcpy
  have h : dst ≤ dst + i ∧ dst + i < dst + n := ⟨by omega, by omega⟩
  rw [if_pos h]
  congr 1
  omega

theorem tupp_memcpy_outside (m : Nat → Nat) (dst src n a : Nat)
    (ha : ¬ (dst ≤ a ∧ a < dst + n)) : tupp_memcpy m dst src n a = m a := by
  unfold tupp_memcpy
  rw [if_neg ha]

/-- On regions that do not overlap the byte loop and `tupp_memcpy` agree. -/
theorem tupp_memcpy_loop_eq :
    ∀ (n : Nat) (m : Nat → Nat) (dst src : Nat), (dst + n ≤ src ∨ src + n ≤ dst) →
      tupp_memcpy_loop m dst src n = tupp_memcpy m dst src n := by
  intro n
  induction n with
  | zero =>
    intro m dst src _
    funext a
    unfold tupp_memcpy_loop tupp_memcpy
    rw [if_neg (by omega)]
  | succ n ih =>
    intro m dst src hdis
    funext a
    unfold tupp_memcpy_loop
    rw [ih _ (dst + 1) (src + 1) (by omega)]
    unfold tupp_memcpy
    by_cases h1 : dst + 1 ≤ a ∧ a < dst + 1 + n
    · have h2 : dst ≤ a ∧ a < dst + (n + 1) := ⟨by omega, by omega⟩
      have h3 : ¬ (src + 1 + (a - (dst + 1)) = dst) := by omega
      have h4 : src + 1 + (a - (dst + 1)) = src + (a - dst) := by omega
      rw [if_pos h1, if_pos h2]
      rw [h4] at h3
      simp only [h4, if_neg h3]
    · rw [if_neg h1]
      by_cases h5 : a = dst
      · have h2 : dst ≤ a ∧ a < dst + (n + 1) := ⟨by omega, by omega⟩
        rw [if_pos h2]
        simp only [if_pos h5]
        congr 1
        omega
      · have h2 : ¬ (dst ≤ a ∧ a < dst + (n + 1)) := by omega
        rw [if_neg h2]
        simp only [if_neg h5]

/-- Length of the next chunk: `n > wMaxPacketSize ? wMaxPacketSize : n`. -/
theorem chunk_eq_min (n m : Nat) : (if n > m then m else n) = min n m := by
  split <;> omega

theorem trigger_transfer_busy (s : state) (n : Nat) (h : s.AVAILABLE_0 ≠ 0) :
    trigger_transfer s n = none := by
  simp [trigger_transfer, h]

theorem start_transfer_busy (s : state) (buf len : Nat) (h : s.AVAILABLE_0 ≠ 0) :
    start_transfer s buf len = none := by
  unfold start_transfer
  by_cases hact : s._active = true
  · simp [hact]
  · simp only [hact]
    by_cases hc : is_IN s = true ∧
        (if len > s.wMaxPacketSize then s.wMaxPacketSize else len) ≠ 0
    · have hc2 : is_IN { s with
          _active := true, _data_ptr := buf, _data_len := len, _current_ptr := buf,
          _bytes_left := len,
          _current_len := if len > s.wMaxPacketSize then s.wMaxPacketSize else len } = true ∧
          (if len > s.wMaxPacketSize then s.wMaxPacketSize else len) ≠ 0 := hc
      simp only [Bool.false_eq_true, if_false, if_pos hc2]
      exact trigger_transfer_busy _ _ h
    · have hc2 : ¬ (is_IN { s with
          _active := true, _data_ptr := buf, _data_len := len, _current_ptr := buf,
          _bytes_left := len,
          _current_len := if len > s.wMaxPacketSize then s.wMaxPacketSize else len } = true ∧
          (if len > s.wMaxPacketSize then s.wMaxPacketSize else len) ≠ 0) := hc
      simp only [Bool.false_eq_true, if_false, if_neg hc2]
      exact trigger_transfer_busy _ _ h

/-- The state `start_transfer` leaves, member by member. -/
theorem start_transfer_members (s t : state) (buf len : Nat)
    (h : start_transfer s buf len = some t) :
    s._active = false ∧ s.AVAILABLE_0 = 0 ∧
    t.bEndpointAddress = s.bEndpointAddress ∧ t.wMaxPacketSize = s.wMaxPacketSize ∧
    t._active = true ∧ t._data_ptr = buf ∧ t._data_len = len ∧
    t._current_len = min len s.wMaxPacketSize ∧
    t._hw_buffer = s._hw_buffer ∧ t.data_handler = s.data_handler ∧
    t._next_pid = s._next_pid ^^^ 1 ∧
    t.armed = s.armed ++ [⟨s._next_pid, min len s.wMaxPacketSize⟩] ∧
    t.handled = s.handled ∧
    t.AVAILABLE_0 = 1 ∧ t.PID_0 = s._next_pid ∧ t.LENGTH_0 = min len s.wMaxPacketSize ∧
    t.FULL_0 = (if is_IN s then 1 else 0) ∧
    t._bytes_left =
      (if is_IN s = true ∧ min len s.wMaxPacketSize ≠ 0
       then sub16 len (min len s.wMaxPacketSize) else len) ∧
    t._current_ptr =
      (if is_IN s = true ∧ min len s.wMaxPacketSize ≠ 0
       then buf + min len s.wMaxPacketSize else buf) ∧
    t.mem =
      (if is_IN s = true ∧ min len s.wMaxPacketSize ≠ 0
       then tupp_memcpy s.mem s._hw_buffer buf (min len s.wMaxPacketSize) else s.mem) := by
  have hav : s.AVAILABLE_0 = 0 := by
    by_contra hne
    rw [start_transfer_busy s buf len hne] at h
    cases h
  have hact : s._active = false := by
    cases hb : s._active
    · rfl
    · simp [start_transfer, hb] at h
  refine ⟨hact, hav, ?_⟩
  unfold start_transfer at h
  simp only [hact, Bool.false_eq_true, if_false, chunk_eq_min] at h
  by_cases hc : is_IN s = true ∧ min len s.wMaxPacketSize ≠ 0
  · have hc2 : is_IN { s with
        _active := true, _data_ptr := buf, _data_len := len, _current_ptr := buf,
        _bytes_left := len, _current_len := min len s.wMaxPacketSize } = true ∧
        min len s.wMaxPacketSize ≠ 0 := hc
    rw [if_pos hc2] at h
    simp only [trigger_transfer, hav, ne_eq, not_true_eq_false, if_false] at h
    have ht := Option.some.inj h
    subst ht
    have hI : is_IN s = true := hc.1
    simp [hc, is_IN, hI] at hI ⊢
    simp [hI]
  · have hc2 : ¬ (is_IN { s with
        _active := true, _data_ptr := buf, _data_len := len, _current_ptr := buf,
        _bytes_left := len, _current_len := min len s.wMaxPacketSize } = true ∧
        min len s.wMaxPacketSize ≠ 0) := hc
    rw [if_neg hc2] at h
    simp only [trigger_transfer, hav, ne_eq, not_true_eq_false, if_false] at h
    have ht := Option.some.inj h
    subst ht
    simp only [if_neg hc]
    simp [is_IN]


theorem handle_buffer_in_inactive (s : state) (n : Nat) (h : s._active = false) :
    handle_buffer_in s n = none := by
  simp [handle_buffer_in, h]

theorem handle_buffer_in_last (s : state) (n : Nat) (hact : s._active = true)
    (hz : s._bytes_left = 0) :
    handle_buffer_in s n = some { s with
      _active := false
      handled := if s.data_handler then s.handled ++ [(s._data_ptr, s._data_len)]
                 else s.handled } := by
  simp [handle_buffer_in, hact, hz]

theorem handle_buffer_in_next (s : state) (n : Nat) (hact : s._active = true)
    (hnz : s._bytes_left ≠ 0) (hav : s.AVAILABLE_0 = 0) :
    handle_buffer_in s n = some { s with
      _current_len := min s._bytes_left s.wMaxPacketSize
      mem := tupp_memcpy s.mem s._hw_buffer s._current_ptr (min s._bytes_left s.wMaxPacketSize)
      _bytes_left := sub16 s._bytes_left (min s._bytes_left s.wMaxPacketSize)
      _current_ptr := s._current_ptr + min s._bytes_left s.wMaxPacketSize
      PID_0 := s._next_pid
      FULL_0 := if is_IN s then 1 else 0
      LENGTH_0 := min s._bytes_left s.wMaxPacketSize
      _next_pid := s._next_pid ^^^ 1
      AVAILABLE_0 := 1
      armed := s.armed ++ [⟨s._next_pid, min s._bytes_left s.wMaxPacketSize⟩] } := by
  simp [handle_buffer_in, trigger_transfer, hact, hnz, hav, chunk_eq_min, is_IN]

theorem handle_buffer_in_busy (s : state) (n : Nat) (hnz : s._bytes_left ≠ 0)
    (hav : s.AVAILABLE_0 ≠ 0) : handle_buffer_in s n = none := by
  cases hact : s._active
  · exact handle_buffer_in_inactive s n hact
  · simp [handle_buffer_in, trigger_transfer, hact, hnz, hav]

theorem handle_buffer_out_inactive (s : state) (n : Nat) (h : s._active = false) :
    handle_buffer_out s n = none := by
  simp [handle_buffer_out, h]

theorem handle_buffer_out_last (s : state) (n : Nat) (hact : s._active = true)
    (hterm : sub16 s._bytes_left n = 0 ∨ n < s._current_len) :
    handle_buffer_out s n = some { s with
      mem := tupp_memcpy s.mem s._current_ptr s._hw_buffer n
      _bytes_left := sub16 s._bytes_left n
      _current_ptr := s._current_ptr + n
      _active := false
      handled :=
        if s.data_handler then
          s.handled ++ [(s._data_ptr, sub16 s._data_len (sub16 s._bytes_left n))]
        else s.handled } := by
  simp [handle_buffer_out, hact, hterm]

theorem handle_buffer_out_next (s : state) (n : Nat) (hact : s._active = true)
    (hterm : ¬ (sub16 s._bytes_left n = 0 ∨ n < s._current_len)) (hav : s.AVAILABLE_0 = 0) :
    handle_buffer_out s n = some { s with
      mem := tupp_memcpy s.mem s._current_ptr s._hw_buffer n
      _bytes_left := sub16 s._bytes_left n
      _current_ptr := s._current_ptr + n
      _current_len := min (sub16 s._bytes_left n) s.wMaxPacketSize
      PID_0 := s._next_pid
      FULL_0 := if is_IN s then 1 else 0
      LENGTH_0 := min (sub16 s._bytes_left n) s.wMaxPacketSize
      _next_pid := s._next_pid ^^^ 1
      AVAILABLE_0 := 1
      armed := s.armed ++ [⟨s._next_pid, min (sub16 s._bytes_left n) s.wMaxPacketSize⟩] } := by
  simp [handle_buffer_out, trigger_transfer, hact, hterm, hav, chunk_eq_min, is_IN]

theorem buffer_done_members (s : state) (rx : List Nat) :
    (buffer_done s rx).bEndpointAddress = s.bEndpointAddress ∧
    (buffer_done s rx).wMaxPacketSize = s.wMaxPacketSize ∧
    (buffer_done s rx)._active = s._active ∧
    (buffer_done s rx)._data_ptr = s._data_ptr ∧
    (buffer_done s rx)._data_len = s._data_len ∧
    (buffer_done s rx)._current_ptr = s._current_ptr ∧
    (buffer_done s rx)._bytes_left = s._bytes_left ∧
    (buffer_done s rx)._current_len = s._current_len ∧
    (buffer_done s rx)._next_pid = s._next_pid ∧
    (buffer_done s rx).armed = s.armed ∧
    (buffer_done s rx).handled = s.handled ∧
    (buffer_done s rx).AVAILABLE_0 = 0 := by
  unfold buffer_done
  split <;> simp

theorem buffer_done_is_IN (s : state) (rx : List Nat) :
    is_IN (buffer_done s rx) = is_IN s := by
  unfold is_IN
  rw [(buffer_done_members s rx).1]

theorem buffer_done_LENGTH_0 (s : state) (rx : List Nat) :
    (buffer_done s rx).LENGTH_0 = if is_IN s then s.LENGTH_0 else rx.length := by
  unfold buffer_done
  split <;> rfl

theorem buffer_completion_in (s : state) (rx : List Nat) (hdir : is_IN s = true) :
    buffer_completion s rx = handle_buffer_in (buffer_done s rx) s.LENGTH_0 := by
  unfold buffer_completion _process_buffer
  rw [buffer_done_is_IN, buffer_done_LENGTH_0, hdir]
  rfl

theorem buffer_completion_out (s : state) (rx : List Nat) (hdir : is_IN s = false) :
    buffer_completion s rx = handle_buffer_out (buffer_done s rx) rx.length := by
  unfold buffer_completion _process_buffer
  rw [buffer_done_is_IN, buffer_done_LENGTH_0, hdir]
  rfl

theorem buffer_completion_inactive (s : state) (rx : List Nat) (h : s._active = false) :
    buffer_completion s rx = none := by
  have hd : (buffer_done s rx)._active = false := by
    rw [(buffer_done_members s rx).2.2.1, h]
  cases hdir : is_IN s
  · rw [buffer_completion_out s rx hdir]
    exact handle_buffer_out_inactive _ _ hd
  · rw [buffer_completion_in s rx hdir]
    exact handle_buffer_in_inactive _ _ hd

theorem buffer_completion_active (s t : state) (rx : List Nat)
    (h : buffer_completion s rx = some t) : s._active = true := by
  cases hb : s._active
  · rw [buffer_completion_inactive s rx hb] at h
    cases h
  · rfl

theorem buffer_done_invariant (s : state) (rx : List Nat) (h : transfer_invariant s) :
    transfer_invariant (buffer_done s rx) := by
  obtain ⟨_, f2, _, f4, f5, f6, f7, f8, _⟩ := buffer_done_members s rx
  unfold transfer_invariant at h ⊢
  rw [buffer_done_is_IN, f2, f4, f5, f6, f7, f8]
  exact h

theorem handle_buffer_in_invariant (d t : state) (n : Nat) (hinv : transfer_invariant d)
    (hdir : is_IN d = true) (hav : d.AVAILABLE_0 = 0)
    (h : handle_buffer_in d n = some t) (hact : t._active = true) :
    transfer_invariant t := by
  obtain ⟨h1, h2, h3, h4, _⟩ := hinv
  have hdact : d._active = true := by
    cases hb : d._active
    · rw [handle_buffer_in_inactive d n hb] at h
      cases h
    · rfl
  by_cases hz : d._bytes_left = 0
  · rw [handle_buffer_in_last d n hdact hz] at h
    have ht := Option.some.inj h
    subst ht
    simp at hact
  · rw [handle_buffer_in_next d n hdact hz hav] at h
    have ht := Option.some.inj h
    subst ht
    have hsub : sub16 d._bytes_left (min d._bytes_left d.wMaxPacketSize)
        = d._bytes_left - min d._bytes_left d.wMaxPacketSize :=
      sub16_of_le (Nat.min_le_left _ _) (by omega)
    unfold transfer_invariant
    simp only [hsub]
    refine ⟨by omega, by omega, by omega, h4, fun hf => ?_⟩
    have : is_IN d = false := hf
    rw [hdir] at this
    cases this

theorem handle_buffer_out_invariant (d t : state) (n : Nat) (hinv : transfer_invariant d)
    (hdir : is_IN d = false) (hav : d.AVAILABLE_0 = 0) (hn : n ≤ d._current_len)
    (h : handle_buffer_out d n = some t) (hact : t._active = true) :
    transfer_invariant t := by
  obtain ⟨h1, h2, h3, h4, h5⟩ := hinv
  have h5 := h5 hdir
  have hdact : d._active = true := by
    cases hb : d._active
    · rw [handle_buffer_out_inactive d n hb] at h
      cases h
    · rfl
  by_cases hterm : sub16 d._bytes_left n = 0 ∨ n < d._current_len
  · rw [handle_buffer_out_last d n hdact hterm] at h
    have ht := Option.some.inj h
    subst ht
    simp at hact
  · rw [handle_buffer_out_next d n hdact hterm hav] at h
    have ht := Option.some.inj h
    subst ht
    have hsub : sub16 d._bytes_left n = d._bytes_left - n :=
      sub16_of_le (by omega) (by omega)
    unfold transfer_invariant
    simp only [hsub]
    refine ⟨by omega, by omega, by omega, h4, fun _ => by omega⟩

theorem start_transfer_invariant (s0 s : state) (buf len : Nat) (hlen : len < 65536)
    (h : start_transfer s0 buf len = some s) : transfer_invariant s := by
  obtain ⟨_, _, hb, hM, _, h3, h4, h5, _, _, _, _, _, _, _, _, _, hl, hp, _⟩ :=
    start_transfer_members s0 s buf len h
  have hdir : is_IN s = is_IN s0 := by
    simp [is_IN, hb]
  unfold transfer_invariant
  rw [hdir, hl, hp, h3, h4, h5, hM]
  by_cases hc : is_IN s0 = true ∧ min len s0.wMaxPacketSize ≠ 0
  · rw [if_pos hc, if_pos hc, sub16_of_le (Nat.min_le_left _ _) hlen]
    refine ⟨by omega, by omega, by omega, hlen, fun hf => ?_⟩
    rw [hc.1] at hf
    cases hf
  · rw [if_neg hc, if_neg hc]
    refine ⟨by omega, by omega, by omega, hlen, fun hf => by omega⟩

theorem buffer_completion_invariant (s t : state) (rx : List Nat)
    (hinv : transfer_invariant s)
    (hrx : is_IN s = false → rx.length ≤ s._current_len)
    (h : buffer_completion s rx = some t) (hact : t._active = true) :
    transfer_invariant t := by
  have hd := buffer_done_invariant s rx hinv
  have hav : (buffer_done s rx).AVAILABLE_0 = 0 := (buffer_done_members s rx).2.2.2.2.2.2.2.2.2.2.2
  have hcl : (buffer_done s rx)._current_len = s._current_len :=
    (buffer_done_members s rx).2.2.2.2.2.2.2.1
  cases hdir : is_IN s
  · rw [buffer_completion_out s rx hdir] at h
    refine handle_buffer_out_invariant _ t rx.length hd ?_ hav ?_ h hact
    · rw [buffer_done_is_IN, hdir]
    · rw [hcl]
      exact hrx hdir
  · rw [buffer_completion_in s rx hdir] at h
    refine handle_buffer_in_invariant _ t _ hd ?_ hav h hact
    rw [buffer_done_is_IN, hdir]

theorem reachable_invariant (s0 s : state) (h : reachable s0 s) :
    s._active = true → transfer_invariant s := by
  induction h with
  | start buf len s _ hlen hst => exact fun _ => start_transfer_invariant s0 s buf len hlen hst
  | step s rx t hreach hrx hstep ih =>
    intro hact
    have hsact : s._active = true := buffer_completion_active s t rx hstep
    exact buffer_completion_invariant s t rx (ih hsact) hrx hstep hact

/-- C1. Transfer-state invariant: in every state reached from an inactive
endpoint by `start_transfer(buf, len)` followed by any number of
buffer-completion events (on an OUT endpoint with a received length not larger
than the armed length), whenever `active = true` it holds that
`bytes_left + (current_ptr - data_ptr) = data_len` and
`current_len <= wMaxPacketSize`. -/
theorem transfer_state_invariant (s0 s : state) (h : reachable s0 s)
    (hact : s._active = true) :
    s._bytes_left + (s._current_ptr - s._data_ptr) = s._data_len ∧
    s._current_len ≤ s.wMaxPacketSize := by
  obtain ⟨_, h2, h3, _, _⟩ := reachable_invariant s0 s h hact
  exact ⟨h2, h3⟩

/-- Witness of C1: an IN endpoint of packet size 64 after the start of a
transfer of 100 bytes and one buffer-completion event. -/
theorem transfer_state_invariant_witness :
    ∃ s1 s2, start_transfer (idle 0x81 64) 0x20000000 100 = some s1 ∧
      buffer_completion s1 [] = some s2 ∧ s2._active = true ∧
      s2._bytes_left + (s2._current_ptr - s2._data_ptr) = s2._data_len ∧
      s2._current_len ≤ s2.wMaxPacketSize := by
  obtain ⟨s1, h1⟩ : ∃ s1, start_transfer (idle 0x81 64) 0x20000000 100 = some s1 := ⟨_, rfl⟩
  obtain ⟨s2, h2⟩ : ∃ s2, buffer_completion s1 [] = some s2 := by
    have e := Option.some.inj h1
    subst e
    exact ⟨_, rfl⟩
  have hact : s2._active = true := by
    have e1 := Option.some.inj h1
    subst e1
    have e2 := Option.some.inj h2
    subst e2
    rfl
  exact ⟨s1, s2, h1, h2, hact,
    transfer_state_invariant (idle 0x81 64) s2
      (reachable.step s1 [] s2
        (reachable.start 0x20000000 100 s1 rfl (by decide) h1)
        (fun _ => Nat.zero_le _) h2)
      hact⟩

theorem ceil_step (M b : Nat) (hM : 0 < M) (hb : 0 < b) :
    (b + M - 1) / M = (b - min b M + M - 1) / M + 1 := by
  by_cases h : b ≤ M
  · have h1 : min b M = b := Nat.min_eq_left h
    rw [h1, Nat.sub_self, Nat.zero_add, Nat.div_eq_of_lt (by omega : M - 1 < M)]
    exact Nat.div_eq_of_lt_le (by omega) (by omega)
  · have h1 : min b M = M := Nat.min_eq_right (by omega)
    rw [h1]
    have h2 : b + M - 1 = (b - M + M - 1) + M := by omega
    rw [h2, Nat.add_div_right _ hM]

theorem ceil_zero (M : Nat) (hM : 0 < M) : (0 + M - 1) / M = 0 := by
  rw [Nat.zero_add]
  exact Nat.div_eq_of_lt (by omega)

theorem xor_one_xor_one (p : Nat) : (p ^^^ 1) ^^^ 1 = p := by
  rw [Nat.xor_assoc, Nat.xor_self, Nat.xor_zero]

/-- The packets of a transfer, from the second one on, follow from the packets
of the shorter transfer that remains after the first packet. -/
theorem packets_succ (M b p k : Nat) :
    (List.range (k + 1)).map
        (fun i => (⟨if i % 2 = 0 then p else p ^^^ 1, min M (b - i * M)⟩ : packet))
      = ⟨p, min b M⟩ ::
        (List.range k).map
          (fun i => (⟨if i % 2 = 0 then p ^^^ 1 else (p ^^^ 1) ^^^ 1,
                      min M (b - min b M - i * M)⟩ : packet)) := by
  rw [List.range_succ_eq_map, List.map_cons, List.map_map]
  congr 1
  · simp [Nat.min_comm]
  · apply List.map_congr_left
    intro i _
    simp only [Function.comp, xor_one_xor_one]
    have hlen : min M (b - (i + 1) * M) = min M (b - min b M - i * M) := by
      by_cases h : b ≤ M
      · have h1 : min b M = b := Nat.min_eq_left h
        have h2 : M ≤ (i + 1) * M := Nat.le_mul_of_pos_left M (Nat.succ_pos i)
        rw [h1, Nat.sub_self, Nat.zero_sub, Nat.sub_eq_zero_of_le (by omega)]
      · have h1 : min b M = M := Nat.min_eq_right (by omega)
        rw [h1, Nat.succ_mul, Nat.sub_sub, Nat.add_comm]
    rw [hlen]
    by_cases hi : i % 2 = 0
    · have h2 : (i + 1) % 2 ≠ 0 := by omega
      simp [hi, h2]
    · have h2 : (i + 1) % 2 = 0 := by omega
      simp [hi, h2]

theorem buffer_completion_in_last (s : state) (rx : List Nat) (hdir : is_IN s = true)
    (hact : s._active = true) (hz : s._bytes_left = 0) :
    ∃ t, buffer_completion s rx = some t ∧ t._active = false ∧ t.armed = s.armed ∧
      t.handled = (if s.data_handler then s.handled ++ [(s._data_ptr, s._data_len)]
                   else s.handled) := by
  obtain ⟨_, _, f3, f4, f5, _, f7, _, _, f10, f11, _⟩ := buffer_done_members s rx
  have hdone : (buffer_done s rx).data_handler = s.data_handler := by
    unfold buffer_done
    split <;> rfl
  rw [buffer_completion_in s rx hdir,
    handle_buffer_in_last _ _ (by rw [f3, hact]) (by rw [f7, hz])]
  refine ⟨_, rfl, rfl, f10, ?_⟩
  simp only [hdone, f11, f4, f5]

theorem buffer_completion_in_next (s : state) (rx : List Nat) (hdir : is_IN s = true)
    (hact : s._active = true) (hnz : s._bytes_left ≠ 0) :
    ∃ t, buffer_completion s rx = some t ∧ t._active = true ∧ is_IN t = true ∧
      t.wMaxPacketSize = s.wMaxPacketSize ∧
      t._bytes_left = sub16 s._bytes_left (min s._bytes_left s.wMaxPacketSize) ∧
      t._next_pid = s._next_pid ^^^ 1 ∧
      t.armed = s.armed ++ [⟨s._next_pid, min s._bytes_left s.wMaxPacketSize⟩] := by
  obtain ⟨f1, f2, f3, _, _, _, f7, _, f9, f10, _, f12⟩ := buffer_done_members s rx
  rw [buffer_completion_in s rx hdir,
    handle_buffer_in_next _ _ (by rw [f3, hact]) (by rw [f7]; exact hnz) f12]
  refine ⟨_, rfl, ?_, ?_, ?_, ?_, ?_, ?_⟩
  · exact (by rw [f3, hact] : (buffer_done s rx)._active = true)
  · have h := buffer_done_is_IN s rx
    rw [hdir] at h
    exact h
  · exact f2
  · show sub16 (buffer_done s rx)._bytes_left
        (min (buffer_done s rx)._bytes_left (buffer_done s rx).wMaxPacketSize) = _
    rw [f7, f2]
  · show (buffer_done s rx)._next_pid ^^^ 1 = _
    rw [f9]
  · show (buffer_done s rx).armed ++
        [⟨(buffer_done s rx)._next_pid,
          min (buffer_done s rx)._bytes_left (buffer_done s rx).wMaxPacketSize⟩] = _
    rw [f10, f9, f7, f2]

theorem drive_in_inactive (fuel : Nat) (s : state) (h : s._active = false) :
    drive_in fuel s = some s := by
  cases fuel <;> simp [drive_in, h]

theorem drive_in_active (fuel : Nat) (s : state) (h : s._active = true) :
    drive_in (fuel + 1) s = (buffer_completion s []).bind (drive_in fuel) := by
  simp [drive_in, h]

/-- An active IN transfer with `b` bytes left ends after `ceil(b / M) + 1`
buffer-completion events; on the way the hardware is armed `ceil(b / M)` times,
with alternating PID. -/
theorem drive_in_packets (M : Nat) (hM : 0 < M) :
    ∀ (k : Nat) (s : state) (fuel : Nat),
      s._active = true → is_IN s = true → s.wMaxPacketSize = M →
      s._bytes_left < 65536 → (s._bytes_left + M - 1) / M = k → k + 1 ≤ fuel →
      ∃ t, drive_in fuel s = some t ∧ t._active = false ∧
        t.armed = s.armed ++ (List.range k).map
          (fun i => (⟨if i % 2 = 0 then s._next_pid else s._next_pid ^^^ 1,
                      min M (s._bytes_left - i * M)⟩ : packet)) := by
  intro k
  induction k with
  | zero =>
    intro s fuel hact hdir _ _ hk hf
    obtain ⟨f, rfl⟩ : ∃ f, fuel = f + 1 := ⟨fuel - 1, by omega⟩
    have hz : s._bytes_left = 0 := by
      by_contra hne
      have hc := ceil_step M s._bytes_left hM (Nat.pos_of_ne_zero hne)
      rw [hk] at hc
      exact Nat.succ_ne_zero _ hc.symm
    obtain ⟨t, h1, h2, h3, _⟩ := buffer_completion_in_last s [] hdir hact hz
    refine ⟨t, ?_, h2, ?_⟩
    · rw [drive_in_active f s hact, h1]
      exact drive_in_inactive f t h2
    · simp [h3]
  | succ k ih =>
    intro s fuel hact hdir hsM hlt hk hf
    obtain ⟨f, rfl⟩ : ∃ f, fuel = f + 1 := ⟨fuel - 1, by omega⟩
    have hnz : s._bytes_left ≠ 0 := by
      intro hz
      rw [hz, ceil_zero M hM] at hk
      cases hk
    obtain ⟨u, h1, h2, h3, h4, h5, h6, h7⟩ := buffer_completion_in_next s [] hdir hact hnz
    rw [hsM] at h5 h7
    have hsub : u._bytes_left = s._bytes_left - min s._bytes_left M := by
      rw [h5]
      exact sub16_of_le (Nat.min_le_left _ _) hlt
    have hk2 : (u._bytes_left + M - 1) / M = k := by
      have hc := ceil_step M s._bytes_left hM (Nat.pos_of_ne_zero hnz)
      rw [hk] at hc
      rw [hsub]
      exact (Nat.succ.inj hc).symm
    obtain ⟨t, g1, g2, g3⟩ :=
      ih u f h2 h3 (by rw [h4, hsM]) (by rw [hsub]; omega) hk2 (by omega)
    refine ⟨t, ?_, g2, ?_⟩
    · rw [drive_in_active f s hact, h1]
      exact g1
    · rw [g3, h7, h6, hsub, packets_succ M s._bytes_left s._next_pid k]
      simp

theorem start_transfer_some (s : state) (buf len : Nat) (hact : s._active = false)
    (hav : s.AVAILABLE_0 = 0) : ∃ t, start_transfer s buf len = some t := by
  simp only [start_transfer, trigger_transfer, hact, Bool.false_eq_true, if_false,
    apply_ite state.AVAILABLE_0, hav, ite_self, ne_eq, not_true_eq_false]
  exact ⟨_, rfl⟩

/-- C2 (amended). On an IN endpoint with packet size `M > 0`, a transfer of
`L` bytes started on an inactive endpoint and driven to its end by
buffer-completion events arms the hardware `ceil(L / M)` times if `L >= 1` and
once (a zero-length packet) if `L = 0`; the transfer is over after that many
events. Packet `i` carries `min(M, L - i * M)` bytes and the PIDs alternate,
the first one being the value `next_pid` had before the transfer. -/
theorem in_transfer_packets (s : state) (buf L fuel : Nat)
    (hdir : is_IN s = true) (hM : 0 < s.wMaxPacketSize) (hL : L < 65536)
    (hact : s._active = false) (hav : s.AVAILABLE_0 = 0)
    (hf : (if L = 0 then 1 else (L + s.wMaxPacketSize - 1) / s.wMaxPacketSize) ≤ fuel) :
    ∃ s1 t, start_transfer s buf L = some s1 ∧ drive_in fuel s1 = some t ∧
      t._active = false ∧
      t.armed = s.armed ++
        (List.range (if L = 0 then 1 else (L + s.wMaxPacketSize - 1) / s.wMaxPacketSize)).map
          (fun i => (⟨if i % 2 = 0 then s._next_pid else s._next_pid ^^^ 1,
                      min s.wMaxPacketSize (L - i * s.wMaxPacketSize)⟩ : packet)) ∧
      packets_armed s buf L fuel =
        some (if L = 0 then 1 else (L + s.wMaxPacketSize - 1) / s.wMaxPacketSize) := by
  obtain ⟨s1, h1⟩ := start_transfer_some s buf L hact hav
  obtain ⟨_, _, hb, hsM, h1act, _, _, _, _, _, hpid, harm, _, _, _, _, _, hleft, _, _⟩ :=
    start_transfer_members s s1 buf L h1
  have h1dir : is_IN s1 = true := by
    simp only [is_IN, hb]
    exact hdir
  have key : ∃ t, drive_in fuel s1 = some t ∧ t._active = false ∧
      t.armed = s.armed ++
        (List.range (if L = 0 then 1 else (L + s.wMaxPacketSize - 1) / s.wMaxPacketSize)).map
          (fun i => (⟨if i % 2 = 0 then s._next_pid else s._next_pid ^^^ 1,
                      min s.wMaxPacketSize (L - i * s.wMaxPacketSize)⟩ : packet)) := by
    by_cases hz : L = 0
    · subst hz
      rw [if_pos rfl] at hf ⊢
      have hl0 : s1._bytes_left = 0 := by
        rw [hleft]
        simp
      obtain ⟨t, g1, g2, g3⟩ :=
        drive_in_packets s.wMaxPacketSize hM 0 s1 fuel h1act h1dir hsM (by omega)
          (by rw [hl0]; exact ceil_zero _ hM) hf
      refine ⟨t, g1, g2, ?_⟩
      rw [g3, harm]
      simp [List.range_succ]
    · rw [if_neg hz] at hf ⊢
      have hc : is_IN s = true ∧ min L s.wMaxPacketSize ≠ 0 := ⟨hdir, by omega⟩
      have hl1 : s1._bytes_left = L - min L s.wMaxPacketSize := by
        rw [hleft, if_pos hc]
        exact sub16_of_le (Nat.min_le_left _ _) hL
      have hstep := ceil_step s.wMaxPacketSize L hM (Nat.pos_of_ne_zero hz)
      rw [hstep] at hf ⊢
      obtain ⟨t, g1, g2, g3⟩ :=
        drive_in_packets s.wMaxPacketSize hM _ s1 fuel h1act h1dir hsM (by omega)
          (by rw [hl1]) hf
      refine ⟨t, g1, g2, ?_⟩
      rw [g3, harm, hpid, hl1, packets_succ s.wMaxPacketSize L s._next_pid]
      simp
  obtain ⟨t, g1, g2, g3⟩ := key
  refine ⟨s1, t, h1, g1, g2, g3, ?_⟩
  unfold packets_armed
  rw [h1, Option.some_bind, g1, Option.map_some', g3]
  simp

/-- Witness of C2 (amended): 100 bytes through an IN endpoint of packet size
64 are two packets, DATA0 with 64 bytes and DATA1 with 36 bytes. -/
theorem in_transfer_packets_witness :
    ∃ s1 t, start_transfer (idle 0x81 64) 0x20000000 100 = some s1 ∧
      drive_in 2 s1 = some t ∧ t._active = false ∧
      t.armed = [⟨0, 64⟩, ⟨1, 36⟩] ∧
      packets_armed (idle 0x81 64) 0x20000000 100 2 = some 2 := by
  obtain ⟨s1, t, h1, h2, h3, h4, h5⟩ :=
    in_transfer_packets (idle 0x81 64) 0x20000000 100 2 rfl (by decide) (by decide) rfl rfl
      (by decide)
  refine ⟨s1, t, h1, h2, h3, ?_, ?_⟩
  · rw [h4]
    decide
  · rw [h5]
    rfl

/-- C2, counterexample: a transfer of length 0 on an IN endpoint of packet
size 64 arms the hardware once (a zero-length packet), although
`ceil(0 / 64) = 0`. -/
theorem zero_length_transfer_arms_once :
    packets_armed (idle 0x81 64) 0x20000000 0 1 = some 1 ∧
    packets_armed (idle 0x81 64) 0x20000000 0 1 ≠ some ((0 + 64 - 1) / 64) := by
  constructor
  · rfl
  · intro h
    have h1 : packets_armed (idle 0x81 64) 0x20000000 0 1 = some 1 := rfl
    rw [h1] at h
    cases h

/-- C4. Called on an inactive endpoint whose hardware buffer is free, with a
user buffer that does not overlap the hardware buffer, `start_transfer(buf,
len)` succeeds and leaves `active = true`, `data_ptr = buf`, `data_len = len`,
`current_len = min(len, wMaxPacketSize)`, and the hardware armed exactly once,
for `current_len` bytes with the PID `next_pid` had before. On an IN endpoint
the first `current_len` bytes of `buf` are in the hardware buffer, memory being
what the byte loop of `tupp_memcpy` leaves, and `bytes_left = len -
current_len`; on an OUT endpoint memory is unchanged and `bytes_left = len`. -/
theorem start_transfer_postcondition (s : state) (buf len : Nat)
    (hact : s._active = false) (hav : s.AVAILABLE_0 = 0) (hlen : len < 65536)
    (hdis : is_IN s = true →
      buf + min len s.wMaxPacketSize ≤ s._hw_buffer ∨
      s._hw_buffer + min len s.wMaxPacketSize ≤ buf) :
    ∃ t, start_transfer s buf len = some t ∧
      t._active = true ∧ t._data_ptr = buf ∧ t._data_len = len ∧
      t._current_len = min len s.wMaxPacketSize ∧
      t.armed = s.armed ++ [⟨s._next_pid, min len s.wMaxPacketSize⟩] ∧
      t.AVAILABLE_0 = 1 ∧ t.PID_0 = s._next_pid ∧
      t.LENGTH_0 = min len s.wMaxPacketSize ∧
      (is_IN s = true →
        (∀ i, i < min len s.wMaxPacketSize → t.mem (s._hw_buffer + i) = s.mem (buf + i)) ∧
        t._bytes_left = len - min len s.wMaxPacketSize ∧
        t._current_ptr = buf + min len s.wMaxPacketSize ∧ t.FULL_0 = 1 ∧
        t.mem = tupp_memcpy_loop s.mem s._hw_buffer buf (min len s.wMaxPacketSize)) ∧
      (is_IN s = false →
        t.mem = s.mem ∧ t._bytes_left = len ∧ t._current_ptr = buf ∧ t.FULL_0 = 0) := by
  obtain ⟨t, h1⟩ := start_transfer_some s buf len hact hav
  obtain ⟨_, _, _, _, m5, m6, m7, m8, _, _, _, m12, _, m14, m15, m16, m17, m18, m19, m20⟩ :=
    start_transfer_members s t buf len h1
  refine ⟨t, h1, m5, m6, m7, m8, m12, m14, m15, m16, ?_, ?_⟩
  · intro hin
    rw [hin] at m17
    by_cases hz : min len s.wMaxPacketSize = 0
    · have hc : ¬ (is_IN s = true ∧ min len s.wMaxPacketSize ≠ 0) := fun h => h.2 hz
      rw [if_neg hc] at m18 m19 m20
      refine ⟨fun i hi => by omega, by rw [m18]; omega, by rw [m19, hz]; rfl, m17, ?_⟩
      rw [m20, hz]
      rfl
    · have hc : is_IN s = true ∧ min len s.wMaxPacketSize ≠ 0 := ⟨hin, hz⟩
      rw [if_pos hc] at m18 m19 m20
      refine ⟨fun i hi => by rw [m20]; exact tupp_memcpy_inside _ _ _ _ i hi, ?_, m19, m17, ?_⟩
      · rw [m18]
        exact sub16_of_le (Nat.min_le_left _ _) hlen
      · rw [m20]
        exact (tupp_memcpy_loop_eq _ _ _ _ (hdis hin).symm).symm
  · intro hout
    have hc : ¬ (is_IN s = true ∧ min len s.wMaxPacketSize ≠ 0) := by
      rw [hout]
      simp
    rw [if_neg hc] at m18 m19 m20
    rw [hout] at m17
    exact ⟨m20, m18, m19, m17⟩

/-- Witness of C4: an idle IN endpoint of packet size 64 and a transfer of 100
bytes from a buffer in the RAM. -/
theorem start_transfer_postcondition_witness :
    ∃ t, start_transfer (idle 0x81 64) 0x20000000 100 = some t ∧
      t._active = true ∧ t._current_len = 64 ∧ t._bytes_left = 36 ∧
      t.armed = [⟨0, 64⟩] ∧ t.mem 0x50100181 = 1 := by
  obtain ⟨t, h1, h2, _, _, h5, h6, _, _, _, h10, _⟩ :=
    start_transfer_postcondition (idle 0x81 64) 0x20000000 100 rfl rfl (by decide)
      (fun _ => Or.inl (by decide))
  obtain ⟨h11, h12, _, _⟩ := h10 (by decide)
  refine ⟨t, h1, h2, by simpa [idle] using h5, by simpa [idle] using h12,
    by simpa [idle] using h6, ?_⟩
  have := h11 1 (by decide)
  simpa [idle] using this

/-- C3. For an active OUT transfer whose hardware buffer has completed and
whose user buffer does not overlap the hardware buffer at the cursor,
`handle_buffer_out(n)` copies `n` bytes from the hardware buffer to the user
buffer at the cursor, memory being what the byte loop of `tupp_memcpy` leaves,
advances the cursor by `n` and reduces `bytes_left` by `n` (16 bit). It ends
the transfer (`active = false`, data handler, if installed, invoked with the
buffer and the received length, nothing armed) exactly if then
`bytes_left == 0` or `n < current_len`; otherwise the endpoint stays active and
is armed once more for `min(bytes_left, wMaxPacketSize)`. -/
theorem handle_buffer_out_rule (s : state) (n : Nat)
    (hact : s._active = true) (hav : s.AVAILABLE_0 = 0)
    (hdis : s._current_ptr + n ≤ s._hw_buffer ∨ s._hw_buffer + n ≤ s._current_ptr) :
    ∃ t, handle_buffer_out s n = some t ∧
      (∀ i, i < n → t.mem (s._current_ptr + i) = s.mem (s._hw_buffer + i)) ∧
      (∀ a, ¬ (s._current_ptr ≤ a ∧ a < s._current_ptr + n) → t.mem a = s.mem a) ∧
      t._current_ptr = s._current_ptr + n ∧
      t._bytes_left = sub16 s._bytes_left n ∧
      (n ≤ s._bytes_left → s._bytes_left < 65536 → t._bytes_left = s._bytes_left - n) ∧
      (t._active = false ↔ (t._bytes_left = 0 ∨ n < s._current_len)) ∧
      (t._active = false →
        t.armed = s.armed ∧
        t.handled =
          if s.data_handler then
            s.handled ++ [(s._data_ptr, sub16 s._data_len (sub16 s._bytes_left n))]
          else s.handled) ∧
      (t._active = true →
        t._current_len = min t._bytes_left s.wMaxPacketSize ∧
        t.armed = s.armed ++ [⟨s._next_pid, min t._bytes_left s.wMaxPacketSize⟩] ∧
        t.AVAILABLE_0 = 1 ∧ t.handled = s.handled) ∧
      t.mem = tupp_memcpy_loop s.mem s._current_ptr s._hw_buffer n := by
  have hmin : ∀ b : Nat, (if b > s.wMaxPacketSize then s.wMaxPacketSize else b)
      = min b s.wMaxPacketSize := by
    intro b
    split <;> omega
  by_cases hterm : sub16 s._bytes_left n = 0 ∨ n < s._current_len
  · refine ⟨_, by simp [handle_buffer_out, hact, hterm]; rfl, ?_⟩
    refine ⟨fun i hi => tupp_memcpy_inside _ _ _ _ i hi,
      fun a ha => tupp_memcpy_outside _ _ _ _ a ha, rfl, rfl,
      fun h1 h2 => sub16_of_le h1 h2, ?_, ?_, ?_, ?_⟩
    · simpa using hterm
    · intro _
      exact ⟨rfl, rfl⟩
    · intro h
      simp at h
    · exact (tupp_memcpy_loop_eq _ _ _ _ hdis).symm
  · refine ⟨_, by simp [handle_buffer_out, trigger_transfer, hact, hav, hterm, hmin]; rfl, ?_⟩
    refine ⟨fun i hi => tupp_memcpy_inside _ _ _ _ i hi,
      fun a ha => tupp_memcpy_outside _ _ _ _ a ha, rfl, rfl,
      fun h1 h2 => sub16_of_le h1 h2, ?_, ?_, ?_, ?_⟩
    · simpa [hact] using hterm
    · intro h
      simp [hact] at h
    · intro _
      exact ⟨rfl, rfl, rfl, rfl⟩
    · exact (tupp_memcpy_loop_eq _ _ _ _ hdis).symm

/-- Witness of C3: an OUT endpoint armed for 64 of 512 bytes receives a short
packet of 31 bytes. -/
theorem handle_buffer_out_rule_witness :
    ∃ t, handle_buffer_out
        { idle 0x01 64 with _active := true, _bytes_left := 512, _data_len := 512,
                            _current_len := 64 } 31 = some t ∧
      t._active = false ∧ t._bytes_left = 481 ∧ t.handled = [(0, 31)] := by
  obtain ⟨t, h1, _, _, _, h5, _, h7, h8, _⟩ :=
    handle_buffer_out_rule
      { idle 0x01 64 with _active := true, _bytes_left := 512, _data_len := 512,
                          _current_len := 64 } 31 rfl rfl (Or.inl (by decide))
  have hact : t._active = false := h7.mpr (Or.inr (by decide))
  refine ⟨t, h1, hact, by simpa [idle, sub16] using h5, ?_⟩
  simpa [idle, sub16] using (h8 hact).2

end usb_endpoint

/-! ## Mass storage class, bulk-only transport -/

namespace usb_msc_bot_device

theorem handle_request_valid_cbw (h : handlers) (s : state)
    (hst : s._state = state_t.RECEIVE_CBW) (hlen : s._buffer_out_len = 31)
    (hsig : dCBWSignature s._buffer_out = cbw_signature) :
    handle_request h s =
      (process_scsi_command h (seed_csw s)).map
        (fun s1 => { s1 with _buffer_out_len := 0, _ep_out := s1._ep_out.send_NAK false }) := by
  unfold handle_request
  rw [hst]
  simp only [hlen, hsig, sizeof_cbw_t]
  cases process_scsi_command h (seed_csw s) <;> simp

theorem handle_request_SEND_CSW (h : handlers) (s : state)
    (hst : s._state = state_t.SEND_CSW) (hidle : s._ep_in._active = false) :
    handle_request h s = some { s with
      _ep_in := { s._ep_in with _active := true }
      log := s.log ++ [event.in_transfer (payload.csw s._csw) sizeof_csw_t]
      _state := state_t.RECEIVE_CBW } := by
  unfold handle_request
  rw [hst]
  simp [endpoint.is_active, endpoint.start_transfer, hidle]

/-- A poll in state `SEND_CSW` with the bulk IN endpoint idle emits the latched
CSW and returns to `RECEIVE_CBW`. -/
theorem poll_SEND_CSW (h : handlers) (s : state) (hst : s._state = state_t.SEND_CSW) :
    ∃ t, poll h s = some t ∧ t._state = state_t.RECEIVE_CBW ∧
      t.log = s.log ++ [event.in_transfer (payload.csw s._csw) sizeof_csw_t] ∧
      t._csw = s._csw ∧ t._sense_fixed_response = s._sense_fixed_response ∧
      t._buffer_out_len = s._buffer_out_len ∧ t._buffer_out = s._buffer_out ∧
      t._device_ready = s._device_ready := by
  unfold poll
  rw [handle_request_SEND_CSW h (in_complete s) hst rfl]
  exact ⟨_, rfl, rfl, rfl, rfl, rfl, rfl, rfl, rfl⟩

theorem analyze_response_frame (s : state) (r : Option (buffer × Nat)) :
    ∃ t, analyze_response s r = some t ∧ t._state = s._state ∧
      t._csw.dCSWTag = s._csw.dCSWTag ∧ t._csw.dCSWSignature = s._csw.dCSWSignature ∧
      t._buffer_out = s._buffer_out := by
  unfold analyze_response
  dsimp only
  by_cases hst : s._state = state_t.SEND_CSW
  · rw [if_pos hst]
    by_cases he : dCBWDataTransferLength s._buffer_out ≠ 0
    · rw [if_pos he]
      rcases r with _ | ⟨b, n⟩
      · exact ⟨_, rfl, rfl, rfl, rfl, rfl⟩
      · exact ⟨_, rfl, rfl, rfl, rfl, rfl⟩
    · rw [if_neg he]
      rcases r with _ | ⟨b, n⟩
      · exact ⟨_, rfl, rfl, rfl, rfl, rfl⟩
      · exact ⟨_, rfl, rfl, rfl, rfl, rfl⟩
  · rw [if_neg hst]
    exact ⟨_, rfl, rfl, rfl, rfl, rfl⟩

theorem case_TEST_UNIT_READY_frame (s : state)
    (hlen : bCBWCBLength s._buffer_out = 6) :
    ∃ t r, case_TEST_UNIT_READY s = some (t, r) ∧ dispatch_frame s t := by
  have hc : ¬ (bCBWCBLength s._buffer_out ≠ 6) := by simp [hlen]
  unfold case_TEST_UNIT_READY
  rw [if_neg hc]
  obtain ⟨a1, a2, a3, a4, a5, ready, a7, a8, a9, a10, a11, a12, a13, a14, a15, a16, a17⟩ := s
  cases ready <;>
    exact ⟨_, _, rfl, rfl, rfl, rfl, fun hs => Or.inl hs⟩

theorem case_REQUEST_SENSE_frame (s : state)
    (hlen : bCBWCBLength s._buffer_out = 6) :
    ∃ t r, case_REQUEST_SENSE s = some (t, r) ∧ dispatch_frame s t := by
  have hc : ¬ (bCBWCBLength s._buffer_out ≠ 6) := by simp [hlen]
  unfold case_REQUEST_SENSE
  rw [if_neg hc]
  obtain ⟨a1, a2, a3, a4, a5, ready, a7, a8, a9, a10, a11, a12, a13, a14, a15, a16, a17⟩ := s
  cases ready <;>
    exact ⟨_, _, rfl, rfl, rfl, rfl, fun hs => Or.inl hs⟩

theorem case_INQUIRY_frame (s : state) :
    ∃ t r, case_INQUIRY s = some (t, r) ∧ dispatch_frame s t := by
  unfold case_INQUIRY
  obtain ⟨a1, a2, a3, a4, a5, ready, a7, a8, a9, a10, a11, a12, a13, a14, a15, a16, a17⟩ := s
  cases ready <;>
    exact ⟨_, _, rfl, rfl, rfl, rfl, fun hs => Or.inl hs⟩

theorem case_MODE_SENSE_6_frame (h : handlers) (s : state)
    (hlen : bCBWCBLength s._buffer_out = 6) :
    ∃ t r, case_MODE_SENSE_6 h s = some (t, r) ∧ dispatch_frame s t := by
  have hc : ¬ (bCBWCBLength s._buffer_out ≠ 6) := by simp [hlen]
  unfold case_MODE_SENSE_6
  rw [if_neg hc]
  obtain ⟨a1, a2, a3, a4, a5, ready, a7, a8, a9, a10, a11, a12, a13, a14, a15, a16, a17⟩ := s
  obtain ⟨c1, c2, c3, w, ss, rm⟩ := h
  cases ready <;> rcases w with _ | _ | _ <;>
    exact ⟨_, _, rfl, rfl, rfl, rfl, fun hs => Or.inl hs⟩

theorem case_START_STOP_UNIT_frame (h : handlers) (s : state)
    (hlen : bCBWCBLength s._buffer_out = 6) :
    ∃ t r, case_START_STOP_UNIT h s = some (t, r) ∧ dispatch_frame s t := by
  have hc : ¬ (bCBWCBLength s._buffer_out ≠ 6) := by simp [hlen]
  unfold case_START_STOP_UNIT
  rw [if_neg hc]
  obtain ⟨a1, a2, a3, a4, a5, ready, a7, a8, a9, a10, a11, a12, a13, a14, a15, a16, a17⟩ := s
  obtain ⟨c1, c2, c3, w, ss, rm⟩ := h
  cases ready <;> cases ss <;>
    exact ⟨_, _, rfl, rfl, rfl, rfl, fun hs => Or.inl hs⟩

theorem case_PREVENT_ALLOW_MEDIUM_REMOVAL_frame (h : handlers) (s : state)
    (hlen : bCBWCBLength s._buffer_out = 6) :
    ∃ t r, case_PREVENT_ALLOW_MEDIUM_REMOVAL h s = some (t, r) ∧ dispatch_frame s t := by
  have hc : ¬ (bCBWCBLength s._buffer_out ≠ 6) := by simp [hlen]
  unfold case_PREVENT_ALLOW_MEDIUM_REMOVAL
  rw [if_neg hc]
  obtain ⟨a1, a2, a3, a4, a5, ready, a7, a8, a9, a10, a11, a12, a13, a14, a15, a16, a17⟩ := s
  obtain ⟨c1, c2, c3, w, ss, rm⟩ := h
  cases ready <;> cases rm <;>
    exact ⟨_, _, rfl, rfl, rfl, rfl, fun hs => Or.inl hs⟩

theorem case_READ_CAPACITY_10_frame (h : handlers) (s : state)
    (hlen : bCBWCBLength s._buffer_out = 10)
    (hE : dCBWDataTransferLength s._buffer_out = sizeof_read_capacity_10_response_t)
    (hbs : h.capacity_handler.1 % 65536 = TUPP_MSC_BLOCK_SIZE) :
    ∃ t r, case_READ_CAPACITY_10 h s = some (t, r) ∧ dispatch_frame s t := by
  have hc : ¬ (bCBWCBLength s._buffer_out ≠ 10) := by simp [hlen]
  have hc2 : ¬ (dCBWDataTransferLength s._buffer_out ≠ sizeof_read_capacity_10_response_t) := by
    simp [hE]
  have hc3 : ¬ (h.capacity_handler.1 % 65536 ≠ TUPP_MSC_BLOCK_SIZE) := by simp [hbs]
  unfold case_READ_CAPACITY_10
  rw [if_neg hc, if_neg hc2]
  dsimp only
  rw [if_neg hc3]
  obtain ⟨a1, a2, a3, a4, a5, ready, a7, a8, a9, a10, a11, a12, a13, a14, a15, a16, a17⟩ := s
  obtain ⟨c1, c2, c3, w, ss, rm⟩ := h
  cases ready <;>
    exact ⟨_, _, rfl, rfl, rfl, rfl, fun hs => Or.inl hs⟩

theorem case_READ_FORMAT_CAPACITIES_frame (h : handlers) (s : state)
    (hlen : bCBWCBLength s._buffer_out = 10)
    (hbs : h.capacity_handler.1 % 65536 = TUPP_MSC_BLOCK_SIZE) :
    ∃ t r, case_READ_FORMAT_CAPACITIES h s = some (t, r) ∧ dispatch_frame s t := by
  have hc : ¬ (bCBWCBLength s._buffer_out ≠ 10) := by simp [hlen]
  have hc3 : ¬ (h.capacity_handler.1 % 65536 ≠ TUPP_MSC_BLOCK_SIZE) := by simp [hbs]
  unfold case_READ_FORMAT_CAPACITIES
  rw [if_neg hc]
  dsimp only
  rw [if_neg hc3]
  obtain ⟨a1, a2, a3, a4, a5, ready, a7, a8, a9, a10, a11, a12, a13, a14, a15, a16, a17⟩ := s
  obtain ⟨c1, c2, c3, w, ss, rm⟩ := h
  cases ready <;>
    exact ⟨_, _, rfl, rfl, rfl, rfl, fun hs => Or.inl hs⟩

theorem case_READ_10_frame (s : state)
    (hlen : bCBWCBLength s._buffer_out = 10) :
    ∃ t r, case_READ_10 s = some (t, r) ∧ dispatch_frame s t := by
  have hc : ¬ (bCBWCBLength s._buffer_out ≠ 10) := by simp [hlen]
  unfold case_READ_10
  rw [if_neg hc]
  obtain ⟨a1, a2, a3, a4, a5, ready, a7, a8, a9, a10, a11, a12, a13, a14, a15, a16, a17⟩ := s
  cases ready <;>
    exact ⟨_, _, rfl, rfl, rfl, rfl, fun _ =>
      by first | exact Or.inl rfl | exact Or.inr (Or.inl rfl)⟩

theorem case_WRITE_10_frame (h : handlers) (s : state)
    (hlen : bCBWCBLength s._buffer_out = 10) :
    ∃ t r, case_WRITE_10 h s = some (t, r) ∧ dispatch_frame s t := by
  have hc : ¬ (bCBWCBLength s._buffer_out ≠ 10) := by simp [hlen]
  unfold case_WRITE_10
  rw [if_neg hc]
  obtain ⟨a1, a2, a3, a4, a5, ready, a7, a8, a9, a10, a11, a12, a13, a14, a15, a16, a17⟩ := s
  obtain ⟨c1, c2, c3, w, ss, rm⟩ := h
  cases ready <;> rcases w with _ | _ | _ <;>
    exact ⟨_, _, rfl, rfl, rfl, rfl, fun hs =>
      by first | exact Or.inl hs | exact Or.inl rfl | exact Or.inr (Or.inr rfl)⟩

theorem scsi_switch_frame (h : handlers) (s : state)
    (hok : asserts_hold h s._buffer_out) :
    ∃ t r, scsi_switch h s = some (t, r) ∧ dispatch_frame s t := by
  obtain ⟨h6, h10, hE, hbs⟩ := hok
  unfold scsi_switch
  dsimp only
  by_cases c0 : CBWCB s._buffer_out 0 = 0x00
  · rw [if_pos c0]
    exact case_TEST_UNIT_READY_frame s (h6 (by simp [c0]))
  rw [if_neg c0]
  by_cases c1 : CBWCB s._buffer_out 0 = 0x03
  · rw [if_pos c1]
    exact case_REQUEST_SENSE_frame s (h6 (by simp [c1]))
  rw [if_neg c1]
  by_cases c2 : CBWCB s._buffer_out 0 = 0x12
  · rw [if_pos c2]
    exact case_INQUIRY_frame s
  rw [if_neg c2]
  by_cases c3 : CBWCB s._buffer_out 0 = 0x1A
  · rw [if_pos c3]
    exact case_MODE_SENSE_6_frame h s (h6 (by simp [c3]))
  rw [if_neg c3]
  by_cases c4 : CBWCB s._buffer_out 0 = 0x1B
  · rw [if_pos c4]
    exact case_START_STOP_UNIT_frame h s (h6 (by simp [c4]))
  rw [if_neg c4]
  by_cases c5 : CBWCB s._buffer_out 0 = 0x1E
  · rw [if_pos c5]
    exact case_PREVENT_ALLOW_MEDIUM_REMOVAL_frame h s (h6 (by simp [c5]))
  rw [if_neg c5]
  by_cases c6 : CBWCB s._buffer_out 0 = 0x25
  · rw [if_pos c6]
    exact case_READ_CAPACITY_10_frame h s (h10 (by simp [c6])) (hE c6) (hbs (by simp [c6]))
  rw [if_neg c6]
  by_cases c7 : CBWCB s._buffer_out 0 = 0x23
  · rw [if_pos c7]
    exact case_READ_FORMAT_CAPACITIES_frame h s (h10 (by simp [c7])) (hbs (by simp [c7]))
  rw [if_neg c7]
  by_cases c8 : CBWCB s._buffer_out 0 = 0x28
  · rw [if_pos c8]
    exact case_READ_10_frame s (h10 (by simp [c8]))
  rw [if_neg c8]
  by_cases c9 : CBWCB s._buffer_out 0 = 0x2A
  · rw [if_pos c9]
    exact case_WRITE_10_frame h s (h10 (by simp [c9]))
  rw [if_neg c9]
  exact ⟨_, _, rfl, rfl, rfl, rfl, fun hs => Or.inl hs⟩

theorem process_scsi_command_frame (h : handlers) (s : state)
    (hok : asserts_hold h s._buffer_out) :
    ∃ t, process_scsi_command h s = some t ∧ dispatch_frame s t := by
  obtain ⟨t1, r, h1, f1, f2, f3, f4⟩ := scsi_switch_frame h s hok
  obtain ⟨t, g1, g2, g3, g4, g5⟩ := analyze_response_frame t1 r
  refine ⟨t, ?_, ?_, ?_, ?_, ?_⟩
  · unfold process_scsi_command
    rw [h1]
    exact g1
  · rw [g3, f1]
  · rw [g4, f2]
  · rw [g5, f3]
  · intro hs
    rw [g2]
    exact f4 hs

theorem u8_lt (b : List Nat) (i : Nat) : u8 b i < 256 := by
  unfold u8
  exact Nat.mod_lt _ (by decide)

theorem ntohs_le16 (b : List Nat) (i : Nat) : __ntohs (le16 b i) = be16 b i := by
  have h0 := u8_lt b i
  have h1 := u8_lt b (i + 1)
  unfold __ntohs le16 be16
  generalize u8 b i = x0 at *
  generalize u8 b (i + 1) = x1 at *
  omega

theorem ntohl_le32 (b : List Nat) (i : Nat) : __ntohl (le32 b i) = be32 b i := by
  have h0 := u8_lt b i
  have h1 := u8_lt b (i + 1)
  have h2 := u8_lt b (i + 2)
  have h3 := u8_lt b (i + 3)
  unfold __ntohl le32 be32
  generalize u8 b i = x0 at *
  generalize u8 b (i + 1) = x1 at *
  generalize u8 b (i + 2) = x2 at *
  generalize u8 b (i + 3) = x3 at *
  omega

theorem be16_lt (b : List Nat) (i : Nat) : be16 b i < 65536 := by
  have h0 := u8_lt b i
  have h1 := u8_lt b (i + 1)
  unfold be16
  omega

theorem be32_lt (b : List Nat) (i : Nat) : be32 b i < 4294967296 := by
  have h0 := u8_lt b i
  have h1 := u8_lt b (i + 1)
  have h2 := u8_lt b (i + 2)
  have h3 := u8_lt b (i + 3)
  unfold be32
  omega

theorem le32_lt (b : List Nat) (i : Nat) : le32 b i < 4294967296 := by
  have h0 := u8_lt b i
  have h1 := u8_lt b (i + 1)
  have h2 := u8_lt b (i + 2)
  have h3 := u8_lt b (i + 3)
  unfold le32
  omega

theorem case_READ_10_ready (s : state) (hlen : bCBWCBLength s._buffer_out = 10)
    (hr : s._device_ready = true) :
    case_READ_10 s = some ({ s with
      _blocks_to_transfer := be16 s._buffer_out 22
      _blocks_transferred := 0
      _block_addr := be32 s._buffer_out 17
      _state := state_t.DATA_READ }, none) := by
  have hc : ¬ (bCBWCBLength s._buffer_out ≠ 10) := by simp [hlen]
  unfold case_READ_10
  rw [if_neg hc]
  simp only [transfer_length, logical_block_address, ntohs_le16, ntohl_le32]
  obtain ⟨a1, a2, a3, a4, a5, ready, a7, a8, a9, a10, a11, a12, a13, a14, a15, a16, a17⟩ := s
  subst hr
  rfl

theorem scsi_switch_READ_10 (h : handlers) (s : state) (hop : CBWCB s._buffer_out 0 = 0x28) :
    scsi_switch h s = case_READ_10 s := by
  unfold scsi_switch
  simp [hop]

theorem analyze_response_data (s : state) (r : Option (buffer × Nat))
    (hst : s._state ≠ state_t.SEND_CSW) : analyze_response s r = some s := by
  unfold analyze_response
  dsimp only
  rw [if_neg hst]

theorem process_READ_10 (h : handlers) (s : state) (hop : CBWCB s._buffer_out 0 = 0x28)
    (hlen : bCBWCBLength s._buffer_out = 10) (hr : s._device_ready = true) :
    process_scsi_command h s = some { s with
      _blocks_to_transfer := be16 s._buffer_out 22
      _blocks_transferred := 0
      _block_addr := be32 s._buffer_out 17
      _state := state_t.DATA_READ } := by
  unfold process_scsi_command
  rw [scsi_switch_READ_10 h s hop, case_READ_10_ready s hlen hr]
  exact analyze_response_data _ _ (by simp)

theorem handle_request_DATA_READ (h : handlers) (s : state)
    (hst : s._state = state_t.DATA_READ) (hidle : s._ep_in._active = false)
    (hres : h.read_handler s._block_addr = 0) :
    handle_request h s = some { s with
      log := s.log ++ [event.read s._block_addr,
                       event.in_transfer payload.buffer_in TUPP_MSC_BLOCK_SIZE]
      _block_addr := inc32 s._block_addr
      _ep_in := { s._ep_in with _active := true }
      _blocks_transferred := inc16 s._blocks_transferred
      _state := if inc16 s._blocks_transferred = s._blocks_to_transfer
                then state_t.SEND_CSW else state_t.DATA_READ } := by
  unfold handle_request
  rw [hst]
  simp only [endpoint.is_active, endpoint.start_transfer, hidle, hres, Bool.false_eq_true,
    if_false, ne_eq, not_true_eq_false]
  by_cases hc : inc16 s._blocks_transferred = s._blocks_to_transfer
  · simp only [hc, if_true]
  · simp only [hc, if_false]

theorem polls_succ (h : handlers) (n : Nat) (s : state) :
    polls h (n + 1) s = (poll h s).bind (polls h n) := rfl

theorem flatMap_range_succ {α : Type} (f : Nat → List α) (n : Nat) :
    (List.range (n + 1)).flatMap f = f 0 ++ (List.range n).flatMap (fun i => f (i + 1)) := by
  rw [List.range_succ_eq_map, List.flatMap_cons, List.flatMap_map]

/-- The data phase of a READ(10): with `k + 1` blocks still to transfer and a
read callback that returns 0, `k + 2` polls read and send the blocks in
ascending order, emit the latched CSW and return to `RECEIVE_CBW`. -/
theorem read_phase (h : handlers) (hread : ∀ lba, h.read_handler lba = 0) :
    ∀ (k : Nat) (s : state), s._state = state_t.DATA_READ →
      s._blocks_transferred + (k + 1) = s._blocks_to_transfer →
      s._blocks_to_transfer < 65536 → s._block_addr < 4294967296 →
      ∃ t, polls h (k + 2) s = some t ∧ t._state = state_t.RECEIVE_CBW ∧
        t.log = s.log ++
          (List.range (k + 1)).flatMap (fun i =>
            [event.read ((s._block_addr + i) % 4294967296),
             event.in_transfer payload.buffer_in 512]) ++
          [event.in_transfer (payload.csw s._csw) 13] := by
  intro k
  induction k with
  | zero =>
    intro s hst hj hN ha
    have hinc : inc16 s._blocks_transferred = s._blocks_to_transfer := by
      unfold inc16
      omega
    have h1 : poll h s = some _ :=
      handle_request_DATA_READ h (in_complete s) hst rfl (hread _)
    obtain ⟨t, g1, g2, g3, _⟩ := poll_SEND_CSW h _
      (show ({ in_complete s with
        log := (in_complete s).log ++ [event.read (in_complete s)._block_addr,
                         event.in_transfer payload.buffer_in TUPP_MSC_BLOCK_SIZE]
        _block_addr := inc32 (in_complete s)._block_addr
        _ep_in := { (in_complete s)._ep_in with _active := true }
        _blocks_transferred := inc16 (in_complete s)._blocks_transferred
        _state := if inc16 (in_complete s)._blocks_transferred
                      = (in_complete s)._blocks_to_transfer
                  then state_t.SEND_CSW else state_t.DATA_READ } : state)._state
          = state_t.SEND_CSW from by
        show (if inc16 s._blocks_transferred = s._blocks_to_transfer
              then state_t.SEND_CSW else state_t.DATA_READ) = state_t.SEND_CSW
        rw [if_pos hinc])
    refine ⟨t, ?_, g2, ?_⟩
    · rw [polls_succ, h1, Option.some_bind, polls_succ, g1]
      rfl
    · rw [g3]
      show s.log ++ [event.read s._block_addr,
          event.in_transfer payload.buffer_in TUPP_MSC_BLOCK_SIZE] ++
          [event.in_transfer (payload.csw s._csw) sizeof_csw_t] = _
      simp [List.range_succ, Nat.mod_eq_of_lt ha, TUPP_MSC_BLOCK_SIZE, sizeof_csw_t]
  | succ k ih =>
    intro s hst hj hN ha
    have hinc : inc16 s._blocks_transferred ≠ s._blocks_to_transfer := by
      unfold inc16
      omega
    have h1 : poll h s = some _ :=
      handle_request_DATA_READ h (in_complete s) hst rfl (hread _)
    obtain ⟨t, g1, g2, g3⟩ := ih
      ({ in_complete s with
        log := (in_complete s).log ++ [event.read (in_complete s)._block_addr,
                         event.in_transfer payload.buffer_in TUPP_MSC_BLOCK_SIZE]
        _block_addr := inc32 (in_complete s)._block_addr
        _ep_in := { (in_complete s)._ep_in with _active := true }
        _blocks_transferred := inc16 (in_complete s)._blocks_transferred
        _state := if inc16 (in_complete s)._blocks_transferred
                      = (in_complete s)._blocks_to_transfer
                  then state_t.SEND_CSW else state_t.DATA_READ } : state)
      (by
        show (if inc16 s._blocks_transferred = s._blocks_to_transfer
              then state_t.SEND_CSW else state_t.DATA_READ) = state_t.DATA_READ
        rw [if_neg hinc])
      (by
        show inc16 s._blocks_transferred + (k + 1) = s._blocks_to_transfer
        unfold inc16
        omega)
      hN
      (by
        show inc32 s._block_addr < 4294967296
        unfold inc32
        omega)
    refine ⟨t, ?_, g2, ?_⟩
    · rw [polls_succ, h1, Option.some_bind]
      exact g1
    · rw [g3]
      show s.log ++ [event.read s._block_addr,
          event.in_transfer payload.buffer_in TUPP_MSC_BLOCK_SIZE] ++
          (List.range (k + 1)).flatMap (fun i =>
            [event.read ((inc32 s._block_addr + i) % 4294967296),
             event.in_transfer payload.buffer_in 512]) ++
          [event.in_transfer (payload.csw s._csw) 13] = _
      rw [flatMap_range_succ (fun i =>
            [event.read ((s._block_addr + i) % 4294967296),
             event.in_transfer payload.buffer_in 512]) (k + 1)]
      have hmod : ∀ i, (inc32 s._block_addr + i) % 4294967296
          = (s._block_addr + (i + 1)) % 4294967296 := by
        intro i
        unfold inc32
        omega
      simp [hmod, Nat.mod_eq_of_lt ha, TUPP_MSC_BLOCK_SIZE]

theorem handle_request_READ_10 (h : handlers) (s : state)
    (hst : s._state = state_t.RECEIVE_CBW) (hready : s._device_ready = true)
    (hlen : s._buffer_out_len = 31) (hsig : dCBWSignature s._buffer_out = cbw_signature)
    (hop : CBWCB s._buffer_out 0 = 0x28) (hcb : bCBWCBLength s._buffer_out = 10) :
    ∃ t, handle_request h s = some t ∧ t._state = state_t.DATA_READ ∧
      t._blocks_to_transfer = be16 s._buffer_out 22 ∧ t._blocks_transferred = 0 ∧
      t._block_addr = be32 s._buffer_out 17 ∧ t.log = s.log ∧
      t._csw = ⟨csw_signature, dCBWTag s._buffer_out, 0, csw_status_t.CMD_PASSED⟩ := by
  rw [handle_request_valid_cbw h s hst hlen hsig,
    process_READ_10 h (seed_csw s) hop hcb hready]
  exact ⟨_, rfl, rfl, rfl, rfl, rfl, rfl, rfl⟩

/-- C5. MSC READ(10) round: from `RECEIVE_CBW` with a ready device, a valid
31-byte CBW carrying READ(10) (command block length 10) with big-endian LBA
`a` and big-endian transfer length `N >= 1`, and a read callback that always
returns 0: `N + 2` polls of `handle_request`, the bulk IN endpoint being idle
at each of them, invoke `read` exactly `N` times with the block addresses
`a, a+1, ..., a+N-1` (32 bit) in that order, each followed by the start of a
one-block IN transfer, then emit one 13-byte CSW with the CBW tag, residue 0
and status PASSED, and leave the state `RECEIVE_CBW`. -/
theorem read10_round (h : handlers) (s : state)
    (hst : s._state = state_t.RECEIVE_CBW) (hready : s._device_ready = true)
    (hlen : s._buffer_out_len = 31)
    (hsig : dCBWSignature s._buffer_out = 0x43425355)
    (hop : CBWCB s._buffer_out 0 = 0x28) (hcb : bCBWCBLength s._buffer_out = 10)
    (hN : 1 ≤ be16 s._buffer_out 22) (hread : ∀ lba, h.read_handler lba = 0) :
    ∃ t, polls h (be16 s._buffer_out 22 + 2) s = some t ∧
      t._state = state_t.RECEIVE_CBW ∧
      t.log = s.log ++
        (List.range (be16 s._buffer_out 22)).flatMap (fun i =>
          [event.read ((be32 s._buffer_out 17 + i) % 4294967296),
           event.in_transfer payload.buffer_in 512]) ++
        [event.in_transfer
          (payload.csw ⟨0x53425355, dCBWTag s._buffer_out, 0, csw_status_t.CMD_PASSED⟩) 13] := by
  obtain ⟨s1, h1, f1, f2, f3, f4, f5, f6⟩ :=
    handle_request_READ_10 h (in_complete s) hst hready hlen hsig hop hcb
  have e2 : (in_complete s)._buffer_out = s._buffer_out := rfl
  have e3 : (in_complete s).log = s.log := rfl
  rw [e2] at f2 f4 f6
  rw [e3] at f5
  obtain ⟨k, hk⟩ : ∃ k, be16 s._buffer_out 22 = k + 1 := ⟨be16 s._buffer_out 22 - 1, by omega⟩
  have hlt := be16_lt s._buffer_out 22
  obtain ⟨t, g1, g2, g3⟩ := read_phase h hread k s1 f1 (by rw [f3, f2, hk]; omega)
    (by rw [f2]; exact hlt) (by rw [f4]; exact be32_lt _ _)
  refine ⟨t, ?_, g2, ?_⟩
  · rw [hk, polls_succ]
    show (handle_request h (in_complete s)).bind (polls h (k + 2)) = some t
    rw [h1, Option.some_bind]
    exact g1
  · rw [g3, f5, f4, f6, hk]
    rfl

/-- Witness of C5: the CBW of scenario S5, READ(10) of 2 blocks at LBA 7. -/
theorem read10_round_witness :
    ∃ t, polls (sample_handlers 100 none) 4
        (received (make_cbw 0x1234 1024 10 [0x28, 0, 0, 0, 0, 7, 0, 0, 2, 0])) = some t ∧
      t._state = state_t.RECEIVE_CBW ∧
      t.log = [event.read 7, event.in_transfer payload.buffer_in 512,
               event.read 8, event.in_transfer payload.buffer_in 512,
               event.in_transfer
                 (payload.csw ⟨0x53425355, 0x1234, 0, csw_status_t.CMD_PASSED⟩) 13] := by
  obtain ⟨t, h1, h2, h3⟩ :=
    read10_round (sample_handlers 100 none)
      (received (make_cbw 0x1234 1024 10 [0x28, 0, 0, 0, 0, 7, 0, 0, 2, 0]))
      rfl rfl rfl (by decide) (by decide) (by decide) (by decide) (fun _ => rfl)
  have e1 : be16 (received (make_cbw 0x1234 1024 10
      [0x28, 0, 0, 0, 0, 7, 0, 0, 2, 0]))._buffer_out 22 = 2 := by decide
  rw [e1] at h1 h3
  refine ⟨t, h1, h2, ?_⟩
  rw [h3]
  decide

theorem scsi_switch_reject (h : handlers) (s : state)
    (hbad : ¬ asserts_hold h s._buffer_out) : scsi_switch h s = none := by
  unfold asserts_hold at hbad
  simp only [List.mem_cons, List.mem_singleton, List.not_mem_nil, or_false] at hbad
  unfold scsi_switch
  dsimp only
  by_cases c0 : CBWCB s._buffer_out 0 = 0x00
  · rw [if_pos c0]
    unfold case_TEST_UNIT_READY
    rw [if_pos (by
      intro hl
      apply hbad
      simp [c0, hl])]
  rw [if_neg c0]
  by_cases c1 : CBWCB s._buffer_out 0 = 0x03
  · rw [if_pos c1]
    unfold case_REQUEST_SENSE
    rw [if_pos (by
      intro hl
      apply hbad
      simp [c1, hl])]
  rw [if_neg c1]
  by_cases c2 : CBWCB s._buffer_out 0 = 0x12
  · exfalso
    apply hbad
    simp [c2]
  rw [if_neg c2]
  by_cases c3 : CBWCB s._buffer_out 0 = 0x1A
  · rw [if_pos c3]
    unfold case_MODE_SENSE_6
    rw [if_pos (by
      intro hl
      apply hbad
      simp [c3, hl])]
  rw [if_neg c3]
  by_cases c4 : CBWCB s._buffer_out 0 = 0x1B
  · rw [if_pos c4]
    unfold case_START_STOP_UNIT
    rw [if_pos (by
      intro hl
      apply hbad
      simp [c4, hl])]
  rw [if_neg c4]
  by_cases c5 : CBWCB s._buffer_out 0 = 0x1E
  · rw [if_pos c5]
    unfold case_PREVENT_ALLOW_MEDIUM_REMOVAL
    rw [if_pos (by
      intro hl
      apply hbad
      simp [c5, hl])]
  rw [if_neg c5]
  by_cases c6 : CBWCB s._buffer_out 0 = 0x25
  · rw [if_pos c6]
    unfold case_READ_CAPACITY_10
    by_cases hl : bCBWCBLength s._buffer_out = 10
    · rw [if_neg (by simp [hl])]
      by_cases hE : dCBWDataTransferLength s._buffer_out = sizeof_read_capacity_10_response_t
      · rw [if_neg (by simp [hE])]
        dsimp only
        rw [if_pos (by
          intro hb
          apply hbad
          simp [c6, hl, hE, hb])]
      · rw [if_pos hE]
    · rw [if_pos hl]
  rw [if_neg c6]
  by_cases c7 : CBWCB s._buffer_out 0 = 0x23
  · rw [if_pos c7]
    unfold case_READ_FORMAT_CAPACITIES
    by_cases hl : bCBWCBLength s._buffer_out = 10
    · rw [if_neg (by simp [hl])]
      dsimp only
      rw [if_pos (by
        intro hb
        apply hbad
        simp [c7, hl, hb])]
    · rw [if_pos hl]
  rw [if_neg c7]
  by_cases c8 : CBWCB s._buffer_out 0 = 0x28
  · rw [if_pos c8]
    unfold case_READ_10
    rw [if_pos (by
      intro hl
      apply hbad
      simp [c8, hl])]
  rw [if_neg c8]
  by_cases c9 : CBWCB s._buffer_out 0 = 0x2A
  · rw [if_pos c9]
    unfold case_WRITE_10
    rw [if_pos (by
      intro hl
      apply hbad
      simp [c9, hl])]
  rw [if_neg c9]
  exfalso
  apply hbad
  simp [c0, c1, c3, c4, c5, c6, c7, c8, c9]

/-- A command block wrapper that fails an assertion of `process_scsi_command`
makes `handle_request` fail. -/
theorem handle_request_reject (h : handlers) (s : state)
    (hst : s._state = state_t.RECEIVE_CBW) (hlen : s._buffer_out_len = 31)
    (hsig : dCBWSignature s._buffer_out = cbw_signature)
    (hbad : ¬ asserts_hold h s._buffer_out) : handle_request h s = none := by
  rw [handle_request_valid_cbw h s hst hlen hsig]
  unfold process_scsi_command
  rw [scsi_switch_reject h (seed_csw s) hbad]
  rfl

/-- C7 (amended). For every packet of exactly 31 bytes with signature
0x43425355 consumed by `handle_request` in state `RECEIVE_CBW` whose command
passes the assertions of `process_scsi_command`: the latched CSW is seeded with
signature 0x53425355, the CBW tag, residue 0 and status PASSED before the
command is dispatched; the call returns, and after it the CSW tag equals the
CBW tag whatever the opcode, the state is `SEND_CSW`, `DATA_READ` or
`DATA_WRITE`, and the received-length flag is 0. -/
theorem valid_cbw_dispatch (h : handlers) (s : state)
    (hst : s._state = state_t.RECEIVE_CBW) (hlen : s._buffer_out_len = 31)
    (hsig : dCBWSignature s._buffer_out = 0x43425355)
    (hok : asserts_hold h s._buffer_out) :
    (seed_csw s)._csw = ⟨0x53425355, dCBWTag s._buffer_out, 0, csw_status_t.CMD_PASSED⟩ ∧
    ∃ t1 t, process_scsi_command h (seed_csw s) = some t1 ∧
      handle_request h s = some t ∧
      t = { t1 with _buffer_out_len := 0, _ep_out := t1._ep_out.send_NAK false } ∧
      t._csw.dCSWTag = dCBWTag s._buffer_out ∧ t._csw.dCSWSignature = 0x53425355 ∧
      (t._state = state_t.SEND_CSW ∨ t._state = state_t.DATA_READ ∨
        t._state = state_t.DATA_WRITE) ∧
      t._buffer_out_len = 0 := by
  obtain ⟨t1, p1, f1, f2, _, f4⟩ := process_scsi_command_frame h (seed_csw s) hok
  refine ⟨rfl, t1, _, p1, ?_, rfl, f1, f2, f4 rfl, rfl⟩
  rw [handle_request_valid_cbw h s hst hlen hsig, p1]
  rfl

/-- Witness of C7 (amended): a MODE_SENSE(6) command block wrapper. -/
theorem valid_cbw_dispatch_witness :
    ∃ t, handle_request (sample_handlers 100 (some true))
        (received (make_cbw 0x77 4 6 [0x1A, 0, 0x3F, 0, 4, 0])) = some t ∧
      t._csw.dCSWTag = 0x77 ∧ t._csw.dCSWSignature = 0x53425355 ∧
      t._state = state_t.SEND_CSW ∧ t._buffer_out_len = 0 := by
  obtain ⟨_, t1, t, _, h2, h3, h4, h5, _, h7⟩ :=
    valid_cbw_dispatch (sample_handlers 100 (some true))
      (received (make_cbw 0x77 4 6 [0x1A, 0, 0x3F, 0, 4, 0])) rfl rfl (by decide) (by decide)
  refine ⟨t, h2, ?_, h5, ?_, h7⟩
  · rw [h4]
    decide
  · have e : handle_request (sample_handlers 100 (some true))
        (received (make_cbw 0x77 4 6 [0x1A, 0, 0x3F, 0, 4, 0])) = some t := h2
    have d : (handle_request (sample_handlers 100 (some true))
        (received (make_cbw 0x77 4 6 [0x1A, 0, 0x3F, 0, 4, 0]))).map (fun u => u._state)
        = some state_t.SEND_CSW := by decide
    rw [e] at d
    exact Option.some.inj d

/-- C7, counterexample: a packet of 31 bytes with the signature 0x43425355 that
carries REQUEST_SENSE with a command block length of 12: the assertion
`bCBWCBLength == sizeof(SCSI::request_sense_t)` fails and `handle_request`
does not return a state. -/
theorem request_sense_length_12_asserts :
    (received (make_cbw 1 18 12 [0x03, 0, 0, 0, 18, 0]))._state = state_t.RECEIVE_CBW ∧
    (received (make_cbw 1 18 12 [0x03, 0, 0, 0, 18, 0]))._buffer_out_len = 31 ∧
    dCBWSignature (received (make_cbw 1 18 12 [0x03, 0, 0, 0, 18, 0]))._buffer_out
      = 0x43425355 ∧
    handle_request (sample_handlers 100 none)
      (received (make_cbw 1 18 12 [0x03, 0, 0, 0, 18, 0])) = none := by
  decide

theorem u8_append (rx rest : List Nat) (i : Nat) (hi : i < rx.length) :
    u8 (rx ++ rest) i = u8 rx i := by
  unfold u8
  rw [List.getD_append _ _ _ _ hi]

theorem cbw_fields_append (rx rest : List Nat) (hlen : rx.length = 31) :
    dCBWSignature (rx ++ rest) = dCBWSignature rx ∧
    dCBWTag (rx ++ rest) = dCBWTag rx ∧
    dCBWDataTransferLength (rx ++ rest) = dCBWDataTransferLength rx ∧
    bCBWCBLength (rx ++ rest) = bCBWCBLength rx ∧
    CBWCB (rx ++ rest) 0 = CBWCB rx 0 := by
  unfold dCBWSignature dCBWTag dCBWDataTransferLength bCBWCBLength CBWCB le32
  refine ⟨?_, ?_, ?_, ?_, ?_⟩ <;>
    simp (disch := omega) only [u8_append]

theorem case_WRITE_10_protected (h : handlers) (s : state)
    (hlen : bCBWCBLength s._buffer_out = 10) (hw : h.is_writeable_handler = some false) :
    case_WRITE_10 h s = some ({ s with
      log := s.log ++ [event.is_writeable]
      _csw := { s._csw with bCSWStatus := csw_status_t.CMD_FAILED }
      _sense_fixed_response := { s._sense_fixed_response with
        sense_key := sense_key_t.DATA_PROTECT, add_sense_code := 0x27,
        add_sense_qualifier := 0 }
      _buffer_out_len := 0
      _ep_out := s._ep_out.send_NAK false }, none) := by
  have hc : ¬ (bCBWCBLength s._buffer_out ≠ 10) := by simp [hlen]
  unfold case_WRITE_10
  rw [if_neg hc]
  obtain ⟨a1, a2, a3, a4, a5, ready, a7, a8, a9, a10, a11, a12, a13, a14, a15, a16, a17⟩ := s
  obtain ⟨c1, c2, c3, w, ss, rm⟩ := h
  subst hw
  rfl

theorem scsi_switch_WRITE_10 (h : handlers) (s : state) (hop : CBWCB s._buffer_out 0 = 0x2A) :
    scsi_switch h s = case_WRITE_10 h s := by
  unfold scsi_switch
  simp [hop]

theorem scsi_switch_REQUEST_SENSE (h : handlers) (s : state)
    (hop : CBWCB s._buffer_out 0 = 0x03) : scsi_switch h s = case_REQUEST_SENSE s := by
  unfold scsi_switch
  simp [hop]

theorem analyze_response_none_failed (s : state) (hst : s._state = state_t.SEND_CSW)
    (hf : s._csw.bCSWStatus = csw_status_t.CMD_FAILED) :
    analyze_response s none = some s := by
  have hs : set_failed s = s := by
    obtain ⟨a1, a2, a3, a4, ⟨b1, b2, b3, b4⟩, ready, a7, a8, a9, a10, a11, a12, a13, a14, a15,
      a16, a17⟩ := s
    subst hf
    rfl
  unfold analyze_response
  dsimp only
  rw [if_pos hst]
  by_cases he : dCBWDataTransferLength s._buffer_out ≠ 0
  · rw [if_pos he, hs]
  · rw [if_neg he]

theorem analyze_response_send (s : state) (b : buffer) (n : Nat)
    (hst : s._state = state_t.SEND_CSW) (he : dCBWDataTransferLength s._buffer_out ≠ 0) :
    analyze_response s (some (b, n)) = some { s with
      _ep_in := { s._ep_in with _active := true }
      log := s.log ++
        [event.in_transfer (deref s b) (min n (dCBWDataTransferLength s._buffer_out))] } := by
  unfold analyze_response
  dsimp only
  rw [if_pos hst, if_pos he]
  have hmin : (if n > dCBWDataTransferLength s._buffer_out
      then dCBWDataTransferLength s._buffer_out else n)
      = min n (dCBWDataTransferLength s._buffer_out) := by
    split <;> omega
  rw [hmin]
  rfl

theorem process_WRITE_10_protected (h : handlers) (s : state)
    (hst : s._state = state_t.SEND_CSW)
    (hop : CBWCB s._buffer_out 0 = 0x2A) (hcb : bCBWCBLength s._buffer_out = 10)
    (hw : h.is_writeable_handler = some false) :
    process_scsi_command h s = some { s with
      log := s.log ++ [event.is_writeable]
      _csw := { s._csw with bCSWStatus := csw_status_t.CMD_FAILED }
      _sense_fixed_response := { s._sense_fixed_response with
        sense_key := sense_key_t.DATA_PROTECT, add_sense_code := 0x27,
        add_sense_qualifier := 0 }
      _buffer_out_len := 0
      _ep_out := s._ep_out.send_NAK false } := by
  unfold process_scsi_command
  rw [scsi_switch_WRITE_10 h s hop, case_WRITE_10_protected h s hcb hw]
  exact analyze_response_none_failed _ hst rfl

theorem process_REQUEST_SENSE (h : handlers) (s : state)
    (hst : s._state = state_t.SEND_CSW)
    (hop : CBWCB s._buffer_out 0 = 0x03) (hcb : bCBWCBLength s._buffer_out = 6)
    (hE : dCBWDataTransferLength s._buffer_out ≠ 0) :
    process_scsi_command h s = some { s with
      _ep_in := { s._ep_in with _active := true }
      log := s.log ++
        [event.in_transfer (payload.sense_fixed_response s._sense_fixed_response)
          (min 18 (dCBWDataTransferLength s._buffer_out))] } := by
  have hc : ¬ (bCBWCBLength s._buffer_out ≠ 6) := by simp [hcb]
  unfold process_scsi_command
  rw [scsi_switch_REQUEST_SENSE h s hop]
  unfold case_REQUEST_SENSE
  rw [if_neg hc]
  exact analyze_response_send s _ _ hst hE

theorem handle_request_WRITE_10_protected (h : handlers) (s : state)
    (hst : s._state = state_t.RECEIVE_CBW) (hlen : s._buffer_out_len = 31)
    (hsig : dCBWSignature s._buffer_out = cbw_signature)
    (hop : CBWCB s._buffer_out 0 = 0x2A) (hcb : bCBWCBLength s._buffer_out = 10)
    (hw : h.is_writeable_handler = some false) :
    ∃ t, handle_request h s = some t ∧ t._state = state_t.SEND_CSW ∧
      t.log = s.log ++ [event.is_writeable] ∧
      t._csw = ⟨csw_signature, dCBWTag s._buffer_out, 0, csw_status_t.CMD_FAILED⟩ ∧
      t._sense_fixed_response = { s._sense_fixed_response with
        sense_key := sense_key_t.DATA_PROTECT, add_sense_code := 0x27,
        add_sense_qualifier := 0 } := by
  rw [handle_request_valid_cbw h s hst hlen hsig,
    process_WRITE_10_protected h (seed_csw s) rfl hop hcb hw]
  exact ⟨_, rfl, rfl, rfl, rfl, rfl⟩

theorem out_complete_members (s : state) (rx : List Nat) :
    ∃ t, out_complete s rx = some t ∧ t._state = s._state ∧ t.log = s.log ∧
      t._csw = s._csw ∧ t._sense_fixed_response = s._sense_fixed_response ∧
      t._device_ready = s._device_ready ∧ t._buffer_out_len = rx.length ∧
      t._buffer_out = rx ++ s._buffer_out.drop rx.length ∧
      t._blocks_to_transfer = s._blocks_to_transfer ∧
      t._blocks_transferred = s._blocks_transferred ∧ t._block_addr = s._block_addr ∧
      t._ep_in = s._ep_in := by
  unfold out_complete data_handler
  simp only [endpoint.send_NAK, endpoint.start_transfer, Bool.false_eq_true, if_false]
  exact ⟨_, rfl, rfl, rfl, rfl, rfl, rfl, rfl, rfl, rfl, rfl, rfl, rfl⟩

theorem handle_request_REQUEST_SENSE (h : handlers) (s : state)
    (hst : s._state = state_t.RECEIVE_CBW) (hlen : s._buffer_out_len = 31)
    (hsig : dCBWSignature s._buffer_out = cbw_signature)
    (hop : CBWCB s._buffer_out 0 = 0x03) (hcb : bCBWCBLength s._buffer_out = 6)
    (hE : dCBWDataTransferLength s._buffer_out ≠ 0) :
    ∃ t, handle_request h s = some t ∧ t._state = state_t.SEND_CSW ∧
      t.log = s.log ++
        [event.in_transfer (payload.sense_fixed_response s._sense_fixed_response)
          (min 18 (dCBWDataTransferLength s._buffer_out))] ∧
      t._csw = ⟨csw_signature, dCBWTag s._buffer_out, 0, csw_status_t.CMD_PASSED⟩ := by
  rw [handle_request_valid_cbw h s hst hlen hsig,
    process_REQUEST_SENSE h (seed_csw s) rfl hop hcb hE]
  exact ⟨_, rfl, rfl, rfl, rfl⟩

/-- C6. MSC write protection: when the `is_writeable` callback returns false, a
valid WRITE(10) CBW (command block length 10) is answered without entering
`DATA_WRITE` and without invoking the write callback: the next poll emits a CSW
with the CBW tag and status FAILED. A REQUEST_SENSE that follows immediately
(command block length 6, data transfer length `E >= 1`) starts an IN transfer of
the first `min(18, E)` bytes, all 18 if `E >= 18`, of the fixed sense response
with `sense_key = DATA_PROTECT`, `ASC = 0x27`, `ASCQ = 0x00`. -/
theorem write_protected_round (h : handlers) (s : state) (rx : List Nat)
    (hst : s._state = state_t.RECEIVE_CBW) (hlen : s._buffer_out_len = 31)
    (hsig : dCBWSignature s._buffer_out = 0x43425355)
    (hop : CBWCB s._buffer_out 0 = 0x2A) (hcb : bCBWCBLength s._buffer_out = 10)
    (hw : h.is_writeable_handler = some false)
    (hrx : rx.length = 31) (hrsig : dCBWSignature rx = 0x43425355)
    (hrop : CBWCB rx 0 = 0x03) (hrcb : bCBWCBLength rx = 6)
    (hE : 1 ≤ dCBWDataTransferLength rx) :
    ∃ s1 s2 s3 s4, handle_request h s = some s1 ∧
      s1._state = state_t.SEND_CSW ∧ s1.log = s.log ++ [event.is_writeable] ∧
      poll h s1 = some s2 ∧ s2._state = state_t.RECEIVE_CBW ∧
      s2.log = s1.log ++
        [event.in_transfer
          (payload.csw ⟨0x53425355, dCBWTag s._buffer_out, 0, csw_status_t.CMD_FAILED⟩) 13] ∧
      out_complete s2 rx = some s3 ∧ handle_request h s3 = some s4 ∧
      s4.log = s2.log ++
        [event.in_transfer
          (payload.sense_fixed_response { s._sense_fixed_response with
            sense_key := sense_key_t.DATA_PROTECT, add_sense_code := 0x27,
            add_sense_qualifier := 0x00 })
          (min 18 (dCBWDataTransferLength rx))] ∧
      (18 ≤ dCBWDataTransferLength rx → min 18 (dCBWDataTransferLength rx) = 18) := by
  obtain ⟨s1, a1, a2, a3, a4, a5⟩ :=
    handle_request_WRITE_10_protected h s hst hlen hsig hop hcb hw
  obtain ⟨s2, b1, b2, b3, b4, b5, _, _, _⟩ := poll_SEND_CSW h s1 a2
  obtain ⟨s3, c1, c2, c3, _, c5, _, c7, c8, _⟩ := out_complete_members s2 rx
  obtain ⟨f1, _, f3, f4, f5⟩ := cbw_fields_append rx (s2._buffer_out.drop rx.length) hrx
  rw [← c8] at f1 f3 f4 f5
  obtain ⟨s4, d1, _, d3, _⟩ :=
    handle_request_REQUEST_SENSE h s3 (by rw [c2, b2]) (by rw [c7, hrx])
      (by rw [f1]; exact hrsig) (by rw [f5]; exact hrop) (by rw [f4]; exact hrcb)
      (by rw [f3]; omega)
  refine ⟨s1, s2, s3, s4, a1, a2, a3, b1, b2, ?_, c1, d1, ?_, fun h18 => by omega⟩
  · rw [b3, a4]
    rfl
  · rw [d3, c3, c5, b5, a5, f3]

/-- Witness of C6: WRITE(10) of one block at LBA 3 to a write-protected
device, followed by REQUEST_SENSE with a data transfer length of 18. -/
theorem write_protected_round_witness :
    ∃ s1 s2 s3 s4,
      handle_request (sample_handlers 100 (some false))
        (received (make_cbw 0x21 512 10 [0x2A, 0, 0, 0, 0, 3, 0, 0, 1, 0])) = some s1 ∧
      poll (sample_handlers 100 (some false)) s1 = some s2 ∧
      out_complete s2 (make_cbw 0x22 18 6 [0x03, 0, 0, 0, 18, 0]) = some s3 ∧
      handle_request (sample_handlers 100 (some false)) s3 = some s4 ∧
      s4.log = [event.is_writeable,
        event.in_transfer
          (payload.csw ⟨0x53425355, 0x21, 0, csw_status_t.CMD_FAILED⟩) 13,
        event.in_transfer
          (payload.sense_fixed_response ⟨0x70, 1, sense_key_t.DATA_PROTECT, 10, 0x27, 0⟩)
          18] := by
  obtain ⟨s1, s2, s3, s4, h1, _, h3, h4, _, h6, h7, h8, h9, _⟩ :=
    write_protected_round (sample_handlers 100 (some false))
      (received (make_cbw 0x21 512 10 [0x2A, 0, 0, 0, 0, 3, 0, 0, 1, 0]))
      (make_cbw 0x22 18 6 [0x03, 0, 0, 0, 18, 0])
      rfl rfl (by decide) (by decide) (by decide) rfl rfl (by decide) (by decide)
      (by decide) (by decide)
  refine ⟨s1, s2, s3, s4, h1, h4, h7, h8, ?_⟩
  rw [h9, h6, h3]
  decide

theorem case_WRITE_10_writable (h : handlers) (s : state)
    (hlen : bCBWCBLength s._buffer_out = 10) (hr : s._device_ready = true)
    (hw : h.is_writeable_handler ≠ some false) :
    case_WRITE_10 h s = some ({ s with
      log := s.log ++ (if h.is_writeable_handler.isSome then [event.is_writeable] else [])
      _blocks_to_transfer := be16 s._buffer_out 22
      _blocks_transferred := 0
      _block_addr := be32 s._buffer_out 17
      _state := state_t.DATA_WRITE
      _buffer_out_len := 0
      _ep_out := s._ep_out.send_NAK false }, none) := by
  have hc : ¬ (bCBWCBLength s._buffer_out ≠ 10) := by simp [hlen]
  unfold case_WRITE_10
  rw [if_neg hc]
  simp only [transfer_length, logical_block_address, ntohs_le16, ntohl_le32]
  obtain ⟨a1, a2, a3, a4, a5, ready, a7, a8, a9, a10, a11, a12, a13, a14, a15, a16, a17⟩ := s
  obtain ⟨c1, c2, c3, w, ss, rm⟩ := h
  subst hr
  rcases w with _ | _ | _
  · simp [query_write_protect]
  · exact absurd rfl hw
  · simp [query_write_protect]

theorem process_WRITE_10_writable (h : handlers) (s : state)
    (hop : CBWCB s._buffer_out 0 = 0x2A) (hcb : bCBWCBLength s._buffer_out = 10)
    (hr : s._device_ready = true) (hw : h.is_writeable_handler ≠ some false) :
    process_scsi_command h s = some { s with
      log := s.log ++ (if h.is_writeable_handler.isSome then [event.is_writeable] else [])
      _blocks_to_transfer := be16 s._buffer_out 22
      _blocks_transferred := 0
      _block_addr := be32 s._buffer_out 17
      _state := state_t.DATA_WRITE
      _buffer_out_len := 0
      _ep_out := s._ep_out.send_NAK false } := by
  unfold process_scsi_command
  rw [scsi_switch_WRITE_10 h s hop, case_WRITE_10_writable h s hcb hr hw]
  exact analyze_response_data _ _ (by simp)

theorem handle_request_WRITE_10 (h : handlers) (s : state)
    (hst : s._state = state_t.RECEIVE_CBW) (hready : s._device_ready = true)
    (hlen : s._buffer_out_len = 31) (hsig : dCBWSignature s._buffer_out = cbw_signature)
    (hop : CBWCB s._buffer_out 0 = 0x2A) (hcb : bCBWCBLength s._buffer_out = 10)
    (hw : h.is_writeable_handler ≠ some false) :
    ∃ t, handle_request h s = some t ∧ t._state = state_t.DATA_WRITE ∧
      t._blocks_to_transfer = be16 s._buffer_out 22 ∧ t._blocks_transferred = 0 ∧
      t._block_addr = be32 s._buffer_out 17 ∧
      t.log = s.log ++ (if h.is_writeable_handler.isSome then [event.is_writeable] else []) ∧
      t._csw = ⟨csw_signature, dCBWTag s._buffer_out, 0, csw_status_t.CMD_PASSED⟩ := by
  rw [handle_request_valid_cbw h s hst hlen hsig,
    process_WRITE_10_writable h (seed_csw s) hop hcb hready hw]
  exact ⟨_, rfl, rfl, rfl, rfl, rfl, rfl, rfl⟩

theorem handle_request_DATA_WRITE (h : handlers) (s : state)
    (hst : s._state = state_t.DATA_WRITE) (hlen : s._buffer_out_len = 512) :
    ∃ t, handle_request h s = some t ∧
      t._state = (if inc16 s._blocks_transferred = s._blocks_to_transfer
                  then state_t.SEND_CSW else state_t.DATA_WRITE) ∧
      t.log = s.log ++ [event.write s._block_addr] ∧
      t._block_addr = inc32 s._block_addr ∧
      t._blocks_transferred = inc16 s._blocks_transferred ∧
      t._blocks_to_transfer = s._blocks_to_transfer ∧
      t._csw.dCSWTag = s._csw.dCSWTag ∧ t._csw.dCSWSignature = s._csw.dCSWSignature ∧
      (h.write_handler s._block_addr = 0 → t._csw = s._csw) ∧
      t._buffer_out_len = 0 := by
  unfold handle_request
  rw [hst]
  simp only [hlen, TUPP_MSC_BLOCK_SIZE]
  by_cases hres : h.write_handler s._block_addr = 0
  · by_cases hc : inc16 s._blocks_transferred = s._blocks_to_transfer
    · simp only [hres, hc, if_true, ne_eq, not_true_eq_false, if_false]
      exact ⟨_, rfl, rfl, rfl, rfl, rfl, rfl, rfl, rfl, fun _ => rfl, rfl⟩
    · simp only [hres, hc, if_false, ne_eq, not_true_eq_false]
      exact ⟨_, rfl, rfl, rfl, rfl, rfl, rfl, rfl, rfl, fun _ => rfl, rfl⟩
  · by_cases hc : inc16 s._blocks_transferred = s._blocks_to_transfer
    · simp only [hres, hc, if_true, ne_eq, not_false_eq_true]
      exact ⟨_, rfl, rfl, rfl, rfl, rfl, rfl, rfl, rfl, fun h0 => h0.elim, rfl⟩
    · simp only [hres, hc, if_false, if_true, ne_eq, not_false_eq_true]
      exact ⟨_, rfl, rfl, rfl, rfl, rfl, rfl, rfl, rfl, fun h0 => h0.elim, rfl⟩

theorem receive_and_poll_cons (h : handlers) (rx : List Nat) (rest : List (List Nat))
    (s : state) :
    receive_and_poll h (rx :: rest) s =
      ((out_complete s rx).bind (handle_request h)).bind (receive_and_poll h rest) := rfl

/-- The data phase of a WRITE(10): every received block is written once, in
ascending order of the block address; the state leaves `DATA_WRITE` for
`SEND_CSW` with the last block; the latched CSW keeps its tag and signature,
and all of its members if no write callback reported an error. -/
theorem write_phase (h : handlers) :
    ∀ (blocks : List (List Nat)) (s : state), s._state = state_t.DATA_WRITE →
      s._blocks_transferred < s._blocks_to_transfer →
      s._blocks_transferred + blocks.length ≤ s._blocks_to_transfer →
      s._blocks_to_transfer < 65536 → s._block_addr < 4294967296 →
      (∀ b ∈ blocks, b.length = 512) →
      ∃ t, receive_and_poll h blocks s = some t ∧
        t.log = s.log ++
          (List.range blocks.length).map
            (fun i => event.write ((s._block_addr + i) % 4294967296)) ∧
        t._state = (if s._blocks_transferred + blocks.length = s._blocks_to_transfer
                    then state_t.SEND_CSW else state_t.DATA_WRITE) ∧
        t._csw.dCSWTag = s._csw.dCSWTag ∧ t._csw.dCSWSignature = s._csw.dCSWSignature ∧
        ((∀ i, i < blocks.length → h.write_handler ((s._block_addr + i) % 4294967296) = 0) →
          t._csw = s._csw) := by
  intro blocks
  induction blocks with
  | nil =>
    intro s hst hj _ _ _ _
    refine ⟨s, rfl, by simp, ?_, rfl, rfl, fun _ => rfl⟩
    rw [if_neg (by simp; omega), hst]
  | cons rx rest ih =>
    intro s hst hj hle hN ha hsz
    have hrx : rx.length = 512 := hsz rx (List.mem_cons_self _ _)
    obtain ⟨s1, c1, c2, c3, c4, _, _, c7, _, c9, c10, c11, _⟩ := out_complete_members s rx
    obtain ⟨s2, d1, d2, d3, d4, d5, d6, d7, d8, d9, _⟩ :=
      handle_request_DATA_WRITE h s1 (by rw [c2, hst]) (by rw [c7, hrx])
    rw [c10, c9] at d2
    rw [c3, c11] at d3
    rw [c11] at d4 d9
    rw [c10] at d5
    rw [c9] at d6
    rw [c4] at d7 d8 d9
    have hinc : inc16 s._blocks_transferred = s._blocks_transferred + 1 := by
      unfold inc16
      omega
    have hlen : (rx :: rest).length = rest.length + 1 := rfl
    rw [hlen] at hle ⊢
    have hstep : receive_and_poll h (rx :: rest) s = receive_and_poll h rest s2 := by
      rw [receive_and_poll_cons, c1, Option.some_bind, d1, Option.some_bind]
    have hmod : ∀ i, (inc32 s._block_addr + i) % 4294967296
        = (s._block_addr + (i + 1)) % 4294967296 := by
      intro i
      unfold inc32
      omega
    by_cases hlast : s._blocks_transferred + 1 = s._blocks_to_transfer
    · have hrest : rest = [] := List.length_eq_zero.mp (by omega)
      subst hrest
      refine ⟨s2, by rw [hstep]; rfl, ?_, ?_, d7, d8, ?_⟩
      · rw [d3]
        simp [List.range_succ, Nat.mod_eq_of_lt ha]
      · rw [d2, hinc, if_pos hlast, if_pos (by simpa using hlast)]
      · intro hall
        exact d9 (by
          have := hall 0 (by simp)
          rwa [Nat.add_zero, Nat.mod_eq_of_lt ha] at this)
    · rw [hinc, if_neg hlast] at d2
      obtain ⟨t, g1, g2, g3, g4, g5, g6⟩ := ih s2 d2 (by rw [d5, d6, hinc]; omega)
        (by rw [d5, d6, hinc]; omega) (by rw [d6]; exact hN)
        (by rw [d4]; unfold inc32; omega)
        (fun b hb => hsz b (List.mem_cons_of_mem _ hb))
      refine ⟨t, by rw [hstep]; exact g1, ?_, ?_, by rw [g4, d7], by rw [g5, d8], ?_⟩
      · rw [g2, d3, d4, List.range_succ_eq_map, List.map_cons, List.map_map]
        simp [hmod, Nat.mod_eq_of_lt ha, Function.comp]
      · rw [g3, d5, d6, hinc]
        have e : s._blocks_transferred + 1 + rest.length
            = s._blocks_transferred + (rest.length + 1) := by omega
        rw [e]
      · intro hall
        rw [g6 (by
          intro i hi
          rw [d4, hmod]
          exact hall (i + 1) (by omega))]
        exact d9 (by
          have := hall 0 (by omega)
          rwa [Nat.add_zero, Nat.mod_eq_of_lt ha] at this)

/-- C9. MSC WRITE(10) round: for a ready, writable device a valid WRITE(10) CBW
(command block length 10) with big-endian LBA `a` and big-endian transfer
length `N >= 1` enters `DATA_WRITE` without a write. Of the next `N` received
one-block OUT packets, the first `k` make `handle_request` invoke `write`
exactly `k` times, once per packet, with the block addresses `a, ..., a+k-1`
(32 bit) in that order; the state stays `DATA_WRITE` before the `N`-th block and
is `SEND_CSW` after it. The next poll then emits one 13-byte CSW, which carries
the CBW tag, and residue 0 and status PASSED if no write callback returned an
error, and the state returns to `RECEIVE_CBW`. -/
theorem write10_round (h : handlers) (s : state) (blocks : List (List Nat))
    (hst : s._state = state_t.RECEIVE_CBW) (hready : s._device_ready = true)
    (hw : h.is_writeable_handler ≠ some false)
    (hlen : s._buffer_out_len = 31)
    (hsig : dCBWSignature s._buffer_out = 0x43425355)
    (hop : CBWCB s._buffer_out 0 = 0x2A) (hcb : bCBWCBLength s._buffer_out = 10)
    (hN : 1 ≤ be16 s._buffer_out 22)
    (hbl : blocks.length = be16 s._buffer_out 22)
    (hsz : ∀ b ∈ blocks, b.length = 512) :
    ∃ s1, handle_request h s = some s1 ∧ s1._state = state_t.DATA_WRITE ∧
      s1.log = s.log ++
        (if h.is_writeable_handler.isSome then [event.is_writeable] else []) ∧
      ∀ k, k ≤ be16 s._buffer_out 22 →
        ∃ t, receive_and_poll h (blocks.take k) s1 = some t ∧
          t.log = s1.log ++
            (List.range k).map
              (fun i => event.write ((be32 s._buffer_out 17 + i) % 4294967296)) ∧
          t._state = (if k = be16 s._buffer_out 22
                      then state_t.SEND_CSW else state_t.DATA_WRITE) ∧
          (k = be16 s._buffer_out 22 →
            ∃ u, poll h t = some u ∧ u._state = state_t.RECEIVE_CBW ∧
              u.log = t.log ++ [event.in_transfer (payload.csw t._csw) 13] ∧
              t._csw.dCSWTag = dCBWTag s._buffer_out ∧
              ((∀ i, i < be16 s._buffer_out 22 →
                  h.write_handler ((be32 s._buffer_out 17 + i) % 4294967296) = 0) →
                t._csw = ⟨0x53425355, dCBWTag s._buffer_out, 0,
                          csw_status_t.CMD_PASSED⟩)) := by
  obtain ⟨s1, a1, a2, a3, a4, a5, a6, a7⟩ :=
    handle_request_WRITE_10 h s hst hready hlen hsig hop hcb hw
  refine ⟨s1, a1, a2, a6, ?_⟩
  intro k hk
  have hklen : (blocks.take k).length = k := by
    rw [List.length_take]
    omega
  obtain ⟨t, g1, g2, g3, g4, _, g6⟩ :=
    write_phase h (blocks.take k) s1 a2 (by rw [a4, a3]; omega)
      (by rw [a4, a3, hklen]; omega) (by rw [a3]; exact be16_lt _ _)
      (by rw [a5]; exact be32_lt _ _)
      (fun b hb => hsz b (List.mem_of_mem_take hb))
  rw [hklen, a5] at g2 g6
  rw [hklen, a4, a3, Nat.zero_add] at g3
  refine ⟨t, g1, g2, g3, ?_⟩
  intro hkN
  rw [if_pos hkN] at g3
  obtain ⟨u, b1, b2, b3, _⟩ := poll_SEND_CSW h t g3
  refine ⟨u, b1, b2, b3, ?_, ?_⟩
  · rw [g4, a7]
  · intro hall
    rw [g6 (fun i hi => hall i (by omega)), a7]
    rfl

/-- Witness of C9: WRITE(10) of 2 blocks at LBA 7 to a writable device. -/
theorem write10_round_witness :
    ∃ s1 t u,
      handle_request (sample_handlers 100 (some true))
        (received (make_cbw 0x31 1024 10 [0x2A, 0, 0, 0, 0, 7, 0, 0, 2, 0])) = some s1 ∧
      receive_and_poll (sample_handlers 100 (some true))
        [List.replicate 512 0xAA, List.replicate 512 0xBB] s1 = some t ∧
      t._state = state_t.SEND_CSW ∧
      poll (sample_handlers 100 (some true)) t = some u ∧
      u.log = [event.is_writeable, event.write 7, event.write 8,
        event.in_transfer
          (payload.csw ⟨0x53425355, 0x31, 0, csw_status_t.CMD_PASSED⟩) 13] := by
  obtain ⟨s1, h1, _, h3, h4⟩ :=
    write10_round (sample_handlers 100 (some true))
      (received (make_cbw 0x31 1024 10 [0x2A, 0, 0, 0, 0, 7, 0, 0, 2, 0]))
      [List.replicate 512 0xAA, List.replicate 512 0xBB]
      rfl rfl (by decide) rfl (by decide) (by decide) (by decide) (by decide) (by decide)
      (by
        intro b hb
        simp only [List.mem_cons, List.mem_singleton, List.not_mem_nil, or_false] at hb
        rcases hb with rfl | rfl <;> exact List.length_replicate _ _)
  have e1 : be16 (received (make_cbw 0x31 1024 10
      [0x2A, 0, 0, 0, 0, 7, 0, 0, 2, 0]))._buffer_out 22 = 2 := by decide
  obtain ⟨t, g1, g2, g3, g4⟩ := h4 2 (by rw [e1])
  obtain ⟨u, k1, _, k3, k4, k5⟩ := g4 e1.symm
  rw [e1] at g3
  refine ⟨s1, t, u, h1, g1, g3, k1, ?_⟩
  rw [k3, k5 (fun _ _ => rfl), g2, h3]
  decide

/-- C10, the code at the failing input: an INQUIRY command block wrapper with
`dCBWDataTransferLength = 5`. Five bytes of the inquiry response are sent, but
the CSW that follows carries the residue `(5 - 36) mod 2^32 = 4294967265`
instead of `5 - min(5, 36) = 0`. -/
theorem inquiry_short_residue :
    ((handle_request (sample_handlers 100 none)
        (received (make_cbw 0x41 5 6 [0x12, 0, 0, 0, 5, 0]))).bind
      (poll (sample_handlers 100 none))).map (fun t => t.log)
    = some [event.in_transfer (payload.inquiry_response constructed._inquiry_response) 5,
        event.in_transfer
          (payload.csw ⟨0x53425355, 0x41, 4294967265, csw_status_t.CMD_PASSED⟩) 13] := by
  decide

/-- C8 (amended). In state `RECEIVE_CBW`, once a received packet has ended the
OUT transfer (the data handler has set the received-length flag to the
received length of the transfer, which is non-zero), if that length differs
from 31 or the signature is not 0x43425355, `handle_request` stalls the bulk
IN and the bulk OUT endpoint, clears the received-length flag (and the NAK of
the OUT endpoint) and changes nothing else: the state stays `RECEIVE_CBW`, no
command is dispatched (no callback, no transfer), the latched CSW and the
latched sense are unchanged. -/
theorem invalid_cbw_stalls (h : handlers) (s : state)
    (hst : s._state = state_t.RECEIVE_CBW) (hrx : s._buffer_out_len ≠ 0)
    (hbad : s._buffer_out_len ≠ 31 ∨ dCBWSignature s._buffer_out ≠ 0x43425355) :
    ∃ t, handle_request h s = some t ∧
      t = { s with
        _ep_in := { s._ep_in with STALL := true }
        _ep_out := { s._ep_out with STALL := true, EP_ABORT := false }
        _buffer_out_len := 0 } ∧
      t._ep_in.STALL = true ∧ t._ep_out.STALL = true ∧
      t._state = state_t.RECEIVE_CBW ∧ t.log = s.log ∧ t._csw = s._csw ∧
      t._sense_fixed_response = s._sense_fixed_response ∧ t._buffer_out_len = 0 := by
  have hbad2 : s._buffer_out_len ≠ sizeof_cbw_t ∨
      dCBWSignature s._buffer_out ≠ cbw_signature := hbad
  refine ⟨_, ?_, rfl, rfl, rfl, hst, rfl, rfl, rfl, rfl⟩
  unfold handle_request
  rw [hst]
  simp only [if_neg hrx, if_pos hbad2]
  rfl

/-- Witness of C8 (amended): a packet of 30 bytes, which is shorter than the
packet size and ends the transfer. -/
theorem invalid_cbw_stalls_witness :
    ∃ t, handle_request (sample_handlers 100 none)
        (received (List.replicate 30 0x55)) = some t ∧
      t._ep_in.STALL = true ∧ t._ep_out.STALL = true ∧
      t._state = state_t.RECEIVE_CBW ∧ t.log = [] ∧ t._buffer_out_len = 0 := by
  obtain ⟨t, h1, _, h3, h4, h5, h6, _, _, h9⟩ :=
    invalid_cbw_stalls (sample_handlers 100 none) (received (List.replicate 30 0x55))
      rfl (by decide) (Or.inl (by decide))
  exact ⟨t, h1, h3, h4, h5, h6, h9⟩

set_option maxRecDepth 8000 in
/-- C8 (counterexample): in state `RECEIVE_CBW`, with the transfer of 512
bytes the constructor started on a bulk OUT endpoint of packet size 64, a
packet of 64 bytes with the signature 0x55555555 is received. Its length is
non-zero and not 31 and its signature is wrong, but the packet has the full
size and does not end the transfer: the engine arms the next packet and does
not invoke the data handler, the received-length flag stays 0, and
`handle_request` stalls neither bulk endpoint. A packet of 30 bytes ends the
transfer and is answered by the stall of both endpoints. -/
theorem full_size_packet_not_detected :
    ((constructed_context.bind (fun c => packet_received c (List.replicate 64 0x55))).bind
      (fun c => (handle_request (sample_handlers 100 none) c.dev).map (fun t =>
        (c.ep_out._active, c.ep_out.handled, c.ep_out.armed.length, c.dev._buffer_out_len,
          t._ep_in.STALL, t._ep_out.STALL, t._state))))
      = some (true, [], 2, 0, false, false, state_t.RECEIVE_CBW) ∧
    ((constructed_context.bind (fun c => packet_received c (List.replicate 30 0x55))).bind
      (fun c => (handle_request (sample_handlers 100 none) c.dev).map (fun t =>
        (c.ep_out._active, c.ep_out.handled, c.ep_out.armed.length, c.dev._buffer_out_len,
          t._ep_in.STALL, t._ep_out.STALL, t._state))))
      = some (true, [(0x20000400, 30)], 2, 30, true, true, state_t.RECEIVE_CBW) := by
  exact ⟨rfl, rfl⟩

theorem sub32_of_le {a b : Nat} (hb : b ≤ a) (ha : a < 4294967296) : sub32 a b = a - b := by
  unfold sub32
  omega

theorem scsi_switch_MODE_SENSE_6 (h : handlers) (s : state)
    (hop : CBWCB s._buffer_out 0 = 0x1A) : scsi_switch h s = case_MODE_SENSE_6 h s := by
  unfold scsi_switch
  simp [hop]

theorem scsi_switch_READ_FORMAT_CAPACITIES (h : handlers) (s : state)
    (hop : CBWCB s._buffer_out 0 = 0x23) :
    scsi_switch h s = case_READ_FORMAT_CAPACITIES h s := by
  unfold scsi_switch
  simp [hop]

theorem case_MODE_SENSE_6_members (h : handlers) (s : state)
    (hlen : bCBWCBLength s._buffer_out = 6) :
    ∃ t, case_MODE_SENSE_6 h s
        = some (t, some (buffer.mode_sense_6_response, sizeof_mode_sense_6_response_t)) ∧
      t._state = s._state ∧ t._buffer_out = s._buffer_out ∧
      t.log = (query_write_protect h s).2.log ∧
      t._csw.dCSWSignature = s._csw.dCSWSignature ∧ t._csw.dCSWTag = s._csw.dCSWTag ∧
      t._csw.dCSWDataResidue = sub32 (dCBWDataTransferLength s._buffer_out) 4 := by
  have hc : ¬ (bCBWCBLength s._buffer_out ≠ 6) := by simp [hlen]
  unfold case_MODE_SENSE_6
  rw [if_neg hc]
  obtain ⟨a1, a2, a3, a4, a5, ready, a7, a8, a9, a10, a11, a12, a13, a14, a15, a16, a17⟩ := s
  obtain ⟨c1, c2, c3, w, ss, rm⟩ := h
  cases ready <;> rcases w with _ | _ | _ <;>
    exact ⟨_, rfl, rfl, rfl, rfl, rfl, rfl, rfl⟩

/-- A command that answers with a response object: `handle_request` starts the
IN transfer of the response, clipped to the expected length, and the next poll
emits the CSW the command has prepared. -/
theorem respond_round (h : handlers) (s t1 : state) (b : buffer) (n : Nat)
    (hst : s._state = state_t.RECEIVE_CBW) (hlen : s._buffer_out_len = 31)
    (hsig : dCBWSignature s._buffer_out = cbw_signature)
    (hsw : scsi_switch h (seed_csw s) = some (t1, some (b, n)))
    (h1 : t1._state = state_t.SEND_CSW) (h2 : t1._buffer_out = s._buffer_out)
    (hE : dCBWDataTransferLength s._buffer_out ≠ 0) :
    ∃ t u, handle_request h s = some t ∧
      t.log = t1.log ++
        [event.in_transfer (deref t1 b) (min n (dCBWDataTransferLength s._buffer_out))] ∧
      t._csw = t1._csw ∧ t._sense_fixed_response = t1._sense_fixed_response ∧
      t._state = state_t.SEND_CSW ∧
      poll h t = some u ∧ u._state = state_t.RECEIVE_CBW ∧
      u.log = t.log ++ [event.in_transfer (payload.csw t1._csw) sizeof_csw_t] := by
  have hE1 : dCBWDataTransferLength t1._buffer_out ≠ 0 := by rw [h2]; exact hE
  have hp : process_scsi_command h (seed_csw s) = some { t1 with
      _ep_in := { t1._ep_in with _active := true }
      log := t1.log ++
        [event.in_transfer (deref t1 b) (min n (dCBWDataTransferLength t1._buffer_out))] } := by
    unfold process_scsi_command
    rw [hsw]
    exact analyze_response_send t1 b n h1 hE1
  rw [handle_request_valid_cbw h s hst hlen hsig, hp]
  obtain ⟨u, k1, k2, k3, _⟩ := poll_SEND_CSW h
    ({ ({ t1 with
      _ep_in := { t1._ep_in with _active := true }
      log := t1.log ++
        [event.in_transfer (deref t1 b) (min n (dCBWDataTransferLength t1._buffer_out))] }
        : state) with
      _buffer_out_len := 0
      _ep_out := endpoint.send_NAK t1._ep_out false }) h1
  refine ⟨_, u, rfl, ?_, rfl, rfl, h1, k1, k2, k3⟩
  rw [← h2]

/-- A command without a response object: with an expected length of 0 the
prepared CSW is kept, otherwise its status becomes FAILED; no data transfer is
started, and the next poll emits the CSW. -/
theorem quiet_round (h : handlers) (s t1 : state)
    (hst : s._state = state_t.RECEIVE_CBW) (hlen : s._buffer_out_len = 31)
    (hsig : dCBWSignature s._buffer_out = cbw_signature)
    (hsw : scsi_switch h (seed_csw s) = some (t1, none))
    (h1 : t1._state = state_t.SEND_CSW) (h2 : t1._buffer_out = s._buffer_out) :
    ∃ t u, handle_request h s = some t ∧ t.log = t1.log ∧
      t._csw = (if dCBWDataTransferLength s._buffer_out ≠ 0
        then { t1._csw with bCSWStatus := csw_status_t.CMD_FAILED } else t1._csw) ∧
      t._sense_fixed_response = t1._sense_fixed_response ∧
      t._state = state_t.SEND_CSW ∧
      poll h t = some u ∧ u._state = state_t.RECEIVE_CBW ∧
      u.log = t.log ++ [event.in_transfer (payload.csw t._csw) sizeof_csw_t] := by
  have hp : process_scsi_command h (seed_csw s) = some
      (if dCBWDataTransferLength s._buffer_out ≠ 0 then set_failed t1 else t1) := by
    unfold process_scsi_command
    rw [hsw]
    unfold analyze_response
    dsimp only
    rw [if_pos h1, h2]
    by_cases he : dCBWDataTransferLength s._buffer_out ≠ 0
    · rw [if_pos he, if_pos he]
    · rw [if_neg he, if_neg he]
  rw [handle_request_valid_cbw h s hst hlen hsig, hp]
  by_cases he : dCBWDataTransferLength s._buffer_out ≠ 0
  · rw [if_pos he, if_pos he]
    obtain ⟨u, k1, k2, k3, _⟩ := poll_SEND_CSW h
      ({ set_failed t1 with
        _buffer_out_len := 0
        _ep_out := endpoint.send_NAK (set_failed t1)._ep_out false }) h1
    exact ⟨_, u, rfl, rfl, rfl, rfl, h1, k1, k2, k3⟩
  · rw [if_neg he, if_neg he]
    obtain ⟨u, k1, k2, k3, _⟩ := poll_SEND_CSW h
      ({ t1 with
        _buffer_out_len := 0
        _ep_out := endpoint.send_NAK t1._ep_out false }) h1
    exact ⟨_, u, rfl, rfl, rfl, rfl, h1, k1, k2, k3⟩

theorem case_READ_FORMAT_CAPACITIES_members (h : handlers) (s : state)
    (hlen : bCBWCBLength s._buffer_out = 10)
    (hbs : h.capacity_handler.1 % 65536 = TUPP_MSC_BLOCK_SIZE) :
    ∃ t, case_READ_FORMAT_CAPACITIES h s
        = some (t, some (buffer.read_format_capacity_10_response,
            sizeof_read_format_capacity_10_response_t)) ∧
      t._state = s._state ∧ t._buffer_out = s._buffer_out ∧
      t.log = s.log ++ [event.capacity] ∧
      t._csw.dCSWSignature = s._csw.dCSWSignature ∧ t._csw.dCSWTag = s._csw.dCSWTag ∧
      t._csw.dCSWDataResidue = sub32 (dCBWDataTransferLength s._buffer_out) 12 ∧
      t._read_format_capacity_10_response =
        ⟨8, h.capacity_handler.2 % 4294967296, 2, h.capacity_handler.1 % 65536⟩ := by
  have hc : ¬ (bCBWCBLength s._buffer_out ≠ 10) := by simp [hlen]
  have hc3 : ¬ (h.capacity_handler.1 % 65536 ≠ TUPP_MSC_BLOCK_SIZE) := by simp [hbs]
  unfold case_READ_FORMAT_CAPACITIES
  rw [if_neg hc]
  dsimp only
  rw [if_neg hc3]
  obtain ⟨a1, a2, a3, a4, a5, ready, a7, a8, a9, a10, a11, a12, a13, a14, a15, a16, a17⟩ := s
  obtain ⟨c1, c2, c3, w, ss, rm⟩ := h
  cases ready <;>
    exact ⟨_, rfl, rfl, rfl, rfl, rfl, rfl, rfl, rfl⟩

theorem csw_eta (c : csw_t) :
    c = ⟨c.dCSWSignature, c.dCSWTag, c.dCSWDataResidue, c.bCSWStatus⟩ := by
  cases c
  rfl

theorem query_write_protect_seed (h : handlers) (s : state) :
    (query_write_protect h (seed_csw s)).2.log = (query_write_protect h s).2.log := by
  unfold query_write_protect
  cases h.is_writeable_handler <;> rfl

/-- MODE_SENSE(6) with an expected length `E > 4`: the four bytes of the
response are sent and the CSW carries the residue `E - 4`. -/
theorem mode_sense_6_residue (h : handlers) (s : state)
    (hst : s._state = state_t.RECEIVE_CBW) (hlen : s._buffer_out_len = 31)
    (hsig : dCBWSignature s._buffer_out = 0x43425355)
    (hop : CBWCB s._buffer_out 0 = 0x1A) (hcb : bCBWCBLength s._buffer_out = 6)
    (hE : 4 < dCBWDataTransferLength s._buffer_out) :
    ∃ t u r st, handle_request h s = some t ∧
      t.log = (query_write_protect h s).2.log ++
        [event.in_transfer (payload.mode_sense_6_response r) 4] ∧
      poll h t = some u ∧
      u.log = t.log ++ [event.in_transfer
        (payload.csw ⟨0x53425355, dCBWTag s._buffer_out,
          dCBWDataTransferLength s._buffer_out - 4, st⟩) 13] := by
  obtain ⟨t1, e1, e2, e3, e4, e5, e6, e7⟩ := case_MODE_SENSE_6_members h (seed_csw s) hcb
  obtain ⟨t, u, k1, k2, k3, _, _, k6, _, k8⟩ :=
    respond_round h s t1 _ _ hst hlen hsig
      ((scsi_switch_MODE_SENSE_6 h (seed_csw s) hop).trans e1) e2 e3 (by omega)
  have hlt := le32_lt s._buffer_out 8
  have hmin : min sizeof_mode_sense_6_response_t (dCBWDataTransferLength s._buffer_out) = 4 := by
    unfold sizeof_mode_sense_6_response_t
    omega
  have hsub : sub32 (dCBWDataTransferLength s._buffer_out) 4
      = dCBWDataTransferLength s._buffer_out - 4 := sub32_of_le (Nat.le_of_lt hE) hlt
  have hres : t1._csw = ⟨0x53425355, dCBWTag s._buffer_out,
      dCBWDataTransferLength s._buffer_out - 4, t1._csw.bCSWStatus⟩ := by
    rw [← hsub]
    exact (csw_eta t1._csw).trans (by rw [e5, e6, e7]; rfl)
  refine ⟨t, u, t1._mode_sense_6_response, t1._csw.bCSWStatus, k1, ?_, k6, ?_⟩
  · rw [k2, e4, hmin, query_write_protect_seed]
    rfl
  · rw [k8, hres]
    rfl

/-- READ_FORMAT_CAPACITIES with an expected length `E > 12` (block size 512
reported by the capacity callback): the twelve bytes of the response are sent
and the CSW carries the residue `E - 12`. -/
theorem read_format_capacities_residue (h : handlers) (s : state)
    (hst : s._state = state_t.RECEIVE_CBW) (hlen : s._buffer_out_len = 31)
    (hsig : dCBWSignature s._buffer_out = 0x43425355)
    (hop : CBWCB s._buffer_out 0 = 0x23) (hcb : bCBWCBLength s._buffer_out = 10)
    (hbs : h.capacity_handler.1 % 65536 = 512)
    (hE : 12 < dCBWDataTransferLength s._buffer_out) :
    ∃ t u st, handle_request h s = some t ∧
      t.log = s.log ++ [event.capacity,
        event.in_transfer (payload.read_format_capacity_10_response
          ⟨8, h.capacity_handler.2 % 4294967296, 2, h.capacity_handler.1 % 65536⟩) 12] ∧
      poll h t = some u ∧
      u.log = t.log ++ [event.in_transfer
        (payload.csw ⟨0x53425355, dCBWTag s._buffer_out,
          dCBWDataTransferLength s._buffer_out - 12, st⟩) 13] := by
  obtain ⟨t1, e1, e2, e3, e4, e5, e6, e7, e8⟩ :=
    case_READ_FORMAT_CAPACITIES_members h (seed_csw s) hcb hbs
  obtain ⟨t, u, k1, k2, k3, _, _, k6, _, k8⟩ :=
    respond_round h s t1 _ _ hst hlen hsig
      ((scsi_switch_READ_FORMAT_CAPACITIES h (seed_csw s) hop).trans e1) e2 e3 (by omega)
  have hlt := le32_lt s._buffer_out 8
  have hmin : min sizeof_read_format_capacity_10_response_t
      (dCBWDataTransferLength s._buffer_out) = 12 := by
    unfold sizeof_read_format_capacity_10_response_t
    omega
  have hsub : sub32 (dCBWDataTransferLength s._buffer_out) 12
      = dCBWDataTransferLength s._buffer_out - 12 := sub32_of_le (Nat.le_of_lt hE) hlt
  have hres : t1._csw = ⟨0x53425355, dCBWTag s._buffer_out,
      dCBWDataTransferLength s._buffer_out - 12, t1._csw.bCSWStatus⟩ := by
    rw [← hsub]
    exact (csw_eta t1._csw).trans (by rw [e5, e6, e7]; rfl)
  refine ⟨t, u, t1._csw.bCSWStatus, k1, ?_, k6, ?_⟩
  · rw [k2, e4, hmin, List.append_assoc]
    unfold deref
    rw [e8]
    rfl
  · rw [k8, hres]
    rfl

/-- C11, the code at the failing input: a REQUEST_SENSE command block wrapper
with `dCBWDataTransferLength = 20`. The 18 bytes of the sense response are
sent, but the CSW that follows carries the residue 0 instead of `20 - 18 = 2`:
the case REQUEST_SENSE does not assign `_csw.dCSWDataResidue`. -/
theorem request_sense_residue_not_set :
    ((handle_request (sample_handlers 100 none)
        (received (make_cbw 0x52 20 6 [0x03, 0, 0, 0, 20, 0]))).bind
      (poll (sample_handlers 100 none))).map (fun t => t.log)
    = some [event.in_transfer (payload.sense_fixed_response constructed._sense_fixed_response) 18,
        event.in_transfer
          (payload.csw ⟨0x53425355, 0x52, 0, csw_status_t.CMD_PASSED⟩) 13] := by
  decide

theorem scsi_switch_TEST_UNIT_READY (h : handlers) (s : state)
    (hop : CBWCB s._buffer_out 0 = 0x00) : scsi_switch h s = case_TEST_UNIT_READY s := by
  unfold scsi_switch
  simp [hop]

/-- TEST_UNIT_READY with an expected length of 0: no data transfer is started,
the sense is latched according to `_device_ready`, and the CSW emitted by the
next poll has the status PASSED whether the device is ready or not. -/
theorem test_unit_ready_round (h : handlers) (s : state)
    (hst : s._state = state_t.RECEIVE_CBW) (hlen : s._buffer_out_len = 31)
    (hsig : dCBWSignature s._buffer_out = 0x43425355)
    (hop : CBWCB s._buffer_out 0 = 0x00) (hcb : bCBWCBLength s._buffer_out = 6)
    (hE : dCBWDataTransferLength s._buffer_out = 0) :
    ∃ t u, handle_request h s = some t ∧ t.log = s.log ∧ t._state = state_t.SEND_CSW ∧
      t._sense_fixed_response = { s._sense_fixed_response with
        sense_key := if s._device_ready then sense_key_t.NO_SENSE else sense_key_t.NOT_READY
        add_sense_code := if s._device_ready then 0 else 4
        add_sense_qualifier := 0 } ∧
      poll h t = some u ∧
      u.log = s.log ++ [event.in_transfer
        (payload.csw ⟨0x53425355, dCBWTag s._buffer_out, 0, csw_status_t.CMD_PASSED⟩) 13] := by
  have hc : ¬ (bCBWCBLength (seed_csw s)._buffer_out ≠ 6) := by
    intro hne
    exact hne hcb
  have hsw : scsi_switch h (seed_csw s) = some
      (set_sense (seed_csw s)
        (if s._device_ready then sense_key_t.NO_SENSE else sense_key_t.NOT_READY)
        (if s._device_ready then 0 else 4) 0, none) := by
    rw [scsi_switch_TEST_UNIT_READY h (seed_csw s) hop]
    unfold case_TEST_UNIT_READY
    rw [if_neg hc]
    cases hr : s._device_ready
    · have : (seed_csw s)._device_ready = false := hr
      rw [this]
      rfl
    · have : (seed_csw s)._device_ready = true := hr
      rw [this]
      rfl
  obtain ⟨t, u, k1, k2, k3, k4, k5, k6, _, k8⟩ :=
    quiet_round h s _ hst hlen hsig hsw rfl rfl
  have hz : ¬ (dCBWDataTransferLength s._buffer_out ≠ 0) := by
    intro hne
    exact hne hE
  rw [if_neg hz] at k3
  refine ⟨t, u, k1, k2, k5, k4, k6, ?_⟩
  rw [k8, k3, k2]
  rfl

/-- C12, the code at the failing input: a TEST_UNIT_READY command block
wrapper with `dCBWDataTransferLength = 0` received by a device that is not
ready. No data phase is started and the sense becomes NOT_READY / 0x04 / 0,
but the CSW that follows has the status PASSED, not FAILED. -/
theorem test_unit_ready_not_ready_passes :
    ((handle_request (sample_handlers 100 none)
        (received_not_ready (make_cbw 0x53 0 6 [0x00, 0, 0, 0, 0, 0]))).bind
      (poll (sample_handlers 100 none))).map
        (fun t => (t.log, t._sense_fixed_response.sense_key,
          t._sense_fixed_response.add_sense_code, t._sense_fixed_response.add_sense_qualifier))
    = some ([event.in_transfer
          (payload.csw ⟨0x53425355, 0x53, 0, csw_status_t.CMD_PASSED⟩) 13],
        sense_key_t.NOT_READY, 4, 0) := by
  decide

theorem scsi_switch_default (h : handlers) (s : state)
    (hop : CBWCB s._buffer_out 0 ∉ [0x00, 0x03, 0x12, 0x1A, 0x1B, 0x1E, 0x23, 0x25, 0x28, 0x2A]) :
    scsi_switch h s = some (s, none) := by
  simp only [List.mem_cons, List.mem_singleton, List.not_mem_nil, or_false, not_or] at hop
  obtain ⟨c0, c1, c2, c3, c4, c5, c6, c7, c8, c9⟩ := hop
  unfold scsi_switch
  dsimp only
  rw [if_neg c0, if_neg c1, if_neg c2, if_neg c3, if_neg c4, if_neg c5, if_neg c7, if_neg c6,
    if_neg c8, if_neg c9]

/-- A command block wrapper with an opcode that has no case in
`process_scsi_command`: no callback is invoked and no data transfer is started;
the CSW emitted by the next poll carries the CBW tag, and its status is FAILED
if the expected length is not 0 and PASSED if it is 0. -/
theorem unsupported_opcode_round (h : handlers) (s : state)
    (hst : s._state = state_t.RECEIVE_CBW) (hlen : s._buffer_out_len = 31)
    (hsig : dCBWSignature s._buffer_out = 0x43425355)
    (hop : CBWCB s._buffer_out 0 ∉ [0x00, 0x03, 0x12, 0x1A, 0x1B, 0x1E, 0x23, 0x25, 0x28, 0x2A]) :
    ∃ t u, handle_request h s = some t ∧ t.log = s.log ∧ t._state = state_t.SEND_CSW ∧
      poll h t = some u ∧
      u.log = s.log ++ [event.in_transfer
        (payload.csw ⟨0x53425355, dCBWTag s._buffer_out, 0,
          if dCBWDataTransferLength s._buffer_out ≠ 0 then csw_status_t.CMD_FAILED
          else csw_status_t.CMD_PASSED⟩) 13] := by
  obtain ⟨t, u, k1, k2, k3, _, k5, k6, _, k8⟩ :=
    quiet_round h s _ hst hlen hsig (scsi_switch_default h (seed_csw s) hop) rfl rfl
  refine ⟨t, u, k1, k2, k5, k6, ?_⟩
  rw [k8, k3, k2]
  by_cases he : dCBWDataTransferLength s._buffer_out ≠ 0
  · rw [if_pos he, if_pos he]
    rfl
  · rw [if_neg he, if_neg he]
    rfl

/-- C13, the code at the failing input: a command block wrapper with the
opcode 0x35, which has no case in `process_scsi_command`, and
`dCBWDataTransferLength = 0`. A CSW with the CBW tag is emitted, but its status
is PASSED, not FAILED. -/
theorem unsupported_opcode_zero_length_passes :
    ((handle_request (sample_handlers 100 none)
        (received (make_cbw 0x54 0 10 [0x35, 0, 0, 0, 0, 0, 0, 0, 0, 0]))).bind
      (poll (sample_handlers 100 none))).map (fun t => t.log)
    = some [event.in_transfer
        (payload.csw ⟨0x53425355, 0x54, 0, csw_status_t.CMD_PASSED⟩) 13] := by
  decide

theorem scsi_switch_READ_CAPACITY_10 (h : handlers) (s : state)
    (hop : CBWCB s._buffer_out 0 = 0x25) : scsi_switch h s = case_READ_CAPACITY_10 h s := by
  unfold scsi_switch
  simp [hop]

theorem case_READ_CAPACITY_10_members (h : handlers) (s : state)
    (hlen : bCBWCBLength s._buffer_out = 10)
    (hE : dCBWDataTransferLength s._buffer_out = sizeof_read_capacity_10_response_t)
    (hbs : h.capacity_handler.1 % 65536 = TUPP_MSC_BLOCK_SIZE) :
    ∃ t, case_READ_CAPACITY_10 h s
        = some (t, some (buffer.read_capacity_10_response,
            sizeof_read_capacity_10_response_t)) ∧
      t._state = s._state ∧ t._buffer_out = s._buffer_out ∧
      t.log = s.log ++ [event.capacity] ∧
      t._csw.dCSWSignature = s._csw.dCSWSignature ∧ t._csw.dCSWTag = s._csw.dCSWTag ∧
      t._csw.dCSWDataResidue = sub32 (dCBWDataTransferLength s._buffer_out) 8 ∧
      t._read_capacity_10_response =
        ⟨__ntohl (sub32 (h.capacity_handler.2 % 4294967296) 1),
          __ntohl (h.capacity_handler.1 % 65536)⟩ := by
  have hc : ¬ (bCBWCBLength s._buffer_out ≠ 10) := by simp [hlen]
  have hc2 : ¬ (dCBWDataTransferLength s._buffer_out ≠ sizeof_read_capacity_10_response_t) := by
    simp [hE]
  have hc3 : ¬ (h.capacity_handler.1 % 65536 ≠ TUPP_MSC_BLOCK_SIZE) := by simp [hbs]
  unfold case_READ_CAPACITY_10
  rw [if_neg hc, if_neg hc2]
  dsimp only
  rw [if_neg hc3]
  obtain ⟨a1, a2, a3, a4, a5, ready, a7, a8, a9, a10, a11, a12, a13, a14, a15, a16, a17⟩ := s
  obtain ⟨c1, c2, c3, w, ss, rm⟩ := h
  cases ready <;>
    exact ⟨_, rfl, rfl, rfl, rfl, rfl, rfl, rfl, rfl⟩

theorem le_bytes_of_bytes (a b c d : Nat) (ha : a < 256) (hb : b < 256) (hc : c < 256)
    (hd : d < 256) : le_bytes (a * 16777216 + b * 65536 + c * 256 + d) = [d, c, b, a] := by
  unfold le_bytes
  have h1 : (a * 16777216 + b * 65536 + c * 256 + d) % 256 = d := by omega
  have h2 : (a * 16777216 + b * 65536 + c * 256 + d) / 256 % 256 = c := by omega
  have h3 : (a * 16777216 + b * 65536 + c * 256 + d) / 65536 % 256 = b := by omega
  have h4 : (a * 16777216 + b * 65536 + c * 256 + d) / 16777216 % 256 = a := by omega
  rw [h1, h2, h3, h4]

/-- The memory image of a byte-swapped 32 bit value on the little-endian
target is the big-endian encoding of the value. -/
theorem le_bytes_ntohl (x : Nat) : le_bytes (__ntohl x) = be_bytes x := by
  unfold __ntohl be_bytes
  exact le_bytes_of_bytes _ _ _ _ (Nat.mod_lt _ (by decide)) (Nat.mod_lt _ (by decide))
    (Nat.mod_lt _ (by decide)) (Nat.mod_lt _ (by decide))

/-- C14. MSC READ_CAPACITY(10): when the capacity callback reports the block
size 512 and the block count `C >= 1` (a `uint32_t`), a valid READ_CAPACITY(10)
command block wrapper (command block length 10, data transfer length 8) makes
`handle_request` call the capacity callback and start an IN transfer of the
8-byte response, whose bytes are the big-endian 32 bit encoding of the last
LBA `C - 1` followed by the big-endian 32 bit encoding of the block size 512. -/
theorem read_capacity_10_response_bytes (h : handlers) (s : state) (C : Nat)
    (hst : s._state = state_t.RECEIVE_CBW) (hlen : s._buffer_out_len = 31)
    (hsig : dCBWSignature s._buffer_out = 0x43425355)
    (hop : CBWCB s._buffer_out 0 = 0x25) (hcb : bCBWCBLength s._buffer_out = 10)
    (hE : dCBWDataTransferLength s._buffer_out = 8)
    (hcap : h.capacity_handler = (512, C)) (hC1 : 1 ≤ C) (hC2 : C < 4294967296) :
    ∃ t r, handle_request h s = some t ∧
      t.log = s.log ++
        [event.capacity, event.in_transfer (payload.read_capacity_10_response r) 8] ∧
      r.bytes = be_bytes (C - 1) ++ be_bytes 512 ∧
      r.bytes.length = 8 := by
  have hbs : h.capacity_handler.1 % 65536 = TUPP_MSC_BLOCK_SIZE := by
    rw [hcap]
    rfl
  obtain ⟨t1, e1, e2, e3, e4, _, _, _, e8⟩ :=
    case_READ_CAPACITY_10_members h (seed_csw s) hcb hE hbs
  obtain ⟨t, u, k1, k2, _⟩ :=
    respond_round h s t1 _ _ hst hlen hsig
      ((scsi_switch_READ_CAPACITY_10 h (seed_csw s) hop).trans e1) e2 e3 (by omega)
  have hmin : min sizeof_read_capacity_10_response_t
      (dCBWDataTransferLength s._buffer_out) = 8 := by
    rw [hE]
    rfl
  have hcount : sub32 (h.capacity_handler.2 % 4294967296) 1 = C - 1 := by
    rw [hcap]
    have : C % 4294967296 = C := Nat.mod_eq_of_lt hC2
    simp only [this]
    exact sub32_of_le hC1 hC2
  have hsize : h.capacity_handler.1 % 65536 = 512 := by
    rw [hcap]
    rfl
  have hbytes : t1._read_capacity_10_response.bytes = be_bytes (C - 1) ++ be_bytes 512 := by
    rw [e8, hcount, hsize]
    unfold read_capacity_10_response_t.bytes
    dsimp only
    rw [le_bytes_ntohl (C - 1), le_bytes_ntohl 512]
  refine ⟨t, t1._read_capacity_10_response, k1, ?_, hbytes, ?_⟩
  · rw [k2, e4, hmin, List.append_assoc]
    rfl
  · rw [hbytes]
    rfl

/-- Witness of C14: a device of 100 blocks; the response bytes are
`00 00 00 63 00 00 02 00`. -/
theorem read_capacity_10_response_bytes_witness :
    ∃ t r, handle_request (sample_handlers 100 none)
        (received (make_cbw 0x55 8 10 [0x25, 0, 0, 0, 0, 0, 0, 0, 0, 0])) = some t ∧
      t.log = [event.capacity, event.in_transfer (payload.read_capacity_10_response r) 8] ∧
      r.bytes = [0, 0, 0, 0x63, 0, 0, 2, 0] := by
  obtain ⟨t, r, h1, h2, h3, _⟩ :=
    read_capacity_10_response_bytes (sample_handlers 100 none)
      (received (make_cbw 0x55 8 10 [0x25, 0, 0, 0, 0, 0, 0, 0, 0, 0])) 100
      rfl rfl (by decide) (by decide) (by decide) (by decide) rfl (by decide) (by decide)
  exact ⟨t, r, h1, h2, h3⟩

/-- READ_FORMAT_CAPACITIES, block size 512 and block count `C` reported by the
capacity callback: the 12 bytes of the response are the capacity list header
with list length 8, the block count as it lies in the memory of the
little-endian target (least significant byte first), descriptor type 2, a
reserved byte and the block size as it lies in memory, `00 02`. -/
theorem read_format_capacities_response_bytes (h : handlers) (s : state) (C : Nat)
    (hst : s._state = state_t.RECEIVE_CBW) (hlen : s._buffer_out_len = 31)
    (hsig : dCBWSignature s._buffer_out = 0x43425355)
    (hop : CBWCB s._buffer_out 0 = 0x23) (hcb : bCBWCBLength s._buffer_out = 10)
    (hE : 12 ≤ dCBWDataTransferLength s._buffer_out)
    (hcap : h.capacity_handler = (512, C)) (hC : C < 4294967296) :
    ∃ t r, handle_request h s = some t ∧
      t.log = s.log ++
        [event.capacity, event.in_transfer (payload.read_format_capacity_10_response r) 12] ∧
      r.bytes = [0, 0, 0, 8] ++ le_bytes C ++ [2, 0, 0, 2] := by
  have hbs : h.capacity_handler.1 % 65536 = TUPP_MSC_BLOCK_SIZE := by
    rw [hcap]
    rfl
  obtain ⟨t1, e1, e2, e3, e4, _, _, _, e8⟩ :=
    case_READ_FORMAT_CAPACITIES_members h (seed_csw s) hcb hbs
  obtain ⟨t, u, k1, k2, _⟩ :=
    respond_round h s t1 _ _ hst hlen hsig
      ((scsi_switch_READ_FORMAT_CAPACITIES h (seed_csw s) hop).trans e1) e2 e3 (by omega)
  have hmin : min sizeof_read_format_capacity_10_response_t
      (dCBWDataTransferLength s._buffer_out) = 12 := by
    unfold sizeof_read_format_capacity_10_response_t
    omega
  refine ⟨t, t1._read_format_capacity_10_response, k1, ?_, ?_⟩
  · rw [k2, e4, hmin, List.append_assoc]
    rfl
  · rw [e8, hcap]
    have : C % 4294967296 = C := Nat.mod_eq_of_lt hC
    simp only [this]
    simp [read_format_capacity_10_response_t.bytes, le_bytes]

/-- C15, the code at the failing input: a READ_FORMAT_CAPACITIES command block
wrapper received by a device whose capacity callback reports 100 blocks of 512
bytes. The response holds one descriptor (list length 8), but its block count
is sent as `64 00 00 00` and its block size as `00 02`, least significant byte
first; the big-endian encodings are `00 00 00 64` and `02 00`. -/
theorem read_format_capacities_not_big_endian :
    (handle_request (sample_handlers 100 none)
        (received (make_cbw 0x56 12 10 [0x23, 0, 0, 0, 0, 0, 0, 0, 12, 0]))).map
      (fun t => (t.log, t._read_format_capacity_10_response.bytes))
    = some ([event.capacity,
        event.in_transfer (payload.read_format_capacity_10_response ⟨8, 100, 2, 512⟩) 12],
      [0, 0, 0, 8, 0x64, 0, 0, 0, 2, 0, 0x00, 0x02]) ∧
    be_bytes 100 = [0, 0, 0, 0x64] ∧ be_bytes 512 = [0, 0, 0x02, 0x00] := by
  decide

/-- C16. BOT_RESET frame: from every MSC state, the class request BOT_RESET
(`bRequest = 0xFF`, `wValue = 0`, `wLength = 0`) sets the state to
`RECEIVE_CBW` and changes nothing else: the endpoint objects of the bulk IN and
the bulk OUT endpoint (hence their stall bits and `_next_pid`), the latched CSW
and the latched sense are unchanged. -/
theorem bot_reset_frame (pkt : TUPP.setup_packet_t) (c : setup_context)
    (hreq : pkt.bRequest = 0xFF) (hv : pkt.wValue = 0) (hl : pkt.wLength = 0) :
    ∃ t, setup_handler pkt c = some t ∧
      t = { c with dev := { c.dev with _state := state_t.RECEIVE_CBW } } ∧
      t.dev._state = state_t.RECEIVE_CBW ∧
      t.ep_in = c.ep_in ∧ t.ep_out = c.ep_out ∧ t.ep0_in = c.ep0_in ∧
      t.ep_in.STALL = c.ep_in.STALL ∧ t.ep_in._next_pid = c.ep_in._next_pid ∧
      t.ep_out.STALL = c.ep_out.STALL ∧ t.ep_out._next_pid = c.ep_out._next_pid ∧
      t.dev._ep_in = c.dev._ep_in ∧ t.dev._ep_out = c.dev._ep_out ∧
      t.dev._csw = c.dev._csw ∧
      t.dev._sense_fixed_response = c.dev._sense_fixed_response ∧
      t.dev.log = c.dev.log := by
  have h1 : pkt.bRequest = TUPP.REQ_MSC_BOT_RESET := hreq
  have h2 : ¬ (pkt.wValue ≠ 0) := fun hne => hne hv
  have h3 : ¬ (pkt.wLength ≠ 0) := fun hne => hne hl
  refine ⟨_, ?_, rfl, rfl, rfl, rfl, rfl, rfl, rfl, rfl, rfl, rfl, rfl, rfl, rfl, rfl⟩
  unfold setup_handler
  rw [if_pos h1, if_neg h2, if_neg h3]

/-- Witness of C16: BOT_RESET in the state `DATA_WRITE` with the bulk IN
endpoint stalled and a failed CSW latched. -/
theorem bot_reset_frame_witness :
    ∃ t, setup_handler
        ⟨TUPP.recipient_t.REC_INTERFACE, TUPP.type_t.TYPE_CLASS, TUPP.direction_t.DIR_OUT,
          0xFF, 0, 0, 0⟩ (stalled_context state_t.DATA_WRITE) = some t ∧
      t.dev._state = state_t.RECEIVE_CBW ∧
      t.ep_in.STALL = 1 ∧ t.ep_in._next_pid = 0 ∧
      t.ep_out.STALL = 0 ∧ t.ep_out._next_pid = 1 ∧
      t.dev._ep_in.STALL = true ∧ t.dev._ep_out.STALL = false ∧
      t.dev._csw = ⟨0x53425355, 7, 0, csw_status_t.CMD_FAILED⟩ ∧
      t.dev._sense_fixed_response.sense_key = sense_key_t.DATA_PROTECT := by
  obtain ⟨t, h1, h2, h3, _⟩ :=
    bot_reset_frame
      ⟨TUPP.recipient_t.REC_INTERFACE, TUPP.type_t.TYPE_CLASS, TUPP.direction_t.DIR_OUT,
        0xFF, 0, 0, 0⟩ (stalled_context state_t.DATA_WRITE) rfl rfl rfl
  refine ⟨t, h1, h3, ?_⟩
  rw [h2]
  exact ⟨rfl, rfl, rfl, rfl, rfl, rfl, rfl, rfl⟩

end usb_msc_bot_device

/-! ## Control dispatcher (endpoint 0) -/

namespace usb_device_controller

open TUPP

/-- C18. SETUP resets EP0: for every SETUP packet and every prior state of
endpoint 0, the request is dispatched on a controller in which both the EP0 IN
and the EP0 OUT endpoint have the stall bit cleared, NAK cleared,
`_active = false` and `_next_pid = 1`; `usb_endpoint::reset` establishes
exactly this state from any state of an endpoint (it also releases the
hardware buffer, `AVAILABLE_0 = 0`). -/
theorem setup_resets_ep0 (o : request_handlers) (pkt : setup_packet_t) (c : state) :
    setup_handler o pkt c = dispatch o pkt (reset_ep0 c) ∧
    ((reset_ep0 c)._ep0_in.STALL = 0 ∧ usb_endpoint.is_stalled (reset_ep0 c)._ep0_in = false ∧
      (reset_ep0 c)._ep0_in.EP_ABORT = false ∧ (reset_ep0 c)._ep0_in._active = false ∧
      (reset_ep0 c)._ep0_in._next_pid = 1) ∧
    ((reset_ep0 c)._ep0_out.STALL = 0 ∧ usb_endpoint.is_stalled (reset_ep0 c)._ep0_out = false ∧
      (reset_ep0 c)._ep0_out.EP_ABORT = false ∧ (reset_ep0 c)._ep0_out._active = false ∧
      (reset_ep0 c)._ep0_out._next_pid = 1) ∧
    (reset_ep0 c)._driver = c._driver ∧ (reset_ep0 c)._device = c._device ∧
    (reset_ep0 c)._active_configuration = c._active_configuration ∧
    ∀ s : usb_endpoint.state, usb_endpoint.reset s =
      { s with STALL := 0, AVAILABLE_0 := 0, EP_ABORT := false, _active := false,
               _next_pid := 1 } := by
  refine ⟨rfl, ⟨rfl, rfl, rfl, rfl, rfl⟩, ⟨rfl, rfl, rfl, rfl, rfl⟩, rfl, rfl, rfl, fun s => rfl⟩

/-- The status stage on an idle EP0 IN endpoint whose hardware buffer is free:
a zero-length packet with PID 1 is armed. -/
theorem send_status_members (c : state) (hact : c._ep0_in._active = false)
    (hav : c._ep0_in.AVAILABLE_0 = 0) :
    ∃ e, send_status c = some { c with _ep0_in := e } ∧ e._active = true ∧
      e.armed = c._ep0_in.armed ++ [⟨1, 0⟩] ∧ e._bytes_left = 0 ∧ e._data_len = 0 ∧
      e.bEndpointAddress = c._ep0_in.bEndpointAddress ∧
      e.data_handler = c._ep0_in.data_handler ∧ e.handled = c._ep0_in.handled ∧
      e.PID_0 = 1 ∧ e.LENGTH_0 = 0 ∧ e.wMaxPacketSize = c._ep0_in.wMaxPacketSize := by
  obtain ⟨e, he⟩ := usb_endpoint.start_transfer_some
    { c._ep0_in with _next_pid := 1 } 0 0 hact hav
  obtain ⟨_, _, m3, m4, m5, _, m7, _, _, m10, _, m12, m13, _, m15, m16, _, m18, _, _⟩ :=
    usb_endpoint.start_transfer_members _ e 0 0 he
  refine ⟨e, ?_, m5, ?_, ?_, m7, m3, m10, m13, m15, ?_, m4⟩
  · unfold send_status usb_endpoint.send_zlp_data1
    rw [he]
  · rw [m12]
    simp
  · rw [m18]
    simp
  · rw [m16]
    simp

/-- Buffer-completion events on a driver without a pending address write
nothing. -/
theorem process_buffers_idle (d : usb_dcd.state) (addrs : List Nat)
    (h : d._should_set_address = false) : usb_dcd.process_buffers d addrs = d := by
  unfold usb_dcd.process_buffers
  induction addrs with
  | nil => rfl
  | cons a rest ih =>
    have h1 : usb_dcd._process_buffer d a = d := by
      unfold usb_dcd._process_buffer usb_dcd.check_address
      rw [h]
      simp
    rw [List.foldl_cons, h1]
    exact ih

/-- Buffer-completion events of OUT endpoints leave the driver as it is. -/
theorem process_buffers_out (d : usb_dcd.state) (addrs : List Nat)
    (h : ∀ a ∈ addrs, a &&& 0x80 = 0) : usb_dcd.process_buffers d addrs = d := by
  unfold usb_dcd.process_buffers
  induction addrs with
  | nil => rfl
  | cons a rest ih =>
    have h1 : usb_dcd._process_buffer d a = d := by
      unfold usb_dcd._process_buffer
      rw [h a (List.mem_cons_self a rest)]
      simp
    rw [List.foldl_cons, h1]
    exact ih (fun b hb => h b (List.mem_cons_of_mem a hb))

/-- The calls `enable_endpoint(b)` on a list of endpoints: what they leave in
the driver. -/
theorem enable_endpoints_members (b : Bool) (eps : List Nat) (d : usb_dcd.state) :
    (eps.foldl (fun d a => usb_dcd.enable_endpoint d a b) d)._new_addr = d._new_addr ∧
    (eps.foldl (fun d a => usb_dcd.enable_endpoint d a b) d)._should_set_address
      = d._should_set_address ∧
    (eps.foldl (fun d a => usb_dcd.enable_endpoint d a b) d).ADDRESS = d.ADDRESS ∧
    (eps.foldl (fun d a => usb_dcd.enable_endpoint d a b) d).address_writes
      = d.address_writes ∧
    (eps.foldl (fun d a => usb_dcd.enable_endpoint d a b) d).enable_calls
      = d.enable_calls ++ eps.map (fun a => (a, b)) ∧
    ∀ a, (eps.foldl (fun d a => usb_dcd.enable_endpoint d a b) d).ENABLE a
      = if a ∈ eps ∧ a &&& 0x0f ≠ 0 then b else d.ENABLE a := by
  induction eps generalizing d with
  | nil => simp
  | cons x rest ih =>
    obtain ⟨h1, h2, h3, h4, h5, h6⟩ := ih (usb_dcd.enable_endpoint d x b)
    rw [List.foldl_cons]
    refine ⟨h1, h2, h3, h4, ?_, ?_⟩
    · rw [h5]
      simp [usb_dcd.enable_endpoint]
    · intro a
      rw [h6 a]
      by_cases hm : a ∈ rest ∧ a &&& 0x0f ≠ 0
      · rw [if_pos hm, if_pos ⟨List.mem_cons_of_mem x hm.1, hm.2⟩]
      · rw [if_neg hm]
        by_cases hx : a = x ∧ a &&& 0x0f ≠ 0
        · rw [if_pos ⟨by rw [hx.1]; exact List.mem_cons_self x rest, hx.2⟩]
          obtain ⟨rfl, hx2⟩ := hx
          simp [usb_dcd.enable_endpoint, hx2]
        · have hn : ¬ (a ∈ x :: rest ∧ a &&& 0x0f ≠ 0) := by
            rintro ⟨hmem, hnz⟩
            rcases List.mem_cons.mp hmem with heq | hr
            · exact hx ⟨heq, hnz⟩
            · exact hm ⟨hr, hnz⟩
          rw [if_neg hn]
          unfold usb_dcd.enable_endpoint
          dsimp only
          by_cases hxz : x &&& 0x0f ≠ 0
          · rw [if_pos hxz]
            have hax : a ≠ x := by
              intro heq
              exact hx ⟨heq, by rw [heq]; exact hxz⟩
            simp [hax]
          · rw [if_neg hxz]

theorem interface_activate_endpoints_eq (i : usb_interface.state) (b : Bool)
    (d : usb_dcd.state) :
    usb_interface.activate_endpoints i b d
      = (i._endpoints.filterMap id).foldl (fun d a => usb_dcd.enable_endpoint d a b) d := by
  unfold usb_interface.activate_endpoints
  generalize i._endpoints = l
  induction l generalizing d with
  | nil => rfl
  | cons x rest ih =>
    cases x with
    | none => exact ih d
    | some a => exact ih (usb_dcd.enable_endpoint d a b)

theorem configuration_activate_endpoints_eq (c : usb_configuration.state) (b : Bool)
    (d : usb_dcd.state) :
    usb_configuration.activate_endpoints c b d
      = (usb_configuration.endpoints c).foldl (fun d a => usb_dcd.enable_endpoint d a b) d := by
  unfold usb_configuration.activate_endpoints usb_configuration.endpoints
  generalize c._interfaces = l
  induction l generalizing d with
  | nil => rfl
  | cons x rest ih =>
    cases x with
    | none => exact ih d
    | some i =>
      rw [List.foldl_cons]
      dsimp only
      rw [ih, interface_activate_endpoints_eq]
      simp [List.filterMap_cons, List.flatMap_cons, List.foldl_append]

/-- C20, the code at the failing input: a device with one configuration, of
value 1, added first (slot 0), with an interface 0; configuration 1 is active.
SET_INTERFACE(wIndex = 0, wValue = 3) and GET_INTERFACE(wIndex = 0) evaluate
`configurations[_active_configuration]`, the empty slot 1, and dereference the
null pointer: no state results and no transfer is started. On a device with a
second configuration, of value 2, in slot 1, the same SET_INTERFACE leaves the
alternate setting of interface 0 of the active configuration 1 at 0 and sets
the one of configuration 2, which the following GET_INTERFACE sends. -/
theorem set_interface_indexes_by_value :
    usb_device.alternate_setting single_configuration_device 1 0 = some 0 ∧
    (setup_handler idle_handlers
        ⟨recipient_t.REC_INTERFACE, type_t.TYPE_STANDARD, direction_t.DIR_OUT, 11, 3, 0, 0⟩
        (sample_controller single_configuration_device 1)).isNone = true ∧
    (setup_handler idle_handlers
        ⟨recipient_t.REC_INTERFACE, type_t.TYPE_STANDARD, direction_t.DIR_IN, 10, 0, 0, 1⟩
        (sample_controller single_configuration_device 1)).isNone = true ∧
    (setup_handler idle_handlers
        ⟨recipient_t.REC_INTERFACE, type_t.TYPE_STANDARD, direction_t.DIR_OUT, 11, 3, 0, 0⟩
        (sample_controller two_configuration_device 1)).map
      (fun t => (t._active_configuration, usb_device.alternate_setting t._device 1 0,
        usb_device.alternate_setting t._device 2 0))
      = some (1, some 0, some 3) ∧
    ((setup_handler idle_handlers
        ⟨recipient_t.REC_INTERFACE, type_t.TYPE_STANDARD, direction_t.DIR_OUT, 11, 3, 0, 0⟩
        (sample_controller two_configuration_device 1)).bind
      (setup_handler idle_handlers
        ⟨recipient_t.REC_INTERFACE, type_t.TYPE_STANDARD, direction_t.DIR_IN, 10, 0, 0, 1⟩)).map
      (fun t => (t._ep0_in._data_ptr, t._ep0_in._data_len,
        t._ep0_in.mem t._ep0_in._hw_buffer))
      = some (0x20000400, 1, 3) := by
  refine ⟨by decide, by decide, by decide, by decide, by decide⟩

theorem interface_at_set (d : usb_device.state) (k i : Nat) (x y : usb_interface.state)
    (h : usb_device.interface_at d k i = some (some x)) :
    usb_device.interface_at (usb_device.set_interface_at d k i y) k i = some (some y) := by
  unfold usb_device.interface_at at h
  unfold usb_device.set_interface_at
  cases hk : d._configurations[k]? with
  | none =>
    rw [hk] at h
    cases h
  | some oc =>
    cases oc with
    | none =>
      rw [hk] at h
      cases h
    | some conf =>
      rw [hk] at h
      have hklt : k < d._configurations.length := by
        by_contra hge
        rw [List.getElem?_eq_none (by omega)] at hk
        cases hk
      have hilt : i < conf._interfaces.length := by
        by_contra hge
        have hh : conf._interfaces[i]? = some (some x) := h
        rw [List.getElem?_eq_none (by omega)] at hh
        cases hh
      unfold usb_device.interface_at
      simp only [List.getElem?_set_eq_of_lt _ hklt, List.getElem?_set_eq_of_lt _ hilt]

theorem dispatch_SET_INTERFACE (o : request_handlers) (pkt : setup_packet_t) (c : state)
    (hstd : pkt.type = type_t.TYPE_STANDARD) (hreq : pkt.bRequest = REQ_SET_INTERFACE) :
    dispatch o pkt c = handle_set_interface pkt c := by
  unfold dispatch
  rw [if_pos hstd, hreq]
  rfl

theorem dispatch_GET_INTERFACE (o : request_handlers) (pkt : setup_packet_t) (c : state)
    (hstd : pkt.type = type_t.TYPE_STANDARD) (hreq : pkt.bRequest = REQ_GET_INTERFACE) :
    dispatch o pkt c = handle_get_interface pkt c := by
  unfold dispatch
  rw [if_pos hstd, hreq]
  rfl

/-- A transfer of one byte of an object started on an idle IN endpoint whose
hardware buffer is free: the byte is copied to the hardware buffer and one
packet of length 1 is armed. -/
theorem start_transfer_object_byte (s : usb_endpoint.state) (addr v : Nat)
    (hact : s._active = false) (hav : s.AVAILABLE_0 = 0)
    (hin : usb_endpoint.is_IN s = true) (hM : 1 ≤ s.wMaxPacketSize) :
    ∃ e, usb_endpoint.start_transfer_object s addr [v] 1 = some e ∧ e._active = true ∧
      e._data_ptr = addr ∧ e._data_len = 1 ∧
      e.armed = s.armed ++ [⟨s._next_pid, 1⟩] ∧ e.mem e._hw_buffer = v := by
  obtain ⟨e, he⟩ := usb_endpoint.start_transfer_some
    { s with mem := fun a => if addr ≤ a ∧ a < addr + [v].length then [v].getD (a - addr) 0
                             else s.mem a } addr 1 hact hav
  obtain ⟨_, _, _, _, m5, m6, m7, _, m9, _, _, m12, _, _, _, _, _, _, _, m20⟩ :=
    usb_endpoint.start_transfer_members _ e addr 1 he
  have hmin : min 1 s.wMaxPacketSize = 1 := by omega
  refine ⟨e, he, m5, m6, m7, ?_, ?_⟩
  · rw [m12]
    simp only [hmin]
  · have hc : usb_endpoint.is_IN
        { s with mem := fun a => if addr ≤ a ∧ a < addr + [v].length
                         then [v].getD (a - addr) 0 else s.mem a } = true ∧
        min 1 s.wMaxPacketSize ≠ 0 := ⟨hin, by omega⟩
    rw [m20, m9]
    simp only [hmin] at hc ⊢
    rw [if_pos hc]
    have := usb_endpoint.tupp_memcpy_inside
      (fun a => if addr ≤ a ∧ a < addr + [v].length then [v].getD (a - addr) 0 else s.mem a)
      s._hw_buffer addr 1 0 (by omega)
    simp only [Nat.add_zero] at this
    rw [this]
    simp

theorem and_0xff_of_lt (i : Nat) (hi : i < 256) : i &&& 0xff = i :=
  Nat.and_pow_two_sub_one_of_lt_two_pow (n := 8) hi

/-- SET_INTERFACE followed by GET_INTERFACE on the interface the two handlers
reach, `configurations[_active_configuration]->interfaces[i]`: if that
expression is defined and not null, the alternate setting of that interface
becomes `a & 0xFF` and GET_INTERFACE starts an IN transfer of this one byte on
EP0. -/
theorem interface_round_trip_by_slot (o : request_handlers) (c : state) (i a : Nat)
    (x : usb_interface.state) (hi : i < 256) (hp : c._active_configuration ≠ 0)
    (hx : usb_device.interface_at c._device c._active_configuration i = some (some x))
    (hep : c._ep0_in.bEndpointAddress = 0x80) (hM : 1 ≤ c._ep0_in.wMaxPacketSize) :
    ∃ t u,
      setup_handler o
        ⟨recipient_t.REC_INTERFACE, type_t.TYPE_STANDARD, direction_t.DIR_OUT,
          REQ_SET_INTERFACE, a, i, 0⟩ c = some t ∧
      t._active_configuration = c._active_configuration ∧
      usb_device.interface_at t._device t._active_configuration i
        = some (some (usb_interface.set_bAlternateSetting x (a &&& 0xff))) ∧
      setup_handler o
        ⟨recipient_t.REC_INTERFACE, type_t.TYPE_STANDARD, direction_t.DIR_IN,
          REQ_GET_INTERFACE, 0, i, 1⟩ t = some u ∧
      u._ep0_in._data_len = 1 ∧ u._ep0_in.armed = t._ep0_in.armed ++ [⟨1, 1⟩] ∧
      u._ep0_in.mem u._ep0_in._hw_buffer = a &&& 0xff := by
  have hidx := and_0xff_of_lt i hi
  obtain ⟨e, s1, _, _, _, _, s6, _, _, _, _, s11⟩ := send_status_members
    { reset_ep0 c with
      _device := usb_device.set_interface_at c._device c._active_configuration i
        (usb_interface.set_bAlternateSetting x (a &&& 0xff)) } rfl rfl
  have hset : setup_handler o
      ⟨recipient_t.REC_INTERFACE, type_t.TYPE_STANDARD, direction_t.DIR_OUT,
        REQ_SET_INTERFACE, a, i, 0⟩ c = some
      { ({ reset_ep0 c with
          _device := usb_device.set_interface_at c._device c._active_configuration i
            (usb_interface.set_bAlternateSetting x (a &&& 0xff)) } : state)
        with _ep0_in := e } := by
    unfold setup_handler
    rw [dispatch_SET_INTERFACE o _ _ rfl rfl]
    unfold handle_set_interface
    simp only [ne_eq, not_true_eq_false, if_false, hidx]
    have h1 : (reset_ep0 c)._active_configuration ≠ 0 := hp
    have h2 : usb_device.interface_at (reset_ep0 c)._device (reset_ep0 c)._active_configuration i
        = some (some x) := hx
    simp only [ne_eq] at h1
    simp only [h1, not_false_eq_true, if_true, h2, Option.some_bind]
    exact s1
  have hat := interface_at_set c._device c._active_configuration i x
    (usb_interface.set_bAlternateSetting x (a &&& 0xff)) hx
  have hin : usb_endpoint.is_IN (usb_endpoint.reset e) = true := by
    unfold usb_endpoint.is_IN
    have : (usb_endpoint.reset e).bEndpointAddress = 0x80 := by
      show e.bEndpointAddress = 0x80
      rw [s6]
      exact hep
    rw [this]
    rfl
  obtain ⟨e2, g1, _, _, g4, g5, g6⟩ := start_transfer_object_byte (usb_endpoint.reset e)
    (usb_interface.set_bAlternateSetting x (a &&& 0xff)).addr_bAlternateSetting
    (usb_interface.set_bAlternateSetting x (a &&& 0xff)).bAlternateSetting
    rfl rfl hin (by
      show 1 ≤ e.wMaxPacketSize
      rw [s11]
      exact hM)
  refine ⟨{ ({ reset_ep0 c with
          _device := usb_device.set_interface_at c._device c._active_configuration i
            (usb_interface.set_bAlternateSetting x (a &&& 0xff)) } : state)
        with _ep0_in := e },
    { reset_ep0 { ({ reset_ep0 c with
          _device := usb_device.set_interface_at c._device c._active_configuration i
            (usb_interface.set_bAlternateSetting x (a &&& 0xff)) } : state)
        with _ep0_in := e } with _ep0_in := e2 }, hset, rfl, hat, ?_, g4, g5, g6⟩
  unfold setup_handler
  rw [dispatch_GET_INTERFACE o _ _ rfl rfl]
  unfold handle_get_interface
  simp only [ne_eq, not_true_eq_false, if_false, hidx]
  have h1 : (reset_ep0 { ({ reset_ep0 c with
          _device := usb_device.set_interface_at c._device c._active_configuration i
            (usb_interface.set_bAlternateSetting x (a &&& 0xff)) } : state)
        with _ep0_in := e })._active_configuration ≠ 0 := hp
  simp only [ne_eq] at h1
  simp only [h1, not_false_eq_true, if_true]
  have h2 : usb_device.interface_at
      (reset_ep0 { ({ reset_ep0 c with
          _device := usb_device.set_interface_at c._device c._active_configuration i
            (usb_interface.set_bAlternateSetting x (a &&& 0xff)) } : state)
        with _ep0_in := e })._device
      (reset_ep0 { ({ reset_ep0 c with
          _device := usb_device.set_interface_at c._device c._active_configuration i
            (usb_interface.set_bAlternateSetting x (a &&& 0xff)) } : state)
        with _ep0_in := e })._active_configuration i
      = some (some (usb_interface.set_bAlternateSetting x (a &&& 0xff))) := hat
  simp only [h2]
  have g1r : usb_endpoint.start_transfer_object
      (reset_ep0 { ({ reset_ep0 c with
          _device := usb_device.set_interface_at c._device c._active_configuration i
            (usb_interface.set_bAlternateSetting x (a &&& 0xff)) } : state)
        with _ep0_in := e })._ep0_in
      (usb_interface.set_bAlternateSetting x (a &&& 0xff)).addr_bAlternateSetting
      [(usb_interface.set_bAlternateSetting x (a &&& 0xff)).bAlternateSetting] 1 = some e2 := g1
  simp only [g1r]

/-- A pending address and any sequence of buffer-completion events: the
register is written once, with the pending address, if the sequence holds the
completion of an IN endpoint (at the first such event), and not at all
otherwise. -/
theorem process_buffers_pending (d : usb_dcd.state) (addrs : List Nat)
    (h : d._should_set_address = true) :
    (usb_dcd.process_buffers d addrs).address_writes
      = d.address_writes ++ (if ∃ a ∈ addrs, a &&& 0x80 ≠ 0 then [d._new_addr] else []) ∧
    (usb_dcd.process_buffers d addrs).ADDRESS
      = (if ∃ a ∈ addrs, a &&& 0x80 ≠ 0 then d._new_addr else d.ADDRESS) := by
  induction addrs with
  | nil => simp [usb_dcd.process_buffers]
  | cons a rest ih =>
    by_cases ha : a &&& 0x80 ≠ 0
    · have hex : ∃ b ∈ a :: rest, b &&& 0x80 ≠ 0 := ⟨a, List.mem_cons_self a rest, ha⟩
      have h1 : usb_dcd._process_buffer d a = usb_dcd.check_address d := by
        unfold usb_dcd._process_buffer
        rw [if_pos ha]
      have h2 : usb_dcd.process_buffers d (a :: rest)
          = usb_dcd.process_buffers (usb_dcd.check_address d) rest := by
        unfold usb_dcd.process_buffers
        rw [List.foldl_cons, h1]
      have h3 : (usb_dcd.check_address d)._should_set_address = false := by
        unfold usb_dcd.check_address
        rw [if_pos h]
      rw [h2, process_buffers_idle _ rest h3, if_pos hex, if_pos hex]
      unfold usb_dcd.check_address
      rw [if_pos h]
      exact ⟨rfl, rfl⟩
    · have h1 : usb_dcd._process_buffer d a = d := by
        unfold usb_dcd._process_buffer
        rw [if_neg ha]
      have h2 : usb_dcd.process_buffers d (a :: rest) = usb_dcd.process_buffers d rest := by
        unfold usb_dcd.process_buffers
        rw [List.foldl_cons, h1]
      have hiff : (∃ b ∈ a :: rest, b &&& 0x80 ≠ 0) ↔ (∃ b ∈ rest, b &&& 0x80 ≠ 0) := by
        constructor
        · rintro ⟨b, hb, hnz⟩
          rcases List.mem_cons.mp hb with rfl | hr
          · exact (ha hnz).elim
          · exact ⟨b, hr, hnz⟩
        · rintro ⟨b, hb, hnz⟩
          exact ⟨b, List.mem_cons_of_mem a hb, hnz⟩
      rw [h2]
      simp only [hiff]
      exact ih

/-- C29: the bus-reset handler, run in a state whose active configuration (if
any) is a configuration of the device, writes 0 to the device address and drops
a pending address, leaves `_active_configuration = 0`, and calls
`enable_endpoint(false)` on every endpoint of the configuration that was active
and on nothing else, so that these endpoints end disabled; if no configuration
was active, no endpoint is touched. -/
theorem bus_reset_rule (c : state) (conf : usb_configuration.state)
    (hconf : c._active_configuration ≠ 0 →
      usb_device.find_configuration c._device c._active_configuration = some conf) :
    ∃ t, bus_reset_handler c = some t ∧
      t._driver.ADDRESS = 0 ∧ t._driver._should_set_address = false ∧
      t._driver.address_writes = c._driver.address_writes ++ [0] ∧
      t._active_configuration = 0 ∧ t._device = c._device ∧
      t._ep0_in = c._ep0_in ∧ t._ep0_out = c._ep0_out ∧
      (c._active_configuration = 0 →
        t._driver.enable_calls = c._driver.enable_calls ∧
        t._driver.ENABLE = c._driver.ENABLE ∧
        t._driver._endpoints = c._driver._endpoints) ∧
      (c._active_configuration ≠ 0 →
        t._driver.enable_calls = c._driver.enable_calls ++
          (usb_configuration.endpoints conf).map (fun a => (a, false)) ∧
        (∀ a ∈ usb_configuration.endpoints conf, a &&& 0x0f ≠ 0 →
          t._driver.ENABLE a = false) ∧
        (∀ a, a ∉ usb_configuration.endpoints conf →
          t._driver.ENABLE a = c._driver.ENABLE a)) := by
  by_cases h0 : c._active_configuration ≠ 0
  · have hf := hconf h0
    obtain ⟨_, p2, p3, p4, p5, p6⟩ :=
      enable_endpoints_members false (usb_configuration.endpoints conf)
        (usb_dcd.reset_address c._driver)
    rw [← configuration_activate_endpoints_eq] at p2 p3 p4 p5 p6
    refine ⟨{ c with
        _driver := usb_configuration.activate_endpoints conf false
          (usb_dcd.reset_address c._driver)
        _active_configuration := 0 }, ?_, ?_, ?_, ?_, rfl, rfl, rfl, rfl,
        fun hz => absurd hz h0, fun _ => ⟨?_, ?_, ?_⟩⟩
    · unfold bus_reset_handler
      simp only [if_pos h0, hf]
      rfl
    · exact p3
    · exact p2
    · exact p4
    · exact p5
    · intro a ha hz
      have := p6 a
      rw [if_pos ⟨ha, hz⟩] at this
      exact this
    · intro a ha
      have := p6 a
      rw [if_neg (fun h => ha h.1)] at this
      exact this
  · have hz : c._active_configuration = 0 := by omega
    refine ⟨{ c with _driver := usb_dcd.reset_address c._driver, _active_configuration := 0 },
      ?_, rfl, rfl, rfl, rfl, rfl, rfl, rfl, fun _ => ⟨rfl, rfl, rfl⟩, fun hn => absurd hz hn⟩
    unfold bus_reset_handler
    simp only [if_neg h0]
    rfl

/-- Witness of C29: a bus reset while configuration 1 (endpoints 0x81 and 0x01,
both enabled) is active and the device has the address 42. -/
theorem bus_reset_rule_witness :
    ∃ t, bus_reset_handler (configured_controller 42) = some t ∧
      t._driver.ADDRESS = 0 ∧ t._active_configuration = 0 ∧
      t._driver.enable_calls = [(0x81, false), (0x01, false)] ∧
      t._driver.ENABLE 0x81 = false ∧ t._driver.ENABLE 0x01 = false := by
  obtain ⟨t, h1, h2, _, _, h5, _, _, _, _, h10⟩ :=
    bus_reset_rule (configured_controller 42)
      (sample_configuration 1 [sample_interface 0x20000300 [0x81, 0x01]])
      (fun _ => by decide)
  obtain ⟨k1, k2, _⟩ := h10 (by decide)
  refine ⟨t, h1, h2, h5, ?_, k2 0x81 (by decide) (by decide), k2 0x01 (by decide) (by decide)⟩
  rw [k1]
  decide

theorem dispatch_GET_DESCRIPTOR (o : request_handlers) (pkt : setup_packet_t) (c : state)
    (hstd : pkt.type = type_t.TYPE_STANDARD) (hreq : pkt.bRequest = REQ_GET_DESCRIPTOR) :
    dispatch o pkt c = handle_get_descriptor o pkt c := by
  unfold dispatch
  rw [if_pos hstd, hreq]
  rfl

theorem dispatch_CLEAR_FEATURE (o : request_handlers) (pkt : setup_packet_t) (c : state)
    (hstd : pkt.type = type_t.TYPE_STANDARD) (hreq : pkt.bRequest = REQ_CLEAR_FEATURE) :
    dispatch o pkt c = handle_clear_feature pkt c := by
  unfold dispatch
  rw [if_pos hstd, hreq]
  rfl

theorem dispatch_SET_FEATURE (o : request_handlers) (pkt : setup_packet_t) (c : state)
    (hstd : pkt.type = type_t.TYPE_STANDARD) (hreq : pkt.bRequest = REQ_SET_FEATURE) :
    dispatch o pkt c = handle_set_feature pkt c := by
  unfold dispatch
  rw [if_pos hstd, hreq]
  rfl

theorem dispatch_non_standard (o : request_handlers) (pkt : setup_packet_t) (c : state)
    (hstd : pkt.type ≠ type_t.TYPE_STANDARD) : dispatch o pkt c = forward o pkt c := by
  unfold dispatch
  rw [if_neg hstd]

/-- The `default` branch of the switch over the standard requests: the
controller is left as the reset of EP0 left it. -/
theorem dispatch_default (o : request_handlers) (pkt : setup_packet_t) (c : state)
    (hstd : pkt.type = type_t.TYPE_STANDARD)
    (hreq : pkt.bRequest ∉ [REQ_SET_ADDRESS, REQ_GET_DESCRIPTOR, REQ_SET_DESCRIPTOR,
      REQ_GET_CONFIGURATION, REQ_SET_CONFIGURATION, REQ_GET_INTERFACE, REQ_SET_INTERFACE,
      REQ_SYNCH_FRAME, REQ_GET_STATUS, REQ_CLEAR_FEATURE, REQ_SET_FEATURE]) :
    dispatch o pkt c = some c := by
  unfold dispatch
  simp only [List.mem_cons, List.mem_singleton, not_or, List.not_mem_nil, not_false_eq_true,
    and_true] at hreq
  obtain ⟨h1, h2, h3, h4, h5, h6, h7, h8, h9, h10, h11⟩ := hreq
  rw [if_pos hstd, if_neg h1, if_neg h2, if_neg h3, if_neg h4, if_neg h5, if_neg h6,
    if_neg h7, if_neg h8, if_neg h9, if_neg h10, if_neg h11]

/-- The setup handler on a standard request whose code is none of the eleven
codes of the switch: after the reset of EP0 nothing else is done. -/
theorem setup_handler_default (o : request_handlers) (pkt : setup_packet_t) (c : state)
    (hstd : pkt.type = type_t.TYPE_STANDARD)
    (hreq : pkt.bRequest ∉ [REQ_SET_ADDRESS, REQ_GET_DESCRIPTOR, REQ_SET_DESCRIPTOR,
      REQ_GET_CONFIGURATION, REQ_SET_CONFIGURATION, REQ_GET_INTERFACE, REQ_SET_INTERFACE,
      REQ_SYNCH_FRAME, REQ_GET_STATUS, REQ_CLEAR_FEATURE, REQ_SET_FEATURE]) :
    setup_handler o pkt c = some (reset_ep0 c) ∧
    usb_endpoint.is_stalled (reset_ep0 c)._ep0_in = false ∧
    usb_endpoint.is_stalled (reset_ep0 c)._ep0_out = false :=
  ⟨dispatch_default o pkt (reset_ep0 c) hstd hreq, rfl, rfl⟩

/-- C25: the standard request with the code 2, which is none of the eleven
codes the switch of the setup handler knows, leaves EP0 IN and EP0 OUT without
the stall bit, inactive and with nothing armed: the request is not stalled. -/
theorem unknown_standard_request_not_stalled :
    (setup_handler idle_handlers
        ⟨recipient_t.REC_DEVICE, type_t.TYPE_STANDARD, direction_t.DIR_OUT, 2, 0, 0, 0⟩
        (sample_controller single_configuration_device 0)).map
      (fun t => (usb_endpoint.is_stalled t._ep0_in, usb_endpoint.is_stalled t._ep0_out,
        t._ep0_in.STALL, t._ep0_out.STALL, t._ep0_in._active, t._ep0_in.armed.length))
      = some (false, false, 0, 0, false, 0) := by
  decide

/-- A transfer of the first `len` bytes of an object started on an idle IN
endpoint whose hardware buffer is free: the first packet, of
`min(len, wMaxPacketSize)` bytes, is copied to the hardware buffer and armed
with the PID the endpoint had. -/
theorem start_transfer_object_members (s : usb_endpoint.state) (addr : Nat)
    (bytes : List Nat) (len : Nat)
    (hact : s._active = false) (hav : s.AVAILABLE_0 = 0)
    (hin : usb_endpoint.is_IN s = true) (hlen : len ≤ bytes.length) :
    ∃ e, usb_endpoint.start_transfer_object s addr bytes len = some e ∧ e._active = true ∧
      e._data_ptr = addr ∧ e._data_len = len ∧
      e.armed = s.armed ++ [⟨s._next_pid, min len s.wMaxPacketSize⟩] ∧
      e.PID_0 = s._next_pid ∧ e.LENGTH_0 = min len s.wMaxPacketSize ∧
      (List.range (min len s.wMaxPacketSize)).map (fun k => e.mem (e._hw_buffer + k))
        = bytes.take (min len s.wMaxPacketSize) ∧
      e.bEndpointAddress = s.bEndpointAddress ∧ e.wMaxPacketSize = s.wMaxPacketSize ∧
      e._hw_buffer = s._hw_buffer ∧ e._next_pid = s._next_pid ^^^ 1 := by
  obtain ⟨e, he⟩ := usb_endpoint.start_transfer_some
    { s with mem := fun a => if addr ≤ a ∧ a < addr + bytes.length then bytes.getD (a - addr) 0
                             else s.mem a } addr len hact hav
  obtain ⟨_, _, m3, m4, m5, m6, m7, _, m9, _, m11, m12, _, _, m15, m16, _, _, _, m20⟩ :=
    usb_endpoint.start_transfer_members _ e addr len he
  refine ⟨e, he, m5, m6, m7, m12, m15, m16, ?_, m3, m4, m9, m11⟩
  apply List.ext_getElem
  · simp only [List.length_map, List.length_range, List.length_take]
    omega
  · intro k hk1 hk2
    simp only [List.length_map, List.length_range] at hk1
    have hk3 : k < bytes.length := by omega
    have hc : usb_endpoint.is_IN
        { s with mem := fun a => if addr ≤ a ∧ a < addr + bytes.length
                         then bytes.getD (a - addr) 0 else s.mem a } = true ∧
        min len s.wMaxPacketSize ≠ 0 := ⟨hin, by omega⟩
    simp only [List.getElem_map, List.getElem_range, List.getElem_take]
    rw [m20, m9, if_pos hc]
    have := usb_endpoint.tupp_memcpy_inside
      (fun a => if addr ≤ a ∧ a < addr + bytes.length then bytes.getD (a - addr) 0 else s.mem a)
      s._hw_buffer addr (min len s.wMaxPacketSize) k hk1
    rw [this]
    have hin2 : addr ≤ addr + k ∧ addr + k < addr + bytes.length := ⟨by omega, by omega⟩
    simp only [hin2, and_self, if_true, Nat.add_sub_cancel_left]
    rw [List.getD_eq_getElem _ _ hk3]

/-- C23: a standard GET_DESCRIPTOR(DEVICE) request with any `wLength` starts one
IN transfer on EP0 from the device descriptor with the length
`min(bLength, wLength)`, where `bLength = 18` as set by the constructor; its
first packet has the PID 1 and carries the first `min(18, wLength,
wMaxPacketSize)` bytes of the descriptor, and for `wLength = 8` on an endpoint
with a packet size of at least 8 these are the eight bytes `0x12, 0x01`, the
low and high byte of `bcdUSB`, `bDeviceClass`, `bDeviceSubClass`,
`bDeviceProtocol`, `bMaxPacketSize0`. -/
theorem get_descriptor_device (o : request_handlers) (pkt : setup_packet_t) (c : state)
    (hstd : pkt.type = type_t.TYPE_STANDARD) (hreq : pkt.bRequest = REQ_GET_DESCRIPTOR)
    (hdir : pkt.direction = direction_t.DIR_IN)
    (hrec : pkt.recipient = recipient_t.REC_DEVICE)
    (htype : pkt.wValue >>> 8 = DESC_DEVICE)
    (hlen : c._device.bLength = sizeof_device_descriptor_t)
    (hdt : c._device.bDescriptorType = DESC_DEVICE)
    (hep : c._ep0_in.bEndpointAddress = 0x80) :
    ∃ t, setup_handler o pkt c = some t ∧ t._ep0_in._active = true ∧
      t._ep0_in._data_ptr = c._device.addr_descriptor ∧
      t._ep0_in._data_len = min 18 pkt.wLength ∧
      t._ep0_in.armed = c._ep0_in.armed ++
        [⟨1, min (min 18 pkt.wLength) c._ep0_in.wMaxPacketSize⟩] ∧
      (List.range (min (min 18 pkt.wLength) c._ep0_in.wMaxPacketSize)).map
          (fun k => t._ep0_in.mem (t._ep0_in._hw_buffer + k))
        = (usb_device.descriptor_bytes c._device).take
            (min (min 18 pkt.wLength) c._ep0_in.wMaxPacketSize) ∧
      (pkt.wLength = 8 → 8 ≤ c._ep0_in.wMaxPacketSize →
        (List.range 8).map (fun k => t._ep0_in.mem (t._ep0_in._hw_buffer + k))
          = [0x12, 0x01, c._device.bcdUSB % 256, c._device.bcdUSB / 256 % 256,
             c._device.bDeviceClass % 256, c._device.bDeviceSubClass % 256,
             c._device.bDeviceProtocol % 256, c._device.bMaxPacketSize0 % 256]) ∧
      t._ep0_out._active = false ∧ t._device = c._device ∧ t._driver = c._driver := by
  have hl : (if pkt.wLength < c._device.bLength then pkt.wLength else c._device.bLength)
      = min 18 pkt.wLength := by
    rw [hlen]
    unfold sizeof_device_descriptor_t
    split_ifs <;> omega
  obtain ⟨e, h1, h2, h3, h4, h5, _, _, h8, _, _, _, _⟩ :=
    start_transfer_object_members (reset_ep0 c)._ep0_in c._device.addr_descriptor
      (usb_device.descriptor_bytes c._device) (min 18 pkt.wLength) rfl rfl
      (by
        show usb_endpoint.is_IN (usb_endpoint.reset c._ep0_in) = true
        unfold usb_endpoint.is_IN
        show (c._ep0_in.bEndpointAddress &&& 0x80 != 0) = true
        rw [hep]
        decide)
      (by
        have : (usb_device.descriptor_bytes c._device).length = 18 := rfl
        omega)
  have hres : setup_handler o pkt c = some { reset_ep0 c with _ep0_in := e } := by
    unfold setup_handler
    rw [dispatch_GET_DESCRIPTOR o pkt _ hstd hreq]
    unfold handle_get_descriptor
    rw [if_neg (by rw [hdir]; decide), if_neg (by rw [hrec]; decide)]
    simp only [htype, if_true]
    have h1b : usb_endpoint.start_transfer_object (reset_ep0 c)._ep0_in
        (reset_ep0 c)._device.addr_descriptor (usb_device.descriptor_bytes (reset_ep0 c)._device)
        (if pkt.wLength < (reset_ep0 c)._device.bLength then pkt.wLength
          else (reset_ep0 c)._device.bLength) = some e := by
      have : (reset_ep0 c)._device = c._device := rfl
      rw [this, hl]
      exact h1
    rw [h1b]
  refine ⟨_, hres, h2, h3, h4, h5, h8, ?_, rfl, rfl, rfl⟩
  intro hw hM
  have hmin : min (min 18 pkt.wLength) (usb_endpoint.reset c._ep0_in).wMaxPacketSize = 8 := by
    have : (usb_endpoint.reset c._ep0_in).wMaxPacketSize = c._ep0_in.wMaxPacketSize := rfl
    rw [this, hw]
    omega
  have h8b : (List.range (min (min 18 pkt.wLength) (usb_endpoint.reset c._ep0_in).wMaxPacketSize)).map
      (fun k => e.mem (e._hw_buffer + k))
      = (usb_device.descriptor_bytes c._device).take
          (min (min 18 pkt.wLength) (usb_endpoint.reset c._ep0_in).wMaxPacketSize) := h8
  rw [hmin] at h8b
  show (List.range 8).map (fun k => e.mem (e._hw_buffer + k)) = _
  rw [h8b]
  unfold usb_device.descriptor_bytes
  rw [hlen, hdt]
  rfl

/-- Witness of C23: GET_DESCRIPTOR(DEVICE) with `wLength = 8`. -/
theorem get_descriptor_device_witness :
    ∃ t, setup_handler idle_handlers
        ⟨recipient_t.REC_DEVICE, type_t.TYPE_STANDARD, direction_t.DIR_IN, 6, 0x0100, 0, 8⟩
        (sample_controller described_device 0) = some t ∧
      t._ep0_in._data_len = 8 ∧ t._ep0_in.armed = [⟨1, 8⟩] ∧
      (List.range 8).map (fun k => t._ep0_in.mem (t._ep0_in._hw_buffer + k))
        = [0x12, 0x01, 0x10, 0x02, 0, 0, 0, 64] := by
  obtain ⟨t, h1, _, _, h4, h5, _, h7, _⟩ :=
    get_descriptor_device idle_handlers
      ⟨recipient_t.REC_DEVICE, type_t.TYPE_STANDARD, direction_t.DIR_IN, 6, 0x0100, 0, 8⟩
      (sample_controller described_device 0) rfl rfl rfl rfl (by decide) rfl rfl rfl
  exact ⟨t, h1, h4, h5, h7 rfl (by decide)⟩

/-- The endpoint objects other than those of EP0 are not touched by the reset
of EP0; the objects of EP0 are the reset ones. -/
theorem addr_to_ep_reset_ep0 (c : state) (a : Nat) :
    addr_to_ep (reset_ep0 c) a =
      if (a % 256) &&& 0x0f = 0 then
        if (a % 256) >>> 7 = 0 then some (usb_endpoint.reset c._ep0_out)
        else some (usb_endpoint.reset c._ep0_in)
      else addr_to_ep c a := by
  unfold addr_to_ep
  by_cases h : (a % 256) &&& 0x0f = 0
  · rw [if_pos h, if_pos h]
    rfl
  · rw [if_neg h, if_neg h, if_neg h]
    rfl

/-- The status stage on an idle endpoint whose hardware buffer is free, member
by member: a zero-length packet with PID 1 is armed, the PID toggles to 0 and
the stall bit is left as it is. -/
theorem send_zlp_data1_members (s : usb_endpoint.state) (hact : s._active = false)
    (hav : s.AVAILABLE_0 = 0) :
    ∃ e, usb_endpoint.send_zlp_data1 s = some e ∧ e._active = true ∧
      e.armed = s.armed ++ [⟨1, 0⟩] ∧ e.PID_0 = 1 ∧ e.LENGTH_0 = 0 ∧ e._data_len = 0 ∧
      e.STALL = s.STALL ∧ e._next_pid = 0 ∧ e.setup_handler = s.setup_handler ∧
      e.bEndpointAddress = s.bEndpointAddress := by
  unfold usb_endpoint.send_zlp_data1 usb_endpoint.start_transfer
  simp only [hact, Bool.false_eq_true, if_false, usb_endpoint.trigger_transfer]
  have hc : ¬ ((0 : Nat) > s.wMaxPacketSize) := by omega
  simp only [if_neg hc, ne_eq, not_true_eq_false, and_false, if_false, hav]
  exact ⟨_, rfl, rfl, rfl, rfl, rfl, rfl, rfl, rfl, rfl, rfl⟩

/-- SET_FEATURE (`b = true`) and CLEAR_FEATURE (`b = false`) with the feature
selector 0 for an existing endpoint: the stall bit of the endpoint follows `b`,
its PID is 0, and a zero-length packet with PID 1 is armed on EP0 IN. -/
theorem endpoint_halt_round (b : Bool) (o : request_handlers) (pkt : setup_packet_t)
    (c : state) (ep : usb_endpoint.state)
    (hd : dispatch o pkt (reset_ep0 c) = (change_feature b pkt (reset_ep0 c)).bind send_status)
    (hrec : pkt.recipient = recipient_t.REC_ENDPOINT) (hval : pkt.wValue = 0)
    (hep : addr_to_ep c pkt.wIndex = some ep) :
    ∃ s e, setup_handler o pkt c = some s ∧ addr_to_ep s pkt.wIndex = some e ∧
      e.STALL = (if b then 1 else 0) ∧ e._next_pid = 0 ∧
      s._ep0_in._active = true ∧ s._ep0_in.armed = c._ep0_in.armed ++ [⟨1, 0⟩] ∧
      s._ep0_in.PID_0 = 1 ∧ s._ep0_in.LENGTH_0 = 0 := by
  unfold setup_handler
  rw [hd]
  by_cases hz : (pkt.wIndex % 256) &&& 0x0f = 0
  · by_cases hdz : (pkt.wIndex % 256) >>> 7 = 0
    · have hcf : change_feature b pkt (reset_ep0 c) = some
          { reset_ep0 c with
            _ep0_out := usb_endpoint.send_stall (usb_endpoint.reset c._ep0_out) b } := by
        unfold change_feature
        rw [hrec]
        simp only [hval, if_true, addr_to_ep_reset_ep0, if_pos hz, if_pos hdz]
        unfold set_ep
        rw [if_pos hz, if_pos hdz]
      obtain ⟨e, k1, k2, k3, k4, k5, _⟩ := send_zlp_data1_members
        (usb_endpoint.reset c._ep0_in) rfl rfl
      have hs : send_status { reset_ep0 c with
            _ep0_out := usb_endpoint.send_stall (usb_endpoint.reset c._ep0_out) b }
          = some { reset_ep0 c with
            _ep0_out := usb_endpoint.send_stall (usb_endpoint.reset c._ep0_out) b
            _ep0_in := e } := by
        unfold send_status
        simp only [reset_ep0, k1]
      rw [hcf, Option.some_bind, hs]
      refine ⟨_, usb_endpoint.send_stall (usb_endpoint.reset c._ep0_out) b, rfl, ?_, ?_, ?_,
        k2, k3, k4, k5⟩
      · unfold addr_to_ep
        rw [if_pos hz, if_pos hdz]
      · cases b <;> rfl
      · cases b <;> rfl
    · have hcf : change_feature b pkt (reset_ep0 c) = some
          { reset_ep0 c with
            _ep0_in := usb_endpoint.send_stall (usb_endpoint.reset c._ep0_in) b } := by
        unfold change_feature
        rw [hrec]
        simp only [hval, if_true, addr_to_ep_reset_ep0, if_pos hz, if_neg hdz]
        unfold set_ep
        rw [if_pos hz, if_neg hdz]
      obtain ⟨e, k1, k2, k3, k4, k5, _, k7, k8, _⟩ := send_zlp_data1_members
        (usb_endpoint.send_stall (usb_endpoint.reset c._ep0_in) b)
        (by cases b <;> rfl) (by cases b <;> rfl)
      have hs : send_status { reset_ep0 c with
            _ep0_in := usb_endpoint.send_stall (usb_endpoint.reset c._ep0_in) b }
          = some { reset_ep0 c with _ep0_in := e } := by
        unfold send_status
        simp only [k1]
      rw [hcf, Option.some_bind, hs]
      refine ⟨_, e, rfl, ?_, ?_, k8, k2, ?_, k4, k5⟩
      · unfold addr_to_ep
        rw [if_pos hz, if_neg hdz]
      · rw [k7]
        cases b <;> rfl
      · rw [k3]
        cases b <;> rfl
  · have hcf : change_feature b pkt (reset_ep0 c) = some
        (set_ep (reset_ep0 c) pkt.wIndex (usb_endpoint.send_stall ep b)) := by
      unfold change_feature
      rw [hrec]
      simp only [hval, if_true, addr_to_ep_reset_ep0, if_neg hz, hep]
    obtain ⟨e, k1, k2, k3, k4, k5, _⟩ := send_zlp_data1_members
      (usb_endpoint.reset c._ep0_in) rfl rfl
    have hse : set_ep (reset_ep0 c) pkt.wIndex (usb_endpoint.send_stall ep b)
        = { reset_ep0 c with _driver := { c._driver with
            _endpoints := fun i d =>
              if i = (pkt.wIndex % 256) &&& 0x0f ∧ d = (pkt.wIndex % 256) >>> 7
              then some (usb_endpoint.send_stall ep b)
              else c._driver._endpoints i d } } := by
      unfold set_ep
      rw [if_neg hz]
      rfl
    have hs : send_status (set_ep (reset_ep0 c) pkt.wIndex (usb_endpoint.send_stall ep b))
        = some { set_ep (reset_ep0 c) pkt.wIndex (usb_endpoint.send_stall ep b) with
            _ep0_in := e } := by
      rw [hse]
      unfold send_status
      simp only [reset_ep0, k1]
    rw [hcf, Option.some_bind, hs]
    refine ⟨_, usb_endpoint.send_stall ep b, rfl, ?_, ?_, ?_, k2, k3, k4, k5⟩
    · rw [hse]
      unfold addr_to_ep
      rw [if_neg hz]
      simp
    · cases b <;> rfl
    · cases b <;> rfl

/-- SET_FEATURE (`b = true`) and CLEAR_FEATURE (`b = false`) for the recipient
ENDPOINT with a feature selector other than 0: the endpoints are left as the
reset of EP0 left them and a zero-length packet with PID 1 is armed on EP0
IN. -/
theorem endpoint_feature_other_selector (b : Bool) (o : request_handlers)
    (pkt : setup_packet_t) (c : state)
    (hd : dispatch o pkt (reset_ep0 c) = (change_feature b pkt (reset_ep0 c)).bind send_status)
    (hrec : pkt.recipient = recipient_t.REC_ENDPOINT) (hval : pkt.wValue ≠ 0) :
    ∃ s, setup_handler o pkt c = some s ∧
      s._ep0_in.armed = c._ep0_in.armed ++ [⟨1, 0⟩] ∧
      s._ep0_in.PID_0 = 1 ∧ s._ep0_in.LENGTH_0 = 0 ∧
      (∀ a, (addr_to_ep s a).map (fun e => e.STALL)
        = (addr_to_ep (reset_ep0 c) a).map (fun e => e.STALL)) ∧
      (∀ a, (a % 256) &&& 0x0f ≠ 0 → addr_to_ep s a = addr_to_ep c a) := by
  unfold setup_handler
  rw [hd]
  have hcf : change_feature b pkt (reset_ep0 c) = some (reset_ep0 c) := by
    unfold change_feature
    rw [hrec]
    simp only [if_neg hval]
  obtain ⟨e, k1, _, k3, k4, k5, _, k7, _⟩ := send_zlp_data1_members
    (usb_endpoint.reset c._ep0_in) rfl rfl
  have hs : send_status (reset_ep0 c) = some { reset_ep0 c with _ep0_in := e } := by
    unfold send_status
    simp only [reset_ep0, k1]
  rw [hcf, Option.some_bind, hs]
  refine ⟨_, rfl, k3, k4, k5, ?_, ?_⟩
  · intro a
    unfold addr_to_ep
    by_cases hz : (a % 256) &&& 0x0f = 0
    · rw [if_pos hz, if_pos hz]
      by_cases hdz : (a % 256) >>> 7 = 0
      · rw [if_pos hdz, if_pos hdz]
      · rw [if_neg hdz, if_neg hdz]
        simp only [Option.map_some']
        rw [k7]
        rfl
    · rw [if_neg hz, if_neg hz]
  · intro a hz
    unfold addr_to_ep
    rw [if_neg hz, if_neg hz]
    rfl

/-- C27: for every address `a` of an existing endpoint, the standard request
SET_FEATURE with the selector 0 (ENDPOINT_HALT) and `wIndex = a` leaves that
endpoint stalled, and a following CLEAR_FEATURE with the selector 0 and
`wIndex = a` leaves it not stalled with `_next_pid = 0`; each of the two
requests arms a zero-length packet with PID 1 on EP0 IN. A SET_FEATURE or
CLEAR_FEATURE request for the recipient ENDPOINT with another selector arms
the same status packet and changes the stall bit of no endpoint: every
endpoint has the stall bit it had when the request was dispatched, and the
endpoints other than EP0 are unchanged. -/
theorem endpoint_halt_set_clear (o : request_handlers) (p1 p2 : setup_packet_t) (c : state)
    (a : Nat) (ep : usb_endpoint.state) (hep : addr_to_ep c a = some ep)
    (hs1 : p1.type = type_t.TYPE_STANDARD) (hs2 : p1.bRequest = REQ_SET_FEATURE)
    (hs3 : p1.direction = direction_t.DIR_OUT)
    (hs4 : p1.recipient = recipient_t.REC_ENDPOINT) (hs5 : p1.wValue = 0)
    (hs6 : p1.wIndex = a)
    (hc1 : p2.type = type_t.TYPE_STANDARD) (hc2 : p2.bRequest = REQ_CLEAR_FEATURE)
    (hc3 : p2.direction = direction_t.DIR_OUT)
    (hc4 : p2.recipient = recipient_t.REC_ENDPOINT) (hc5 : p2.wValue = 0)
    (hc6 : p2.wIndex = a) :
    (∃ s1 e1, setup_handler o p1 c = some s1 ∧ addr_to_ep s1 a = some e1 ∧
      usb_endpoint.is_stalled e1 = true ∧
      s1._ep0_in.armed = c._ep0_in.armed ++ [⟨1, 0⟩] ∧
      s1._ep0_in.PID_0 = 1 ∧ s1._ep0_in.LENGTH_0 = 0 ∧
      ∃ s2 e2, setup_handler o p2 s1 = some s2 ∧ addr_to_ep s2 a = some e2 ∧
        usb_endpoint.is_stalled e2 = false ∧ e2._next_pid = 0 ∧
        s2._ep0_in.armed = s1._ep0_in.armed ++ [⟨1, 0⟩] ∧
        s2._ep0_in.PID_0 = 1 ∧ s2._ep0_in.LENGTH_0 = 0) ∧
    (∀ p3 : setup_packet_t, p3.type = type_t.TYPE_STANDARD →
      (p3.bRequest = REQ_SET_FEATURE ∨ p3.bRequest = REQ_CLEAR_FEATURE) →
      p3.direction = direction_t.DIR_OUT → p3.recipient = recipient_t.REC_ENDPOINT →
      p3.wValue ≠ 0 →
      ∃ s3, setup_handler o p3 c = some s3 ∧
        s3._ep0_in.armed = c._ep0_in.armed ++ [⟨1, 0⟩] ∧
        s3._ep0_in.PID_0 = 1 ∧ s3._ep0_in.LENGTH_0 = 0 ∧
        (∀ x, (addr_to_ep s3 x).map (fun e => e.STALL)
          = (addr_to_ep (reset_ep0 c) x).map (fun e => e.STALL)) ∧
        (∀ x, (x % 256) &&& 0x0f ≠ 0 → addr_to_ep s3 x = addr_to_ep c x)) := by
  have hset : ∀ (p : setup_packet_t) (c0 : state), p.type = type_t.TYPE_STANDARD →
      p.bRequest = REQ_SET_FEATURE → p.direction = direction_t.DIR_OUT →
      dispatch o p (reset_ep0 c0) = (change_feature true p (reset_ep0 c0)).bind send_status := by
    intro p c0 h1 h2 h3
    rw [dispatch_SET_FEATURE o p _ h1 h2]
    unfold handle_set_feature
    rw [if_neg (by rw [h3]; decide)]
  have hclr : ∀ (p : setup_packet_t) (c0 : state), p.type = type_t.TYPE_STANDARD →
      p.bRequest = REQ_CLEAR_FEATURE → p.direction = direction_t.DIR_OUT →
      dispatch o p (reset_ep0 c0) = (change_feature false p (reset_ep0 c0)).bind send_status := by
    intro p c0 h1 h2 h3
    rw [dispatch_CLEAR_FEATURE o p _ h1 h2]
    unfold handle_clear_feature
    rw [if_neg (by rw [h3]; decide)]
  refine ⟨?_, ?_⟩
  · obtain ⟨s1, e1, a1, a2, a3, _, _, a6, a7, a8⟩ :=
      endpoint_halt_round true o p1 c ep (hset p1 c hs1 hs2 hs3) hs4 hs5 (by rw [hs6]; exact hep)
    rw [hs6] at a2
    obtain ⟨s2, e2, b1, b2, b3, b4, _, b6, b7, b8⟩ :=
      endpoint_halt_round false o p2 s1 e1 (hclr p2 s1 hc1 hc2 hc3) hc4 hc5
        (by rw [hc6]; exact a2)
    rw [hc6] at b2
    refine ⟨s1, e1, a1, a2, ?_, a6, a7, a8, s2, e2, b1, b2, ?_, b4, b6, b7, b8⟩
    · unfold usb_endpoint.is_stalled
      rw [a3]
      rfl
    · unfold usb_endpoint.is_stalled
      rw [b3]
      rfl
  · intro p3 h1 h2 h3 h4 h5
    rcases h2 with h2 | h2
    · exact endpoint_feature_other_selector true o p3 c (hset p3 c h1 h2 h3) h4 h5
    · exact endpoint_feature_other_selector false o p3 c (hclr p3 c h1 h2 h3) h4 h5

/-- Witness of C27: SET_FEATURE(ENDPOINT_HALT) and CLEAR_FEATURE(ENDPOINT_HALT)
for the endpoint 0x81. -/
theorem endpoint_halt_set_clear_witness :
    ∃ s1 e1, setup_handler idle_handlers
        ⟨recipient_t.REC_ENDPOINT, type_t.TYPE_STANDARD, direction_t.DIR_OUT, 3, 0, 0x81, 0⟩
        endpoint_controller = some s1 ∧
      addr_to_ep s1 0x81 = some e1 ∧ usb_endpoint.is_stalled e1 = true ∧
      ∃ s2 e2, setup_handler idle_handlers
          ⟨recipient_t.REC_ENDPOINT, type_t.TYPE_STANDARD, direction_t.DIR_OUT, 1, 0, 0x81, 0⟩
          s1 = some s2 ∧
        addr_to_ep s2 0x81 = some e2 ∧ usb_endpoint.is_stalled e2 = false ∧
        e2._next_pid = 0 ∧ s2._ep0_in.armed = [⟨1, 0⟩, ⟨1, 0⟩] := by
  obtain ⟨⟨s1, e1, a1, a2, a3, a4, _, _, s2, e2, b1, b2, b3, b4, b5, _⟩, _⟩ :=
    endpoint_halt_set_clear idle_handlers
      ⟨recipient_t.REC_ENDPOINT, type_t.TYPE_STANDARD, direction_t.DIR_OUT, 3, 0, 0x81, 0⟩
      ⟨recipient_t.REC_ENDPOINT, type_t.TYPE_STANDARD, direction_t.DIR_OUT, 1, 0, 0x81, 0⟩
      endpoint_controller 0x81 { usb_endpoint.idle 0x81 64 with STALL := 1 } rfl
      rfl rfl rfl rfl rfl rfl rfl rfl rfl rfl rfl rfl
  refine ⟨s1, e1, a1, a2, a3, s2, e2, b1, b2, b3, b4, ?_⟩
  rw [b5, a4]
  rfl

/-- C28 (amended): a SETUP packet whose type is not STANDARD is forwarded by the
recipient field alone. For the recipient DEVICE the setup handler of the device
is called, for the recipient INTERFACE the one of `interfaces[wIndex]` of the
active configuration (the active configuration being a configuration of the
device and `wIndex` an index of the array), for the recipient ENDPOINT the one
of the endpoint `addr_to_ep(wIndex)`: if the slot of that object holds a
handler, the result of the dispatcher is the result of one call of this handler
with the packet on the controller as the reset of EP0 left it (the call is
recorded in the trace), and otherwise, as for every other recipient, the
controller is left as the reset of EP0 left it, so no other handler and no
handler of a standard request has run. Which handler is called and on which
state does not depend on `bRequest`. -/
theorem class_request_forwarded (o : request_handlers) (pkt : setup_packet_t) (c : state)
    (hns : pkt.type ≠ type_t.TYPE_STANDARD) :
    (pkt.recipient = recipient_t.REC_DEVICE →
      setup_handler o pkt c =
        if c._device.setup_handler then
          o.device_setup_handler pkt
            { reset_ep0 c with forwarded := c.forwarded ++ [handler_id.device] }
        else some (reset_ep0 c)) ∧
    (pkt.recipient = recipient_t.REC_INTERFACE →
      ∀ config slot,
        usb_device.find_configuration c._device c._active_configuration = some config →
        config._interfaces[pkt.wIndex]? = some slot →
        setup_handler o pkt c =
          if (slot.map (fun i => i.setup_handler)) = some true then
            o.interface_setup_handler config.bConfigurationValue pkt.wIndex pkt
              { reset_ep0 c with
                forwarded := c.forwarded ++
                  [handler_id.interface config.bConfigurationValue pkt.wIndex] }
          else some (reset_ep0 c)) ∧
    (pkt.recipient = recipient_t.REC_ENDPOINT →
      setup_handler o pkt c =
        if ((addr_to_ep c pkt.wIndex).map (fun e => e.setup_handler)) = some true then
          o.endpoint_setup_handler ((pkt.wIndex % 256) &&& 0x0f) ((pkt.wIndex % 256) >>> 7) pkt
            { reset_ep0 c with
              forwarded := c.forwarded ++
                [handler_id.endpoint ((pkt.wIndex % 256) &&& 0x0f) ((pkt.wIndex % 256) >>> 7)] }
        else some (reset_ep0 c)) ∧
    (pkt.recipient = recipient_t.REC_OTHER ∨ pkt.recipient = recipient_t.REC_RESERVED →
      setup_handler o pkt c = some (reset_ep0 c)) ∧
    (∀ r, setup_handler idle_handlers { pkt with bRequest := r } c
      = setup_handler idle_handlers pkt c) := by
  have hf : ∀ o1, setup_handler o1 pkt c = forward o1 pkt (reset_ep0 c) := by
    intro o1
    unfold setup_handler
    exact dispatch_non_standard o1 pkt _ hns
  refine ⟨?_, ?_, ?_, ?_, ?_⟩
  · intro hr
    rw [hf]
    unfold forward
    rw [hr]
    rfl
  · intro hr config slot hc hs
    rw [hf]
    unfold forward
    rw [hr]
    have : usb_device.find_configuration (reset_ep0 c)._device
        (reset_ep0 c)._active_configuration = some config := hc
    simp only [this, hs]
    cases slot with
    | none => rfl
    | some i =>
      cases hi : i.setup_handler with
      | false => simp [hi]
      | true => simp [hi, invoke, reset_ep0]
  · intro hr
    rw [hf]
    unfold forward
    rw [hr]
    simp only [addr_to_ep_reset_ep0]
    by_cases hz : (pkt.wIndex % 256) &&& 0x0f = 0
    · have hx : addr_to_ep c pkt.wIndex =
          if (pkt.wIndex % 256) >>> 7 = 0 then some c._ep0_out else some c._ep0_in := by
        unfold addr_to_ep
        rw [if_pos hz]
      rw [hx, if_pos hz]
      by_cases hdz : (pkt.wIndex % 256) >>> 7 = 0
      · rw [if_pos hdz, if_pos hdz]
        cases hi : c._ep0_out.setup_handler with
        | false => simp [hi, usb_endpoint.reset, usb_endpoint.send_NAK, usb_endpoint.send_stall]
        | true =>
          simp [hi, usb_endpoint.reset, usb_endpoint.send_NAK, usb_endpoint.send_stall, invoke,
            reset_ep0]
      · rw [if_neg hdz, if_neg hdz]
        cases hi : c._ep0_in.setup_handler with
        | false => simp [hi, usb_endpoint.reset, usb_endpoint.send_NAK, usb_endpoint.send_stall]
        | true =>
          simp [hi, usb_endpoint.reset, usb_endpoint.send_NAK, usb_endpoint.send_stall, invoke,
            reset_ep0]
    · rw [if_neg hz]
      cases hx : addr_to_ep c pkt.wIndex with
      | none => rfl
      | some ep =>
        cases hi : ep.setup_handler with
        | false => simp [hi]
        | true => simp [hi, invoke, reset_ep0]
  · intro hr
    rw [hf]
    unfold forward
    rcases hr with hr | hr <;> rw [hr]
  · intro r
    unfold setup_handler dispatch
    have hns2 : ({ pkt with bRequest := r } : setup_packet_t).type ≠ type_t.TYPE_STANDARD := hns
    rw [if_neg hns, if_neg hns2]
    unfold forward invoke idle_handlers
    rfl

/-- Witness of C28 (amended): the class request GET_MAX_LUN for interface 0. -/
theorem class_request_forwarded_witness :
    (setup_handler idle_handlers
        ⟨recipient_t.REC_INTERFACE, type_t.TYPE_CLASS, direction_t.DIR_IN, 0xFE, 0, 0, 1⟩
        class_controller).map (fun t => t.forwarded) = some [handler_id.interface 1 0] := by
  have h := (class_request_forwarded idle_handlers
      ⟨recipient_t.REC_INTERFACE, type_t.TYPE_CLASS, direction_t.DIR_IN, 0xFE, 0, 0, 1⟩
      class_controller (by decide)).2.1 rfl
      (sample_configuration 1
        [{ sample_interface 0x20000300 [0x81, 0x01] with setup_handler := true }])
      (some { sample_interface 0x20000300 [0x81, 0x01] with setup_handler := true })
      (by decide) (by decide)
  rw [h]
  rfl

theorem copy_checked_some (size : Nat) (written x : List Nat)
    (h : (written ++ x).length ≤ size) :
    usb_interface.copy_checked size written x = some (written ++ x) := by
  unfold usb_interface.copy_checked
  rw [if_pos h]

/-- The loop over the functional descriptors appends their bytes in the order
of the chain, if they fit. -/
theorem copy_func_descriptors_some (size : Nat) (fds : List (List Nat)) (written : List Nat)
    (h : (written ++ fds.flatMap id).length ≤ size) :
    usb_interface.copy_func_descriptors size fds written = some (written ++ fds.flatMap id) := by
  induction fds generalizing written with
  | nil => simp [usb_interface.copy_func_descriptors]
  | cons fd rest ih =>
    unfold usb_interface.copy_func_descriptors
    simp only [List.flatMap_cons, id, List.length_append] at h
    have h1 : (written ++ fd).length ≤ size := by
      simp only [List.length_append]
      omega
    rw [copy_checked_some size written fd h1]
    simp only
    rw [ih (written ++ fd) (by simp only [List.length_append]; omega)]
    simp [List.flatMap_cons, List.append_assoc]

/-- The loop over the endpoints appends their descriptors in the order of the
array, if they fit and every pointer of the array points to an endpoint. -/
theorem copy_endpoints_some (deref : Nat → Option usb_endpoint.state) (size : Nat)
    (eps : List (Option Nat)) (written : List Nat)
    (hd : ∀ a ∈ eps.filterMap id, (deref a).isSome = true)
    (h : (written ++
      ((eps.filterMap id).filterMap deref).flatMap usb_endpoint.descriptor_bytes).length ≤ size) :
    usb_interface.copy_endpoints deref size eps written = some (written ++
      ((eps.filterMap id).filterMap deref).flatMap usb_endpoint.descriptor_bytes) := by
  induction eps generalizing written with
  | nil => simp [usb_interface.copy_endpoints]
  | cons x rest ih =>
    cases x with
    | none =>
      unfold usb_interface.copy_endpoints
      exact ih written (fun a ha => hd a (by simpa using ha)) (by simpa using h)
    | some a =>
      unfold usb_interface.copy_endpoints
      have ha : (deref a).isSome = true := hd a (by simp)
      obtain ⟨e, he⟩ := Option.isSome_iff_exists.mp ha
      have e1 : List.filterMap id (some a :: rest) = a :: List.filterMap id rest := rfl
      have e2 : List.filterMap deref (a :: List.filterMap id rest)
          = e :: List.filterMap deref (List.filterMap id rest) := by
        simp [List.filterMap_cons, he]
      rw [e1, e2] at h
      rw [e1, e2]
      simp only [he, List.flatMap_cons, List.length_append] at h ⊢
      have h1 : (written ++ usb_endpoint.descriptor_bytes e).length ≤ size := by
        simp only [List.length_append]
        omega
      rw [copy_checked_some size written _ h1]
      simp only
      rw [ih (written ++ usb_endpoint.descriptor_bytes e)
        (fun b hb => hd b (by rw [e1]; exact List.mem_cons_of_mem a hb))
        (by simp only [List.length_append]; omega)]
      simp [List.append_assoc]

/-- The function `prepare_descriptor` writes the serialization of the interface
the specification describes, if it fits into `size` bytes and every endpoint
pointer points to an endpoint. -/
theorem prepare_descriptor_some (deref : Nat → Option usb_endpoint.state) (size : Nat)
    (i : usb_interface.state)
    (hd : ∀ a ∈ i._endpoints.filterMap id, (deref a).isSome = true)
    (h : (spec_interface_serialization deref i).length ≤ size) :
    usb_interface.prepare_descriptor i deref size
      = some (spec_interface_serialization deref i) := by
  unfold spec_interface_serialization at h ⊢
  unfold usb_interface.prepare_descriptor
  simp only [List.length_append] at h
  cases ha : i._assoc_ptr with
  | none =>
    rw [ha] at h
    simp only [List.length_nil, Nat.zero_add] at h
    simp only
    rw [copy_checked_some size [] _ (by simp only [List.nil_append]; omega)]
    simp only [List.nil_append]
    rw [copy_func_descriptors_some size _ _ (by simp only [List.length_append]; omega)]
    simp only
    rw [copy_endpoints_some deref size _ _ hd (by simp only [List.length_append]; omega)]
  | some a =>
    rw [ha] at h
    simp only at h
    simp only
    rw [copy_checked_some size [] _ (by simp only [List.nil_append]; omega)]
    simp only [List.nil_append]
    rw [copy_checked_some size _ _ (by simp only [List.length_append]; omega)]
    simp only
    rw [copy_func_descriptors_some size _ _ (by simp only [List.length_append]; omega)]
    simp only
    rw [copy_endpoints_some deref size _ _ hd (by simp only [List.length_append]; omega)]

/-- The loop over the interfaces appends the serialization of every interface
in the order of the array, if the result fits into the scratch buffer. -/
theorem copy_interfaces_some (deref : Nat → Option usb_endpoint.state)
    (ifs : List (Option usb_interface.state)) (written : List Nat)
    (hd : ∀ i ∈ ifs.filterMap id, ∀ a ∈ i._endpoints.filterMap id, (deref a).isSome = true)
    (h : (written ++
      (ifs.filterMap id).flatMap (spec_interface_serialization deref)).length
        ≤ TUPP_MAX_DESC_SIZE) :
    copy_interfaces deref ifs written = some (written ++
      (ifs.filterMap id).flatMap (spec_interface_serialization deref)) := by
  induction ifs generalizing written with
  | nil => simp [copy_interfaces]
  | cons x rest ih =>
    cases x with
    | none =>
      unfold copy_interfaces
      exact ih written (fun i hi => hd i (by simpa using hi)) (by simpa using h)
    | some i =>
      unfold copy_interfaces
      have e1 : List.filterMap id (some i :: rest) = i :: List.filterMap id rest := rfl
      rw [e1] at h
      rw [e1]
      simp only [List.flatMap_cons, List.length_append, TUPP_MAX_DESC_SIZE] at h ⊢
      have hs : (256 + 65536 - written.length) % 65536 = 256 - written.length := by omega
      rw [hs, prepare_descriptor_some deref _ i (hd i (by rw [e1]; exact List.mem_cons_self i _))
        (by omega)]
      simp only
      rw [ih (written ++ spec_interface_serialization deref i)
        (fun j hj => hd j (by rw [e1]; exact List.mem_cons_of_mem i hj))
        (by simp only [List.length_append, TUPP_MAX_DESC_SIZE]; omega)]
      simp [List.append_assoc]

/-- The serialization of an interface depends on the endpoint objects through
their descriptors only. -/
theorem spec_interface_serialization_congr (f g : Nat → Option usb_endpoint.state)
    (h : ∀ a, (f a).map usb_endpoint.descriptor_bytes = (g a).map usb_endpoint.descriptor_bytes)
    (i : usb_interface.state) :
    spec_interface_serialization f i = spec_interface_serialization g i := by
  unfold spec_interface_serialization
  congr 1
  generalize i._endpoints.filterMap id = l
  induction l with
  | nil => rfl
  | cons a rest ih =>
    have ha := h a
    cases hf : f a with
    | none =>
      cases hg : g a with
      | none => simpa [List.filterMap_cons, hf, hg] using ih
      | some y =>
        rw [hf, hg] at ha
        cases ha
    | some x =>
      cases hg : g a with
      | none =>
        rw [hf, hg] at ha
        cases ha
      | some y =>
        rw [hf, hg] at ha
        have hxy : usb_endpoint.descriptor_bytes x = usb_endpoint.descriptor_bytes y :=
          Option.some.inj ha
        simp only [List.filterMap_cons, hf, hg, List.flatMap_cons, hxy, ih]

theorem spec_configuration_serialization_congr (f g : Nat → Option usb_endpoint.state)
    (h : ∀ a, (f a).map usb_endpoint.descriptor_bytes = (g a).map usb_endpoint.descriptor_bytes)
    (conf : usb_configuration.state) :
    spec_configuration_serialization f conf = spec_configuration_serialization g conf := by
  unfold spec_configuration_serialization
  have : spec_interface_serialization f = spec_interface_serialization g :=
    funext (spec_interface_serialization_congr f g h)
  rw [this]

/-- The reset of EP0 changes the descriptor of no endpoint. -/
theorem addr_to_ep_reset_ep0_descriptor (c : state) (a : Nat) :
    (addr_to_ep (reset_ep0 c) a).map usb_endpoint.descriptor_bytes
      = (addr_to_ep c a).map usb_endpoint.descriptor_bytes := by
  unfold addr_to_ep
  split_ifs <;> rfl

theorem addr_to_ep_reset_ep0_isSome (c : state) (a : Nat) :
    (addr_to_ep (reset_ep0 c) a).isSome = (addr_to_ep c a).isSome := by
  unfold addr_to_ep
  split_ifs <;> rfl

/-- The call `start_transfer(_buf, len)` on an idle EP0 IN endpoint after
`written` was written to the scratch buffer. -/
theorem transfer_buf_members (c : state) (w : List Nat) (len : Nat)
    (hact : c._ep0_in._active = false) (hav : c._ep0_in.AVAILABLE_0 = 0)
    (hin : usb_endpoint.is_IN c._ep0_in = true)
    (hw : w.length ≤ c._buf.length) (hlen : len ≤ w.length) :
    ∃ e, transfer_buf c w len
        = some { c with _buf := w ++ c._buf.drop w.length, _ep0_in := e } ∧
      e._active = true ∧ e._data_ptr = c.addr_buf ∧ e._data_len = len ∧
      e.armed = c._ep0_in.armed ++ [⟨c._ep0_in._next_pid, min len c._ep0_in.wMaxPacketSize⟩] ∧
      (List.range (min len c._ep0_in.wMaxPacketSize)).map (fun k => e.mem (e._hw_buffer + k))
        = w.take (min len c._ep0_in.wMaxPacketSize) := by
  obtain ⟨e, h1, h2, h3, h4, h5, _, _, h8, _⟩ :=
    start_transfer_object_members c._ep0_in c.addr_buf (w ++ c._buf.drop w.length) len
      hact hav hin (by simp only [List.length_append]; omega)
  refine ⟨e, ?_, h2, h3, h4, h5, ?_⟩
  · unfold transfer_buf
    rw [if_neg (by omega)]
    simp only [h1]
  · rw [h8, List.take_append_of_le_length (by omega)]

/-- GET_DESCRIPTOR(CONFIGURATION) for an existing configuration, once the bytes
`w` written to the scratch buffer are known: if they fit into the buffer and
into `wLength`, a transfer of all of them is started on EP0 IN. -/
theorem get_descriptor_configuration (o : request_handlers) (pkt : setup_packet_t)
    (c : state) (conf : usb_configuration.state) (w : List Nat)
    (hstd : pkt.type = type_t.TYPE_STANDARD) (hreq : pkt.bRequest = REQ_GET_DESCRIPTOR)
    (hdir : pkt.direction = direction_t.DIR_IN)
    (hrec : pkt.recipient = recipient_t.REC_DEVICE)
    (htype : pkt.wValue >>> 8 = DESC_CONFIGURATION)
    (hslot : c._device._configurations[pkt.wValue &&& 0xff]? = some (some conf))
    (h9 : sizeof_configuration_descriptor_t ≤ pkt.wLength)
    (hw : (if pkt.wLength ≥ conf.wTotalLength then
        copy_interfaces (addr_to_ep (reset_ep0 c)) conf._interfaces
          (usb_configuration.descriptor_bytes conf)
        else some (usb_configuration.descriptor_bytes conf)) = some w)
    (hfit : w.length ≤ c._buf.length) (hb : c._buf.length = TUPP_MAX_DESC_SIZE)
    (hle : w.length ≤ pkt.wLength)
    (hep : c._ep0_in.bEndpointAddress = 0x80) :
    ∃ t, setup_handler o pkt c = some t ∧ t._buf.take w.length = w ∧
      t._buf.length = TUPP_MAX_DESC_SIZE ∧
      t._ep0_in._active = true ∧ t._ep0_in._data_ptr = c.addr_buf ∧
      t._ep0_in._data_len = w.length ∧
      t._ep0_in.armed = c._ep0_in.armed ++ [⟨1, min w.length c._ep0_in.wMaxPacketSize⟩] ∧
      (List.range (min w.length c._ep0_in.wMaxPacketSize)).map
          (fun k => t._ep0_in.mem (t._ep0_in._hw_buffer + k))
        = w.take (min w.length c._ep0_in.wMaxPacketSize) := by
  have hin : usb_endpoint.is_IN (reset_ep0 c)._ep0_in = true := by
    show (c._ep0_in.bEndpointAddress &&& 0x80 != 0) = true
    rw [hep]
    decide
  obtain ⟨e, k1, k2, k3, k4, k5, k6⟩ :=
    transfer_buf_members (reset_ep0 c) w w.length rfl rfl hin hfit (Nat.le_refl _)
  have h256 : w.length % 65536 = w.length := by
    have h1 := hfit
    rw [hb] at h1
    unfold TUPP_MAX_DESC_SIZE at h1
    omega
  refine ⟨{ reset_ep0 c with _buf := w ++ c._buf.drop w.length, _ep0_in := e }, ?_, ?_, ?_,
    k2, k3, k4, k5, k6⟩
  · unfold setup_handler
    rw [dispatch_GET_DESCRIPTOR o pkt _ hstd hreq]
    unfold handle_get_descriptor
    rw [if_neg (by rw [hdir]; decide), if_neg (by rw [hrec]; decide)]
    have h1 : ¬ (pkt.wValue >>> 8 = DESC_DEVICE) := by
      rw [htype]
      decide
    have hslot2 : (reset_ep0 c)._device._configurations[pkt.wValue &&& 0xff]?
        = some (some conf) := hslot
    have hnot : ¬ (pkt.wLength < sizeof_configuration_descriptor_t) := by omega
    simp only [if_neg h1, htype, if_true, hslot2, if_neg hnot, hw, h256]
    rw [if_neg (show ¬ (w.length > pkt.wLength) by omega)]
    exact k1
  · show (w ++ c._buf.drop w.length).take w.length = w
    rw [List.take_append_of_le_length (Nat.le_refl _), List.take_length]
  · show (w ++ c._buf.drop w.length).length = TUPP_MAX_DESC_SIZE
    have h1 : w.length ≤ c._buf.length := hfit
    simp only [List.length_append, List.length_drop]
    rw [← hb]
    omega

/-- GET_DESCRIPTOR(CONFIGURATION) with `wLength >= wTotalLength` for an
existing configuration whose serialization fits into the scratch buffer and
into `wLength`: the serialization the specification describes is written to the
scratch buffer and a transfer of all of it is started on EP0 IN. -/
theorem get_descriptor_configuration_full (o : request_handlers) (pkt : setup_packet_t)
    (c : state) (conf : usb_configuration.state)
    (hstd : pkt.type = type_t.TYPE_STANDARD) (hreq : pkt.bRequest = REQ_GET_DESCRIPTOR)
    (hdir : pkt.direction = direction_t.DIR_IN)
    (hrec : pkt.recipient = recipient_t.REC_DEVICE)
    (htype : pkt.wValue >>> 8 = DESC_CONFIGURATION)
    (hslot : c._device._configurations[pkt.wValue &&& 0xff]? = some (some conf))
    (hge : conf.wTotalLength ≤ pkt.wLength)
    (hd : ∀ i ∈ conf._interfaces.filterMap id, ∀ a ∈ i._endpoints.filterMap id,
      (addr_to_ep c a).isSome = true)
    (hfit : (spec_configuration_serialization (addr_to_ep c) conf).length ≤ TUPP_MAX_DESC_SIZE)
    (hle : (spec_configuration_serialization (addr_to_ep c) conf).length ≤ pkt.wLength)
    (hb : c._buf.length = TUPP_MAX_DESC_SIZE)
    (hep : c._ep0_in.bEndpointAddress = 0x80) :
    ∃ t, setup_handler o pkt c = some t ∧
      t._buf.take (spec_configuration_serialization (addr_to_ep c) conf).length
        = spec_configuration_serialization (addr_to_ep c) conf ∧
      t._buf.length = TUPP_MAX_DESC_SIZE ∧
      t._ep0_in._active = true ∧ t._ep0_in._data_ptr = c.addr_buf ∧
      t._ep0_in._data_len = (spec_configuration_serialization (addr_to_ep c) conf).length ∧
      t._ep0_in.armed = c._ep0_in.armed ++
        [⟨1, min (spec_configuration_serialization (addr_to_ep c) conf).length
          c._ep0_in.wMaxPacketSize⟩] ∧
      (List.range (min (spec_configuration_serialization (addr_to_ep c) conf).length
          c._ep0_in.wMaxPacketSize)).map
          (fun k => t._ep0_in.mem (t._ep0_in._hw_buffer + k))
        = (spec_configuration_serialization (addr_to_ep c) conf).take
            (min (spec_configuration_serialization (addr_to_ep c) conf).length
              c._ep0_in.wMaxPacketSize) := by
  have hS : spec_configuration_serialization (addr_to_ep (reset_ep0 c)) conf
      = spec_configuration_serialization (addr_to_ep c) conf :=
    spec_configuration_serialization_congr _ _ (addr_to_ep_reset_ep0_descriptor c) conf
  have hw : (if pkt.wLength ≥ conf.wTotalLength then
        copy_interfaces (addr_to_ep (reset_ep0 c)) conf._interfaces
          (usb_configuration.descriptor_bytes conf)
        else some (usb_configuration.descriptor_bytes conf))
      = some (spec_configuration_serialization (addr_to_ep c) conf) := by
    rw [if_pos hge, ← hS]
    unfold spec_configuration_serialization
    apply copy_interfaces_some
    · intro i hi a ha
      rw [addr_to_ep_reset_ep0_isSome]
      exact hd i hi a ha
    · have := hfit
      rw [← hS] at this
      exact this
  have h9 : sizeof_configuration_descriptor_t ≤ pkt.wLength := by
    have h1 : (usb_configuration.descriptor_bytes conf).length = 9 := rfl
    have h2 : (usb_configuration.descriptor_bytes conf).length
        ≤ (spec_configuration_serialization (addr_to_ep c) conf).length := by
      unfold spec_configuration_serialization
      simp only [List.length_append]
      omega
    unfold sizeof_configuration_descriptor_t
    omega
  exact get_descriptor_configuration o pkt c conf _ hstd hreq hdir hrec htype hslot h9 hw
    (by rw [hb]; exact hfit) hb hle hep

set_option maxRecDepth 8000 in
/-- C21 (counterexample): on a device whose configuration has a serialization
of 65 bytes (`wTotalLength = 65`), GET_DESCRIPTOR(CONFIGURATION) with
`wLength = 20`, which is greater than 9, starts a transfer of 9 bytes, the
header alone, and not of the full tree. -/
theorem configuration_request_below_total_sends_header :
    (setup_handler idle_handlers
        ⟨recipient_t.REC_DEVICE, type_t.TYPE_STANDARD, direction_t.DIR_IN, 6, 0x0200, 0, 20⟩
        cdc_controller).map (fun t => (t._ep0_in._data_len, t._buf.take 9))
      = some (9, usb_configuration.descriptor_bytes cdc_configuration) ∧
    (spec_configuration_serialization (addr_to_ep cdc_controller) cdc_configuration).length
      = 65 := by
  decide

/-- C21 (amended): GET_DESCRIPTOR(CONFIGURATION) for an existing configuration
with `wLength >= 9`. If `wLength < wTotalLength`, exactly the 9 bytes of the
configuration descriptor (the header) are written to the scratch buffer and
transferred. If `wLength >= wTotalLength` (the serialization fitting into the
scratch buffer of 256 bytes and into `wLength`, every endpoint pointer pointing
to an endpoint), the full tree, the header followed by the association,
interface, functional and endpoint descriptors of all interfaces, is written to
the scratch buffer and transferred. -/
theorem configuration_length_rule (o : request_handlers) (pkt : setup_packet_t)
    (c : state) (conf : usb_configuration.state)
    (hstd : pkt.type = type_t.TYPE_STANDARD) (hreq : pkt.bRequest = REQ_GET_DESCRIPTOR)
    (hdir : pkt.direction = direction_t.DIR_IN)
    (hrec : pkt.recipient = recipient_t.REC_DEVICE)
    (htype : pkt.wValue >>> 8 = DESC_CONFIGURATION)
    (hslot : c._device._configurations[pkt.wValue &&& 0xff]? = some (some conf))
    (h9 : 9 ≤ pkt.wLength)
    (hb : c._buf.length = TUPP_MAX_DESC_SIZE)
    (hep : c._ep0_in.bEndpointAddress = 0x80) :
    (pkt.wLength < conf.wTotalLength →
      ∃ t, setup_handler o pkt c = some t ∧
        t._buf.take 9 = usb_configuration.descriptor_bytes conf ∧
        t._ep0_in._active = true ∧ t._ep0_in._data_ptr = c.addr_buf ∧
        t._ep0_in._data_len = 9 ∧
        t._ep0_in.armed = c._ep0_in.armed ++ [⟨1, min 9 c._ep0_in.wMaxPacketSize⟩]) ∧
    (conf.wTotalLength ≤ pkt.wLength →
      (∀ i ∈ conf._interfaces.filterMap id, ∀ a ∈ i._endpoints.filterMap id,
        (addr_to_ep c a).isSome = true) →
      (spec_configuration_serialization (addr_to_ep c) conf).length ≤ TUPP_MAX_DESC_SIZE →
      (spec_configuration_serialization (addr_to_ep c) conf).length ≤ pkt.wLength →
      ∃ t, setup_handler o pkt c = some t ∧
        t._buf.take (spec_configuration_serialization (addr_to_ep c) conf).length
          = spec_configuration_serialization (addr_to_ep c) conf ∧
        t._ep0_in._active = true ∧ t._ep0_in._data_ptr = c.addr_buf ∧
        t._ep0_in._data_len = (spec_configuration_serialization (addr_to_ep c) conf).length ∧
        t._ep0_in.armed = c._ep0_in.armed ++
          [⟨1, min (spec_configuration_serialization (addr_to_ep c) conf).length
            c._ep0_in.wMaxPacketSize⟩]) := by
  refine ⟨?_, ?_⟩
  · intro hlt
    have hw : (if pkt.wLength ≥ conf.wTotalLength then
          copy_interfaces (addr_to_ep (reset_ep0 c)) conf._interfaces
            (usb_configuration.descriptor_bytes conf)
          else some (usb_configuration.descriptor_bytes conf))
        = some (usb_configuration.descriptor_bytes conf) := by
      rw [if_neg (by omega)]
    obtain ⟨t, k1, k2, _, k4, k5, k6, k7, _⟩ :=
      get_descriptor_configuration o pkt c conf _ hstd hreq hdir hrec htype hslot h9 hw
        (by rw [hb]; show (9 : Nat) ≤ 256; decide) hb h9 hep
    exact ⟨t, k1, k2, k4, k5, k6, k7⟩
  · intro hge hd hfit hle
    obtain ⟨t, k1, k2, _, k4, k5, k6, k7, _⟩ :=
      get_descriptor_configuration_full o pkt c conf hstd hreq hdir hrec htype hslot hge hd
        hfit hle hb hep
    exact ⟨t, k1, k2, k4, k5, k6, k7⟩

set_option maxRecDepth 8000 in
/-- Witness of C21 (amended): the configuration of 65 bytes requested with
`wLength = 20` (header only) and with `wLength = 255` (full tree). -/
theorem configuration_length_rule_witness :
    (∃ t, setup_handler idle_handlers
        ⟨recipient_t.REC_DEVICE, type_t.TYPE_STANDARD, direction_t.DIR_IN, 6, 0x0200, 0, 20⟩
        cdc_controller = some t ∧ t._ep0_in._data_len = 9) ∧
    (∃ t, setup_handler idle_handlers
        ⟨recipient_t.REC_DEVICE, type_t.TYPE_STANDARD, direction_t.DIR_IN, 6, 0x0200, 0, 255⟩
        cdc_controller = some t ∧ t._ep0_in._data_len = 65) := by
  refine ⟨?_, ?_⟩
  · obtain ⟨t, k1, _, _, _, k5, _⟩ :=
      (configuration_length_rule idle_handlers
        ⟨recipient_t.REC_DEVICE, type_t.TYPE_STANDARD, direction_t.DIR_IN, 6, 0x0200, 0, 20⟩
        cdc_controller cdc_configuration rfl rfl rfl rfl (by decide) (by decide) (by decide)
        (by decide) rfl).1 (by decide)
    exact ⟨t, k1, k5⟩
  · obtain ⟨t, k1, _, _, _, k5, _⟩ :=
      (configuration_length_rule idle_handlers
        ⟨recipient_t.REC_DEVICE, type_t.TYPE_STANDARD, direction_t.DIR_IN, 6, 0x0200, 0, 255⟩
        cdc_controller cdc_configuration rfl rfl rfl rfl (by decide) (by decide) (by decide)
        (by decide) rfl).2 (by decide) (by decide) (by decide) (by decide)
    refine ⟨t, k1, ?_⟩
    rw [k5]
    decide

theorem take_of_take_eq (buf S : List Nat) (n : Nat) (hn : n ≤ S.length)
    (h : buf.take S.length = S) : S.take n = buf.take n := by
  have h1 : (buf.take S.length).take n = buf.take n := by
    rw [List.take_take, Nat.min_eq_left hn]
  rw [h] at h1
  exact h1

/-- The function `add_endpoint` on an interface whose endpoints fill the first
slots of the array puts the new endpoint behind them. -/
theorem add_endpoint_appends (i : usb_interface.state) (eps : List Nat) (ep : Nat)
    (h : i._endpoints = eps.map some ++ List.replicate (TUPP_MAX_EP_PER_INTERFACE - eps.length) none)
    (hk : eps.length < TUPP_MAX_EP_PER_INTERFACE) :
    ∃ j, usb_interface.add_endpoint i ep = some j ∧
      j._endpoints = (eps ++ [ep]).map some ++
        List.replicate (TUPP_MAX_EP_PER_INTERFACE - (eps.length + 1)) none ∧
      j.bNumEndpoints = eps.length + 1 ∧
      j._fd_ptr = i._fd_ptr ∧ j._assoc_ptr = i._assoc_ptr := by
  have hk5 : eps.length < 5 := hk
  unfold usb_interface.add_endpoint
  rw [h]
  rcases eps with _ | ⟨a, _ | ⟨b, _ | ⟨c, _ | ⟨d, _ | ⟨e, r⟩⟩⟩⟩⟩
  · exact ⟨_, rfl, rfl, rfl, rfl, rfl⟩
  · exact ⟨_, rfl, rfl, rfl, rfl, rfl⟩
  · exact ⟨_, rfl, rfl, rfl, rfl, rfl⟩
  · exact ⟨_, rfl, rfl, rfl, rfl, rfl⟩
  · exact ⟨_, rfl, rfl, rfl, rfl, rfl⟩
  · simp at hk5
    omega

/-- C22: GET_DESCRIPTOR(CONFIGURATION) with `wLength >= wTotalLength` for an
existing configuration (its serialization fitting into the scratch buffer of
256 bytes and into `wLength`, every endpoint pointer pointing to an endpoint)
starts a transfer from the scratch buffer whose bytes are the configuration
descriptor followed, for each interface in the order of the array
`interfaces`, by the association descriptor if `_assoc_ptr` is set (which it is
on the first interface of an association only), the interface descriptor, the
bytes of the functional descriptors in the order of the chain and the endpoint
descriptors in the order of the array `_endpoints`. The chain is in the order
of the calls of `add_func_descriptor`, which links a descriptor in behind the
last one, and the array is in the order of the calls of `add_endpoint`, which
puts an endpoint behind those the interface has. -/
theorem configuration_serialization_order (o : request_handlers) (pkt : setup_packet_t)
    (c : state) (conf : usb_configuration.state)
    (hstd : pkt.type = type_t.TYPE_STANDARD) (hreq : pkt.bRequest = REQ_GET_DESCRIPTOR)
    (hdir : pkt.direction = direction_t.DIR_IN)
    (hrec : pkt.recipient = recipient_t.REC_DEVICE)
    (htype : pkt.wValue >>> 8 = DESC_CONFIGURATION)
    (hslot : c._device._configurations[pkt.wValue &&& 0xff]? = some (some conf))
    (hge : conf.wTotalLength ≤ pkt.wLength)
    (hd : ∀ i ∈ conf._interfaces.filterMap id, ∀ a ∈ i._endpoints.filterMap id,
      (addr_to_ep c a).isSome = true)
    (hfit : (spec_configuration_serialization (addr_to_ep c) conf).length ≤ TUPP_MAX_DESC_SIZE)
    (hle : (spec_configuration_serialization (addr_to_ep c) conf).length ≤ pkt.wLength)
    (hb : c._buf.length = TUPP_MAX_DESC_SIZE)
    (hep : c._ep0_in.bEndpointAddress = 0x80) :
    (∃ t, setup_handler o pkt c = some t ∧
      t._ep0_in._data_ptr = c.addr_buf ∧
      t._ep0_in._data_len =
        (usb_configuration.descriptor_bytes conf ++
          (conf._interfaces.filterMap id).flatMap (fun i =>
            (match i._assoc_ptr with
              | some a => a.bytes
              | none => []) ++
            usb_interface.descriptor_bytes i ++
            i._fd_ptr.flatMap id ++
            ((i._endpoints.filterMap id).filterMap (addr_to_ep c)).flatMap
              usb_endpoint.descriptor_bytes)).length ∧
      t._buf.take t._ep0_in._data_len =
        usb_configuration.descriptor_bytes conf ++
          (conf._interfaces.filterMap id).flatMap (fun i =>
            (match i._assoc_ptr with
              | some a => a.bytes
              | none => []) ++
            usb_interface.descriptor_bytes i ++
            i._fd_ptr.flatMap id ++
            ((i._endpoints.filterMap id).filterMap (addr_to_ep c)).flatMap
              usb_endpoint.descriptor_bytes) ∧
      (List.range (min t._ep0_in._data_len c._ep0_in.wMaxPacketSize)).map
          (fun k => t._ep0_in.mem (t._ep0_in._hw_buffer + k))
        = t._buf.take (min t._ep0_in._data_len c._ep0_in.wMaxPacketSize)) ∧
    (∀ (i : usb_interface.state) (d : List Nat),
      (usb_interface.add_func_descriptor i d)._fd_ptr = i._fd_ptr ++ [d]) ∧
    (∀ (i : usb_interface.state) (eps : List Nat) (ep : Nat),
      i._endpoints = eps.map some ++
        List.replicate (TUPP_MAX_EP_PER_INTERFACE - eps.length) none →
      eps.length < TUPP_MAX_EP_PER_INTERFACE →
      ∃ j, usb_interface.add_endpoint i ep = some j ∧
        j._endpoints = (eps ++ [ep]).map some ++
          List.replicate (TUPP_MAX_EP_PER_INTERFACE - (eps.length + 1)) none ∧
        j._fd_ptr = i._fd_ptr ∧ j._assoc_ptr = i._assoc_ptr) := by
  refine ⟨?_, fun _ _ => rfl, ?_⟩
  · obtain ⟨t, k1, k2, _, _, k5, k6, _, k8⟩ :=
      get_descriptor_configuration_full o pkt c conf hstd hreq hdir hrec htype hslot hge hd
        hfit hle hb hep
    refine ⟨t, k1, k5, k6, ?_, ?_⟩
    · rw [k6]
      exact k2
    · rw [k6, k8]
      have hm : min (spec_configuration_serialization (addr_to_ep c) conf).length
          c._ep0_in.wMaxPacketSize
          ≤ (spec_configuration_serialization (addr_to_ep c) conf).length := Nat.min_le_left _ _
      exact take_of_take_eq t._buf _ _ hm k2
  · intro i eps ep h hk
    obtain ⟨j, j1, j2, _, j4, j5⟩ := add_endpoint_appends i eps ep h hk
    exact ⟨j, j1, j2, j4, j5⟩

set_option maxRecDepth 8000 in
/-- Witness of C22: the configuration of two interfaces requested with
`wLength = 255`. -/
theorem configuration_serialization_order_witness :
    ∃ t, setup_handler idle_handlers
        ⟨recipient_t.REC_DEVICE, type_t.TYPE_STANDARD, direction_t.DIR_IN, 6, 0x0200, 0, 255⟩
        cdc_controller = some t ∧
      t._ep0_in._data_len = 65 ∧
      t._buf.take 65 =
        [9, 2, 65, 0, 2, 1, 0, 128, 50,
         8, 11, 0, 2, 2, 2, 0, 0,
         9, 4, 0, 0, 1, 2, 2, 0, 0,
         5, 0x24, 0, 0x10, 0x01,
         4, 0x24, 2, 2,
         7, 5, 0x82, 3, 8, 0, 10,
         9, 4, 1, 0, 2, 10, 0, 0, 0,
         7, 5, 0x81, 2, 64, 0, 0,
         7, 5, 0x01, 2, 64, 0, 0] := by
  obtain ⟨t, k1, _, k3, k4, _⟩ :=
    (configuration_serialization_order idle_handlers
      ⟨recipient_t.REC_DEVICE, type_t.TYPE_STANDARD, direction_t.DIR_IN, 6, 0x0200, 0, 255⟩
      cdc_controller cdc_configuration rfl rfl rfl rfl (by decide) (by decide) (by decide)
      (by decide) (by decide) (by decide) (by decide) rfl).1
  have h65 : t._ep0_in._data_len = 65 := by
    rw [k3]
    decide
  rw [h65] at k4
  refine ⟨t, k1, h65, ?_⟩
  rw [k4]
  decide

/-- C28 (counterexample): a class request for the recipient INTERFACE with
`wIndex = 5` or `wIndex = 0x0100` on a configured device reads
`config->interfaces[wIndex]` beyond the five slots of the array, and with
`wIndex = 0` on a device that is not configured `find_configuration(0)` fails
its assertion: in none of the three cases the dispatcher returns. -/
theorem class_request_beyond_interfaces_fails :
    (setup_handler idle_handlers
        ⟨recipient_t.REC_INTERFACE, type_t.TYPE_CLASS, direction_t.DIR_IN, 0xFE, 0, 5, 1⟩
        class_controller).isNone = true ∧
    (setup_handler idle_handlers
        ⟨recipient_t.REC_INTERFACE, type_t.TYPE_CLASS, direction_t.DIR_IN, 0xFE, 0, 0x0100, 1⟩
        class_controller).isNone = true ∧
    (setup_handler idle_handlers
        ⟨recipient_t.REC_INTERFACE, type_t.TYPE_CLASS, direction_t.DIR_IN, 0xFE, 0, 0, 1⟩
        (sample_controller single_configuration_device 0)).isNone = true := by
  exact ⟨rfl, rfl, rfl⟩

end usb_device_controller

/-! ## Descriptor tree -/

namespace usb_device

/-- C30: after the calls of `add_configuration` for `k ≤ 5` configurations on a
freshly constructed device, the configurations occupy the slots `0..k-1` in the
order of the calls and the other slots are empty, `bNumConfigurations` is `k`,
which is the number of the slots in use; and if `k = 5`, one more call fails
its assertion, so nothing is stored. -/
theorem add_configuration_table (configs : List usb_configuration.state)
    (hk : configs.length ≤ TUPP.TUPP_MAX_CONF_PER_DEVICE) :
    ∃ d, add_configurations constructed configs = some d ∧
      d._configurations =
        configs.map some ++
          List.replicate (TUPP.TUPP_MAX_CONF_PER_DEVICE - configs.length) none ∧
      d.bNumConfigurations = configs.length ∧
      (d._configurations.filter (fun c => c.isSome)).length = d.bNumConfigurations ∧
      (configs.length = TUPP.TUPP_MAX_CONF_PER_DEVICE →
        ∀ x, add_configuration d x = none) := by
  have hk5 : configs.length ≤ 5 := hk
  rcases configs with _ | ⟨a, _ | ⟨b, _ | ⟨c, _ | ⟨d, _ | ⟨e, _ | ⟨f, r⟩⟩⟩⟩⟩⟩
  · exact ⟨_, rfl, rfl, rfl, rfl, fun h => by simp [TUPP.TUPP_MAX_CONF_PER_DEVICE] at h⟩
  · exact ⟨_, rfl, rfl, rfl, rfl, fun h => by simp [TUPP.TUPP_MAX_CONF_PER_DEVICE] at h⟩
  · exact ⟨_, rfl, rfl, rfl, rfl, fun h => by simp [TUPP.TUPP_MAX_CONF_PER_DEVICE] at h⟩
  · exact ⟨_, rfl, rfl, rfl, rfl, fun h => by simp [TUPP.TUPP_MAX_CONF_PER_DEVICE] at h⟩
  · exact ⟨_, rfl, rfl, rfl, rfl, fun h => by simp [TUPP.TUPP_MAX_CONF_PER_DEVICE] at h⟩
  · exact ⟨_, rfl, rfl, rfl, rfl, fun _ _ => rfl⟩
  · simp at hk5

theorem add_configuration_table_witness :
    ∃ d, add_configurations constructed
        [{ bConfigurationValue := 1, _interfaces := [] },
         { bConfigurationValue := 2, _interfaces := [] },
         { bConfigurationValue := 3, _interfaces := [] },
         { bConfigurationValue := 4, _interfaces := [] },
         { bConfigurationValue := 5, _interfaces := [] }] = some d ∧
      d._configurations =
        [some { bConfigurationValue := 1, _interfaces := [] },
         some { bConfigurationValue := 2, _interfaces := [] },
         some { bConfigurationValue := 3, _interfaces := [] },
         some { bConfigurationValue := 4, _interfaces := [] },
         some { bConfigurationValue := 5, _interfaces := [] }] ∧
      d.bNumConfigurations = 5 ∧
      (∀ x, add_configuration d x = none) := by
  obtain ⟨d, h1, h2, h3, _, h5⟩ := add_configuration_table
    [{ bConfigurationValue := 1, _interfaces := [] },
     { bConfigurationValue := 2, _interfaces := [] },
     { bConfigurationValue := 3, _interfaces := [] },
     { bConfigurationValue := 4, _interfaces := [] },
     { bConfigurationValue := 5, _interfaces := [] }] (by decide)
  exact ⟨d, h1, h2, h3, h5 rfl⟩

end usb_device

/-! ## Device address and bus reset -/

namespace usb_device_controller

open TUPP

theorem check_address_members (d : usb_dcd.state) :
    (usb_dcd.check_address d)._should_set_address = false ∧
    (usb_dcd.check_address d).address_writes
      = d.address_writes ++ (if d._should_set_address then [d._new_addr] else []) ∧
    (usb_dcd.check_address d).ADDRESS
      = (if d._should_set_address then d._new_addr else d.ADDRESS) := by
  unfold usb_dcd.check_address
  cases h : d._should_set_address
  · simp [h]
  · simp

/-- The bus reset handler, as far as the address of the device goes. -/
theorem bus_reset_driver_members (c : state) (conf : usb_configuration.state)
    (hconf : c._active_configuration ≠ 0 →
      usb_device.find_configuration c._device c._active_configuration = some conf) :
    ∃ t, bus_reset_handler c = some t ∧
      t._driver.ADDRESS = 0 ∧ t._driver._should_set_address = false ∧
      t._driver.address_writes = c._driver.address_writes ++ [0] := by
  by_cases h0 : c._active_configuration ≠ 0
  · have hf := hconf h0
    obtain ⟨_, p2, p3, p4, _, _⟩ :=
      enable_endpoints_members false (usb_configuration.endpoints conf)
        (usb_dcd.reset_address c._driver)
    rw [← configuration_activate_endpoints_eq] at p2 p3 p4
    refine ⟨{ c with
        _driver := usb_configuration.activate_endpoints conf false
          (usb_dcd.reset_address c._driver)
        _active_configuration := 0 }, ?_, p3, p2, p4⟩
    unfold bus_reset_handler
    simp only [if_pos h0, hf]
    rfl
  · refine ⟨{ c with _driver := usb_dcd.reset_address c._driver, _active_configuration := 0 },
      ?_, rfl, rfl, rfl⟩
    unfold bus_reset_handler
    simp only [if_neg h0]
    rfl

/-- C37: a bus reset cancels a pending SET_ADDRESS. If `set_address(a)` was
called and `reset_address()` runs before the buffer of an IN endpoint completes
(buffers of OUT endpoints may complete in between), the address register holds
0 after the reset and after every sequence of later buffer completions, and the
value `a` is never written to it; the same holds when the reset is the bus
reset handler of the controller. `check_address` writes the register only if an
address is pending and clears the pending flag, so that after one
`set_address(a)` any sequence of buffer completions writes the register at most
once: once, with `a`, if the buffer of an IN endpoint completes, and not at all
otherwise. -/
theorem bus_reset_cancels_pending_address (d : usb_dcd.state) (a : Nat)
    (outs addrs : List Nat) (houts : ∀ x ∈ outs, x &&& 0x80 = 0) :
    ((usb_dcd.reset_address
        (usb_dcd.process_buffers (usb_dcd.set_address d a) outs)).ADDRESS = 0 ∧
      (usb_dcd.process_buffers
        (usb_dcd.reset_address (usb_dcd.process_buffers (usb_dcd.set_address d a) outs))
        addrs).ADDRESS = 0 ∧
      (usb_dcd.process_buffers
        (usb_dcd.reset_address (usb_dcd.process_buffers (usb_dcd.set_address d a) outs))
        addrs).address_writes = d.address_writes ++ [0]) ∧
    (∀ (c : state) (conf : usb_configuration.state),
      c._driver = usb_dcd.process_buffers (usb_dcd.set_address d a) outs →
      (c._active_configuration ≠ 0 →
        usb_device.find_configuration c._device c._active_configuration = some conf) →
      ∃ t, bus_reset_handler c = some t ∧
        (usb_dcd.process_buffers t._driver addrs).ADDRESS = 0 ∧
        (usb_dcd.process_buffers t._driver addrs).address_writes = d.address_writes ++ [0]) ∧
    (∀ e : usb_dcd.state,
      (usb_dcd.check_address e)._should_set_address = false ∧
      (usb_dcd.check_address e).address_writes
        = e.address_writes ++ (if e._should_set_address then [e._new_addr] else [])) ∧
    (usb_dcd.process_buffers (usb_dcd.set_address d a) addrs).address_writes
      = d.address_writes ++ (if ∃ x ∈ addrs, x &&& 0x80 ≠ 0 then [a] else []) := by
  have h1 : usb_dcd.process_buffers (usb_dcd.set_address d a) outs = usb_dcd.set_address d a :=
    process_buffers_out _ outs houts
  have h2 : ∀ e : usb_dcd.state, e._should_set_address = false →
      usb_dcd.process_buffers e addrs = e := fun e he => process_buffers_idle e addrs he
  refine ⟨⟨rfl, ?_, ?_⟩, ?_, ?_, ?_⟩
  · rw [h2 _ rfl]
    rfl
  · rw [h2 _ rfl, h1]
    rfl
  · intro c conf hc hconf
    obtain ⟨t, k1, k2, k3, k4⟩ := bus_reset_driver_members c conf hconf
    refine ⟨t, k1, ?_, ?_⟩
    · rw [h2 _ k3]
      exact k2
    · rw [h2 _ k3, k4, hc, h1]
      rfl
  · intro e
    exact ⟨(check_address_members e).1, (check_address_members e).2.1⟩
  · exact (process_buffers_pending (usb_dcd.set_address d a) addrs rfl).1

/-- Witness of C37: SET_ADDRESS(42), the completion of an OUT buffer, a bus
reset, then the completions of two IN buffers. -/
theorem bus_reset_cancels_pending_address_witness :
    (usb_dcd.process_buffers
      (usb_dcd.reset_address
        (usb_dcd.process_buffers (usb_dcd.set_address usb_dcd.constructed 42) [0x00]))
      [0x80, 0x81]).ADDRESS = 0 ∧
    (usb_dcd.process_buffers
      (usb_dcd.reset_address
        (usb_dcd.process_buffers (usb_dcd.set_address usb_dcd.constructed 42) [0x00]))
      [0x80, 0x81]).address_writes = [0] ∧
    (usb_dcd.process_buffers (usb_dcd.set_address usb_dcd.constructed 42)
      [0x80, 0x81]).address_writes = [42] := by
  obtain ⟨⟨_, h2, h3⟩, _, _, h6⟩ :=
    bus_reset_cancels_pending_address usb_dcd.constructed 42 [0x00] [0x80, 0x81]
      (by decide)
  refine ⟨h2, h3, ?_⟩
  rw [h6]
  decide

end usb_device_controller

/-! ## Binary object store -/

namespace usb_bos

/-- The BOS after its construction and the calls of `add_capability` for at
most two capabilities. -/
theorem add_capabilities_state (caps : List (List Nat)) (hk : caps.length ≤ 2)
    (hb : ∀ c ∈ caps, c.length < 256) :
    constructed.bind (add_capabilities caps) = some
      { bLength := 5, bDescriptorType := 15
        wTotalLength := 5 + (caps.map List.length).sum
        bNumDeviceCaps := caps.length
        _capabilities := caps.map some ++ List.replicate (2 - caps.length) none } := by
  rcases caps with _ | ⟨a, _ | ⟨c, _ | ⟨d, r⟩⟩⟩
  · rfl
  · have ha : a.length < 256 := hb a (by simp)
    have hm : (5 + a.length) % 65536 = 5 + a.length := by omega
    simp [constructed, set_total_length, total_length, add_capabilities, add_capability,
      TUPP.sizeof_bos_descriptor_t, TUPP.DESC_BOS, TUPP.TUPP_MAX_BOS_CAPABILITIES, hm,
      List.findIdx_cons]
  · have ha : a.length < 256 := hb a (by simp)
    have hc2 : c.length < 256 := hb c (by simp)
    have hm : (5 + a.length) % 65536 = 5 + a.length := by omega
    have hm2 : (5 + a.length + c.length) % 65536 = 5 + a.length + c.length := by omega
    simp [constructed, set_total_length, total_length, add_capabilities, add_capability,
      TUPP.sizeof_bos_descriptor_t, TUPP.DESC_BOS, TUPP.TUPP_MAX_BOS_CAPABILITIES, hm, hm2,
      List.findIdx_cons, Nat.add_assoc]
    omega
  · simp at hk

/-- The function `prepare_descriptor` on a BOS whose `bNumDeviceCaps`
capabilities fill the first slots, with a size the descriptors fit in. -/
theorem prepare_descriptor_bos (b : state) (caps : List (List Nat)) (size : Nat)
    (hk : caps.length ≤ 2) (hn : b.bNumDeviceCaps = caps.length)
    (hc : b._capabilities = caps.map some ++ List.replicate (2 - caps.length) none)
    (hs : 5 + (caps.map List.length).sum ≤ size) :
    prepare_descriptor b size = some (descriptor_bytes b ++ caps.flatMap id) := by
  have hl : (descriptor_bytes b).length = 5 := rfl
  unfold prepare_descriptor
  rw [hn]
  rcases caps with _ | ⟨a, _ | ⟨c, _ | ⟨d, r⟩⟩⟩
  · simp at hs
    simp [usb_interface.copy_checked, copy_capabilities, hl, hs]
  · simp at hs hc
    have h1 : 5 ≤ size := by omega
    have h2 : 5 + a.length ≤ size := by omega
    simp [usb_interface.copy_checked, copy_capabilities, hc, hl, h1, h2]
  · simp at hs hc
    have h1 : 5 ≤ size := by omega
    have h2 : 5 + a.length ≤ size := by omega
    have h3 : 5 + (a.length + c.length) ≤ size := by omega
    simp [usb_interface.copy_checked, copy_capabilities, hc, hl, h1, h2, h3]
  · simp at hk

/-- C31: after the construction of a BOS and the calls of `add_capability` for
`k ≤ 2` capabilities (each with a length below 256, as `bLength` is a byte),
`bNumDeviceCaps` is `k`, `wTotalLength` is the size of the BOS descriptor, 5,
plus the sum of the lengths of the capabilities, and the capabilities occupy
the slots `0..k-1` in the order of the calls. Called with a size of at least
`wTotalLength`, `prepare_descriptor` writes the BOS descriptor followed by the
bytes of the capabilities in that order and returns their number, which is
`wTotalLength`. If `k = 2`, one more call of `add_capability` fails its
assertion. -/
theorem bos_total_length (caps : List (List Nat))
    (hk : caps.length ≤ TUPP.TUPP_MAX_BOS_CAPABILITIES) (hb : ∀ c ∈ caps, c.length < 256) :
    ∃ b, constructed.bind (add_capabilities caps) = some b ∧
      b.bNumDeviceCaps = caps.length ∧
      b.wTotalLength = TUPP.sizeof_bos_descriptor_t + (caps.map List.length).sum ∧
      b._capabilities = caps.map some ++
        List.replicate (TUPP.TUPP_MAX_BOS_CAPABILITIES - caps.length) none ∧
      (∀ size, b.wTotalLength ≤ size →
        ∃ w, prepare_descriptor b size = some w ∧ w.length = b.wTotalLength ∧
          w = descriptor_bytes b ++ caps.flatMap id) ∧
      (caps.length = TUPP.TUPP_MAX_BOS_CAPABILITIES → ∀ x, add_capability b x = none) := by
  have hk2 : caps.length ≤ 2 := hk
  refine ⟨_, add_capabilities_state caps hk2 hb, rfl, rfl, rfl, ?_, ?_⟩
  · intro size hs
    refine ⟨_, prepare_descriptor_bos _ caps size hk2 rfl rfl hs, ?_, rfl⟩
    have hl : ∀ b : state, (descriptor_bytes b).length = 5 := fun _ => rfl
    have hf : ∀ l : List (List Nat), (l.flatMap id).length = (l.map List.length).sum := by
      intro l
      induction l with
      | nil => rfl
      | cons x rest ih => simp [List.flatMap_cons, ih]
    rw [List.length_append, hl, hf]
  · intro h2 x
    rcases caps with _ | ⟨a, _ | ⟨c, _ | ⟨d, r⟩⟩⟩
    · simp [TUPP.TUPP_MAX_BOS_CAPABILITIES] at h2
    · simp [TUPP.TUPP_MAX_BOS_CAPABILITIES] at h2
    · simp [add_capability, TUPP.TUPP_MAX_BOS_CAPABILITIES, List.findIdx_cons]
    · simp at hk2

/-- Witness of C31: a BOS with a capability of 4 bytes and one of 3 bytes. -/
theorem bos_total_length_witness :
    ∃ b, constructed.bind (add_capabilities [[4, 16, 5, 0], [3, 16, 2]]) = some b ∧
      b.bNumDeviceCaps = 2 ∧ b.wTotalLength = 12 ∧
      prepare_descriptor b 256 = some [5, 15, 12, 0, 2, 4, 16, 5, 0, 3, 16, 2] ∧
      (∀ x, add_capability b x = none) := by
  obtain ⟨b, h1, h2, h3, _, h5, h6⟩ :=
    bos_total_length [[4, 16, 5, 0], [3, 16, 2]] (by decide) (by decide)
  have h3b : b.wTotalLength = 12 := h3
  obtain ⟨w, k1, _, k3⟩ := h5 256 (by rw [h3b]; decide)
  refine ⟨b, h1, h2, h3b, ?_, h6 rfl⟩
  rw [k1, k3]
  unfold descriptor_bytes
  rw [h3b, h2]
  have e1 : b.bLength = 5 := by
    have := h1
    simp [constructed, set_total_length, total_length, add_capabilities, add_capability,
      TUPP.sizeof_bos_descriptor_t, TUPP.DESC_BOS, TUPP.TUPP_MAX_BOS_CAPABILITIES,
      List.findIdx_cons] at this
    rw [← this]
  have e2 : b.bDescriptorType = 15 := by
    have := h1
    simp [constructed, set_total_length, total_length, add_capabilities, add_capability,
      TUPP.sizeof_bos_descriptor_t, TUPP.DESC_BOS, TUPP.TUPP_MAX_BOS_CAPABILITIES,
      List.findIdx_cons] at this
    rw [← this]
  rw [e1, e2]
  rfl

end usb_bos

/-! ## Descriptor lengths -/

namespace usb_device_controller

open TUPP

theorem add_func_lengths_eq (fds : List (List Nat)) (len : Nat)
    (h : len + (fds.flatMap id).length < 65536) :
    usb_interface.add_func_lengths fds len = len + (fds.flatMap id).length := by
  induction fds generalizing len with
  | nil => simp [usb_interface.add_func_lengths]
  | cons fd rest ih =>
    unfold usb_interface.add_func_lengths
    simp only [List.flatMap_cons, id, List.length_append] at h ⊢
    have h1 : (len + fd.length) % 65536 = len + fd.length := by omega
    rw [h1, ih _ (by omega)]
    omega

theorem add_endpoint_lengths_eq (deref : Nat → Option usb_endpoint.state)
    (eps : List (Option Nat)) (len : Nat)
    (hd : ∀ a ∈ eps.filterMap id, (deref a).isSome = true)
    (h : len + (((eps.filterMap id).filterMap deref).flatMap
      usb_endpoint.descriptor_bytes).length < 65536) :
    usb_interface.add_endpoint_lengths deref eps len = some (len +
      (((eps.filterMap id).filterMap deref).flatMap usb_endpoint.descriptor_bytes).length) := by
  induction eps generalizing len with
  | nil => simp [usb_interface.add_endpoint_lengths]
  | cons x rest ih =>
    cases x with
    | none =>
      unfold usb_interface.add_endpoint_lengths
      exact ih len (fun a ha => hd a (by simpa using ha)) (by simpa using h)
    | some a =>
      unfold usb_interface.add_endpoint_lengths
      have ha : (deref a).isSome = true := hd a (by simp)
      obtain ⟨e, he⟩ := Option.isSome_iff_exists.mp ha
      have e1 : List.filterMap id (some a :: rest) = a :: List.filterMap id rest := rfl
      have e2 : List.filterMap deref (a :: List.filterMap id rest)
          = e :: List.filterMap deref (List.filterMap id rest) := by
        simp [List.filterMap_cons, he]
      have e3 : (usb_endpoint.descriptor_bytes e).length = 7 := rfl
      rw [e1, e2] at h
      rw [e1, e2]
      simp only [he, List.flatMap_cons, List.length_append, e3,
        sizeof_endpoint_descriptor_t] at h ⊢
      have h1 : (len + 7) % 65536 = len + 7 := by omega
      rw [h1, ih (len + 7) (fun b hb => hd b (by rw [e1]; exact List.mem_cons_of_mem a hb))
        (by omega)]
      congr 1
      omega

/-- The length of the serialization of an interface. -/
theorem spec_interface_serialization_length (deref : Nat → Option usb_endpoint.state)
    (i : usb_interface.state) :
    (spec_interface_serialization deref i).length =
      (if i._assoc_ptr.isSome then sizeof_interface_association_descriptor_t else 0) + 9 +
      (i._fd_ptr.flatMap id).length +
      (((i._endpoints.filterMap id).filterMap deref).flatMap
        usb_endpoint.descriptor_bytes).length := by
  unfold spec_interface_serialization
  have h9 : (usb_interface.descriptor_bytes i).length = 9 := rfl
  cases ha : i._assoc_ptr with
  | none =>
    simp only [List.length_append, List.length_nil, h9, Option.isSome_none,
      Bool.false_eq_true, if_false]
  | some a =>
    have h8 : a.bytes.length = 8 := rfl
    simp only [List.length_append, h8, h9, Option.isSome_some, if_true,
      sizeof_interface_association_descriptor_t]

/-- The length bookkeeping of one interface. -/
theorem interface_length (deref : Nat → Option usb_endpoint.state)
    (i : usb_interface.state) (size : Nat)
    (hlen : i.bLength = sizeof_interface_descriptor_t)
    (hd : ∀ a ∈ i._endpoints.filterMap id, (deref a).isSome = true)
    (hsize : size < 65536) (hfit : (spec_interface_serialization deref i).length ≤ size) :
    ∃ w n, usb_interface.prepare_descriptor i deref size = some w ∧
      w = spec_interface_serialization deref i ∧
      usb_interface.get_total_desc_length i deref = some n ∧
      w.length = n +
        (if i._assoc_ptr.isSome then sizeof_interface_association_descriptor_t else 0) := by
  have hL := spec_interface_serialization_length deref i
  refine ⟨spec_interface_serialization deref i,
    9 + (i._fd_ptr.flatMap id).length +
      (((i._endpoints.filterMap id).filterMap deref).flatMap
        usb_endpoint.descriptor_bytes).length,
    prepare_descriptor_some deref size i hd hfit, rfl, ?_, ?_⟩
  · unfold usb_interface.get_total_desc_length
    rw [hlen]
    have h9 : sizeof_interface_descriptor_t % 256 = 9 := rfl
    rw [h9, add_func_lengths_eq _ _ (by omega), add_endpoint_lengths_eq deref _ _ hd (by omega)]
  · rw [hL]
    omega

theorem get_total_desc_length_eq (deref : Nat → Option usb_endpoint.state)
    (i : usb_interface.state) (hlen : i.bLength = sizeof_interface_descriptor_t)
    (hd : ∀ a ∈ i._endpoints.filterMap id, (deref a).isSome = true)
    (hsmall : (spec_interface_serialization deref i).length < 65536) :
    (spec_interface_serialization deref i).length
      = (usb_interface.get_total_desc_length i deref).getD 0 +
        (if i._assoc_ptr.isSome then sizeof_interface_association_descriptor_t else 0) := by
  obtain ⟨w, n, _, k2, k3, k4⟩ :=
    interface_length deref i (spec_interface_serialization deref i).length hlen hd hsmall
      (Nat.le_refl _)
  rw [k3, ← k2]
  exact k4

theorem flatMap_length_le {α β : Type} (f : α → List β) (l : List α) (x : α) (hx : x ∈ l) :
    (f x).length ≤ (l.flatMap f).length := by
  induction l with
  | nil => cases hx
  | cons y rest ih =>
    simp only [List.flatMap_cons, List.length_append]
    rcases List.mem_cons.mp hx with h | h
    · subst h
      omega
    · have := ih h
      omega

theorem flatMap_length_sum {α β : Type} (f : α → List β) (g : α → Nat) (l : List α)
    (h : ∀ x ∈ l, (f x).length = g x) : (l.flatMap f).length = (l.map g).sum := by
  induction l with
  | nil => rfl
  | cons y rest ih =>
    simp only [List.flatMap_cons, List.length_append, List.map_cons, List.sum_cons]
    rw [h y (List.mem_cons_self y rest), ih (fun x hx => h x (List.mem_cons_of_mem y hx))]

/-- C40: for every interface whose descriptor has the length the constructor
sets, whatever its functional descriptors and endpoints, `prepare_descriptor`
called with a size the serialization fits in returns the value of
`get_total_desc_length()` plus the size of the interface association
descriptor, 8, if `_assoc_ptr` is set (which it is on the first interface of an
association only), and plus 0 otherwise. For a configuration whose
serialization fits into the scratch buffer, the bytes GET_DESCRIPTOR writes
there, the configuration descriptor and what `prepare_descriptor` writes for
each interface, have the length 9 plus the sum of these values over the
interfaces. -/
theorem interface_length_bookkeeping (deref : Nat → Option usb_endpoint.state)
    (conf : usb_configuration.state)
    (hlen : ∀ i ∈ conf._interfaces.filterMap id, i.bLength = sizeof_interface_descriptor_t)
    (hd : ∀ i ∈ conf._interfaces.filterMap id, ∀ a ∈ i._endpoints.filterMap id,
      (deref a).isSome = true)
    (hfit : (spec_configuration_serialization deref conf).length ≤ TUPP_MAX_DESC_SIZE) :
    (∀ (i : usb_interface.state) (size : Nat),
      i.bLength = sizeof_interface_descriptor_t →
      (∀ a ∈ i._endpoints.filterMap id, (deref a).isSome = true) →
      size < 65536 → (spec_interface_serialization deref i).length ≤ size →
      ∃ w n, usb_interface.prepare_descriptor i deref size = some w ∧
        usb_interface.get_total_desc_length i deref = some n ∧
        w.length = n +
          (if i._assoc_ptr.isSome then sizeof_interface_association_descriptor_t else 0)) ∧
    ∃ w, copy_interfaces deref conf._interfaces (usb_configuration.descriptor_bytes conf)
        = some w ∧
      w.length = sizeof_configuration_descriptor_t +
        ((conf._interfaces.filterMap id).map (fun i =>
          (usb_interface.get_total_desc_length i deref).getD 0 +
          (if i._assoc_ptr.isSome
            then sizeof_interface_association_descriptor_t else 0))).sum := by
  refine ⟨?_, ?_⟩
  · intro i size h1 h2 h3 h4
    obtain ⟨w, n, k1, _, k3, k4⟩ := interface_length deref i size h1 h2 h3 h4
    exact ⟨w, n, k1, k3, k4⟩
  · have hS : spec_configuration_serialization deref conf
        = usb_configuration.descriptor_bytes conf ++
          (conf._interfaces.filterMap id).flatMap (spec_interface_serialization deref) := rfl
    rw [hS] at hfit
    refine ⟨_, copy_interfaces_some deref conf._interfaces _ hd hfit, ?_⟩
    have h9 : (usb_configuration.descriptor_bytes conf).length = 9 := rfl
    have h256 : TUPP_MAX_DESC_SIZE = 256 := rfl
    rw [List.length_append, h9] at hfit ⊢
    show 9 + _ = 9 + _
    congr 1
    apply flatMap_length_sum
    intro i hi
    have hle := flatMap_length_le (spec_interface_serialization deref) _ i hi
    exact get_total_desc_length_eq deref i (hlen i hi) (hd i hi) (by omega)

set_option maxRecDepth 8000 in
/-- Witness of C40: the configuration of two interfaces, the first one with an
association descriptor, two functional descriptors and one endpoint, the
second one with two endpoints. -/
theorem interface_length_bookkeeping_witness :
    (cdc_configuration._interfaces.filterMap id).map (fun i =>
        (usb_interface.prepare_descriptor i (addr_to_ep cdc_controller) 256).map List.length)
      = [some 33, some 23] ∧
    (cdc_configuration._interfaces.filterMap id).map (fun i =>
        usb_interface.get_total_desc_length i (addr_to_ep cdc_controller))
      = [some 25, some 23] ∧
    ∃ w, copy_interfaces (addr_to_ep cdc_controller) cdc_configuration._interfaces
        (usb_configuration.descriptor_bytes cdc_configuration) = some w ∧
      w.length = 9 + (25 + 8) + (23 + 0) := by
  obtain ⟨_, w, h1, h2⟩ :=
    interface_length_bookkeeping (addr_to_ep cdc_controller) cdc_configuration
      (by decide) (by decide) (by decide)
  refine ⟨by decide, by decide, w, h1, ?_⟩
  rw [h2]
  decide

end usb_device_controller

/-! ## Endpoint construction -/

namespace usb_endpoint_rp2350

theorem offset_ne_zero_iff (x : Nat) : ((x &&& 0x0f) <<< 1) % 256 ≠ 0 ↔ x &&& 0x0f ≠ 0 := by
  have h : x &&& 0x0f ≤ 0x0f := Nat.and_le_right
  rw [Nat.shiftLeft_eq]
  omega

/-- What the constructor leaves, if its assertions pass. -/
theorem new_members (d : usb_dcd.state) (a t p iv : Nat) (itf : Option usb_interface.state)
    (c : construction) (h : new d a t p iv itf = some c) :
    c.endpoint.bEndpointAddress = a % 256 ∧
    c.endpoint.wMaxPacketSize = align_packet_size (p % 65536) ∧
    c.endpoint._hw_buffer_size = c.endpoint.wMaxPacketSize ∧
    c.driver._endpoints = (fun i dir =>
      if i = (a % 256) &&& 0x0f ∧ dir = (a % 256) >>> 7 then some c.endpoint
      else d._endpoints i dir) ∧
    ((a % 256) &&& 0x0f = 0 →
      c.endpoint._hw_buffer = USB_DPRAM + 0x100 ∧ c.endpoint._hw_buffer_size = 64 ∧
      c.driver._next_free_buffer = d._next_free_buffer) ∧
    ((a % 256) &&& 0x0f ≠ 0 →
      c.endpoint._hw_buffer = d._next_free_buffer ∧
      c.driver._next_free_buffer = d._next_free_buffer + c.endpoint._hw_buffer_size ∧
      d._next_free_buffer + c.endpoint._hw_buffer_size ≤ USB_DPRAM + 0x1000) := by
  unfold new at h
  have key : ∀ parent : Option usb_interface.state,
      body d (a % 256) t (p % 65536) (iv % 256) parent = some c →
      c.endpoint.bEndpointAddress = a % 256 ∧
      c.endpoint.wMaxPacketSize = align_packet_size (p % 65536) ∧
      c.endpoint._hw_buffer_size = c.endpoint.wMaxPacketSize ∧
      c.driver._endpoints = (fun i dir =>
        if i = (a % 256) &&& 0x0f ∧ dir = (a % 256) >>> 7 then some c.endpoint
        else d._endpoints i dir) ∧
      ((a % 256) &&& 0x0f = 0 →
        c.endpoint._hw_buffer = USB_DPRAM + 0x100 ∧ c.endpoint._hw_buffer_size = 64 ∧
        c.driver._next_free_buffer = d._next_free_buffer) ∧
      ((a % 256) &&& 0x0f ≠ 0 →
        c.endpoint._hw_buffer = d._next_free_buffer ∧
        c.driver._next_free_buffer = d._next_free_buffer + c.endpoint._hw_buffer_size ∧
        d._next_free_buffer + c.endpoint._hw_buffer_size ≤ USB_DPRAM + 0x1000) := by
    intro parent hp
    unfold body at hp
    dsimp only at hp
    by_cases hz : (a % 256) &&& 0x0f = 0
    · have ho : ¬ ((((a % 256) &&& 0x0f) <<< 1) % 256 ≠ 0) := by
        rw [offset_ne_zero_iff]
        exact fun hn => hn hz
      rw [if_neg ho] at hp
      by_cases h64 : align_packet_size (p % 65536) = 64
      · rw [if_pos h64] at hp
        have hc := Option.some.inj hp
        subst hc
        refine ⟨rfl, rfl, rfl, rfl, fun _ => ⟨?_, h64, rfl⟩, fun hn => absurd hz hn⟩
        show (if (((a % 256) &&& 0x0f) <<< 1) % 256 ≠ 0 then d._next_free_buffer
          else USB_DPRAM + 0x100) = _
        rw [if_neg ho]
      · rw [if_neg h64] at hp
        cases hp
    · have ho : (((a % 256) &&& 0x0f) <<< 1) % 256 ≠ 0 := (offset_ne_zero_iff _).mpr hz
      rw [if_pos ho] at hp
      by_cases hfit : d._next_free_buffer + align_packet_size (p % 65536) ≤ USB_DPRAM + 0x1000
      · rw [if_pos hfit] at hp
        have hc := Option.some.inj hp
        subst hc
        refine ⟨rfl, rfl, rfl, rfl, fun h0 => absurd h0 hz, fun _ => ⟨?_, rfl, hfit⟩⟩
        show (if (((a % 256) &&& 0x0f) <<< 1) % 256 ≠ 0 then d._next_free_buffer
          else USB_DPRAM + 0x100) = _
        rw [if_pos ho]
      · rw [if_neg hfit] at hp
        cases hp
  cases hb : base_constructor (a % 256) itf with
  | none =>
    simp only [hb] at h
    cases h
  | some parent =>
    simp only [hb] at h
    exact key parent h

/-- The relation between the endpoints of a sequence of constructions that
starts with the next free buffer at `n`. -/
theorem construct_all_invariant (reqs : List request) :
    ∀ (d0 d : usb_dcd.state) (es : List usb_endpoint.state),
      construct_all reqs d0 = some (d, es) →
      USB_DPRAM + 0x180 ≤ d0._next_free_buffer →
      es.length = reqs.length ∧
      d0._next_free_buffer ≤ d._next_free_buffer ∧
      (∀ e ∈ es, e._hw_buffer_size = e.wMaxPacketSize ∧
        (e.bEndpointAddress &&& 0x0f = 0 →
          e._hw_buffer = USB_DPRAM + 0x100 ∧ e._hw_buffer_size = 64) ∧
        (e.bEndpointAddress &&& 0x0f ≠ 0 →
          d0._next_free_buffer ≤ e._hw_buffer ∧
          e._hw_buffer + e._hw_buffer_size ≤ USB_DPRAM + 0x1000)) ∧
      es.Pairwise (fun e1 e2 =>
        (e1.bEndpointAddress &&& 0x0f ≠ 0 ∨ e2.bEndpointAddress &&& 0x0f ≠ 0) →
        disjoint_slices e1 e2) := by
  induction reqs with
  | nil =>
    intro d0 d es h _
    simp only [construct_all, Option.some.injEq, Prod.mk.injEq] at h
    obtain ⟨h1, h2⟩ := h
    subst h1 h2
    exact ⟨rfl, Nat.le_refl _, fun e he => absurd he (List.not_mem_nil e), List.Pairwise.nil⟩
  | cons r rest ih =>
    intro d0 d es h h0
    unfold construct_all at h
    cases hc : new d0 r.addr r.transfer_type r.packet_size r.interval r.interface with
    | none =>
      simp only [hc] at h
      cases h
    | some c =>
      simp only [hc] at h
      cases hr : construct_all rest c.driver with
      | none =>
        simp only [hr] at h
        cases h
      | some res =>
        obtain ⟨d1, es1⟩ := res
        simp only [hr, Option.some.injEq, Prod.mk.injEq] at h
        obtain ⟨h1, h2⟩ := h
        subst h1 h2
        obtain ⟨m1, _, m3, _, m5, m6⟩ :=
          new_members d0 r.addr r.transfer_type r.packet_size r.interval r.interface c hc
        have hidx : c.endpoint.bEndpointAddress &&& 0x0f = (r.addr % 256) &&& 0x0f := by
          rw [m1]
        have hmono : d0._next_free_buffer ≤ c.driver._next_free_buffer := by
          by_cases hz : (r.addr % 256) &&& 0x0f = 0
          · rw [(m5 hz).2.2]
          · rw [(m6 hz).2.1]
            omega
        obtain ⟨i1, i2, i3, i4⟩ := ih c.driver d1 es1 hr (by omega)
        have hD : USB_DPRAM = 0x50100000 := rfl
        refine ⟨by simp [i1], by omega, ?_, ?_⟩
        · intro e he
          rcases List.mem_cons.mp he with he | he
          · subst he
            refine ⟨m3, fun hz => ?_, fun hz => ?_⟩
            · rw [hidx] at hz
              exact ⟨(m5 hz).1, (m5 hz).2.1⟩
            · rw [hidx] at hz
              obtain ⟨k1, _, k3⟩ := m6 hz
              rw [k1]
              exact ⟨Nat.le_refl _, k3⟩
          · obtain ⟨j1, j2, j3⟩ := i3 e he
            exact ⟨j1, j2, fun hz => ⟨by have := (j3 hz).1; omega, (j3 hz).2⟩⟩
        · refine List.Pairwise.cons ?_ i4
          intro e he hor
          obtain ⟨j1, j2, j3⟩ := i3 e he
          unfold disjoint_slices
          by_cases hz : (r.addr % 256) &&& 0x0f = 0
          · have he0 : e.bEndpointAddress &&& 0x0f ≠ 0 := by
              rcases hor with hor | hor
              · rw [hidx] at hor
                exact absurd hz hor
              · exact hor
            obtain ⟨k1, k2, _⟩ := m5 hz
            have := (j3 he0).1
            right
            right
            left
            rw [k1, k2, hD]
            rw [hD] at h0
            omega
          · obtain ⟨k1, k2, _⟩ := m6 hz
            by_cases he0 : e.bEndpointAddress &&& 0x0f = 0
            · obtain ⟨q1, q2⟩ := j2 he0
              right
              right
              right
              rw [q1, q2, k1, hD]
              rw [hD] at h0
              omega
            · have := (j3 he0).1
              right
              right
              left
              rw [k1]
              omega

/-- C34 (counterexample): the two constructions of the USB device controller,
EP0 IN (0x80) and EP0 OUT (0x00) with a packet size of 64, complete without an
assertion failure and give both endpoints the same slice, the 64 bytes at
offset 0x100 of the dual-port RAM: the slices of these two distinct endpoints
are not disjoint. -/
theorem ep0_endpoints_share_slice :
    ∃ d e1 e2,
      construct_all [⟨0x80, 0, 64, 0, none⟩, ⟨0x00, 0, 64, 0, none⟩] usb_dcd.constructed
        = some (d, [e1, e2]) ∧
      e1.bEndpointAddress = 0x80 ∧ e2.bEndpointAddress = 0x00 ∧
      (e1._hw_buffer, e1._hw_buffer_size, e1.wMaxPacketSize) = (0x50100100, 64, 64) ∧
      (e2._hw_buffer, e2._hw_buffer_size, e2.wMaxPacketSize) = (0x50100100, 64, 64) ∧
      ¬ disjoint_slices e1 e2 :=
  ⟨_, _, _, rfl, rfl, rfl, by decide, by decide, by decide⟩

/-- C34 (amended): for every sequence of endpoint constructions that completes
without an assertion failure, each endpoint owns a hardware buffer slice of a
size equal to its `wMaxPacketSize`, every slice lies inside the 4096 bytes of
the dual-port RAM, and the slices of any two distinct endpoints of which at
least one has an index other than 0 are disjoint; the endpoints with the index
0 all have the slice of 64 bytes at offset 0x100. -/
theorem dpram_partition (reqs : List request) (d : usb_dcd.state)
    (es : List usb_endpoint.state)
    (h : construct_all reqs usb_dcd.constructed = some (d, es)) :
    es.length = reqs.length ∧
    (∀ e ∈ es, e._hw_buffer_size = e.wMaxPacketSize ∧ USB_DPRAM ≤ e._hw_buffer ∧
      e._hw_buffer + e._hw_buffer_size ≤ USB_DPRAM + 4096) ∧
    es.Pairwise (fun e1 e2 =>
      (e1.bEndpointAddress &&& 0x0f ≠ 0 ∨ e2.bEndpointAddress &&& 0x0f ≠ 0) →
      disjoint_slices e1 e2) ∧
    (∀ e ∈ es, e.bEndpointAddress &&& 0x0f = 0 →
      e._hw_buffer = USB_DPRAM + 0x100 ∧ e._hw_buffer_size = 64) := by
  have h0 : USB_DPRAM + 0x180 ≤ usb_dcd.constructed._next_free_buffer := by decide
  obtain ⟨i1, _, i3, i4⟩ := construct_all_invariant reqs usb_dcd.constructed d es h h0
  have hD : USB_DPRAM = 0x50100000 := rfl
  have hn : usb_dcd.constructed._next_free_buffer = 0x50100180 := rfl
  refine ⟨i1, ?_, i4, fun e he hz => (i3 e he).2.1 hz⟩
  intro e he
  obtain ⟨j1, j2, j3⟩ := i3 e he
  refine ⟨j1, ?_⟩
  by_cases hz : e.bEndpointAddress &&& 0x0f = 0
  · obtain ⟨q1, q2⟩ := j2 hz
    rw [q1, q2, hD]
    omega
  · obtain ⟨q1, q2⟩ := j3 hz
    rw [hn] at q1
    rw [hD] at q2 ⊢
    omega

/-- Witness of C34 (amended): the two endpoints of EP0 and the endpoints 0x81
(packet size 64) and 0x02 (packet size 100, aligned to 128). -/
theorem dpram_partition_witness :
    ∃ d e1 e2 e3 e4,
      construct_all [⟨0x80, 0, 64, 0, none⟩, ⟨0x00, 0, 64, 0, none⟩, ⟨0x81, 2, 64, 0, none⟩,
          ⟨0x02, 2, 100, 0, none⟩] usb_dcd.constructed = some (d, [e1, e2, e3, e4]) ∧
      (e3._hw_buffer, e3._hw_buffer_size) = (0x50100180, 64) ∧
      (e4._hw_buffer, e4._hw_buffer_size, e4.wMaxPacketSize) = (0x501001C0, 128, 128) ∧
      disjoint_slices e3 e4 ∧ disjoint_slices e1 e3 ∧ disjoint_slices e2 e4 := by
  have h : ∃ d e1 e2 e3 e4,
      construct_all [⟨0x80, 0, 64, 0, none⟩, ⟨0x00, 0, 64, 0, none⟩, ⟨0x81, 2, 64, 0, none⟩,
          ⟨0x02, 2, 100, 0, none⟩] usb_dcd.constructed = some (d, [e1, e2, e3, e4]) ∧
      (e3._hw_buffer, e3._hw_buffer_size) = (0x50100180, 64) ∧
      (e4._hw_buffer, e4._hw_buffer_size, e4.wMaxPacketSize) = (0x501001C0, 128, 128) ∧
      e1.bEndpointAddress = 0x80 ∧ e2.bEndpointAddress = 0x00 ∧
      e3.bEndpointAddress = 0x81 ∧ e4.bEndpointAddress = 0x02 :=
    ⟨_, _, _, _, _, rfl, by decide, by decide, rfl, rfl, rfl, rfl⟩
  obtain ⟨d, e1, e2, e3, e4, h1, h2, h3, a1, a2, a3, a4⟩ := h
  obtain ⟨_, _, k3, _⟩ := dpram_partition _ d _ h1
  have p1 := (List.pairwise_cons.mp k3).1
  have p2 := (List.pairwise_cons.mp (List.pairwise_cons.mp k3).2).1
  have p3 := (List.pairwise_cons.mp (List.pairwise_cons.mp (List.pairwise_cons.mp k3).2).2).1
  have b3 : e3.bEndpointAddress &&& 0x0f ≠ 0 := by
    rw [a3]
    decide
  have b4 : e4.bEndpointAddress &&& 0x0f ≠ 0 := by
    rw [a4]
    decide
  exact ⟨d, e1, e2, e3, e4, h1, h2, h3, p3 e4 (by simp) (Or.inl b3),
    p1 e3 (by simp) (Or.inr b3), p2 e4 (by simp) (Or.inr b4)⟩

end usb_endpoint_rp2350

/-! ## Endpoint creation by direction -/

namespace usb_dcd

theorem find_range (p : Nat → Bool) (n i : Nat) (hi : i < n) (hp : p i = true)
    (hs : ∀ j < i, p j = false) : (List.range n).find? p = some i := by
  induction n with
  | zero => omega
  | succ n ih =>
    rw [List.range_succ, List.find?_append]
    by_cases hin : i < n
    · rw [ih hin]
      rfl
    · have hn : i = n := by omega
      subst hn
      have h0 : (List.range i).find? p = none := by
        rw [List.find?_eq_none]
        intro x hx
        rw [hs x (List.mem_range.mp hx)]
        simp
      rw [h0]
      simp [hp]

theorem find_range_none (p : Nat → Bool) (n : Nat) (hs : ∀ j < n, p j = false) :
    (List.range n).find? p = none := by
  rw [List.find?_eq_none]
  intro x hx
  rw [hs x (List.mem_range.mp hx)]
  simp

theorem index_of_address (i dir : Nat) (hi : i < 16) (hd : dir < 2) :
    (i ||| (dir <<< 7)) % 256 = i ||| (dir <<< 7) ∧
    (i ||| (dir <<< 7)) &&& 0x0f = i ∧ (i ||| (dir <<< 7)) >>> 7 = dir ∧
    (i ||| (dir <<< 7)) = i + 128 * dir := by
  interval_cases i <;> interval_cases dir <;> decide

/-- The constructor returns an endpoint if its assertions pass. -/
theorem new_some (d : state) (a t p iv : Nat) (itf : Option usb_interface.state)
    (hitf : ∀ x, itf = some x → (usb_interface.add_endpoint x (a % 256)).isSome = true)
    (hroom : (a % 256) &&& 0x0f ≠ 0 →
      d._next_free_buffer + usb_endpoint_rp2350.align_packet_size (p % 65536)
        ≤ usb_endpoint_rp2350.USB_DPRAM + 0x1000)
    (h64 : (a % 256) &&& 0x0f = 0 → usb_endpoint_rp2350.align_packet_size (p % 65536) = 64) :
    ∃ c, usb_endpoint_rp2350.new d a t p iv itf = some c := by
  unfold usb_endpoint_rp2350.new
  have key : ∀ parent : Option usb_interface.state, ∃ c,
      usb_endpoint_rp2350.body d (a % 256) t (p % 65536) (iv % 256) parent = some c := by
    intro parent
    unfold usb_endpoint_rp2350.body
    dsimp only
    by_cases hz : (a % 256) &&& 0x0f = 0
    · have ho : ¬ ((((a % 256) &&& 0x0f) <<< 1) % 256 ≠ 0) := by
        rw [usb_endpoint_rp2350.offset_ne_zero_iff]
        exact fun hn => hn hz
      rw [if_neg ho, if_pos (h64 hz)]
      exact ⟨_, rfl⟩
    · have ho : (((a % 256) &&& 0x0f) <<< 1) % 256 ≠ 0 :=
        (usb_endpoint_rp2350.offset_ne_zero_iff _).mpr hz
      rw [if_pos ho, if_pos (hroom hz)]
      exact ⟨_, rfl⟩
  have hb : ∃ parent, usb_endpoint_rp2350.base_constructor (a % 256) itf = some parent := by
    unfold usb_endpoint_rp2350.base_constructor
    cases itf with
    | none => exact ⟨_, rfl⟩
    | some x =>
      obtain ⟨j, hj⟩ := Option.isSome_iff_exists.mp (hitf x rfl)
      simp only [hj]
      exact ⟨_, rfl⟩
  obtain ⟨parent, hp⟩ := hb
  simp only [hp]
  exact key parent

/-- C32: `create_endpoint(direction, ...)` takes the smallest index `i` of
`0..15` whose entry of the lookup table for the direction is null and
constructs the endpoint with the address `i | (dir << 7)`, `dir` being 1 for IN
and 0 for OUT. If the assertions of the constructor pass (the parent interface
has a free slot, the dual-port RAM has room for the buffer or, for the index
0, the aligned packet size is 64), the call returns the new endpoint, which has
this address and is registered so that `addr_to_ep(address)` returns it, at
the index `address & 0x0F` and the direction `address >> 7`; this pair is the
one of no endpoint the table held before, and the other entries of the table
are kept. If all 16 entries of the direction are taken, the call fails its
assertion. -/
theorem create_endpoint_by_direction (d : state) (direction : TUPP.direction_t)
    (type packet_size interval : Nat) (interface : Option usb_interface.state) (i : Nat)
    (hi : i < 16)
    (hfree : d._endpoints i (if direction = TUPP.direction_t.DIR_IN then 1 else 0) = none)
    (hsmall : ∀ j < i,
      (d._endpoints j (if direction = TUPP.direction_t.DIR_IN then 1 else 0)).isSome = true)
    (hitf : ∀ x, interface = some x →
      (usb_interface.add_endpoint x
        (i ||| ((if direction = TUPP.direction_t.DIR_IN then 1 else 0) <<< 7))).isSome = true)
    (hroom : i ≠ 0 →
      d._next_free_buffer + usb_endpoint_rp2350.align_packet_size (packet_size % 65536)
        ≤ usb_endpoint_rp2350.USB_DPRAM + 0x1000)
    (h64 : i = 0 → usb_endpoint_rp2350.align_packet_size (packet_size % 65536) = 64) :
    (∃ c, create_endpoint d direction type packet_size interval interface = some c ∧
      c.endpoint.bEndpointAddress
        = i ||| ((if direction = TUPP.direction_t.DIR_IN then 1 else 0) <<< 7) ∧
      c.endpoint.bEndpointAddress
        = i + (if direction = TUPP.direction_t.DIR_IN then 0x80 else 0) ∧
      c.endpoint.bEndpointAddress &&& 0x0f = i ∧
      c.endpoint.bEndpointAddress >>> 7
        = (if direction = TUPP.direction_t.DIR_IN then 1 else 0) ∧
      addr_to_ep c.driver c.endpoint.bEndpointAddress = some c.endpoint ∧
      (∀ i2 d2 e, d._endpoints i2 d2 = some e →
        ¬ (i2 = i ∧ d2 = (if direction = TUPP.direction_t.DIR_IN then 1 else 0)) ∧
        c.driver._endpoints i2 d2 = some e)) ∧
    (∀ d2 : state,
      (∀ j < 16,
        (d2._endpoints j (if direction = TUPP.direction_t.DIR_IN then 1 else 0)).isSome
          = true) →
      create_endpoint d2 direction type packet_size interval interface = none) := by
  have hdir : (if direction = TUPP.direction_t.DIR_IN then 1 else 0) < 2 := by
    split_ifs <;> omega
  have h80 : (if direction = TUPP.direction_t.DIR_IN then 0x80 else 0)
      = 128 * (if direction = TUPP.direction_t.DIR_IN then 1 else 0) := by
    split_ifs <;> rfl
  rw [h80]
  generalize hg : (if direction = TUPP.direction_t.DIR_IN then 1 else 0) = dir at *
  obtain ⟨a1, a2, a3, a4⟩ := index_of_address i dir hi hdir
  refine ⟨?_, ?_⟩
  · have hfind : (List.range 16).find? (fun k => (d._endpoints k dir).isNone) = some i := by
      apply find_range _ 16 i hi
      · simp only [hfree, Option.isNone_none]
      · intro j hj
        have := hsmall j hj
        cases hx : d._endpoints j dir with
        | none =>
          rw [hx] at this
          cases this
        | some e => rfl
    have hce : create_endpoint d direction type packet_size interval interface
        = usb_endpoint_rp2350.new d (i ||| (dir <<< 7)) type packet_size interval interface := by
      unfold create_endpoint
      simp only [hg, hfind]
    obtain ⟨c, hc⟩ := new_some d (i ||| (dir <<< 7)) type packet_size interval interface
      (by rw [a1]; exact hitf)
      (by
        rw [a1, a2]
        exact hroom)
      (by
        rw [a1, a2]
        exact h64)
    obtain ⟨m1, _, _, m4, _, _⟩ :=
      usb_endpoint_rp2350.new_members d _ type packet_size interval interface c hc
    rw [a1] at m1 m4
    rw [a2, a3] at m4
    refine ⟨c, by rw [hce, hc], m1, ?_, ?_, ?_, ?_, ?_⟩
    · rw [m1, a4]
    · rw [m1, a2]
    · rw [m1, a3]
    · unfold addr_to_ep
      rw [m1, a1, a2, a3, m4]
      simp
    · intro i2 d2 e he
      have hne : ¬ (i2 = i ∧ d2 = dir) := by
        rintro ⟨h1, h2⟩
        rw [h1, h2, hfree] at he
        cases he
      refine ⟨hne, ?_⟩
      rw [m4]
      simp only [if_neg hne]
      exact he
  · intro d2 hall
    unfold create_endpoint
    simp only [hg]
    rw [find_range_none]
    intro j hj
    have := hall j hj
    cases hx : d2._endpoints j dir with
    | none =>
      rw [hx] at this
      cases this
    | some e => rfl

/-- Witness of C32: on a driver whose table holds the two endpoints of index 0,
an IN endpoint is created at the index 1, with the address 0x81. -/
theorem create_endpoint_by_direction_witness :
    ∃ c, create_endpoint
        { constructed with
          _endpoints := fun i _ => if i = 0 then some (usb_endpoint.idle 0 64) else none }
        TUPP.direction_t.DIR_IN 2 64 0 none = some c ∧
      c.endpoint.bEndpointAddress = 0x81 ∧
      addr_to_ep c.driver 0x81 = some c.endpoint := by
  obtain ⟨⟨c, h1, h2, _, _, _, h6, _⟩, _⟩ := create_endpoint_by_direction
    { constructed with
      _endpoints := fun i _ => if i = 0 then some (usb_endpoint.idle 0 64) else none }
    TUPP.direction_t.DIR_IN 2 64 0 none 1 (by decide) rfl
    (fun j hj => by
      have : j = 0 := by omega
      subst this
      rfl)
    (fun x hx => by cases hx) (fun _ => by decide) (fun h => absurd h (by decide))
  have h3 : c.endpoint.bEndpointAddress = 0x81 := by
    rw [h2]
    decide
  rw [h3] at h6
  exact ⟨c, h1, h3, h6⟩

end usb_dcd

/-! ## Mass storage class, data phases -/

namespace usb_msc_bot_device

/-- C39, the code at the failing inputs, on a ready and writable device. A
READ(10) of 0 blocks enters `DATA_READ` and the polls that follow invoke the
read callback and start one-block transfers (blocks 5 and 6 in the second and
third poll); no CSW is emitted, the counter `_blocks_transferred` being
compared with `_blocks_to_transfer = 0` only after its increment. A WRITE(10)
of 0 blocks enters `DATA_WRITE`, where polling emits no CSW, and the next
31-byte command block wrapper fails the assertion
`_buffer_out_len == TUPP_MSC_BLOCK_SIZE`. -/
theorem zero_block_transfer_enters_data_phase :
    (polls (sample_handlers 100 (some true)) 3
        (received (make_cbw 0x61 0 10 [0x28, 0, 0, 0, 0, 5, 0, 0, 0, 0]))).map
      (fun t => (t._state, t._blocks_to_transfer, t._blocks_transferred, t.log))
      = some (state_t.DATA_READ, 0, 2,
          [event.read 5, event.in_transfer payload.buffer_in 512,
           event.read 6, event.in_transfer payload.buffer_in 512]) ∧
    (polls (sample_handlers 100 (some true)) 3
        (received (make_cbw 0x62 0 10 [0x2A, 0, 0, 0, 0, 5, 0, 0, 0, 0]))).map
      (fun t => (t._state, t._blocks_to_transfer, t._blocks_transferred, t.log))
      = some (state_t.DATA_WRITE, 0, 0, [event.is_writeable]) ∧
    ((polls (sample_handlers 100 (some true)) 3
        (received (make_cbw 0x62 0 10 [0x2A, 0, 0, 0, 0, 5, 0, 0, 0, 0]))).bind
      (fun t => (out_complete t (make_cbw 0x63 0 6 [0x00, 0, 0, 0, 0, 0])).bind
        (handle_request (sample_handlers 100 (some true))))) = none := by
  decide

/-- One poll in the state `DATA_READ`, whatever the read callback returns. -/
theorem poll_DATA_READ (h : handlers) (s : state) (hst : s._state = state_t.DATA_READ) :
    ∃ t, poll h s = some t ∧
      t._state = (if inc16 s._blocks_transferred = s._blocks_to_transfer
                  then state_t.SEND_CSW else state_t.DATA_READ) ∧
      t.log = s.log ++ [event.read s._block_addr,
                        event.in_transfer payload.buffer_in TUPP_MSC_BLOCK_SIZE] ∧
      t._block_addr = inc32 s._block_addr ∧
      t._blocks_transferred = inc16 s._blocks_transferred ∧
      t._blocks_to_transfer = s._blocks_to_transfer ∧
      t._csw.dCSWTag = s._csw.dCSWTag ∧ t._csw.dCSWSignature = s._csw.dCSWSignature ∧
      (h.read_handler s._block_addr ≠ 0 → error_latched t) ∧
      (h.read_handler s._block_addr = 0 →
        t._csw = s._csw ∧ t._sense_fixed_response = s._sense_fixed_response) := by
  unfold poll handle_request
  have e1 : (in_complete s)._state = state_t.DATA_READ := hst
  rw [e1]
  simp only [endpoint.is_active, endpoint.start_transfer, in_complete, Bool.false_eq_true,
    if_false]
  by_cases hres : h.read_handler s._block_addr = 0
  · have hn : ¬ (h.read_handler s._block_addr ≠ 0) := fun k => k hres
    rw [if_neg hn]
    by_cases hc : inc16 s._blocks_transferred = s._blocks_to_transfer
    · simp only [hc, if_true]
      exact ⟨_, rfl, rfl, rfl, rfl, rfl, rfl, rfl, rfl, fun k => absurd hres k,
        fun _ => ⟨rfl, rfl⟩⟩
    · simp only [hc, if_false]
      exact ⟨_, rfl, rfl, rfl, rfl, rfl, rfl, rfl, rfl, fun k => absurd hres k,
        fun _ => ⟨rfl, rfl⟩⟩
  · rw [if_pos hres]
    by_cases hc : inc16 s._blocks_transferred = s._blocks_to_transfer
    · simp only [hc, if_true]
      exact ⟨_, rfl, rfl, rfl, rfl, rfl, rfl, rfl, rfl,
        fun _ => ⟨rfl, rfl, rfl, rfl, rfl⟩, fun k => absurd k hres⟩
    · simp only [hc, if_false]
      exact ⟨_, rfl, rfl, rfl, rfl, rfl, rfl, rfl, rfl,
        fun _ => ⟨rfl, rfl, rfl, rfl, rfl⟩, fun k => absurd k hres⟩

/-- The data phase of a READ(10) with a read callback that fails for at least
one of the `k + 1` blocks still to transfer (or has failed before): `k + 2`
polls read and send every block, then emit the CSW, which carries the latched
error. -/
theorem read_phase_latched (h : handlers) :
    ∀ (k : Nat) (s : state), s._state = state_t.DATA_READ →
      s._blocks_transferred + (k + 1) = s._blocks_to_transfer →
      s._blocks_to_transfer < 65536 → s._block_addr < 4294967296 →
      (error_latched s ∨
        ∃ i, i ≤ k ∧ h.read_handler ((s._block_addr + i) % 4294967296) ≠ 0) →
      ∃ t, polls h (k + 2) s = some t ∧ t._state = state_t.RECEIVE_CBW ∧
        t.log = s.log ++
          (List.range (k + 1)).flatMap (fun i =>
            [event.read ((s._block_addr + i) % 4294967296),
             event.in_transfer payload.buffer_in 512]) ++
          [event.in_transfer (payload.csw t._csw) 13] ∧
        error_latched t ∧
        t._csw.dCSWTag = s._csw.dCSWTag ∧ t._csw.dCSWSignature = s._csw.dCSWSignature := by
  intro k
  induction k with
  | zero =>
    intro s hst hj hN ha hf
    have hinc : inc16 s._blocks_transferred = s._blocks_to_transfer := by
      unfold inc16
      omega
    obtain ⟨s1, p1, p2, p3, _, _, _, p7, p8, p9, p10⟩ := poll_DATA_READ h s hst
    rw [if_pos hinc] at p2
    have hl1 : error_latched s1 := by
      by_cases hres : h.read_handler s._block_addr = 0
      · rcases hf with hf | ⟨i, hi, hf⟩
        · obtain ⟨q1, q2⟩ := p10 hres
          unfold error_latched
          rw [q1, q2]
          exact hf
        · have : i = 0 := by omega
          subst this
          rw [Nat.add_zero, Nat.mod_eq_of_lt ha] at hf
          exact absurd hres hf
      · exact p9 hres
    obtain ⟨t, g1, g2, g3, g4, g5, _⟩ := poll_SEND_CSW h s1 p2
    refine ⟨t, ?_, g2, ?_, ?_, ?_, ?_⟩
    · rw [polls_succ, p1, Option.some_bind, polls_succ, g1]
      rfl
    · rw [g3, p3, g4]
      simp [List.range_succ, Nat.mod_eq_of_lt ha, TUPP_MSC_BLOCK_SIZE, sizeof_csw_t]
    · unfold error_latched
      rw [g4, g5]
      exact hl1
    · rw [g4, p7]
    · rw [g4, p8]
  | succ k ih =>
    intro s hst hj hN ha hf
    have hinc : inc16 s._blocks_transferred ≠ s._blocks_to_transfer := by
      unfold inc16
      omega
    obtain ⟨s1, p1, p2, p3, p4, p5, p6, p7, p8, p9, p10⟩ := poll_DATA_READ h s hst
    rw [if_neg hinc] at p2
    have hmod : ∀ i, (inc32 s._block_addr + i) % 4294967296
        = (s._block_addr + (i + 1)) % 4294967296 := by
      intro i
      unfold inc32
      omega
    have hf1 : error_latched s1 ∨
        ∃ i, i ≤ k ∧ h.read_handler ((s1._block_addr + i) % 4294967296) ≠ 0 := by
      by_cases hres : h.read_handler s._block_addr = 0
      · rcases hf with hf | ⟨i, hi, hf⟩
        · left
          obtain ⟨q1, q2⟩ := p10 hres
          unfold error_latched
          rw [q1, q2]
          exact hf
        · rcases i with _ | i
          · rw [Nat.add_zero, Nat.mod_eq_of_lt ha] at hf
            exact absurd hres hf
          · right
            refine ⟨i, by omega, ?_⟩
            rw [p4, hmod]
            exact hf
      · exact Or.inl (p9 hres)
    obtain ⟨t, g1, g2, g3, g4, g5, g6⟩ := ih s1 p2
      (by
        rw [p5, p6]
        unfold inc16
        omega)
      (by rw [p6]; exact hN)
      (by
        rw [p4]
        unfold inc32
        omega)
      hf1
    refine ⟨t, ?_, g2, ?_, g4, ?_, ?_⟩
    · rw [polls_succ, p1, Option.some_bind]
      exact g1
    · rw [g3, p3, p4]
      rw [flatMap_range_succ (fun i =>
            [event.read ((s._block_addr + i) % 4294967296),
             event.in_transfer payload.buffer_in 512]) (k + 1)]
      simp [hmod, Nat.mod_eq_of_lt ha, TUPP_MSC_BLOCK_SIZE]
    · rw [g5, p7]
    · rw [g6, p8]

/-- C38. Read callback error is latched: from `RECEIVE_CBW` with a ready
device and a valid 31-byte CBW carrying READ(10) (command block length 10)
with big-endian LBA `a` and big-endian transfer length `N`, if the read
callback returns a non-zero result for one of the blocks `a + i`, `i < N`
(whatever it returns for the other blocks), `N + 2` polls of `handle_request`,
the bulk IN endpoint being idle at each of them, still invoke `read` exactly
`N` times, for the blocks `a, ..., a+N-1` in that order, each followed by the
start of a one-block IN transfer, and then emit one 13-byte CSW with the CBW
tag, the residue 0 and the status FAILED; the latched sense is NOT_READY with
the additional sense code 0x3A and the qualifier 0, and the state is
`RECEIVE_CBW` again. -/
theorem read_error_latched (h : handlers) (s : state)
    (hst : s._state = state_t.RECEIVE_CBW) (hready : s._device_ready = true)
    (hlen : s._buffer_out_len = 31)
    (hsig : dCBWSignature s._buffer_out = 0x43425355)
    (hop : CBWCB s._buffer_out 0 = 0x28) (hcb : bCBWCBLength s._buffer_out = 10)
    (i : Nat) (hi : i < be16 s._buffer_out 22)
    (hfail : h.read_handler ((be32 s._buffer_out 17 + i) % 4294967296) ≠ 0) :
    ∃ t, polls h (be16 s._buffer_out 22 + 2) s = some t ∧
      t._state = state_t.RECEIVE_CBW ∧
      t.log = s.log ++
        (List.range (be16 s._buffer_out 22)).flatMap (fun i =>
          [event.read ((be32 s._buffer_out 17 + i) % 4294967296),
           event.in_transfer payload.buffer_in 512]) ++
        [event.in_transfer
          (payload.csw ⟨0x53425355, dCBWTag s._buffer_out, 0, csw_status_t.CMD_FAILED⟩) 13] ∧
      t._sense_fixed_response.sense_key = sense_key_t.NOT_READY ∧
      t._sense_fixed_response.add_sense_code = 0x3a ∧
      t._sense_fixed_response.add_sense_qualifier = 0 := by
  obtain ⟨s1, h1, f1, f2, f3, f4, f5, f6⟩ :=
    handle_request_READ_10 h (in_complete s) hst hready hlen hsig hop hcb
  have e2 : (in_complete s)._buffer_out = s._buffer_out := rfl
  have e3 : (in_complete s).log = s.log := rfl
  rw [e2] at f2 f4 f6
  rw [e3] at f5
  obtain ⟨k, hk⟩ : ∃ k, be16 s._buffer_out 22 = k + 1 := ⟨be16 s._buffer_out 22 - 1, by omega⟩
  have hlt := be16_lt s._buffer_out 22
  obtain ⟨t, g1, g2, g3, ⟨l1, l2, l3, l4, l5⟩, g5, g6⟩ := read_phase_latched h k s1 f1
    (by rw [f3, f2, hk]; omega)
    (by rw [f2]; exact hlt) (by rw [f4]; exact be32_lt _ _)
    (Or.inr ⟨i, by omega, by rw [f4]; exact hfail⟩)
  have hcsw : t._csw = ⟨0x53425355, dCBWTag s._buffer_out, 0, csw_status_t.CMD_FAILED⟩ := by
    rw [f6] at g5 g6
    have g5 : t._csw.dCSWTag = dCBWTag s._buffer_out := g5
    have g6 : t._csw.dCSWSignature = 0x53425355 := g6
    rcases hc : t._csw with ⟨c1, c2, c3, c4⟩
    rw [hc] at g5 g6 l1 l2
    simp only at g5 g6 l1 l2
    rw [g5, g6, l1, l2]
  refine ⟨t, ?_, g2, ?_, l3, l4, l5⟩
  · rw [hk, polls_succ]
    show (handle_request h (in_complete s)).bind (polls h (k + 2)) = some t
    rw [h1, Option.some_bind]
    exact g1
  · rw [g3, f5, f4, hcsw, hk]

/-- Witness of C38: READ(10) of 3 blocks at LBA 7 on a device whose read
callback fails for the block 8 only. -/
theorem read_error_latched_witness :
    ∃ t, polls { sample_handlers 100 none with read_handler := fun a => if a = 8 then 1 else 0 }
        5 (received (make_cbw 0x1234 1536 10 [0x28, 0, 0, 0, 0, 7, 0, 0, 3, 0])) = some t ∧
      t._state = state_t.RECEIVE_CBW ∧
      t.log = [event.read 7, event.in_transfer payload.buffer_in 512,
               event.read 8, event.in_transfer payload.buffer_in 512,
               event.read 9, event.in_transfer payload.buffer_in 512,
               event.in_transfer
                 (payload.csw ⟨0x53425355, 0x1234, 0, csw_status_t.CMD_FAILED⟩) 13] ∧
      t._sense_fixed_response.sense_key = sense_key_t.NOT_READY ∧
      t._sense_fixed_response.add_sense_code = 0x3a ∧
      t._sense_fixed_response.add_sense_qualifier = 0 := by
  obtain ⟨t, h1, h2, h3, h4⟩ :=
    read_error_latched
      { sample_handlers 100 none with read_handler := fun a => if a = 8 then 1 else 0 }
      (received (make_cbw 0x1234 1536 10 [0x28, 0, 0, 0, 0, 7, 0, 0, 3, 0]))
      rfl rfl rfl (by decide) (by decide) (by decide) 1 (by decide) (by decide)
  have e1 : be16 (received (make_cbw 0x1234 1536 10
      [0x28, 0, 0, 0, 0, 7, 0, 0, 3, 0]))._buffer_out 22 = 3 := by decide
  rw [e1] at h1 h3
  refine ⟨t, h1, h2, ?_, h4⟩
  rw [h3]
  decide

/-- The calls of `handle_request` that fail are those that fail an assertion
other than the precondition of `start_transfer`. -/
theorem handle_request_none_iff (h : handlers) (s : state) :
    handle_request h s = none ↔ other_assert_fails h s := by
  unfold other_assert_fails
  rcases hst : s._state with _ | _ | _ | _
  · -- RECEIVE_CBW
    simp only [reduceCtorEq, true_and, false_and, or_false]
    by_cases h0 : s._buffer_out_len = 0
    · have e : handle_request h s = some s := by
        unfold handle_request
        rw [hst]
        simp only [h0, if_true]
      rw [e]
      simp [h0, sizeof_cbw_t]
    · by_cases hv : s._buffer_out_len ≠ sizeof_cbw_t ∨
          dCBWSignature s._buffer_out ≠ cbw_signature
      · have e : (handle_request h s).isSome = true := by
          unfold handle_request
          rw [hst]
          simp only [h0, if_false, if_pos hv]
          rfl
        constructor
        · intro hn
          rw [hn] at e
          cases e
        · rintro ⟨k1, k2, _⟩
          rcases hv with hv | hv
          · exact absurd k1 hv
          · exact absurd k2 hv
      · have k1 : s._buffer_out_len = sizeof_cbw_t := by
          by_contra hc
          exact hv (Or.inl hc)
        have k2 : dCBWSignature s._buffer_out = cbw_signature := by
          by_contra hc
          exact hv (Or.inr hc)
        by_cases hok : asserts_hold h s._buffer_out
        · obtain ⟨t, g, _⟩ := process_scsi_command_frame h (seed_csw s) hok
          rw [handle_request_valid_cbw h s hst k1 k2, g]
          simp [hok]
        · rw [handle_request_reject h s hst k1 k2 hok]
          simp [k1, k2, hok]
  · -- DATA_READ
    simp only [reduceCtorEq, false_and, or_false]
    have e : (handle_request h s).isSome = true := by
      unfold handle_request
      rw [hst]
      simp only [endpoint.is_active, endpoint.start_transfer]
      cases s._ep_in._active <;> simp
    constructor
    · intro hn
      rw [hn] at e
      cases e
    · intro k
      exact k.elim
  · -- DATA_WRITE
    simp only [reduceCtorEq, true_and, false_and, false_or]
    unfold handle_request
    rw [hst]
    by_cases h0 : s._buffer_out_len = 0
    · simp [h0]
    · by_cases h1 : s._buffer_out_len = TUPP_MSC_BLOCK_SIZE
      · simp [h0, h1, TUPP_MSC_BLOCK_SIZE]
      · simp [h0, h1]
  · -- SEND_CSW
    simp only [reduceCtorEq, false_and, or_false]
    have e : (handle_request h s).isSome = true := by
      unfold handle_request
      rw [hst]
      simp only [endpoint.is_active, endpoint.start_transfer]
      cases s._ep_in._active <;> simp
    constructor
    · intro hn
      rw [hn] at e
      cases e
    · intro k
      exact k.elim

/-- A run that fails does so at a poll of `handle_request` in a state that
fails an assertion other than the precondition of `start_transfer`. -/
theorem run_none (h : handlers) :
    ∀ (steps : List step) (s : state), run h steps s = none →
      ∃ pre post t, steps = pre ++ step.request :: post ∧ run h pre s = some t ∧
        other_assert_fails h t := by
  intro steps
  induction steps with
  | nil =>
    intro s hn
    cases hn
  | cons e rest ih =>
    intro s hn
    have step_some : ∀ s1, do_step h s e = some s1 →
        ∃ pre post t, e :: rest = pre ++ step.request :: post ∧ run h pre s = some t ∧
          other_assert_fails h t := by
      intro s1 h1
      have hr : run h rest s1 = none := by
        have : run h (e :: rest) s = (do_step h s e).bind (run h rest) := rfl
        rw [this, h1] at hn
        exact hn
      obtain ⟨pre, post, t, k1, k2, k3⟩ := ih s1 hr
      refine ⟨e :: pre, post, t, by rw [k1]; rfl, ?_, k3⟩
      show (do_step h s e).bind (run h pre) = some t
      rw [h1]
      exact k2
    cases e with
    | request =>
      cases h1 : handle_request h s with
      | none => exact ⟨[], rest, s, rfl, rfl, (handle_request_none_iff h s).mp h1⟩
      | some s1 => exact step_some s1 h1
    | out_done rx =>
      obtain ⟨s1, h1, _⟩ := out_complete_members s rx
      exact step_some s1 h1
    | in_done => exact step_some (in_complete s) rfl

/-- C33. One transfer at a time: no call of `start_transfer` of the class
driver fails its precondition `assert(!_active)`. The transfer of a response is
started after the loop that waits for the bulk IN endpoint to be idle, and the
analysis of the response situation never fails; the data handler restarts the
bulk OUT endpoint at the end of its transfer and never fails; a poll of
`handle_request` fails exactly in the states that fail one of the other
assertions (on the command block, or on the length of a received data block),
so the transfers started in `SEND_CSW` and `DATA_READ` never fail. Hence a run
of polls and ends of transfers on the two bulk endpoints, from whatever state,
that fails, fails at a poll in a state that fails one of the other assertions,
and a run that meets no such state returns. -/
theorem one_transfer_at_a_time (h : handlers) :
    (∀ (s : state) (r : Option (buffer × Nat)), ∃ t, analyze_response s r = some t) ∧
    (∀ (s : state) (rx : List Nat),
      ∃ t, out_complete s rx = some t ∧ t._ep_out._active = true) ∧
    (∀ s : state, handle_request h s = none ↔ other_assert_fails h s) ∧
    (∀ (steps : List step) (s : state), run h steps s = none →
      ∃ pre post t, steps = pre ++ step.request :: post ∧ run h pre s = some t ∧
        other_assert_fails h t) ∧
    (∀ (steps : List step) (s : state),
      (∀ pre post t, steps = pre ++ step.request :: post → run h pre s = some t →
        ¬ other_assert_fails h t) →
      ∃ t, run h steps s = some t) := by
  refine ⟨?_, ?_, handle_request_none_iff h, run_none h, ?_⟩
  · intro s r
    obtain ⟨t, g, _⟩ := analyze_response_frame s r
    exact ⟨t, g⟩
  · intro s rx
    unfold out_complete data_handler
    simp only [endpoint.send_NAK, endpoint.start_transfer, Bool.false_eq_true, if_false]
    exact ⟨_, rfl, rfl⟩
  · intro steps s hall
    cases hr : run h steps s with
    | some t => exact ⟨t, rfl⟩
    | none =>
      obtain ⟨pre, post, t, k1, k2, k3⟩ := run_none h steps s hr
      exact absurd k3 (hall pre post t k1 k2)

/-- Witness of C33: a TEST UNIT READY whose command block length is 10, not 6,
makes the run fail at the poll that follows its reception, in a state that
fails an assertion on the command block; with the length 6 the run of the
command and of a READ(10) of one block returns. -/
theorem one_transfer_at_a_time_witness :
    (∃ pre post t,
      [step.out_done (make_cbw 1 0 10 [0x00, 0, 0, 0, 0, 0]), step.request]
        = pre ++ step.request :: post ∧
      run (sample_handlers 100 none) pre constructed = some t ∧
      other_assert_fails (sample_handlers 100 none) t) ∧
    (run (sample_handlers 100 none)
      [step.out_done (make_cbw 1 0 6 [0x00, 0, 0, 0, 0, 0]), step.request, step.request,
       step.out_done (make_cbw 2 512 10 [0x28, 0, 0, 0, 0, 7, 0, 0, 1, 0]), step.in_done,
       step.request, step.request, step.request, step.in_done, step.request]
      constructed).map (fun t => (t._state, t._ep_in._active, t._ep_out._active, t.log))
      = some (state_t.RECEIVE_CBW, true, true,
          [event.in_transfer (payload.csw ⟨0x53425355, 1, 0, csw_status_t.CMD_PASSED⟩) 13,
           event.read 7, event.in_transfer payload.buffer_in 512,
           event.in_transfer (payload.csw ⟨0x53425355, 2, 0, csw_status_t.CMD_PASSED⟩) 13]) :=
  ⟨(one_transfer_at_a_time (sample_handlers 100 none)).2.2.2.1 _ constructed (by decide),
    by decide⟩

end usb_msc_bot_device

/-! ## Endpoint transfer engine, transferred data -/

namespace usb_endpoint

theorem bytes_at_length (m : Nat → Nat) (a n : Nat) : (bytes_at m a n).length = n := by
  unfold bytes_at
  simp

theorem bytes_at_append (m : Nat → Nat) (a n k : Nat) :
    bytes_at m a (n + k) = bytes_at m a n ++ bytes_at m (a + n) k := by
  unfold bytes_at
  rw [List.range_add, List.map_append, List.map_map]
  congr 1
  apply List.map_congr_left
  intro j _
  simp only [Function.comp, Nat.add_assoc]

theorem bytes_at_congr (m1 m2 : Nat → Nat) (a1 a2 n : Nat)
    (h : ∀ j, j < n → m1 (a1 + j) = m2 (a2 + j)) : bytes_at m1 a1 n = bytes_at m2 a2 n := by
  unfold bytes_at
  apply List.map_congr_left
  intro j hj
  exact h j (List.mem_range.mp hj)

theorem buffer_done_in (s : state) (rx : List Nat) (hdir : is_IN s = true) :
    buffer_done s rx = { s with AVAILABLE_0 := 0 } := by
  unfold buffer_done
  rw [if_pos hdir]

/-- A buffer-completion event of an IN transfer with bytes left: the next
chunk is copied to the hardware buffer and armed. -/
theorem buffer_completion_in_chunk (s : state) (rx : List Nat) (hdir : is_IN s = true)
    (hact : s._active = true) (hnz : s._bytes_left ≠ 0) :
    ∃ t, buffer_completion s rx = some t ∧ t._active = true ∧ is_IN t = true ∧
      t.wMaxPacketSize = s.wMaxPacketSize ∧
      t._bytes_left = sub16 s._bytes_left (min s._bytes_left s.wMaxPacketSize) ∧
      t._current_ptr = s._current_ptr + min s._bytes_left s.wMaxPacketSize ∧
      t.LENGTH_0 = min s._bytes_left s.wMaxPacketSize ∧
      t.mem = tupp_memcpy s.mem s._hw_buffer s._current_ptr
        (min s._bytes_left s.wMaxPacketSize) ∧
      t._hw_buffer = s._hw_buffer ∧ t.handled = s.handled ∧
      t.data_handler = s.data_handler ∧ t._data_ptr = s._data_ptr ∧
      t._data_len = s._data_len := by
  rw [buffer_completion_in s rx hdir, buffer_done_in s rx hdir,
    handle_buffer_in_next { s with AVAILABLE_0 := 0 } _ hact hnz rfl]
  exact ⟨_, rfl, hact, hdir, rfl, rfl, rfl, rfl, rfl, rfl, rfl, rfl, rfl, rfl⟩

theorem drive_in_chunks_inactive (fuel : Nat) (s : state) (h : s._active = false) :
    drive_in_chunks fuel s = some (s, []) := by
  cases fuel <;> simp [drive_in_chunks, h]

theorem drive_in_chunks_active (fuel : Nat) (s : state) (h : s._active = true) :
    drive_in_chunks (fuel + 1) s =
      (buffer_completion s []).bind (fun t =>
        (drive_in_chunks fuel t).map (fun r => (r.1, armed_chunk s :: r.2))) := by
  simp [drive_in_chunks, h]

/-- An active IN transfer whose armed chunk holds the bytes of the user buffer
that precede the cursor, and whose user buffer does not overlap the hardware
buffer: the chunks sent until the end of the transfer are the armed one
followed by the bytes left, in pieces of the packet size. -/
theorem drive_in_chunks_data (M : Nat) (hM : 0 < M) (m0 : Nat → Nat) :
    ∀ (k : Nat) (s : state) (fuel : Nat),
      s._active = true → is_IN s = true → s.wMaxPacketSize = M →
      s._bytes_left < 65536 → (s._bytes_left + M - 1) / M = k → k + 1 ≤ fuel →
      (s._bytes_left ≠ 0 → s.LENGTH_0 = M) → s.LENGTH_0 ≤ s._current_ptr →
      (∀ j, j < s.LENGTH_0 →
        s.mem (s._hw_buffer + j) = m0 (s._current_ptr - s.LENGTH_0 + j)) →
      (∀ a, s._current_ptr ≤ a → a < s._current_ptr + s._bytes_left → s.mem a = m0 a) →
      (s._current_ptr + s._bytes_left ≤ s._hw_buffer ∨ s._hw_buffer + M ≤ s._current_ptr) →
      ∃ t chunks, drive_in_chunks fuel s = some (t, chunks) ∧ t._active = false ∧
        chunks.flatten
          = bytes_at m0 (s._current_ptr - s.LENGTH_0) (s.LENGTH_0 + s._bytes_left) ∧
        chunks.length = k + 1 ∧
        (∀ c ∈ chunks.dropLast, c.length = M) ∧
        t.handled = (if s.data_handler then s.handled ++ [(s._data_ptr, s._data_len)]
                     else s.handled) := by
  intro k
  induction k with
  | zero =>
    intro s fuel hact hdir _ _ hk hf _ _ hchunk _ _
    obtain ⟨f, rfl⟩ : ∃ f, fuel = f + 1 := ⟨fuel - 1, by omega⟩
    have hz : s._bytes_left = 0 := by
      by_contra hne
      have hc := ceil_step M s._bytes_left hM (Nat.pos_of_ne_zero hne)
      rw [hk] at hc
      exact Nat.succ_ne_zero _ hc.symm
    obtain ⟨t, h1, h2, _, h4⟩ := buffer_completion_in_last s [] hdir hact hz
    refine ⟨t, [armed_chunk s], ?_, h2, ?_, rfl, ?_, h4⟩
    · rw [drive_in_chunks_active f s hact, h1, Option.some_bind,
        drive_in_chunks_inactive f t h2]
      rfl
    · rw [hz, Nat.add_zero]
      simp only [List.flatten_cons, List.flatten_nil, List.append_nil]
      unfold armed_chunk
      exact bytes_at_congr _ _ _ _ _ hchunk
    · intro c hc
      simp at hc
  | succ k ih =>
    intro s fuel hact hdir hsM hlt hk hf hfull hle hchunk hrest hdis
    obtain ⟨f, rfl⟩ : ∃ f, fuel = f + 1 := ⟨fuel - 1, by omega⟩
    have hnz : s._bytes_left ≠ 0 := by
      intro hz
      rw [hz, ceil_zero M hM] at hk
      cases hk
    obtain ⟨u, h1, h2, h3, h4, h5, h6, h7, h8, h9, h10, h11, h12, h13⟩ :=
      buffer_completion_in_chunk s [] hdir hact hnz
    rw [hsM] at h5 h6 h7 h8
    have hmin : min s._bytes_left M ≤ s._bytes_left := Nat.min_le_left _ _
    have hminM : min s._bytes_left M ≤ M := Nat.min_le_right _ _
    have hsub : u._bytes_left = s._bytes_left - min s._bytes_left M := by
      rw [h5]
      exact sub16_of_le hmin hlt
    have hk2 : (u._bytes_left + M - 1) / M = k := by
      have hc := ceil_step M s._bytes_left hM (Nat.pos_of_ne_zero hnz)
      rw [hk] at hc
      rw [hsub]
      exact (Nat.succ.inj hc).symm
    have hsum : u._current_ptr + u._bytes_left = s._current_ptr + s._bytes_left := by
      rw [h6, hsub]
      omega
    obtain ⟨t, chunks, g1, g2, g3, g4, g5, g6⟩ :=
      ih u f h2 h3 (by rw [h4, hsM]) (by rw [hsub]; omega) hk2 (by omega)
        (by
          intro hu
          rw [h7]
          rw [hsub] at hu
          omega)
        (by rw [h7, h6]; omega)
        (by
          intro j hj
          rw [h7] at hj
          rw [h8, h9, tupp_memcpy_inside _ _ _ _ j hj, h7, h6,
            hrest (s._current_ptr + j) (by omega) (by omega)]
          congr 1
          omega)
        (by
          intro a ha1 ha2
          rw [hsum] at ha2
          rw [h6] at ha1
          rw [h8, tupp_memcpy_outside _ _ _ _ a (by omega)]
          exact hrest a (by omega) ha2)
        (by
          rw [hsum, h9, h6]
          omega)
    have hne : chunks ≠ [] := by
      intro he
      rw [he] at g4
      cases g4
    refine ⟨t, armed_chunk s :: chunks, ?_, g2, ?_, ?_, ?_, ?_⟩
    · rw [drive_in_chunks_active f s hact, h1, Option.some_bind, g1]
      rfl
    · rw [List.flatten_cons, g3, h7, h6, hsub]
      have e1 : armed_chunk s = bytes_at m0 (s._current_ptr - s.LENGTH_0) s.LENGTH_0 := by
        unfold armed_chunk
        exact bytes_at_congr _ _ _ _ _ hchunk
      have e2 : s._current_ptr + min s._bytes_left M - min s._bytes_left M
          = s._current_ptr - s.LENGTH_0 + s.LENGTH_0 := by omega
      have e3 : min s._bytes_left M + (s._bytes_left - min s._bytes_left M)
          = s._bytes_left := by omega
      rw [e1, e2, e3, ← bytes_at_append]
    · simp [g4]
    · intro c hc
      rw [List.dropLast_cons_of_ne_nil hne] at hc
      rcases List.mem_cons.mp hc with hc | hc
      · rw [hc]
        unfold armed_chunk
        rw [bytes_at_length]
        exact hfull hnz
      · exact g5 c hc
    · rw [g6, h10, h11, h12, h13]

theorem drive_in_chunks_fst (fuel : Nat) :
    ∀ s : state, (drive_in_chunks fuel s).map Prod.fst = drive_in fuel s := by
  induction fuel with
  | zero =>
    intro s
    cases ha : s._active <;> simp [drive_in_chunks, drive_in, ha]
  | succ f ih =>
    intro s
    cases ha : s._active
    · simp [drive_in_chunks, drive_in, ha]
    · rw [drive_in_chunks_active f s ha, drive_in_active f s ha]
      cases hb : buffer_completion s [] with
      | none => rfl
      | some t =>
        rw [Option.some_bind, Option.some_bind, ← ih t]
        cases drive_in_chunks f t <;> rfl

/-- C35. IN fragmentation preserves the data: on an idle IN endpoint with
packet size `M > 0` whose hardware buffer is free, a transfer
`start_transfer(buf, L)` from a user buffer that does not overlap the hardware
buffer, driven to its end by buffer-completion events, sends chunks (the
content of the hardware buffer at each event, in the order they were armed)
whose concatenation is `buf[0..L)`; every chunk but the last has exactly `M`
bytes and their number is `ceil(L / M)`, or 1 if `L = 0`; after the last event
`active` is false and the data handler, if one is installed, has been invoked
exactly once, with `(buf, L)`. -/
theorem in_fragmentation_preserves_data (s : state) (buf L fuel : Nat)
    (hdir : is_IN s = true) (hM : 0 < s.wMaxPacketSize) (hL : L < 65536)
    (hact : s._active = false) (hav : s.AVAILABLE_0 = 0)
    (hdis : buf + L ≤ s._hw_buffer ∨ s._hw_buffer + s.wMaxPacketSize ≤ buf)
    (hf : (if L = 0 then 1 else (L + s.wMaxPacketSize - 1) / s.wMaxPacketSize) ≤ fuel) :
    ∃ s1 t chunks, start_transfer s buf L = some s1 ∧
      drive_in_chunks fuel s1 = some (t, chunks) ∧ drive_in fuel s1 = some t ∧
      chunks.flatten = bytes_at s.mem buf L ∧
      (∀ c ∈ chunks.dropLast, c.length = s.wMaxPacketSize) ∧
      chunks.length
        = (if L = 0 then 1 else (L + s.wMaxPacketSize - 1) / s.wMaxPacketSize) ∧
      t._active = false ∧
      t.handled = (if s.data_handler then s.handled ++ [(buf, L)] else s.handled) := by
  obtain ⟨s1, h1⟩ := start_transfer_some s buf L hact hav
  obtain ⟨_, _, hb, hsM, h1act, hptr, hlen, _, hhw, hdh, _, _, hhd, _, _, hl0, _, hleft,
    hcur, hmem⟩ := start_transfer_members s s1 buf L h1
  have h1dir : is_IN s1 = true := by
    simp only [is_IN, hb]
    exact hdir
  have key : ∃ t chunks, drive_in_chunks fuel s1 = some (t, chunks) ∧ t._active = false ∧
      chunks.flatten = bytes_at s.mem buf L ∧
      chunks.length
        = (if L = 0 then 1 else (L + s.wMaxPacketSize - 1) / s.wMaxPacketSize) ∧
      (∀ c ∈ chunks.dropLast, c.length = s.wMaxPacketSize) ∧
      t.handled = (if s.data_handler then s.handled ++ [(buf, L)] else s.handled) := by
    by_cases hz : L = 0
    · subst hz
      rw [if_pos rfl] at hf ⊢
      have hc : ¬ (is_IN s = true ∧ min 0 s.wMaxPacketSize ≠ 0) := by simp
      rw [if_neg hc] at hleft hcur hmem
      have hl00 : s1.LENGTH_0 = 0 := by
        rw [hl0]
        simp
      obtain ⟨t, chunks, g1, g2, g3, g4, g5, g6⟩ :=
        drive_in_chunks_data s.wMaxPacketSize hM s.mem 0 s1 fuel h1act h1dir hsM
          (by rw [hleft]; omega) (by rw [hleft]; exact ceil_zero _ hM) hf
          (by
            intro hne
            exact absurd hleft hne)
          (by rw [hl00]; omega)
          (by
            intro j hj
            rw [hl00] at hj
            omega)
          (by
            intro a _ ha
            rw [hleft] at ha
            omega)
          (by
            rw [hleft, hcur, hhw]
            omega)
      refine ⟨t, chunks, g1, g2, ?_, g4, g5, ?_⟩
      · rw [g3, hl00, hleft, hcur]
        rfl
      · rw [g6, hdh, hhd, hptr, hlen]
    · rw [if_neg hz] at hf ⊢
      have hmpos : min L s.wMaxPacketSize ≠ 0 := by omega
      have hc : is_IN s = true ∧ min L s.wMaxPacketSize ≠ 0 := ⟨hdir, hmpos⟩
      rw [if_pos hc] at hleft hcur hmem
      have hmin : min L s.wMaxPacketSize ≤ L := Nat.min_le_left _ _
      have hminM : min L s.wMaxPacketSize ≤ s.wMaxPacketSize := Nat.min_le_right _ _
      have hl1 : s1._bytes_left = L - min L s.wMaxPacketSize := by
        rw [hleft]
        exact sub16_of_le hmin hL
      have hstep := ceil_step s.wMaxPacketSize L hM (Nat.pos_of_ne_zero hz)
      rw [hstep] at hf ⊢
      obtain ⟨t, chunks, g1, g2, g3, g4, g5, g6⟩ :=
        drive_in_chunks_data s.wMaxPacketSize hM s.mem _ s1 fuel h1act h1dir hsM
          (by rw [hl1]; omega) (by rw [hl1]) hf
          (by
            intro hne
            rw [hl1] at hne
            rw [hl0]
            omega)
          (by rw [hl0, hcur]; omega)
          (by
            intro j hj
            rw [hl0] at hj
            rw [hmem, hhw, tupp_memcpy_inside _ _ _ _ j hj, hl0, hcur]
            congr 1
            omega)
          (by
            intro a ha1 ha2
            rw [hcur] at ha1 ha2
            rw [hl1] at ha2
            rw [hmem, tupp_memcpy_outside _ _ _ _ a (by omega)])
          (by
            rw [hl1, hcur, hhw]
            omega)
      refine ⟨t, chunks, g1, g2, ?_, g4, g5, ?_⟩
      · rw [g3, hl0, hl1, hcur]
        have e2 : buf + min L s.wMaxPacketSize - min L s.wMaxPacketSize = buf := by omega
        have e3 : min L s.wMaxPacketSize + (L - min L s.wMaxPacketSize) = L := by omega
        rw [e2, e3]
      · rw [g6, hdh, hhd, hptr, hlen]
  obtain ⟨t, chunks, g1, g2, g3, g4, g5, g6⟩ := key
  refine ⟨s1, t, chunks, h1, g1, ?_, g3, g5, g4, g2, g6⟩
  rw [← drive_in_chunks_fst fuel s1, g1]
  rfl

/-- Witness of C35: 100 bytes through an IN endpoint of packet size 64 are
sent as a chunk of 64 and a chunk of 36 bytes, which together are the bytes
of the user buffer (the memory of the sample endpoint holds the low byte of
each address). -/
theorem in_fragmentation_preserves_data_witness :
    ∃ s1 t chunks, start_transfer (idle 0x81 64) 0x20000000 100 = some s1 ∧
      drive_in_chunks 2 s1 = some (t, chunks) ∧
      chunks.flatten = List.range 100 ∧ chunks.map List.length = [64, 36] ∧
      t._active = false ∧ t.handled = [(0x20000000, 100)] := by
  obtain ⟨s1, t, chunks, h1, h2, h3, h4, h5, h6, h7, h8⟩ :=
    in_fragmentation_preserves_data (idle 0x81 64) 0x20000000 100 2 rfl (by decide)
      (by decide) rfl rfl (by decide) (by decide)
  have hl : chunks.length = 2 := by
    rw [h6]
    decide
  have hsum : chunks.flatten.length = 100 := by
    rw [h4, bytes_at_length]
  rcases chunks with _ | ⟨c0, _ | ⟨c1, _ | ⟨c2, r⟩⟩⟩
  · cases hl
  · cases hl
  · have hc0 : c0.length = 64 := h5 c0 (by simp)
    have hc1 : c1.length = 36 := by
      simp at hsum
      omega
    refine ⟨s1, t, [c0, c1], h1, h2, ?_, ?_, h7, h8⟩
    · rw [h4]
      decide
    · simp [hc0, hc1]
  · simp at hl

theorem buffer_done_out (s : state) (rx : List Nat) (hdir : is_IN s = false) :
    buffer_done s rx = { s with
      AVAILABLE_0 := 0
      FULL_0 := 1
      LENGTH_0 := rx.length
      mem := fun a =>
        if s._hw_buffer ≤ a ∧ a < s._hw_buffer + rx.length then rx.getD (a - s._hw_buffer) 0
        else s.mem a } := by
  unfold buffer_done
  rw [if_neg (by rw [hdir]; decide)]

theorem list_eq_map_getD (l : List Nat) :
    (List.range l.length).map (fun j => l.getD j 0) = l := by
  apply List.ext_getElem
  · simp
  · intro i h1 h2
    simp [List.getD, List.getElem?_eq_getElem h2]

/-- A buffer-completion event of an active OUT transfer that receives a packet
not longer than the armed length. -/
theorem buffer_completion_out_members (s : state) (rx : List Nat) (hdir : is_IN s = false)
    (hact : s._active = true) (hfit : rx.length ≤ s._current_len)
    (hcb : s._current_len ≤ s._bytes_left) (hb : s._bytes_left < 65536) :
    ∃ t, buffer_completion s rx = some t ∧ is_IN t = false ∧
      t.wMaxPacketSize = s.wMaxPacketSize ∧ t._hw_buffer = s._hw_buffer ∧
      t._data_ptr = s._data_ptr ∧ t._data_len = s._data_len ∧
      t.data_handler = s.data_handler ∧
      t._bytes_left = s._bytes_left - rx.length ∧
      t._current_ptr = s._current_ptr + rx.length ∧
      (∀ j, j < rx.length → t.mem (s._current_ptr + j) = rx.getD j 0) ∧
      (∀ a, ¬ (s._current_ptr ≤ a ∧ a < s._current_ptr + rx.length) →
        ¬ (s._hw_buffer ≤ a ∧ a < s._hw_buffer + rx.length) → t.mem a = s.mem a) ∧
      (t._active = false ↔ (s._bytes_left = rx.length ∨ rx.length < s._current_len)) ∧
      (t._active = true → t.handled = s.handled) ∧
      (t._active = false →
        t.handled = (if s.data_handler
          then s.handled ++ [(s._data_ptr, sub16 s._data_len (s._bytes_left - rx.length))]
          else s.handled)) := by
  have hsub : sub16 s._bytes_left rx.length = s._bytes_left - rx.length :=
    sub16_of_le (by omega) hb
  have hin : ∀ j, j < rx.length →
      tupp_memcpy (fun a =>
          if s._hw_buffer ≤ a ∧ a < s._hw_buffer + rx.length
          then rx.getD (a - s._hw_buffer) 0 else s.mem a)
        s._current_ptr s._hw_buffer rx.length (s._current_ptr + j) = rx.getD j 0 := by
    intro j hj
    rw [tupp_memcpy_inside _ _ _ _ j hj]
    have hc : s._hw_buffer ≤ s._hw_buffer + j ∧ s._hw_buffer + j < s._hw_buffer + rx.length :=
      ⟨by omega, by omega⟩
    simp only [if_pos hc]
    congr 1
    omega
  have hout : ∀ a, ¬ (s._current_ptr ≤ a ∧ a < s._current_ptr + rx.length) →
      ¬ (s._hw_buffer ≤ a ∧ a < s._hw_buffer + rx.length) →
      tupp_memcpy (fun a =>
          if s._hw_buffer ≤ a ∧ a < s._hw_buffer + rx.length
          then rx.getD (a - s._hw_buffer) 0 else s.mem a)
        s._current_ptr s._hw_buffer rx.length a = s.mem a := by
    intro a h1 h2
    rw [tupp_memcpy_outside _ _ _ _ a h1]
    simp only [if_neg h2]
  rw [buffer_completion_out s rx hdir, buffer_done_out s rx hdir]
  by_cases hterm : s._bytes_left = rx.length ∨ rx.length < s._current_len
  · have ht : sub16 s._bytes_left rx.length = 0 ∨ rx.length < s._current_len := by
      rw [hsub]
      omega
    rw [handle_buffer_out_last ({ s with
      AVAILABLE_0 := 0
      FULL_0 := 1
      LENGTH_0 := rx.length
      mem := fun a =>
        if s._hw_buffer ≤ a ∧ a < s._hw_buffer + rx.length then rx.getD (a - s._hw_buffer) 0
        else s.mem a } : state) _ hact ht]
    refine ⟨_, rfl, hdir, rfl, rfl, rfl, rfl, rfl, hsub, rfl, hin, hout, ?_, ?_, ?_⟩
    · exact ⟨fun _ => hterm, fun _ => rfl⟩
    · intro h
      cases h
    · intro _
      show (if s.data_handler = true
        then s.handled ++ [(s._data_ptr, sub16 s._data_len (sub16 s._bytes_left rx.length))]
        else s.handled) = _
      rw [hsub]
  · have ht : ¬ (sub16 s._bytes_left rx.length = 0 ∨ rx.length < s._current_len) := by
      rw [hsub]
      omega
    rw [handle_buffer_out_next ({ s with
      AVAILABLE_0 := 0
      FULL_0 := 1
      LENGTH_0 := rx.length
      mem := fun a =>
        if s._hw_buffer ≤ a ∧ a < s._hw_buffer + rx.length then rx.getD (a - s._hw_buffer) 0
        else s.mem a } : state) _ hact ht rfl]
    refine ⟨_, rfl, hdir, rfl, rfl, rfl, rfl, rfl, hsub, rfl, hin, hout, ?_, ?_, ?_⟩
    · constructor
      · intro h
        have h2 : true = false := (hact.symm.trans h)
        cases h2
      · intro h
        exact absurd h hterm
    · intro _
      rfl
    · intro h
      have h2 : true = false := (hact.symm.trans h)
      cases h2

theorem drive_out_inactive (rxs : List (List Nat)) (s : state) (h : s._active = false) :
    drive_out rxs s = some (s, []) := by
  cases rxs <;> simp [drive_out, h]

theorem drive_out_active (rx : List Nat) (rest : List (List Nat)) (s : state)
    (h : s._active = true) :
    drive_out (rx :: rest) s =
      (buffer_completion s rx).bind (fun t =>
        (drive_out rest t).map (fun r => (r.1, rx :: r.2))) := by
  simp [drive_out, h]

/-- An active OUT transfer whose user buffer does not overlap the hardware
buffer, fed with packets that fit the armed length: the packets received until
the transfer ends lie in the user buffer from the cursor on, in arrival order,
and the data handler is invoked at the end of the transfer only, with the
number of bytes received since the start. -/
theorem drive_out_data :
    ∀ (rxs : List (List Nat)) (s : state),
      s._active = true → is_IN s = false → transfer_invariant s →
      (s._data_ptr + s._data_len ≤ s._hw_buffer ∨
        s._hw_buffer + s.wMaxPacketSize ≤ s._data_ptr) →
      packets_fit rxs s = true →
      ∃ t got, drive_out rxs s = some (t, got) ∧ got <+: rxs ∧
        (∀ a, a < s._current_ptr →
          ¬ (s._hw_buffer ≤ a ∧ a < s._hw_buffer + s.wMaxPacketSize) → t.mem a = s.mem a) ∧
        bytes_at t.mem s._current_ptr (got.map List.length).sum = got.flatten ∧
        (got.map List.length).sum ≤ s._bytes_left ∧
        (t._active = false →
          t.handled = (if s.data_handler
            then s.handled ++
              [(s._data_ptr, s._current_ptr - s._data_ptr + (got.map List.length).sum)]
            else s.handled)) ∧
        (t._active = true → got = rxs ∧ t.handled = s.handled) ∧
        (rxs ≠ [] → s._bytes_left ≤ (rxs.map List.length).sum → t._active = false) := by
  intro rxs
  induction rxs with
  | nil =>
    intro s hact _ _ _ _
    refine ⟨s, [], rfl, List.prefix_refl _, fun _ _ _ => rfl, rfl, Nat.zero_le _, ?_,
      fun _ => ⟨rfl, rfl⟩, fun h => absurd rfl h⟩
    intro h
    have h2 : true = false := (hact.symm.trans h)
    cases h2
  | cons rx rest ih =>
    intro s hact hdir hinv hdis hfit
    unfold packets_fit at hfit
    simp only [hact, Bool.not_true, Bool.false_or, Bool.and_eq_true, decide_eq_true_eq] at hfit
    obtain ⟨hfit1, hfit2⟩ := hfit
    have hinv2 := hinv
    unfold transfer_invariant at hinv2
    obtain ⟨i1, i2, i3, i4, i5⟩ := hinv2
    have i6 := i5 hdir
    obtain ⟨u, h1, udir, uM, uhw, uptr, ulen, udh, ubl, ucur, umin, umout, uact, uh1, uh2⟩ :=
      buffer_completion_out_members s rx hdir hact hfit1 i6 (by omega)
    rw [h1] at hfit2
    have hsub : sub16 s._data_len (s._bytes_left - rx.length)
        = s._current_ptr - s._data_ptr + rx.length := by
      rw [sub16_of_le (by omega) i4]
      omega
    have hrx : bytes_at u.mem s._current_ptr rx.length = rx := by
      have e : bytes_at u.mem s._current_ptr rx.length
          = (List.range rx.length).map (fun j => rx.getD j 0) := by
        unfold bytes_at
        apply List.map_congr_left
        intro j hj
        exact umin j (List.mem_range.mp hj)
      rw [e, list_eq_map_getD]
    have hframe : ∀ a, a < s._current_ptr →
        ¬ (s._hw_buffer ≤ a ∧ a < s._hw_buffer + s.wMaxPacketSize) → u.mem a = s.mem a := by
      intro a ha hn
      exact umout a (by omega) (by omega)
    cases hua : u._active
    · -- the packet ends the transfer
      refine ⟨u, [rx], ?_, ?_, hframe, ?_, ?_, ?_, ?_, ?_⟩
      · rw [drive_out_active rx rest s hact, h1, Option.some_bind,
          drive_out_inactive rest u hua]
        rfl
      · exact ⟨rest, rfl⟩
      · simp only [List.map_cons, List.map_nil, List.sum_cons, List.sum_nil, Nat.add_zero,
          List.flatten_cons, List.flatten_nil, List.append_nil]
        exact hrx
      · simp only [List.map_cons, List.map_nil, List.sum_cons, List.sum_nil, Nat.add_zero]
        omega
      · intro _
        rw [uh2 hua, hsub]
        simp only [List.map_cons, List.map_nil, List.sum_cons, List.sum_nil, Nat.add_zero]
      · intro h
        rw [hua] at h
        cases h
      · intro _ _
        exact hua
    · -- more packets are expected
      have hnt : ¬ (s._bytes_left = rx.length ∨ rx.length < s._current_len) := by
        intro hc
        have := uact.mpr hc
        rw [hua] at this
        cases this
      have uinv : transfer_invariant u :=
        buffer_completion_invariant s u rx hinv (fun _ => hfit1) h1 hua
      obtain ⟨t, got, g1, g2, g3, g4, g5, g6, g7, g8⟩ :=
        ih u hua udir uinv (by rw [uptr, ulen, uhw, uM]; exact hdis) hfit2
      rw [ucur, uhw, uM] at g3
      rw [ucur] at g4
      rw [ubl] at g5 g8
      rw [udh, uh1 hua, uptr, ucur] at g6
      rw [uh1 hua] at g7
      refine ⟨t, rx :: got, ?_, ?_, ?_, ?_, ?_, ?_, ?_, ?_⟩
      · rw [drive_out_active rx rest s hact, h1, Option.some_bind, g1]
        rfl
      · exact (List.prefix_cons_inj rx).mpr g2
      · intro a ha hn
        rw [g3 a (by omega) hn]
        exact hframe a ha hn
      · simp only [List.map_cons, List.sum_cons, List.flatten_cons]
        have e : bytes_at t.mem s._current_ptr rx.length = rx := by
          rw [bytes_at_congr t.mem u.mem s._current_ptr s._current_ptr rx.length
            (fun j hj => g3 (s._current_ptr + j) (by omega) (by omega))]
          exact hrx
        rw [bytes_at_append, g4, e]
      · simp only [List.map_cons, List.sum_cons]
        omega
      · intro hta
        rw [g6 hta]
        simp only [List.map_cons, List.sum_cons]
        have e : s._current_ptr + rx.length - s._data_ptr + (List.map List.length got).sum
            = s._current_ptr - s._data_ptr + (rx.length + (List.map List.length got).sum) := by
          omega
        rw [e]
      · intro hta
        obtain ⟨k1, k2⟩ := g7 hta
        exact ⟨by rw [k1], k2⟩
      · intro _ hle
        simp only [List.map_cons, List.sum_cons] at hle
        apply g8
        · intro he
          rw [he] at hle
          simp only [List.map_nil, List.sum_nil, Nat.add_zero] at hle
          exact hnt (Or.inl (by omega))
        · omega

/-- C36. OUT reassembly: on an idle OUT endpoint whose hardware buffer is
free, a transfer `start_transfer(buf, L)` into a user buffer that does not
overlap the hardware buffer is fed with the packets `rxs`, one
buffer-completion event each as long as the endpoint is active, each packet
being not longer than the length the buffer was armed for. The events never
fail. When the transfer has ended (`active = false`), the data handler, if
one is installed, has been invoked exactly once, with `(buf, R)`, where `R` is
the sum of the lengths of the packets received, `R <= L`, and `buf[0..R)` is
the concatenation of these packets in arrival order; as long as it has not
ended, the handler has not been invoked. The transfer has ended at the latest
when the packets received sum up to `L` bytes. -/
theorem out_reassembly (s : state) (buf L : Nat) (rxs : List (List Nat))
    (hdir : is_IN s = false) (hL : L < 65536)
    (hact : s._active = false) (hav : s.AVAILABLE_0 = 0)
    (hdis : buf + L ≤ s._hw_buffer ∨ s._hw_buffer + s.wMaxPacketSize ≤ buf)
    (hfit : ∀ s1, start_transfer s buf L = some s1 → packets_fit rxs s1 = true) :
    ∃ s1 t got, start_transfer s buf L = some s1 ∧ drive_out rxs s1 = some (t, got) ∧
      got <+: rxs ∧
      (t._active = false →
        t.handled = (if s.data_handler
          then s.handled ++ [(buf, (got.map List.length).sum)] else s.handled) ∧
        (got.map List.length).sum ≤ L ∧
        bytes_at t.mem buf (got.map List.length).sum = got.flatten) ∧
      (t._active = true → got = rxs ∧ t.handled = s.handled) ∧
      (rxs ≠ [] → L ≤ (rxs.map List.length).sum → t._active = false) := by
  obtain ⟨s1, h1⟩ := start_transfer_some s buf L hact hav
  obtain ⟨_, _, hb, hsM, h1act, hptr, hlen, _, hhw, hdh, _, _, hhd, _, _, _, _, hleft,
    hcur, _⟩ := start_transfer_members s s1 buf L h1
  have hc : ¬ (is_IN s = true ∧ min L s.wMaxPacketSize ≠ 0) := by
    rw [hdir]
    simp
  rw [if_neg hc] at hleft hcur
  have h1dir : is_IN s1 = false := by
    simp only [is_IN, hb]
    exact hdir
  obtain ⟨t, got, g1, g2, _, g4, g5, g6, g7, g8⟩ :=
    drive_out_data rxs s1 h1act h1dir (start_transfer_invariant s s1 buf L hL h1)
      (by rw [hptr, hlen, hhw, hsM]; exact hdis) (hfit s1 h1)
  rw [hcur] at g4
  rw [hleft] at g5 g8
  rw [hdh, hhd, hptr, hcur, Nat.sub_self, Nat.zero_add] at g6
  rw [hhd] at g7
  exact ⟨s1, t, got, h1, g1, g2, fun h => ⟨g6 h, g5, g4⟩, g7, g8⟩

/-- Witness of C36: 100 bytes are expected on an OUT endpoint of packet size
64 and arrive as a packet of 64 and a packet of 36 bytes. -/
theorem out_reassembly_witness :
    ∃ s1 t, start_transfer (idle 0x01 64) 0x20000000 100 = some s1 ∧
      drive_out [List.range 64, List.replicate 36 9] s1
        = some (t, [List.range 64, List.replicate 36 9]) ∧
      t._active = false ∧ t.handled = [(0x20000000, 100)] ∧
      bytes_at t.mem 0x20000000 100 = List.range 64 ++ List.replicate 36 9 := by
  obtain ⟨s1, t, got, h1, h2, _, h4, _, h6⟩ :=
    out_reassembly (idle 0x01 64) 0x20000000 100 [List.range 64, List.replicate 36 9]
      rfl (by decide) rfl rfl (by decide)
      (fun s1 h => by
        have k : (start_transfer (idle 0x01 64) 0x20000000 100).map
            (packets_fit [List.range 64, List.replicate 36 9]) = some true := by decide
        rw [h] at k
        exact Option.some.inj k)
  have hend : t._active = false := h6 (by simp) (by decide)
  have hgot : got = [List.range 64, List.replicate 36 9] := by
    have k : ((start_transfer (idle 0x01 64) 0x20000000 100).bind
        (drive_out [List.range 64, List.replicate 36 9])).map Prod.snd
        = some [List.range 64, List.replicate 36 9] := by decide
    rw [h1, Option.some_bind, h2] at k
    exact Option.some.inj k
  obtain ⟨k1, _, k3⟩ := h4 hend
  rw [hgot] at h2 k1 k3
  have e : (List.map List.length [List.range 64, List.replicate 36 9]).sum = 100 := by
    decide
  rw [e] at k1 k3
  refine ⟨s1, t, h1, h2, hend, ?_, ?_⟩
  · rw [k1]
    rfl
  · rw [k3]
    rfl

end usb_endpoint
